import Mathlib

/-!
# n64 dynarec core: guest state, code cache and IR context

A shallow embedding of the parts of the emulator that the dynarec core relies on:

* `r4300i.h`: the guest CPU state and the coprocessor-0 register accessors;
* `dynarec_memory_management.c`: the bump-allocated code cache and its flush;
* `dynarec/v2/ir_context.c`: the SSA IR arena, the guest-register map and the emitters.

C pointers into an arena are arena indices (`Option Nat`, `none` is `NULL`); machine
integers are natural numbers reduced modulo `2 ^ w` at the places the C code truncates.
A call to `logfatal` terminates the emulator and is an `Except.error` outcome here.
-/

namespace N64

/-! ## Machine words -/

/-- Bitwise complement of a 32-bit `word` (C `~x` on `unsigned int`). -/
def not32 (x : Nat) : Nat := 2 ^ 32 - 1 - x % 2 ^ 32

/-- Addition on `size_t` (64-bit host): the sum wraps modulo `2 ^ 64`. -/
def size_t_add (a b : Nat) : Nat := (a + b) % 2 ^ 64

/-- Store of a one-bit bitfield at bit position `i` of a packed 32-bit register. -/
def write_bit32 (raw : Nat) (i : Nat) (b : Bool) : Nat :=
  (raw &&& not32 (1 <<< i)) ||| (b.toNat <<< i)

/-- Ways in which a call can fail to return: every `logfatal` / `unimplemented` site of the
embedded functions, and the dereference of a `NULL` list pointer. -/
inductive fault where
  | cp0_reg7_write
  | unsupported_cp0_set
  | unsupported_cp0_read
  | watch_lo_read_exception
  | watch_lo_write_exception
  | fpu_fr_unimplemented
  | insert_null_after
  | load_guest_reg_out_of_range
  | flush_null_last_usage
  | flush_r0
  | cond_exit_without_pc
  | interpreter_fallback
  | null_dereference
  | fcr_undefined
  deriving DecidableEq, Repr

/-! ## Guest CPU state (`r4300i.h`) -/

def R4300I_CP0_REG_INDEX : Nat := 0
def R4300I_CP0_REG_RANDOM : Nat := 1
def R4300I_CP0_REG_ENTRYLO0 : Nat := 2
def R4300I_CP0_REG_ENTRYLO1 : Nat := 3
def R4300I_CP0_REG_CONTEXT : Nat := 4
def R4300I_CP0_REG_PAGEMASK : Nat := 5
def R4300I_CP0_REG_WIRED : Nat := 6
def R4300I_CP0_REG_BADVADDR : Nat := 8
def R4300I_CP0_REG_COUNT : Nat := 9
def R4300I_CP0_REG_ENTRYHI : Nat := 10
def R4300I_CP0_REG_COMPARE : Nat := 11
def R4300I_CP0_REG_STATUS : Nat := 12
def R4300I_CP0_REG_CAUSE : Nat := 13
def R4300I_CP0_REG_EPC : Nat := 14
def R4300I_CP0_REG_CONFIG : Nat := 16
def R4300I_CP0_REG_WATCHLO : Nat := 18
def R4300I_CP0_REG_WATCHHI : Nat := 19
def R4300I_CP0_REG_TAGLO : Nat := 28
def R4300I_CP0_REG_TAGHI : Nat := 29

def CP0_STATUS_WRITE_MASK : Nat := 0xFF57FFFF

/-- One TLB entry: the four packed registers and the parsed fields. -/
structure tlb_entry_t where
  entry_lo0 : Nat
  entry_lo1 : Nat
  entry_hi : Nat
  page_mask : Nat
  global : Bool
  valid : Bool
  asid : Nat

/-- Coprocessor 0 (`cp0_t`). Bit-packed unions are kept as their `raw` word; `count` is a
64-bit `dword`, every other register a 32-bit `word`. -/
structure cp0_t where
  index : Nat
  random : Nat
  entry_lo0 : Nat
  entry_lo1 : Nat
  context : Nat
  page_mask : Nat
  wired : Nat
  r7 : Nat
  bad_vaddr : Nat
  count : Nat
  entry_hi : Nat
  compare : Nat
  status : Nat
  cause : Nat
  EPC : Nat
  PRId : Nat
  config : Nat
  lladdr : Nat
  watch_lo : Nat
  watch_hi : Nat
  x_context : Nat
  r21 : Nat
  r22 : Nat
  r23 : Nat
  r24 : Nat
  r25 : Nat
  parity_error : Nat
  cache_error : Nat
  tag_lo : Nat
  tag_hi : Nat
  error_epc : Nat
  r31 : Nat
  tlb : Nat → tlb_entry_t

/-- The guest CPU (`r4300i_t`), without the bus callbacks. -/
structure r4300i_t where
  gpr : Nat → Nat
  pc : Nat
  next_pc : Nat
  prev_pc : Nat
  mult_hi : Nat
  mult_lo : Nat
  fcr0 : Nat
  fcr31 : Nat
  f : Nat → Nat
  cp0 : cp0_t
  interrupts : Nat
  branch : Bool
  exception : Bool

/-- The `interrupt_pending` field of `cp0_cause_t`: bits 8..15. -/
def cause_interrupt_pending (cause : Nat) : Nat := (cause >>> 8) % 2 ^ 8

/-- The `im` field of `cp0_status_t`: bits 8..15. -/
def status_im (status : Nat) : Nat := (status >>> 8) % 2 ^ 8

/-- The `fr` field of `cp0_status_t`: bit 26. -/
def status_fr (status : Nat) : Bool := status.testBit 26

/-- Modelled from the spec: `r4300i_interrupt_update` is only declared in `r4300i.h`; the
field comment there and the spec describe it as recomputing the cached byte
`interrupts` as `cp0.cause.interrupt_pending & cp0.status.im`. -/
def r4300i_interrupt_update (cpu : r4300i_t) : r4300i_t :=
  { cpu with interrupts := cause_interrupt_pending cpu.cp0.cause &&& status_im cpu.cp0.status }

/-- The hook `on_change_fr`: its body is commented out in the source. -/
def on_change_fr (cpu : r4300i_t) (_oldstatus : Nat) : r4300i_t := cpu

/-- The function `set_cp0_register(cpu, r, value)`; `value` is a 32-bit `word`. -/
def set_cp0_register (cpu : r4300i_t) (r : Nat) (value : Nat) : Except fault r4300i_t :=
  let value := value % 2 ^ 32
  if r = R4300I_CP0_REG_INDEX then
    .ok { cpu with cp0 := { cpu.cp0 with index := value } }
  else if r = R4300I_CP0_REG_RANDOM then
    .ok cpu
  else if r = R4300I_CP0_REG_COUNT then
    .ok { cpu with cp0 := { cpu.cp0 with count := value } }
  else if r = R4300I_CP0_REG_CAUSE then
    let newcause := value
    let c1 := write_bit32 cpu.cp0.cause 8 (newcause.testBit 8)
    let c2 := write_bit32 c1 9 (newcause.testBit 9)
    .ok { cpu with cp0 := { cpu.cp0 with cause := c2 } }
  else if r = R4300I_CP0_REG_TAGLO then
    .ok { cpu with cp0 := { cpu.cp0 with tag_lo := value } }
  else if r = R4300I_CP0_REG_TAGHI then
    .ok { cpu with cp0 := { cpu.cp0 with tag_hi := value } }
  else if r = R4300I_CP0_REG_COMPARE then
    let c := write_bit32 cpu.cp0.cause 15 false
    .ok { cpu with cp0 := { cpu.cp0 with cause := c, compare := value } }
  else if r = R4300I_CP0_REG_STATUS then
    let oldstatus := cpu.cp0.status
    let s1 := cpu.cp0.status &&& (value &&& not32 CP0_STATUS_WRITE_MASK)
    let s2 := s1 ||| (value &&& CP0_STATUS_WRITE_MASK)
    let cpu1 := { cpu with cp0 := { cpu.cp0 with status := s2 } }
    let cpu2 := if status_fr oldstatus != status_fr cpu1.cp0.status then on_change_fr cpu1 oldstatus
                else cpu1
    .ok (r4300i_interrupt_update cpu2)
  else if r = R4300I_CP0_REG_ENTRYLO0 then
    .ok { cpu with cp0 := { cpu.cp0 with entry_lo0 := value } }
  else if r = R4300I_CP0_REG_ENTRYLO1 then
    .ok { cpu with cp0 := { cpu.cp0 with entry_lo1 := value } }
  else if r = 7 then
    .error .cp0_reg7_write
  else if r = R4300I_CP0_REG_ENTRYHI then
    .ok { cpu with cp0 := { cpu.cp0 with entry_hi := value } }
  else if r = R4300I_CP0_REG_PAGEMASK then
    .ok { cpu with cp0 := { cpu.cp0 with page_mask := value } }
  else if r = R4300I_CP0_REG_EPC then
    .ok { cpu with cp0 := { cpu.cp0 with EPC := value } }
  else if r = R4300I_CP0_REG_CONFIG then
    .ok { cpu with cp0 := { cpu.cp0 with config := value } }
  else if r = R4300I_CP0_REG_WATCHLO then
    if value.testBit 1 then .error .watch_lo_read_exception
    else if value.testBit 0 then .error .watch_lo_write_exception
    else .ok { cpu with cp0 := { cpu.cp0 with watch_lo := value } }
  else if r = R4300I_CP0_REG_WATCHHI then
    .ok { cpu with cp0 := { cpu.cp0 with watch_hi := value } }
  else
    .error .unsupported_cp0_set

/-- A TLB entry with every field cleared. -/
def tlb_entry_zero : tlb_entry_t :=
  { entry_lo0 := 0, entry_lo1 := 0, entry_hi := 0, page_mask := 0,
    global := false, valid := false, asid := 0 }

/-- Coprocessor 0 with every register cleared. -/
def cp0_zero : cp0_t :=
  { index := 0, random := 0, entry_lo0 := 0, entry_lo1 := 0, context := 0, page_mask := 0,
    wired := 0, r7 := 0, bad_vaddr := 0, count := 0, entry_hi := 0, compare := 0, status := 0,
    cause := 0, EPC := 0, PRId := 0, config := 0, lladdr := 0, watch_lo := 0, watch_hi := 0,
    x_context := 0, r21 := 0, r22 := 0, r23 := 0, r24 := 0, r25 := 0, parity_error := 0,
    cache_error := 0, tag_lo := 0, tag_hi := 0, error_epc := 0, r31 := 0,
    tlb := fun _ => tlb_entry_zero }

/-- The zero-initialised CPU state. -/
def r4300i_zero : r4300i_t :=
  { gpr := fun _ => 0, pc := 0, next_pc := 0, prev_pc := 0, mult_hi := 0, mult_lo := 0,
    fcr0 := 0, fcr31 := 0, f := fun _ => 0, cp0 := cp0_zero, interrupts := 0,
    branch := false, exception := false }

/-! ## Code cache and block cache (`dynarec_memory_management.c`) -/

/-- A translated block as the sources under `tools/` and `imgui/` use it: host entry
pointer `run` (`none` is `NULL`), guest byte size and host byte size. -/
structure n64_dynarec_block_t where
  run : Option Nat
  guest_size : Nat
  host_size : Nat

/-- The fields of the global `n64dynarec` that the memory manager touches. The code cache
is addressed by byte offsets, so a pointer `&codecache[k]` is the offset `k`. The outer
block-cache table maps an outer index to its lazily allocated inner array; only the
indices below `BLOCKCACHE_OUTER_SIZE` belong to the C array. -/
structure n64_dynarec_t where
  codecache_size : Nat
  codecache_used : Nat
  blockcache : Nat → Option (Nat → n64_dynarec_block_t)

/-- The function `flush_code_cache()`. The constant `BLOCKCACHE_OUTER_SIZE` is declared in a
header that is not part of the sources, so it is a parameter. -/
def flush_code_cache (BLOCKCACHE_OUTER_SIZE : Nat) (d : n64_dynarec_t) : n64_dynarec_t :=
  let d1 := { d with codecache_used := 0 }
  (List.range BLOCKCACHE_OUTER_SIZE).foldl
    (fun (acc : n64_dynarec_t) i => { acc with blockcache := Function.update acc.blockcache i none })
    d1

/-- The function `dynarec_bumpalloc(size)`: the returned pointer (an arena offset) and the
new state. The comparison and the increment are `size_t` arithmetic. -/
def dynarec_bumpalloc (BLOCKCACHE_OUTER_SIZE : Nat) (d : n64_dynarec_t) (size : Nat) :
    Nat × n64_dynarec_t :=
  let d1 := if size_t_add d.codecache_used size ≥ d.codecache_size then
              flush_code_cache BLOCKCACHE_OUTER_SIZE d
            else d
  let ptr := d1.codecache_used
  (ptr, { d1 with codecache_used := size_t_add d1.codecache_used size })

/-- Modelled from the spec: the block lookup of the dispatcher (`dynarec.c`) is missing from
the sources. The spec and the two callers under `tools/` and `imgui/` index
`blockcache[OUTER_INDEX(p)][INNER_INDEX(p)]`; an outer slot that is `NULL` holds no block
and a block is present iff its host entry pointer is non-null. The two index macros are
parameters. -/
def blockcache_lookup (outer_index inner_index : Nat → Nat) (d : n64_dynarec_t) (paddr : Nat) :
    Option n64_dynarec_block_t :=
  match d.blockcache (outer_index paddr) with
  | none => none
  | some inner =>
    let b := inner (inner_index paddr)
    if b.run.isSome then some b else none

/-- A code cache of 100 bytes with 40 in use and one block installed in outer slot 2. -/
def dynarec_example : n64_dynarec_t :=
  { codecache_size := 100, codecache_used := 40,
    blockcache := fun i =>
      if i = 2 then some (fun _ => { run := some 8, guest_size := 4, host_size := 16 }) else none }

/-! ## IR context (`dynarec/v2/ir_context.c`) -/

def IR_CACHE_SIZE : Nat := 4096
def IR_FLUSH_CACHE_SIZE : Nat := 100
def NO_GUEST_REG : Nat := 0xFF

/-- A pointer to an IR instruction: its index in `ir_cache`, or `none` for `NULL`. -/
abbrev ir_ptr := Option Nat

inductive ir_condition_t where
  | CONDITION_NOT_EQUAL
  | CONDITION_EQUAL
  | CONDITION_LESS_THAN_SIGNED
  | CONDITION_LESS_THAN_UNSIGNED
  | CONDITION_GREATER_THAN_SIGNED
  | CONDITION_GREATER_THAN_UNSIGNED
  | CONDITION_LESS_OR_EQUAL_TO_SIGNED
  | CONDITION_LESS_OR_EQUAL_TO_UNSIGNED
  | CONDITION_GREATER_OR_EQUAL_TO_SIGNED
  | CONDITION_GREATER_OR_EQUAL_TO_UNSIGNED
  deriving DecidableEq, Repr

inductive ir_value_type_t where
  | VALUE_TYPE_U8
  | VALUE_TYPE_S8
  | VALUE_TYPE_S16
  | VALUE_TYPE_U16
  | VALUE_TYPE_S32
  | VALUE_TYPE_U32
  | VALUE_TYPE_U64
  | VALUE_TYPE_S64
  deriving DecidableEq, Repr

inductive ir_shift_direction_t where
  | SHIFT_DIRECTION_LEFT
  | SHIFT_DIRECTION_RIGHT
  deriving DecidableEq, Repr

inductive bus_access_t where
  | BUS_LOAD
  | BUS_STORE
  deriving DecidableEq, Repr

/-- The struct `ir_set_constant_t`: the type tag and the 8 bytes of the value union, kept as
the little-endian number `raw` they spell. -/
structure ir_set_constant_t where
  type : ir_value_type_t
  raw : Nat
  deriving DecidableEq, Repr

/-- The `is_zero` switch of `ir_emit_set_constant`: the union member selected by the type
tag compares equal to zero. -/
def ir_set_constant_t.is_zero (value : ir_set_constant_t) : Bool :=
  match value.type with
  | .VALUE_TYPE_S8 => value.raw % 2 ^ 8 == 0
  | .VALUE_TYPE_U8 => value.raw % 2 ^ 8 == 0
  | .VALUE_TYPE_S16 => value.raw % 2 ^ 16 == 0
  | .VALUE_TYPE_U16 => value.raw % 2 ^ 16 == 0
  | .VALUE_TYPE_S32 => value.raw % 2 ^ 32 == 0
  | .VALUE_TYPE_U32 => value.raw % 2 ^ 32 == 0
  | .VALUE_TYPE_U64 => value.raw % 2 ^ 64 == 0
  | .VALUE_TYPE_S64 => value.raw % 2 ^ 64 == 0

/-- The tag `type` of an IR instruction, as the emitters of `ir_context.c` use it. The first
enumerator is the value of a zeroed instruction. -/
inductive ir_type where
  | IR_NOP
  | IR_SET_CONSTANT
  | IR_OR
  | IR_XOR
  | IR_AND
  | IR_NOT
  | IR_ADD
  | IR_SUB
  | IR_SHIFT
  | IR_STORE
  | IR_LOAD
  | IR_GET_PTR
  | IR_SET_PTR
  | IR_MASK_AND_CAST
  | IR_CHECK_CONDITION
  | IR_SET_COND_BLOCK_EXIT_PC
  | IR_SET_BLOCK_EXIT_PC
  | IR_COND_BLOCK_EXIT
  | IR_TLB_LOOKUP
  | IR_LOAD_GUEST_REG
  | IR_FLUSH_GUEST_REG
  | IR_MULTIPLY
  | IR_DIVIDE
  | IR_ERET
  deriving DecidableEq, Repr

/-- The anonymous union of `ir_instruction_t`, one constructor per member that an emitter
writes. `zeroed` is the all-zero union left by `memset`; `indeterminate` is a union no member
of which was written (`ir_emit_eret`). -/
inductive ir_payload where
  | zeroed
  | indeterminate
  | set_constant (value : ir_set_constant_t)
  | bin_op (operand1 operand2 : ir_ptr)
  | unary_op (operand : ir_ptr)
  | store (type : ir_value_type_t) (address value : ir_ptr)
  | load (type : ir_value_type_t) (address : ir_ptr)
  | get_ptr (type : ir_value_type_t) (ptr : Nat)
  | set_ptr (type : ir_value_type_t) (ptr : Nat) (value : ir_ptr)
  | mask_and_cast (type : ir_value_type_t) (operand : ir_ptr)
  | check_condition (condition : ir_condition_t) (operand1 operand2 : ir_ptr)
  | set_cond_exit_pc (condition pc_if_true pc_if_false : ir_ptr)
  | tlb_lookup (virtual_address : ir_ptr) (bus_access : bus_access_t)
  | load_guest_reg (guest_reg : Nat)
  | flush_guest_reg (value : ir_ptr) (guest_reg : Nat)
  | shift (operand amount : ir_ptr) (type : ir_value_type_t) (direction : ir_shift_direction_t)
  | cond_block_exit (regs_to_flush : Option Nat) (condition : ir_ptr) (block_length : Int)
  | mult_div (operand1 operand2 : ir_ptr) (mult_div_type : ir_value_type_t)
  deriving DecidableEq, Repr

/-- The register-allocation annotations that `allocate_ir_instruction` initialises. -/
structure ir_reg_alloc_t where
  allocated : Bool
  host_reg : Int
  spilled : Bool
  deriving DecidableEq, Repr

/-- The struct `ir_instruction_t`. -/
structure ir_instruction_t where
  next : ir_ptr
  prev : ir_ptr
  index : Nat
  dead_code : Bool
  reg_alloc : ir_reg_alloc_t
  last_use : Int
  type : ir_type
  payload : ir_payload
  deriving DecidableEq, Repr

/-- The struct `ir_instruction_flush_t`; `next` is an index into `ir_flush_cache`. -/
structure ir_instruction_flush_t where
  guest_gpr : Nat
  item : ir_ptr
  next : Option Nat
  deriving DecidableEq, Repr

/-- The global `ir_context`. The three arrays are total maps from an index; only the indices
below 32, `IR_CACHE_SIZE` and `IR_FLUSH_CACHE_SIZE` belong to the C arrays. -/
structure ir_context_t where
  guest_gpr_to_value : Nat → ir_ptr
  ir_cache : Nat → ir_instruction_t
  ir_cache_head : ir_ptr
  ir_cache_tail : ir_ptr
  ir_cache_index : Nat
  ir_flush_cache : Nat → ir_instruction_flush_t
  ir_flush_cache_index : Nat
  block_end_pc_ir_emitted : Bool
  block_end_pc_compiled : Bool

/-- An instruction all of whose bytes are zero. -/
def ir_instruction_zero : ir_instruction_t :=
  { next := none, prev := none, index := 0, dead_code := false,
    reg_alloc := { allocated := false, host_reg := 0, spilled := false },
    last_use := 0, type := .IR_NOP, payload := .zeroed }

/-- A flush record all of whose bytes are zero. -/
def ir_instruction_flush_zero : ir_instruction_flush_t :=
  { guest_gpr := 0, item := none, next := none }

/-- A local `ir_instruction_t instruction;` after its `type` and its union member have been
assigned. The remaining fields are overwritten by `allocate_ir_instruction` and by the list
insertion before anything reads them. -/
def ir_instruction_local (type : ir_type) (payload : ir_payload) : ir_instruction_t :=
  { ir_instruction_zero with type := type, payload := payload }

/-- Stores `v` into the slots `0 .. n-1` of an array, in ascending order. -/
def array_fill {α : Type} (n : Nat) (v : α) (a : Nat → α) : Nat → α :=
  (List.range n).foldl (fun acc i => Function.update acc i v) a

/-- The function `ir_context_reset()`. -/
def ir_context_reset (ctx : ir_context_t) : ir_context_t :=
  let gpr := array_fill 32 none ctx.guest_gpr_to_value
  let cache := array_fill IR_CACHE_SIZE ir_instruction_zero ctx.ir_cache
  let flush := array_fill IR_FLUSH_CACHE_SIZE ir_instruction_flush_zero ctx.ir_flush_cache
  let node0 := { cache 0 with
    type := .IR_SET_CONSTANT,
    payload := .set_constant { type := .VALUE_TYPE_U64, raw := 0 } }
  { guest_gpr_to_value := Function.update gpr 0 (some 0),
    ir_cache := Function.update cache 0 node0,
    ir_cache_head := some 0,
    ir_cache_tail := some 0,
    ir_cache_index := 1,
    ir_flush_cache := flush,
    ir_flush_cache_index := 0,
    block_end_pc_ir_emitted := false,
    block_end_pc_compiled := false }

/-- The zero-initialised global `ir_context`, as it is before the first reset. -/
def ir_context_zero : ir_context_t :=
  { guest_gpr_to_value := fun _ => none,
    ir_cache := fun _ => ir_instruction_zero,
    ir_cache_head := none,
    ir_cache_tail := none,
    ir_cache_index := 0,
    ir_flush_cache := fun _ => ir_instruction_flush_zero,
    ir_flush_cache_index := 0,
    block_end_pc_ir_emitted := false,
    block_end_pc_compiled := false }

/-- The function `update_guest_reg_mapping(guest_reg, value)`. -/
def update_guest_reg_mapping (ctx : ir_context_t) (guest_reg : Nat) (value : ir_ptr) :
    ir_context_t :=
  if guest_reg > 0 ∧ guest_reg < 32 then
    { ctx with guest_gpr_to_value := Function.update ctx.guest_gpr_to_value guest_reg value }
  else ctx

/-- The function `allocate_ir_instruction(instruction)`: the new context and the index of
the slot that was written. The function compares the index with nothing. The arena is a
total map here, so the result stands for the C function when `ir_cache_index` is below
`IR_CACHE_SIZE` on entry; the store at slot `IR_CACHE_SIZE` lies outside the C array, on the
fields `ir_cache_head`, `ir_cache_tail` and `ir_cache_index` that follow it in the struct,
and C defines no behaviour for it. -/
def allocate_ir_instruction (ctx : ir_context_t) (instruction : ir_instruction_t) :
    ir_context_t × Nat :=
  let index := ctx.ir_cache_index
  let node := { instruction with
    index := index,
    dead_code := true,
    reg_alloc := { instruction.reg_alloc with allocated := false, host_reg := -1, spilled := false },
    last_use := -1 }
  ({ ctx with ir_cache_index := index + 1, ir_cache := Function.update ctx.ir_cache index node },
   index)

/-- The function `allocate_ir_flush(flush)`. The function compares the index with nothing.
The arena is a total map here, so the result stands for the C function when
`ir_flush_cache_index` is below `IR_FLUSH_CACHE_SIZE` on entry; the store at slot
`IR_FLUSH_CACHE_SIZE` lies outside the C array, on the fields `ir_flush_cache_index`,
`block_end_pc_ir_emitted` and `block_end_pc_compiled` that follow it in the struct, and C
defines no behaviour for it. -/
def allocate_ir_flush (ctx : ir_context_t) (flush : ir_instruction_flush_t) :
    ir_context_t × Nat :=
  let index := ctx.ir_flush_cache_index
  ({ ctx with ir_flush_cache_index := index + 1,
              ir_flush_cache := Function.update ctx.ir_flush_cache index flush },
   index)

/-- Assignment through an instruction pointer: `ir_cache[i] = g(ir_cache[i])`. -/
def ir_context_t.modify_node (ctx : ir_context_t) (i : Nat)
    (g : ir_instruction_t → ir_instruction_t) : ir_context_t :=
  { ctx with ir_cache := Function.update ctx.ir_cache i (g (ctx.ir_cache i)) }

/-- The function `append_ir_instruction(instruction, guest_reg)`. Dereferencing a `NULL`
`ir_cache_tail` is the fault `null_dereference`. -/
def append_ir_instruction (ctx : ir_context_t) (instruction : ir_instruction_t)
    (guest_reg : Nat) : Except fault (ir_context_t × ir_ptr) :=
  let (ctx1, allocation) := allocate_ir_instruction ctx instruction
  let ctx2 := ctx1.modify_node allocation (fun n => { n with next := none })
  let ctx3 := ctx2.modify_node allocation (fun n => { n with prev := ctx2.ir_cache_tail })
  match ctx3.ir_cache_tail with
  | none => .error .null_dereference
  | some tail =>
    let ctx4 := ctx3.modify_node tail (fun n => { n with next := some allocation })
    let ctx5 := { ctx4 with ir_cache_tail := some allocation }
    .ok (update_guest_reg_mapping ctx5 guest_reg (some allocation), some allocation)

/-- The function `insert_ir_instruction(after, instruction)`. -/
def insert_ir_instruction (ctx : ir_context_t) (after : ir_ptr)
    (instruction : ir_instruction_t) : Except fault (ir_context_t × ir_ptr) :=
  match after with
  | none => .error .insert_null_after
  | some a =>
    match (ctx.ir_cache a).next with
    | none => append_ir_instruction ctx instruction NO_GUEST_REG
    | some old_next =>
      let (ctx1, allocation) := allocate_ir_instruction ctx instruction
      let ctx2 := ctx1.modify_node a (fun n => { n with next := some allocation })
      let ctx3 := ctx2.modify_node allocation (fun n => { n with prev := some a })
      let ctx4 := ctx3.modify_node allocation (fun n => { n with next := some old_next })
      let ctx5 := ctx4.modify_node old_next (fun n => { n with prev := some allocation })
      .ok (ctx5, some allocation)

/-- The function `ir_emit_set_constant(value, guest_reg)`. -/
def ir_emit_set_constant (ctx : ir_context_t) (value : ir_set_constant_t) (guest_reg : Nat) :
    Except fault (ir_context_t × ir_ptr) :=
  if guest_reg = 0 then
    .ok (ctx, ctx.ir_cache_head)
  else if value.is_zero then
    .ok (update_guest_reg_mapping ctx guest_reg ctx.ir_cache_head, ctx.ir_cache_head)
  else
    append_ir_instruction ctx (ir_instruction_local .IR_SET_CONSTANT (.set_constant value))
      guest_reg

/-- The inline helper `ir_emit_set_constant_u16(value, guest_reg)` of `ir_context.h`. Only the
two low bytes of the union are written; the model leaves the others zero. -/
def ir_emit_set_constant_u16 (ctx : ir_context_t) (value : Nat) (guest_reg : Nat) :
    Except fault (ir_context_t × ir_ptr) :=
  ir_emit_set_constant ctx { type := .VALUE_TYPE_U16, raw := value % 2 ^ 16 } guest_reg

/-- The function `ir_emit_load_guest_reg(guest_reg)`. -/
def ir_emit_load_guest_reg (ctx : ir_context_t) (guest_reg : Nat) :
    Except fault (ir_context_t × ir_ptr) :=
  if guest_reg > 31 then
    .error .load_guest_reg_out_of_range
  else
    match ctx.guest_gpr_to_value guest_reg with
    | some v => .ok (ctx, some v)
    | none =>
      append_ir_instruction ctx
        (ir_instruction_local .IR_LOAD_GUEST_REG (.load_guest_reg guest_reg)) guest_reg

/-- The function `ir_emit_flush_guest_reg(last_usage, value, guest_reg)`. -/
def ir_emit_flush_guest_reg (ctx : ir_context_t) (last_usage value : ir_ptr) (guest_reg : Nat) :
    Except fault (ir_context_t × ir_ptr) :=
  if last_usage = none then
    .error .flush_null_last_usage
  else if guest_reg = 0 then
    .error .flush_r0
  else
    insert_ir_instruction ctx last_usage
      (ir_instruction_local .IR_FLUSH_GUEST_REG (.flush_guest_reg value guest_reg))

/-- The function `ir_emit_or(operand, operand2, guest_reg)`. -/
def ir_emit_or (ctx : ir_context_t) (operand operand2 : ir_ptr) (guest_reg : Nat) :
    Except fault (ir_context_t × ir_ptr) :=
  append_ir_instruction ctx (ir_instruction_local .IR_OR (.bin_op operand operand2)) guest_reg

/-- The function `ir_emit_xor(operand, operand2, guest_reg)`. -/
def ir_emit_xor (ctx : ir_context_t) (operand operand2 : ir_ptr) (guest_reg : Nat) :
    Except fault (ir_context_t × ir_ptr) :=
  append_ir_instruction ctx (ir_instruction_local .IR_XOR (.bin_op operand operand2)) guest_reg

/-- The function `ir_emit_not(operand, guest_reg)`. -/
def ir_emit_not (ctx : ir_context_t) (operand : ir_ptr) (guest_reg : Nat) :
    Except fault (ir_context_t × ir_ptr) :=
  append_ir_instruction ctx (ir_instruction_local .IR_NOT (.unary_op operand)) guest_reg

/-- The function `ir_emit_and(operand, operand2, guest_reg)`. -/
def ir_emit_and (ctx : ir_context_t) (operand operand2 : ir_ptr) (guest_reg : Nat) :
    Except fault (ir_context_t × ir_ptr) :=
  append_ir_instruction ctx (ir_instruction_local .IR_AND (.bin_op operand operand2)) guest_reg

/-- The function `ir_emit_boolean_not(operand, guest_reg)`. -/
def ir_emit_boolean_not (ctx : ir_context_t) (operand : ir_ptr) (guest_reg : Nat) :
    Except fault (ir_context_t × ir_ptr) := do
  let (ctx1, mask) ← ir_emit_set_constant_u16 ctx 1 NO_GUEST_REG
  let (ctx2, notted) ← ir_emit_not ctx1 operand NO_GUEST_REG
  ir_emit_and ctx2 notted mask guest_reg

/-- The function `ir_emit_sub(minuend, subtrahend, type, guest_reg)`; `type` is not stored. -/
def ir_emit_sub (ctx : ir_context_t) (minuend subtrahend : ir_ptr) (_type : ir_value_type_t)
    (guest_reg : Nat) : Except fault (ir_context_t × ir_ptr) :=
  append_ir_instruction ctx (ir_instruction_local .IR_SUB (.bin_op minuend subtrahend)) guest_reg

/-- The function `ir_emit_add(operand, operand2, guest_reg)`. -/
def ir_emit_add (ctx : ir_context_t) (operand operand2 : ir_ptr) (guest_reg : Nat) :
    Except fault (ir_context_t × ir_ptr) :=
  append_ir_instruction ctx (ir_instruction_local .IR_ADD (.bin_op operand operand2)) guest_reg

/-- The function `ir_emit_shift(operand, amount, value_type, direction, guest_reg)`. -/
def ir_emit_shift (ctx : ir_context_t) (operand amount : ir_ptr) (value_type : ir_value_type_t)
    (direction : ir_shift_direction_t) (guest_reg : Nat) : Except fault (ir_context_t × ir_ptr) :=
  append_ir_instruction ctx
    (ir_instruction_local .IR_SHIFT (.shift operand amount value_type direction)) guest_reg

/-- The function `ir_emit_store(type, address, value)`. -/
def ir_emit_store (ctx : ir_context_t) (type : ir_value_type_t) (address value : ir_ptr) :
    Except fault (ir_context_t × ir_ptr) :=
  append_ir_instruction ctx (ir_instruction_local .IR_STORE (.store type address value))
    NO_GUEST_REG

/-- The function `ir_emit_load(type, address, guest_reg)`. -/
def ir_emit_load (ctx : ir_context_t) (type : ir_value_type_t) (address : ir_ptr)
    (guest_reg : Nat) : Except fault (ir_context_t × ir_ptr) :=
  append_ir_instruction ctx (ir_instruction_local .IR_LOAD (.load type address)) guest_reg

/-- The function `ir_emit_get_ptr(type, ptr, guest_reg)`; `ptr` is a host address. -/
def ir_emit_get_ptr (ctx : ir_context_t) (type : ir_value_type_t) (ptr : Nat)
    (guest_reg : Nat) : Except fault (ir_context_t × ir_ptr) :=
  append_ir_instruction ctx (ir_instruction_local .IR_GET_PTR (.get_ptr type ptr)) guest_reg

/-- The function `ir_emit_set_ptr(type, ptr, value)`. -/
def ir_emit_set_ptr (ctx : ir_context_t) (type : ir_value_type_t) (ptr : Nat) (value : ir_ptr) :
    Except fault (ir_context_t × ir_ptr) :=
  append_ir_instruction ctx (ir_instruction_local .IR_SET_PTR (.set_ptr type ptr value))
    NO_GUEST_REG

/-- The function `ir_emit_mask_and_cast(operand, type, guest_reg)`. -/
def ir_emit_mask_and_cast (ctx : ir_context_t) (operand : ir_ptr) (type : ir_value_type_t)
    (guest_reg : Nat) : Except fault (ir_context_t × ir_ptr) :=
  append_ir_instruction ctx
    (ir_instruction_local .IR_MASK_AND_CAST (.mask_and_cast type operand)) guest_reg

/-- The function `ir_emit_check_condition(condition, operand1, operand2, guest_reg)`. -/
def ir_emit_check_condition (ctx : ir_context_t) (condition : ir_condition_t)
    (operand1 operand2 : ir_ptr) (guest_reg : Nat) : Except fault (ir_context_t × ir_ptr) :=
  append_ir_instruction ctx
    (ir_instruction_local .IR_CHECK_CONDITION (.check_condition condition operand1 operand2))
    guest_reg

/-- The function `ir_emit_conditional_set_block_exit_pc(condition, pc_if_true, pc_if_false)`. -/
def ir_emit_conditional_set_block_exit_pc (ctx : ir_context_t)
    (condition pc_if_true pc_if_false : ir_ptr) : Except fault (ir_context_t × ir_ptr) :=
  let ctx1 := { ctx with block_end_pc_ir_emitted := true }
  append_ir_instruction ctx1
    (ir_instruction_local .IR_SET_COND_BLOCK_EXIT_PC
      (.set_cond_exit_pc condition pc_if_true pc_if_false))
    NO_GUEST_REG

/-- The expression `gpr_value->load_guest_reg.guest_reg`: the first byte of the union seen as
a `u8`. On a `LOAD_GUEST_REG` node it is the stored register number; on any other node it
is a byte of whichever member was written, which depends on the object representation and is
given by the parameter `layout`. -/
def ir_payload.punned_guest_reg (layout : ir_payload → Nat) : ir_payload → Nat
  | .load_guest_reg guest_reg => guest_reg
  | other => layout other

/-- One iteration, for register `i`, of the loop of `ir_emit_conditional_block_exit`; the
second component is `instruction.cond_block_exit.regs_to_flush`. -/
def cond_exit_flush_step (layout : ir_payload → Nat) (acc : ir_context_t × Option Nat)
    (i : Nat) : ir_context_t × Option Nat :=
  match acc.1.guest_gpr_to_value i with
  | none => acc
  | some gpr_value =>
    let node := acc.1.ir_cache gpr_value
    if node.type ≠ .IR_LOAD_GUEST_REG ∧ node.payload.punned_guest_reg layout ≠ i then
      let old_head := acc.2
      let (ctx1, flush) := allocate_ir_flush acc.1
        { next := old_head, guest_gpr := i, item := some gpr_value }
      (ctx1, some flush)
    else acc

/-- The function `ir_emit_conditional_block_exit(condition, index)`. The field
`block_length` is `index + 1` over the integers, which is the C `int` sum when
`index + 1` is representable as an `int`. -/
def ir_emit_conditional_block_exit (layout : ir_payload → Nat) (ctx : ir_context_t)
    (condition : ir_ptr) (index : Int) : Except fault (ir_context_t × ir_ptr) :=
  if !ctx.block_end_pc_ir_emitted then
    .error .cond_exit_without_pc
  else
    let (ctx1, regs_to_flush) :=
      (List.range' 1 31).foldl (cond_exit_flush_step layout) (ctx, none)
    append_ir_instruction ctx1
      (ir_instruction_local .IR_COND_BLOCK_EXIT
        (.cond_block_exit regs_to_flush condition (index + 1)))
      NO_GUEST_REG

/-- The function `ir_emit_set_block_exit_pc(address)`. -/
def ir_emit_set_block_exit_pc (ctx : ir_context_t) (address : ir_ptr) :
    Except fault (ir_context_t × ir_ptr) :=
  let ctx1 := { ctx with block_end_pc_ir_emitted := true }
  append_ir_instruction ctx1 (ir_instruction_local .IR_SET_BLOCK_EXIT_PC (.unary_op address))
    NO_GUEST_REG

/-- The function `ir_emit_interpreter_fallback(num_instructions)`. -/
def ir_emit_interpreter_fallback (_ctx : ir_context_t) (_num_instructions : Int) :
    Except fault (ir_context_t × ir_ptr) :=
  .error .interpreter_fallback

/-- The function `ir_emit_tlb_lookup(virtual_address, guest_reg, bus_access)`. -/
def ir_emit_tlb_lookup (ctx : ir_context_t) (virtual_address : ir_ptr) (guest_reg : Nat)
    (bus_access : bus_access_t) : Except fault (ir_context_t × ir_ptr) :=
  append_ir_instruction ctx
    (ir_instruction_local .IR_TLB_LOOKUP (.tlb_lookup virtual_address bus_access)) guest_reg

/-- The function `ir_emit_multiply(multiplicand1, multiplicand2, multiplicand_type)`. -/
def ir_emit_multiply (ctx : ir_context_t) (multiplicand1 multiplicand2 : ir_ptr)
    (multiplicand_type : ir_value_type_t) : Except fault (ir_context_t × ir_ptr) :=
  append_ir_instruction ctx
    (ir_instruction_local .IR_MULTIPLY (.mult_div multiplicand1 multiplicand2 multiplicand_type))
    NO_GUEST_REG

/-- The function `ir_emit_divide(dividend, divisor, divide_type)`. -/
def ir_emit_divide (ctx : ir_context_t) (dividend divisor : ir_ptr)
    (divide_type : ir_value_type_t) : Except fault (ir_context_t × ir_ptr) :=
  append_ir_instruction ctx
    (ir_instruction_local .IR_DIVIDE (.mult_div dividend divisor divide_type)) NO_GUEST_REG

/-- The function `ir_emit_eret()`. -/
def ir_emit_eret (ctx : ir_context_t) : Except fault (ir_context_t × ir_ptr) :=
  let ctx1 := { ctx with block_end_pc_ir_emitted := true }
  append_ir_instruction ctx1 (ir_instruction_local .IR_ERET .indeterminate) NO_GUEST_REG

/-! ### Call sequences and list views of the IR context -/

/-- The emitters that bind a destination guest register through `append_ir_instruction`,
each with its remaining arguments. -/
inductive ir_dest_emit where
  | emit_set_constant (value : ir_set_constant_t)
  | emit_or (operand operand2 : ir_ptr)
  | emit_and (operand operand2 : ir_ptr)
  | emit_xor (operand operand2 : ir_ptr)
  | emit_not (operand : ir_ptr)
  | emit_add (operand operand2 : ir_ptr)
  | emit_sub (minuend subtrahend : ir_ptr) (type : ir_value_type_t)
  | emit_shift (operand amount : ir_ptr) (value_type : ir_value_type_t)
      (direction : ir_shift_direction_t)
  | emit_load (type : ir_value_type_t) (address : ir_ptr)
  | emit_get_ptr (type : ir_value_type_t) (ptr : Nat)
  | emit_mask_and_cast (operand : ir_ptr) (type : ir_value_type_t)
  | emit_check_condition (condition : ir_condition_t) (operand1 operand2 : ir_ptr)
  | emit_tlb_lookup (virtual_address : ir_ptr) (bus_access : bus_access_t)

/-- Calls the emitter named by `e` with destination `guest_reg`. -/
def ir_dest_emit.call (ctx : ir_context_t) (e : ir_dest_emit) (guest_reg : Nat) :
    Except fault (ir_context_t × ir_ptr) :=
  match e with
  | .emit_set_constant value => ir_emit_set_constant ctx value guest_reg
  | .emit_or a b => ir_emit_or ctx a b guest_reg
  | .emit_and a b => ir_emit_and ctx a b guest_reg
  | .emit_xor a b => ir_emit_xor ctx a b guest_reg
  | .emit_not a => ir_emit_not ctx a guest_reg
  | .emit_add a b => ir_emit_add ctx a b guest_reg
  | .emit_sub a b t => ir_emit_sub ctx a b t guest_reg
  | .emit_shift a b t d => ir_emit_shift ctx a b t d guest_reg
  | .emit_load t a => ir_emit_load ctx t a guest_reg
  | .emit_get_ptr t p => ir_emit_get_ptr ctx t p guest_reg
  | .emit_mask_and_cast a t => ir_emit_mask_and_cast ctx a t guest_reg
  | .emit_check_condition c a b => ir_emit_check_condition ctx c a b guest_reg
  | .emit_tlb_lookup a b => ir_emit_tlb_lookup ctx a guest_reg b

/-- One call into `ir_context.c` by the translator: `update_guest_reg_mapping` or any of the
`ir_emit_*` functions, with its arguments. -/
inductive ir_call where
  | call_update_guest_reg_mapping (guest_reg : Nat) (value : ir_ptr)
  | call_dest (e : ir_dest_emit) (guest_reg : Nat)
  | call_load_guest_reg (guest_reg : Nat)
  | call_flush_guest_reg (last_usage value : ir_ptr) (guest_reg : Nat)
  | call_boolean_not (operand : ir_ptr) (guest_reg : Nat)
  | call_store (type : ir_value_type_t) (address value : ir_ptr)
  | call_set_ptr (type : ir_value_type_t) (ptr : Nat) (value : ir_ptr)
  | call_conditional_set_block_exit_pc (condition pc_if_true pc_if_false : ir_ptr)
  | call_conditional_block_exit (condition : ir_ptr) (index : Int)
  | call_set_block_exit_pc (address : ir_ptr)
  | call_interpreter_fallback (num_instructions : Int)
  | call_multiply (multiplicand1 multiplicand2 : ir_ptr) (multiplicand_type : ir_value_type_t)
  | call_divide (dividend divisor : ir_ptr) (divide_type : ir_value_type_t)
  | call_eret

/-- Performs one call; the second component is the returned pointer (`none` for `void`). -/
def ir_call.exec (layout : ir_payload → Nat) (ctx : ir_context_t) (c : ir_call) :
    Except fault (ir_context_t × ir_ptr) :=
  match c with
  | .call_update_guest_reg_mapping g v => .ok (update_guest_reg_mapping ctx g v, none)
  | .call_dest e g => e.call ctx g
  | .call_load_guest_reg g => ir_emit_load_guest_reg ctx g
  | .call_flush_guest_reg l v g => ir_emit_flush_guest_reg ctx l v g
  | .call_boolean_not a g => ir_emit_boolean_not ctx a g
  | .call_store t a v => ir_emit_store ctx t a v
  | .call_set_ptr t p v => ir_emit_set_ptr ctx t p v
  | .call_conditional_set_block_exit_pc c t f => ir_emit_conditional_set_block_exit_pc ctx c t f
  | .call_conditional_block_exit c i => ir_emit_conditional_block_exit layout ctx c i
  | .call_set_block_exit_pc a => ir_emit_set_block_exit_pc ctx a
  | .call_interpreter_fallback n => ir_emit_interpreter_fallback ctx n
  | .call_multiply a b t => ir_emit_multiply ctx a b t
  | .call_divide a b t => ir_emit_divide ctx a b t
  | .call_eret => ir_emit_eret ctx

/-- Performs a sequence of calls, stopping at the first one that does not return. -/
def ir_run (layout : ir_payload → Nat) (ctx : ir_context_t) :
    List ir_call → Except fault ir_context_t
  | [] => .ok ctx
  | c :: cs =>
    match c.exec layout ctx with
    | .ok (ctx1, _) => ir_run layout ctx1 cs
    | .error e => .error e

/-- The invariant that `ir_context_reset` establishes and every call preserves: register 0
is bound to node 0, node 0 heads the list and is the `U64` constant zero, and the tail is an
allocated node. -/
structure ir_context_t.well_formed (ctx : ir_context_t) : Prop where
  gpr0 : ctx.guest_gpr_to_value 0 = some 0
  head : ctx.ir_cache_head = some 0
  node0_type : (ctx.ir_cache 0).type = .IR_SET_CONSTANT
  node0_payload :
    (ctx.ir_cache 0).payload = .set_constant { type := .VALUE_TYPE_U64, raw := 0 }
  tail : ∃ t, ctx.ir_cache_tail = some t ∧ t < ctx.ir_cache_index

/-- The instruction that `append_ir_instruction` leaves in the new slot `index` when the
previous tail is `tail`. -/
def ir_instruction_t.appended (instruction : ir_instruction_t) (index tail : Nat) :
    ir_instruction_t :=
  { instruction with
    index := index, dead_code := true,
    reg_alloc := { instruction.reg_alloc with allocated := false, host_reg := -1, spilled := false },
    last_use := -1, next := none, prev := some tail }

/-- The flush records reachable from `head` through `next`, as pairs of guest register and
value, reading at most `fuel` records. -/
def flush_list (ctx : ir_context_t) : Nat → Option Nat → List (Nat × ir_ptr)
  | 0, _ => []
  | _ + 1, none => []
  | fuel + 1, some k =>
    ((ctx.ir_flush_cache k).guest_gpr, (ctx.ir_flush_cache k).item) ::
      flush_list ctx fuel (ctx.ir_flush_cache k).next

/-- The `regs_to_flush` pointer stored in the node `p`, if `p` is a `COND_BLOCK_EXIT`. -/
def regs_to_flush_of (ctx : ir_context_t) (p : ir_ptr) : Option Nat :=
  match p with
  | none => none
  | some k =>
    match (ctx.ir_cache k).payload with
    | .cond_block_exit regs_to_flush _ _ => regs_to_flush
    | _ => none

/-- Node 0 of the arena as `ir_context_reset` leaves it: a zeroed instruction turned into
the `U64` constant 0. -/
def ir_node_zero_constant : ir_instruction_t :=
  { ir_instruction_zero with
    type := .IR_SET_CONSTANT,
    payload := .set_constant { type := .VALUE_TYPE_U64, raw := 0 } }

/-- Two contexts hold the same data: equal scalars and equal contents in every slot of the
three C arrays. -/
def ir_context_t.agrees (a b : ir_context_t) : Prop :=
  (∀ i, i < 32 → a.guest_gpr_to_value i = b.guest_gpr_to_value i) ∧
  (∀ i, i < IR_CACHE_SIZE → a.ir_cache i = b.ir_cache i) ∧
  a.ir_cache_head = b.ir_cache_head ∧
  a.ir_cache_tail = b.ir_cache_tail ∧
  a.ir_cache_index = b.ir_cache_index ∧
  (∀ i, i < IR_FLUSH_CACHE_SIZE → a.ir_flush_cache i = b.ir_flush_cache i) ∧
  a.ir_flush_cache_index = b.ir_flush_cache_index ∧
  a.block_end_pc_ir_emitted = b.block_end_pc_ir_emitted ∧
  a.block_end_pc_compiled = b.block_end_pc_compiled

/-- A context left over from an earlier translation: every register bound to node 3, every
arena slot an `ERET`, both flags set. -/
def ir_context_used : ir_context_t :=
  { guest_gpr_to_value := fun _ => some 3,
    ir_cache := fun i => { ir_instruction_local .IR_ERET .indeterminate with index := i },
    ir_cache_head := some 0,
    ir_cache_tail := some 9,
    ir_cache_index := 10,
    ir_flush_cache := fun _ => { guest_gpr := 4, item := some 2, next := some 1 },
    ir_flush_cache_index := 7,
    block_end_pc_ir_emitted := true,
    block_end_pc_compiled := true }

/-- A translation that touches register numbers of every kind: 0, 1..31, `NO_GUEST_REG` and
other bytes. -/
def ir_calls_example : List ir_call :=
  [ .call_load_guest_reg 0,
    .call_load_guest_reg 4,
    .call_dest (.emit_set_constant { type := .VALUE_TYPE_S16, raw := 0x1234 }) 0,
    .call_dest (.emit_set_constant { type := .VALUE_TYPE_S16, raw := 0 }) 5,
    .call_dest (.emit_or (some 1) (some 0)) 0,
    .call_dest (.emit_add (some 1) (some 2)) 31,
    .call_dest (.emit_xor (some 1) (some 2)) 32,
    .call_dest (.emit_and (some 3) (some 2)) 200,
    .call_update_guest_reg_mapping 0 (some 4),
    .call_update_guest_reg_mapping 7 (some 4),
    .call_boolean_not (some 4) 0,
    .call_store .VALUE_TYPE_U32 (some 1) (some 3),
    .call_set_block_exit_pc (some 2),
    .call_conditional_block_exit (some 5) 3,
    .call_flush_guest_reg (some 0) (some 3) 31,
    .call_flush_guest_reg (some 3) (some 3) 31,
    .call_eret ]

/-- The context after `ir_calls_example`, run from a fresh reset. -/
def ir_context_example : ir_context_t :=
  match ir_run (fun _ => 0) (ir_context_reset ir_context_zero) ir_calls_example with
  | .ok ctx => ctx
  | .error _ => ir_context_zero

/-- A translation that binds register 1 to the value loaded from register 2 and then sets
the block exit PC: node 1 is `LOAD_GUEST_REG(2)`, node 2 the constant 1, node 3 the exit. -/
def ir_calls_copy_register : List ir_call :=
  [ .call_load_guest_reg 2,
    .call_update_guest_reg_mapping 1 (some 1),
    .call_dest (.emit_set_constant { type := .VALUE_TYPE_U16, raw := 1 }) NO_GUEST_REG,
    .call_set_block_exit_pc (some 2) ]

/-- The context after `ir_calls_copy_register`, run from a fresh reset. -/
def ir_context_copy_register : ir_context_t :=
  match ir_run (fun _ => 0) (ir_context_reset ir_context_zero) ir_calls_copy_register with
  | .ok ctx => ctx
  | .error _ => ir_context_zero

/-- Whether the call is one of the three emitters that announce the block exit PC:
`ir_emit_set_block_exit_pc`, `ir_emit_conditional_set_block_exit_pc` or `ir_emit_eret`. -/
def ir_call.sets_block_end_pc : ir_call → Bool
  | .call_conditional_set_block_exit_pc _ _ _ => true
  | .call_set_block_exit_pc _ => true
  | .call_eret => true
  | _ => false

/-- Whether the tag is `SET_BLOCK_EXIT_PC`, `SET_COND_BLOCK_EXIT_PC` or `ERET`. -/
def ir_type.is_block_exit : ir_type → Bool
  | .IR_SET_BLOCK_EXIT_PC => true
  | .IR_SET_COND_BLOCK_EXIT_PC => true
  | .IR_ERET => true
  | _ => false

/-- Some allocated instruction of the arena is a block-exit instruction. Every allocated
instruction is linked into the IR list by the call that allocates it. -/
def ir_context_t.has_block_exit (ctx : ir_context_t) : Prop :=
  ∃ i, i < ctx.ir_cache_index ∧ (ctx.ir_cache i).type.is_block_exit = true

/-- A translation without any block-exit emitter. -/
def ir_calls_no_exit : List ir_call :=
  [ .call_load_guest_reg 3,
    .call_dest (.emit_set_constant { type := .VALUE_TYPE_U32, raw := 0x10 }) 4,
    .call_dest (.emit_add (some 1) (some 2)) 5,
    .call_store .VALUE_TYPE_U32 (some 1) (some 3),
    .call_flush_guest_reg (some 1) (some 3) 5 ]

/-- The context after `ir_calls_no_exit`, run from a fresh reset. -/
def ir_context_no_exit : ir_context_t :=
  match ir_run (fun _ => 0) (ir_context_reset ir_context_zero) ir_calls_no_exit with
  | .ok ctx => ctx
  | .error _ => ir_context_zero

/-- A block of 4095 `ir_emit_eret` calls: after a reset it fills the arena slots 1..4095. -/
def ir_calls_fill : List ir_call := List.replicate 4095 .call_eret

/-- The context after `ir_calls_fill`, run from a fresh reset: the arena is full. -/
def ir_context_full : ir_context_t :=
  match ir_run (fun _ => 0) (ir_context_reset ir_context_zero) ir_calls_fill with
  | .ok ctx => ctx
  | .error _ => ir_context_zero

/-! ### The IR list as a linked list -/

/-- The instructions of `l`, in this order, are linked through `prev` and `next`: the first
one has `prev == p`, each one points back to its predecessor and forward to its successor,
and the last one has `next == NULL`. -/
def ir_chain (cache : Nat → ir_instruction_t) : ir_ptr → List Nat → Prop
  | _, [] => True
  | p, a :: rest =>
    (cache a).prev = p ∧ (cache a).next = rest.head? ∧ ir_chain cache (some a) rest

/-- The list `l` is the IR list of the context, in list order: it starts at `ir_cache_head`,
ends at `ir_cache_tail`, is linked through `prev` and `next` with the head's `prev` equal to
`NULL`, visits no instruction twice and only visits allocated instructions. -/
structure ir_context_t.linked (ctx : ir_context_t) (l : List Nat) : Prop where
  head : ctx.ir_cache_head = l.head?
  tail : ctx.ir_cache_tail = l.getLast?
  chain : ir_chain ctx.ir_cache none l
  nodup : l.Nodup
  allocated : ∀ a ∈ l, a < ctx.ir_cache_index

/-- The instructions reached from `p` by following `next`, at most `fuel` of them. -/
def ir_list_from (cache : Nat → ir_instruction_t) : Nat → ir_ptr → List Nat
  | 0, _ => []
  | _ + 1, none => []
  | fuel + 1, some a => a :: ir_list_from cache fuel (cache a).next

/-- The IR list read from `ir_cache_head`; an arena with `ir_cache_index` allocated
instructions has no longer list. -/
def ir_context_t.ir_list (ctx : ir_context_t) : List Nat :=
  ir_list_from ctx.ir_cache ctx.ir_cache_index ctx.ir_cache_head

/-! ## FPU exception semantics (`fpu_instructions.c`)

Floats and doubles are their IEEE-754 bit patterns (32 and 64 bits). The file works on the
global `N64CPU`; here the CPU state is passed and returned. -/

/-- Modelled from the spec: the exception code of a floating-point exception; the header that
defines `EXCEPTION_FLOATING_POINT` is missing, the spec gives `cause.exception_code == 15`. -/
def EXCEPTION_FLOATING_POINT : Nat := 15

def EXCEPTION_COPROCESSOR_UNUSABLE : Nat := 11

/-- The type of `r4300i_handle_exception(pc, code, coprocessor_error)`, which is declared in
`r4300i.h` and defined outside the sources: the functions below take it as a parameter. -/
abbrev exception_handler_t := r4300i_t → Nat → Nat → Nat → r4300i_t

/-- The field `rounding_mode` of `fcr31_t`: bits 0..1. -/
def fcr31_rounding_mode (fcr31 : Nat) : Nat := fcr31 % 2 ^ 2

/-- The five `enable_*` bits of `fcr31_t` read as one field `enable`: bits 7..11, in the
order inexact, underflow, overflow, division by zero, invalid. -/
def fcr31_enable (fcr31 : Nat) : Nat := (fcr31 >>> 7) % 2 ^ 5

/-- The six `cause_*` bits of `fcr31_t` read as one field `cause`: bits 12..17, in the order
inexact, underflow, overflow, division by zero, invalid, unimplemented. -/
def fcr31_cause (fcr31 : Nat) : Nat := (fcr31 >>> 12) % 2 ^ 6

def fcr31_enable_inexact_operation (fcr31 : Nat) : Bool := fcr31.testBit 7
def fcr31_enable_underflow (fcr31 : Nat) : Bool := fcr31.testBit 8
def fcr31_enable_overflow (fcr31 : Nat) : Bool := fcr31.testBit 9
def fcr31_enable_division_by_zero (fcr31 : Nat) : Bool := fcr31.testBit 10
def fcr31_enable_invalid_operation (fcr31 : Nat) : Bool := fcr31.testBit 11
def fcr31_cause_inexact_operation (fcr31 : Nat) : Bool := fcr31.testBit 12
def fcr31_cause_underflow (fcr31 : Nat) : Bool := fcr31.testBit 13
def fcr31_cause_overflow (fcr31 : Nat) : Bool := fcr31.testBit 14
def fcr31_cause_division_by_zero (fcr31 : Nat) : Bool := fcr31.testBit 15
def fcr31_cause_invalid_operation (fcr31 : Nat) : Bool := fcr31.testBit 16
def fcr31_cause_unimplemented_operation (fcr31 : Nat) : Bool := fcr31.testBit 17
def fcr31_compare (fcr31 : Nat) : Bool := fcr31.testBit 23

/-- The bit `fs` of `fcr31_t` (bit 24), which `fpu_instructions.c` calls `flush_subnormals`. -/
def fcr31_flush_subnormals (fcr31 : Nat) : Bool := fcr31.testBit 24

/-- The bit `cu1` of `cp0_status_t`: bit 29. -/
def status_cu1 (status : Nat) : Bool := status.testBit 29

/-- The function `fire_fpu_exception()`: whether the exception fired, and the state. -/
def fire_fpu_exception (handler : exception_handler_t) (cpu : r4300i_t) : Bool × r4300i_t :=
  let enable := fcr31_enable cpu.fcr31 ||| (1 <<< 5)
  if fcr31_cause cpu.fcr31 &&& enable ≠ 0 then
    (true, handler cpu cpu.prev_pc EXCEPTION_FLOATING_POINT 0)
  else
    (false, cpu)

/-- Modelled from the spec: the helper `set_cause_inexact_operation()` is not in the sources;
it sets the cause bit `inexact_operation` of `fcr31`. -/
def set_cause_inexact_operation (cpu : r4300i_t) : r4300i_t :=
  { cpu with fcr31 := cpu.fcr31 ||| (1 <<< 12) }

/-- Modelled from the spec: the helper `set_cause_underflow()` is not in the sources; it sets
the cause bit `underflow` of `fcr31`. -/
def set_cause_underflow (cpu : r4300i_t) : r4300i_t :=
  { cpu with fcr31 := cpu.fcr31 ||| (1 <<< 13) }

/-- Modelled from the spec: the helper `set_cause_invalid_operation()` is not in the sources;
it sets the cause bit `invalid_operation` of `fcr31`. -/
def set_cause_invalid_operation (cpu : r4300i_t) : r4300i_t :=
  { cpu with fcr31 := cpu.fcr31 ||| (1 <<< 16) }

/-- Modelled from the spec: the helper `set_cause_unimplemented_operation()` is not in the
sources; it sets the cause bit `unimplemented_operation` of `fcr31`. -/
def set_cause_unimplemented_operation (cpu : r4300i_t) : r4300i_t :=
  { cpu with fcr31 := cpu.fcr31 ||| (1 <<< 17) }

/-- The values of the C library macro `fpclassify`. -/
inductive fp_class where
  | FP_NAN
  | FP_INFINITE
  | FP_ZERO
  | FP_SUBNORMAL
  | FP_NORMAL
  deriving DecidableEq, Repr

/-- The biased exponent of a float: bits 23..30. -/
def f32_exponent (x : Nat) : Nat := (x >>> 23) % 2 ^ 8

/-- The mantissa field of a float: bits 0..22. -/
def f32_mantissa (x : Nat) : Nat := x % 2 ^ 23

/-- The biased exponent of a double: bits 52..62. -/
def f64_exponent (x : Nat) : Nat := (x >>> 52) % 2 ^ 11

/-- The mantissa field of a double: bits 0..51. -/
def f64_mantissa (x : Nat) : Nat := x % 2 ^ 52

/-- The C library macro `fpclassify` on a float. -/
def fpclassify_s (x : Nat) : fp_class :=
  if f32_exponent x = 255 then
    if f32_mantissa x = 0 then .FP_INFINITE else .FP_NAN
  else if f32_exponent x = 0 then
    if f32_mantissa x = 0 then .FP_ZERO else .FP_SUBNORMAL
  else .FP_NORMAL

/-- The C library macro `fpclassify` on a double. -/
def fpclassify_d (x : Nat) : fp_class :=
  if f64_exponent x = 2047 then
    if f64_mantissa x = 0 then .FP_INFINITE else .FP_NAN
  else if f64_exponent x = 0 then
    if f64_mantissa x = 0 then .FP_ZERO else .FP_SUBNORMAL
  else .FP_NORMAL

/-- The C library macro `signbit` on a float. -/
def signbit_s (x : Nat) : Bool := x.testBit 31

/-- The C library macro `signbit` on a double. -/
def signbit_d (x : Nat) : Bool := x.testBit 63

/-- Modelled from the spec: `is_qnan_f` lives in `float_util.h`, which is missing. The spec
calls `0x7FBFFFFF`, whose top mantissa bit is clear, a signalling NaN: a NaN is quiet when
its exponent is all ones and the top mantissa bit (bit 22) is set. -/
def is_qnan_f (x : Nat) : Bool := f32_exponent x == 255 && x.testBit 22

/-- Modelled from the spec: `is_qnan_d` lives in `float_util.h`, which is missing. The spec
calls `0x7FF7FFFFFFFFFFFF` a signalling NaN: a NaN is quiet when its exponent is all ones and
the top mantissa bit (bit 51) is set. -/
def is_qnan_d (x : Nat) : Bool := f64_exponent x == 2047 && x.testBit 51

/-- The function `set_cause_fpu_arg_s(f)`. The `default` branch of the switch is not
reachable: `fpclassify` has no other value. -/
def set_cause_fpu_arg_s (cpu : r4300i_t) (f : Nat) : r4300i_t :=
  match fpclassify_s f with
  | .FP_NAN =>
    if is_qnan_f f then set_cause_invalid_operation cpu
    else set_cause_unimplemented_operation cpu
  | .FP_SUBNORMAL => set_cause_unimplemented_operation cpu
  | .FP_INFINITE => cpu
  | .FP_ZERO => cpu
  | .FP_NORMAL => cpu

/-- The function `set_cause_fpu_arg_d(d)`. -/
def set_cause_fpu_arg_d (cpu : r4300i_t) (d : Nat) : r4300i_t :=
  match fpclassify_d d with
  | .FP_NAN =>
    if is_qnan_d d then set_cause_invalid_operation cpu
    else set_cause_unimplemented_operation cpu
  | .FP_SUBNORMAL => set_cause_unimplemented_operation cpu
  | .FP_INFINITE => cpu
  | .FP_ZERO => cpu
  | .FP_NORMAL => cpu

/-- Modelled from the spec: the constants `R4300I_CP1_ROUND_*` are defined in a missing
header; the spec lists the rounding modes as nearest, zero, +inf, -inf, the order of the
two-bit RM field. -/
def R4300I_CP1_ROUND_NEAREST : Nat := 0

/-- Modelled from the spec: see `R4300I_CP1_ROUND_NEAREST`. -/
def R4300I_CP1_ROUND_ZERO : Nat := 1

/-- Modelled from the spec: see `R4300I_CP1_ROUND_NEAREST`. -/
def R4300I_CP1_ROUND_POSINF : Nat := 2

/-- Modelled from the spec: see `R4300I_CP1_ROUND_NEAREST`. -/
def R4300I_CP1_ROUND_NEGINF : Nat := 3

/-- The bit pattern of `FLT_MIN`, the smallest positive normal float. -/
def FLT_MIN : Nat := 0x00800000

/-- The bit pattern of `DBL_MIN`, the smallest positive normal double. -/
def DBL_MIN : Nat := 0x0010000000000000

/-- The rounding-mode switch of `set_cause_fpu_result_s`: the value that replaces a flushed
subnormal `f`. `copysignf(0, f)` is the zero with the sign of `f`. -/
def flush_subnormal_s (rounding_mode : Nat) (f : Nat) : Nat :=
  if rounding_mode = R4300I_CP1_ROUND_NEAREST ∨ rounding_mode = R4300I_CP1_ROUND_ZERO then
    if signbit_s f then 0x80000000 else 0
  else if rounding_mode = R4300I_CP1_ROUND_POSINF then
    if signbit_s f then 0x80000000 else FLT_MIN
  else if rounding_mode = R4300I_CP1_ROUND_NEGINF then
    if signbit_s f then 0x80000000 + FLT_MIN else 0
  else f

/-- The rounding-mode switch of `set_cause_fpu_result_d`. -/
def flush_subnormal_d (rounding_mode : Nat) (d : Nat) : Nat :=
  if rounding_mode = R4300I_CP1_ROUND_NEAREST ∨ rounding_mode = R4300I_CP1_ROUND_ZERO then
    if signbit_d d then 0x8000000000000000 else 0
  else if rounding_mode = R4300I_CP1_ROUND_POSINF then
    if signbit_d d then 0x8000000000000000 else DBL_MIN
  else if rounding_mode = R4300I_CP1_ROUND_NEGINF then
    if signbit_d d then 0x8000000000000000 + DBL_MIN else 0
  else d

/-- The function `set_cause_fpu_result_s(&f)`: the new state and the new value of `*f`. -/
def set_cause_fpu_result_s (cpu : r4300i_t) (f : Nat) : r4300i_t × Nat :=
  match fpclassify_s f with
  | .FP_NAN => (cpu, 0x7FBFFFFF)
  | .FP_SUBNORMAL =>
    if !fcr31_flush_subnormals cpu.fcr31 || fcr31_enable_underflow cpu.fcr31
        || fcr31_enable_inexact_operation cpu.fcr31 then
      (set_cause_unimplemented_operation cpu, f)
    else
      let cpu1 := set_cause_underflow cpu
      let cpu2 := set_cause_inexact_operation cpu1
      (cpu2, flush_subnormal_s (fcr31_rounding_mode cpu2.fcr31) f)
  | .FP_INFINITE => (cpu, f)
  | .FP_ZERO => (cpu, f)
  | .FP_NORMAL => (cpu, f)

/-- The function `set_cause_fpu_result_d(&d)`: the new state and the new value of `*d`. -/
def set_cause_fpu_result_d (cpu : r4300i_t) (d : Nat) : r4300i_t × Nat :=
  match fpclassify_d d with
  | .FP_NAN => (cpu, 0x7FF7FFFFFFFFFFFF)
  | .FP_SUBNORMAL =>
    if !fcr31_flush_subnormals cpu.fcr31 || fcr31_enable_underflow cpu.fcr31
        || fcr31_enable_inexact_operation cpu.fcr31 then
      (set_cause_unimplemented_operation cpu, d)
    else
      let cpu1 := set_cause_underflow cpu
      let cpu2 := set_cause_inexact_operation cpu1
      (cpu2, flush_subnormal_d (fcr31_rounding_mode cpu2.fcr31) d)
  | .FP_INFINITE => (cpu, d)
  | .FP_ZERO => (cpu, d)
  | .FP_NORMAL => (cpu, d)

/-- The macro `check_fpu_result_s(f)`: `set_cause_fpu_result_s(&f)`, then
`check_fpu_exception()`. `Except.error` is the state with which the instruction returns
early; `Except.ok` carries the state and the value of `f` with which it goes on. -/
def check_fpu_result_s (handler : exception_handler_t) (cpu : r4300i_t) (f : Nat) :
    Except r4300i_t (r4300i_t × Nat) :=
  let r := set_cause_fpu_result_s cpu f
  let fired := fire_fpu_exception handler r.1
  if fired.1 then .error fired.2 else .ok (fired.2, r.2)

/-- The macro `check_fpu_result_d(d)`. -/
def check_fpu_result_d (handler : exception_handler_t) (cpu : r4300i_t) (d : Nat) :
    Except r4300i_t (r4300i_t × Nat) :=
  let r := set_cause_fpu_result_d cpu d
  let fired := fire_fpu_exception handler r.1
  if fired.1 then .error fired.2 else .ok (fired.2, r.2)

/-- The macro `check_fpu_arg_s(f)`: `set_cause_fpu_arg_s(f)`, then `check_fpu_exception()`. -/
def check_fpu_arg_s (handler : exception_handler_t) (cpu : r4300i_t) (f : Nat) :
    Except r4300i_t r4300i_t :=
  let fired := fire_fpu_exception handler (set_cause_fpu_arg_s cpu f)
  if fired.1 then .error fired.2 else .ok fired.2

/-- The macro `check_fpu_arg_d(d)`. -/
def check_fpu_arg_d (handler : exception_handler_t) (cpu : r4300i_t) (d : Nat) :
    Except r4300i_t r4300i_t :=
  let fired := fire_fpu_exception handler (set_cause_fpu_arg_d cpu d)
  if fired.1 then .error fired.2 else .ok fired.2

/-! ### Classes of IEEE-754 bit patterns -/

/-- A float NaN whose top mantissa bit is set. -/
def f32_is_quiet_nan (x : Nat) : Prop :=
  f32_exponent x = 255 ∧ f32_mantissa x ≠ 0 ∧ x.testBit 22 = true

instance (x : Nat) : Decidable (f32_is_quiet_nan x) :=
  inferInstanceAs (Decidable (f32_exponent x = 255 ∧ f32_mantissa x ≠ 0 ∧ x.testBit 22 = true))

/-- A float NaN whose top mantissa bit is clear. -/
def f32_is_signaling_nan (x : Nat) : Prop :=
  f32_exponent x = 255 ∧ f32_mantissa x ≠ 0 ∧ x.testBit 22 = false

instance (x : Nat) : Decidable (f32_is_signaling_nan x) :=
  inferInstanceAs (Decidable (f32_exponent x = 255 ∧ f32_mantissa x ≠ 0 ∧ x.testBit 22 = false))

/-- A float NaN of either kind, with any payload and any sign. -/
def f32_is_nan (x : Nat) : Prop := f32_exponent x = 255 ∧ f32_mantissa x ≠ 0

instance (x : Nat) : Decidable (f32_is_nan x) :=
  inferInstanceAs (Decidable (f32_exponent x = 255 ∧ f32_mantissa x ≠ 0))

/-- A subnormal float: zero exponent, non-zero mantissa. -/
def f32_is_subnormal (x : Nat) : Prop := f32_exponent x = 0 ∧ f32_mantissa x ≠ 0

instance (x : Nat) : Decidable (f32_is_subnormal x) :=
  inferInstanceAs (Decidable (f32_exponent x = 0 ∧ f32_mantissa x ≠ 0))

/-- Plus or minus infinity as a float. -/
def f32_is_infinite (x : Nat) : Prop := f32_exponent x = 255 ∧ f32_mantissa x = 0

instance (x : Nat) : Decidable (f32_is_infinite x) :=
  inferInstanceAs (Decidable (f32_exponent x = 255 ∧ f32_mantissa x = 0))

/-- Plus or minus zero as a float. -/
def f32_is_zero (x : Nat) : Prop := f32_exponent x = 0 ∧ f32_mantissa x = 0

instance (x : Nat) : Decidable (f32_is_zero x) :=
  inferInstanceAs (Decidable (f32_exponent x = 0 ∧ f32_mantissa x = 0))

/-- A normal float. -/
def f32_is_normal (x : Nat) : Prop := f32_exponent x ≠ 0 ∧ f32_exponent x ≠ 255

instance (x : Nat) : Decidable (f32_is_normal x) :=
  inferInstanceAs (Decidable (f32_exponent x ≠ 0 ∧ f32_exponent x ≠ 255))

/-- A double NaN whose top mantissa bit is set. -/
def f64_is_quiet_nan (x : Nat) : Prop :=
  f64_exponent x = 2047 ∧ f64_mantissa x ≠ 0 ∧ x.testBit 51 = true

instance (x : Nat) : Decidable (f64_is_quiet_nan x) :=
  inferInstanceAs (Decidable (f64_exponent x = 2047 ∧ f64_mantissa x ≠ 0 ∧ x.testBit 51 = true))

/-- A double NaN whose top mantissa bit is clear. -/
def f64_is_signaling_nan (x : Nat) : Prop :=
  f64_exponent x = 2047 ∧ f64_mantissa x ≠ 0 ∧ x.testBit 51 = false

instance (x : Nat) : Decidable (f64_is_signaling_nan x) :=
  inferInstanceAs (Decidable (f64_exponent x = 2047 ∧ f64_mantissa x ≠ 0 ∧ x.testBit 51 = false))

/-- A double NaN of either kind, with any payload and any sign. -/
def f64_is_nan (x : Nat) : Prop := f64_exponent x = 2047 ∧ f64_mantissa x ≠ 0

instance (x : Nat) : Decidable (f64_is_nan x) :=
  inferInstanceAs (Decidable (f64_exponent x = 2047 ∧ f64_mantissa x ≠ 0))

/-- A subnormal double: zero exponent, non-zero mantissa. -/
def f64_is_subnormal (x : Nat) : Prop := f64_exponent x = 0 ∧ f64_mantissa x ≠ 0

instance (x : Nat) : Decidable (f64_is_subnormal x) :=
  inferInstanceAs (Decidable (f64_exponent x = 0 ∧ f64_mantissa x ≠ 0))

/-- Plus or minus infinity as a double. -/
def f64_is_infinite (x : Nat) : Prop := f64_exponent x = 2047 ∧ f64_mantissa x = 0

instance (x : Nat) : Decidable (f64_is_infinite x) :=
  inferInstanceAs (Decidable (f64_exponent x = 2047 ∧ f64_mantissa x = 0))

/-- Plus or minus zero as a double. -/
def f64_is_zero (x : Nat) : Prop := f64_exponent x = 0 ∧ f64_mantissa x = 0

instance (x : Nat) : Decidable (f64_is_zero x) :=
  inferInstanceAs (Decidable (f64_exponent x = 0 ∧ f64_mantissa x = 0))

/-- A normal double. -/
def f64_is_normal (x : Nat) : Prop := f64_exponent x ≠ 0 ∧ f64_exponent x ≠ 2047


instance (x : Nat) : Decidable (f64_is_normal x) :=
  inferInstanceAs (Decidable (f64_exponent x ≠ 0 ∧ f64_exponent x ≠ 2047))

/-! ### FPU register file (`r4300i.h`) and the arithmetic instruction macros -/

/-- The member `lo` of `fgr_t`: the low 32 bits of `raw`. -/
def fgr_lo (raw : Nat) : Nat := raw % 2 ^ 32

/-- The member `hi` of `fgr_t`: bits 32..63 of `raw`. -/
def fgr_hi (raw : Nat) : Nat := (raw / 2 ^ 32) % 2 ^ 32

/-- The assignment `f.lo = value` on an `fgr_t`. -/
def fgr_set_lo (raw value : Nat) : Nat := fgr_hi raw * 2 ^ 32 + value % 2 ^ 32

/-- The assignment `f.hi = value` on an `fgr_t`. -/
def fgr_set_hi (raw value : Nat) : Nat := (value % 2 ^ 32) * 2 ^ 32 + fgr_lo raw

/-- The function `set_fpu_register_dword(cpu, r, value)`. -/
def set_fpu_register_dword (cpu : r4300i_t) (r : Nat) (value : Nat) : r4300i_t :=
  { cpu with f := Function.update cpu.f r (value % 2 ^ 64) }

/-- The function `get_fpu_register_dword(cpu, r)`. -/
def get_fpu_register_dword (cpu : r4300i_t) (r : Nat) : Nat := cpu.f r

/-- The function `set_fpu_register_word(cpu, r, value)`. -/
def set_fpu_register_word (cpu : r4300i_t) (r : Nat) (value : Nat) : Except fault r4300i_t :=
  if !status_fr cpu.cp0.status then
    if r &&& 1 = 0 then
      .ok { cpu with f := Function.update cpu.f r (fgr_set_lo (cpu.f r) value) }
    else
      .ok { cpu with f := Function.update cpu.f (r - 1) (fgr_set_hi (cpu.f (r - 1)) value) }
  else
    .error .fpu_fr_unimplemented

/-- The function `get_fpu_register_word(cpu, r)`. -/
def get_fpu_register_word (cpu : r4300i_t) (r : Nat) : Except fault Nat :=
  if !status_fr cpu.cp0.status then
    if r &&& 1 = 0 then .ok (fgr_lo (cpu.f r))
    else .ok (fgr_hi (cpu.f (r - 1)))
  else
    .error .fpu_fr_unimplemented

/-- The function `set_fpu_register_double(cpu, r, value)`: stores the bit pattern. -/
def set_fpu_register_double (cpu : r4300i_t) (r : Nat) (value : Nat) : r4300i_t :=
  set_fpu_register_dword cpu r value

/-- The function `set_fpu_register_float(cpu, r, value)`: stores the bit pattern. -/
def set_fpu_register_float (cpu : r4300i_t) (r : Nat) (value : Nat) : Except fault r4300i_t :=
  set_fpu_register_word cpu r value

/-- The collaborators of `fpu_instructions.c` that are declared outside the sources: the
exception handler and the operand readers of `r4300i_register_access.h`, which return the
bit pattern of the float or double operand. -/
structure fpu_env where
  handler : exception_handler_t
  get_fpu_register_float_fs : r4300i_t → Nat → Nat
  get_fpu_register_float_ft : r4300i_t → Nat → Nat
  get_fpu_register_double_fs : r4300i_t → Nat → Nat
  get_fpu_register_double_ft : r4300i_t → Nat → Nat

/-- The statement `fpu_op_check_except({ result = (op); })` for one operation `op`: host
floating-point arithmetic on the operands `fs` and `ft` under a macro of a missing header.
`Except.error` is the state with which the instruction returns early, `Except.ok` the state
and the bit pattern of `result` with which it goes on. -/
abbrev fpu_op_t := r4300i_t → Nat → Nat → Except r4300i_t (r4300i_t × Nat)

/-- The state in which an FPU operation starts: the six cause bits of `fcr31` cleared. -/
def cp1_entry_state (cpu : r4300i_t) : r4300i_t :=
  { cpu with fcr31 := cpu.fcr31 &&& not32 (0x3F <<< 12) }

/-- Modelled from the spec: the macro `checkcp1_preservecause` is defined in a missing
header. The spec has a cleared `status.cu1` raise the coprocessor-unusable exception, after
which the instruction returns (`Except.error`). -/
def checkcp1_preservecause (handler : exception_handler_t) (cpu : r4300i_t) :
    Except r4300i_t r4300i_t :=
  if !status_cu1 cpu.cp0.status then
    .error (handler cpu cpu.prev_pc EXCEPTION_COPROCESSOR_UNUSABLE 1)
  else
    .ok cpu

/-- Modelled from the spec: the macro `checkcp1` is defined in a missing header. It is
`checkcp1_preservecause` without the preservation: the cause bits are those set by the
current operation, so they are cleared when the operation starts. -/
def checkcp1 (handler : exception_handler_t) (cpu : r4300i_t) : Except r4300i_t r4300i_t :=
  match checkcp1_preservecause handler cpu with
  | .error cpu1 => .error cpu1
  | .ok cpu1 => .ok (cp1_entry_state cpu1)

/-- The macro `FPU_OP_S(op)` in the instruction with register fields `fs`, `ft`, `fd`: the
state in which the instruction ends. -/
def FPU_OP_S (env : fpu_env) (op : fpu_op_t) (cpu : r4300i_t) (fs ft fd : Nat) :
    Except fault r4300i_t :=
  match checkcp1 env.handler cpu with
  | .error cpu1 => .ok cpu1
  | .ok cpu1 =>
    let a := env.get_fpu_register_float_fs cpu1 fs
    let b := env.get_fpu_register_float_ft cpu1 ft
    match check_fpu_arg_s env.handler cpu1 a with
    | .error cpu2 => .ok cpu2
    | .ok cpu2 =>
      match check_fpu_arg_s env.handler cpu2 b with
      | .error cpu3 => .ok cpu3
      | .ok cpu3 =>
        match op cpu3 a b with
        | .error cpu4 => .ok cpu4
        | .ok (cpu4, result) =>
          match check_fpu_result_s env.handler cpu4 result with
          | .error cpu5 => .ok cpu5
          | .ok (cpu5, result1) => set_fpu_register_float cpu5 fd result1

/-- The macro `FPU_OP_D(op)` in the instruction with register fields `fs`, `ft`, `fd`. -/
def FPU_OP_D (env : fpu_env) (op : fpu_op_t) (cpu : r4300i_t) (fs ft fd : Nat) :
    Except fault r4300i_t :=
  match checkcp1 env.handler cpu with
  | .error cpu1 => .ok cpu1
  | .ok cpu1 =>
    let a := env.get_fpu_register_double_fs cpu1 fs
    let b := env.get_fpu_register_double_ft cpu1 ft
    match check_fpu_arg_d env.handler cpu1 a with
    | .error cpu2 => .ok cpu2
    | .ok cpu2 =>
      match check_fpu_arg_d env.handler cpu2 b with
      | .error cpu3 => .ok cpu3
      | .ok cpu3 =>
        match op cpu3 a b with
        | .error cpu4 => .ok cpu4
        | .ok (cpu4, result) =>
          match check_fpu_result_d env.handler cpu4 result with
          | .error cpu5 => .ok cpu5
          | .ok (cpu5, result1) => .ok (set_fpu_register_double cpu5 fd result1)

/-- An operand of an arithmetic instruction that must trap: a signaling NaN, a subnormal, or
a quiet NaN while `enable_invalid_operation` is set. -/
def f32_arg_traps (fcr31 : Nat) (x : Nat) : Prop :=
  f32_is_signaling_nan x ∨ f32_is_subnormal x ∨
    (f32_is_quiet_nan x ∧ fcr31_enable_invalid_operation fcr31 = true)

instance (fcr31 x : Nat) : Decidable (f32_arg_traps fcr31 x) :=
  inferInstanceAs (Decidable (f32_is_signaling_nan x ∨ f32_is_subnormal x ∨
    (f32_is_quiet_nan x ∧ fcr31_enable_invalid_operation fcr31 = true)))

/-- The double-precision counterpart of `f32_arg_traps`. -/
def f64_arg_traps (fcr31 : Nat) (x : Nat) : Prop :=
  f64_is_signaling_nan x ∨ f64_is_subnormal x ∨
    (f64_is_quiet_nan x ∧ fcr31_enable_invalid_operation fcr31 = true)

instance (fcr31 x : Nat) : Decidable (f64_arg_traps fcr31 x) :=
  inferInstanceAs (Decidable (f64_is_signaling_nan x ∨ f64_is_subnormal x ∨
    (f64_is_quiet_nan x ∧ fcr31_enable_invalid_operation fcr31 = true)))

/-- An environment for examples: the handler records the exception code in `cp0.cause` and
jumps to the general vector; the operand readers return the low word, resp. the whole, of
the register. -/
def fpu_env_example : fpu_env :=
  { handler := fun cpu pc code _ =>
      { cpu with pc := 0x80000180,
                 cp0 := { cpu.cp0 with EPC := pc, cause := code <<< 2 } },
    get_fpu_register_float_fs := fun cpu r => fgr_lo (cpu.f r),
    get_fpu_register_float_ft := fun cpu r => fgr_lo (cpu.f r),
    get_fpu_register_double_fs := fun cpu r => cpu.f r,
    get_fpu_register_double_ft := fun cpu r => cpu.f r }

/-- A state for examples: coprocessor 1 usable, `f[2]` the subnormal `1`, `f[4]` the float
`1.0`, every other register zero. -/
def r4300i_fpu_example : r4300i_t :=
  { r4300i_zero with
    prev_pc := 0x1000,
    cp0 := { cp0_zero with status := 0x20000000 },
    f := fun r => if r = 2 then 0x00000001 else if r = 4 then 0x3F800000 else 0 }

/-- An operation for examples: `result = fs`, with no host exception. -/
def fpu_op_example : fpu_op_t := fun cpu a _ => .ok (cpu, a)

/-! ### General-purpose registers and the moves to and from coprocessor 1 -/

/-- The function `set_register(cpu, r, value)` of `r4300i.h`; `value` is a `dword`. -/
def set_register (cpu : r4300i_t) (r : Nat) (value : Nat) : r4300i_t :=
  if r ≠ 0 then { cpu with gpr := Function.update cpu.gpr r (value % 2 ^ 64) } else cpu

/-- The function `get_register(cpu, r)` of `r4300i.h`. -/
def get_register (cpu : r4300i_t) (r : Nat) : Nat := cpu.gpr r

/-- A sequence of register writes `(r, value)`, applied from left to right. -/
def register_writes (cpu : r4300i_t) (writes : List (Nat × Nat)) : r4300i_t :=
  writes.foldl (fun c w => set_register c w.1 w.2) cpu

/-- The cast `(s64)` of an `s32` holding the word `w`, as the `dword` it is stored as: the
low 32 bits of `w` sign-extended to 64 bits. -/
def sign_extend32_to_64 (w : Nat) : Nat :=
  if w % 2 ^ 32 < 2 ^ 31 then w % 2 ^ 32 else w % 2 ^ 32 + (2 ^ 64 - 2 ^ 32)

/-- Modelled from the spec: `get_fpu_register_word_fr` is declared in the missing header
`r4300i_register_access.h`. The spec has the FPU accessors take the FR bit into account as
the 32-bit view of `r4300i.h` does, so it is `get_fpu_register_word`. -/
def get_fpu_register_word_fr (cpu : r4300i_t) (r : Nat) : Except fault Nat :=
  get_fpu_register_word cpu r

/-- Modelled from the spec: `set_fpu_register_word_fr` is declared in the missing header
`r4300i_register_access.h`. The spec has the FPU accessors take the FR bit into account as
the 32-bit view of `r4300i.h` does, so it is `set_fpu_register_word`. -/
def set_fpu_register_word_fr (cpu : r4300i_t) (r : Nat) (value : Nat) :
    Except fault r4300i_t :=
  set_fpu_register_word cpu r value

/-- The instruction `mips_mfc1` with register fields `rt` and `fs`. -/
def mips_mfc1 (handler : exception_handler_t) (cpu : r4300i_t) (rt fs : Nat) :
    Except fault r4300i_t :=
  match checkcp1_preservecause handler cpu with
  | .error cpu1 => .ok cpu1
  | .ok cpu1 =>
    match get_fpu_register_word_fr cpu1 fs with
    | .error e => .error e
    | .ok value => .ok (set_register cpu1 rt (sign_extend32_to_64 value))

/-- The instruction `mips_mtc1` with register fields `rt` and `rd`. -/
def mips_mtc1 (handler : exception_handler_t) (cpu : r4300i_t) (rt rd : Nat) :
    Except fault r4300i_t :=
  match checkcp1_preservecause handler cpu with
  | .error cpu1 => .ok cpu1
  | .ok cpu1 =>
    let value := get_register cpu1 rt % 2 ^ 32
    set_fpu_register_word_fr cpu1 rd value

/-- The instruction `mips_ctc1` with register fields `rt` and `rd`. -/
def mips_ctc1 (handler : exception_handler_t) (cpu : r4300i_t) (rt rd : Nat) :
    Except fault r4300i_t :=
  match checkcp1_preservecause handler cpu with
  | .error cpu1 => .ok cpu1
  | .ok cpu1 =>
    let fs := rd % 2 ^ 8
    let value := get_register cpu1 rt % 2 ^ 32
    if fs = 0 then .ok cpu1
    else if fs = 31 then
      let value1 := value &&& 0x183ffff
      .ok (fire_fpu_exception handler { cpu1 with fcr31 := value1 }).2
    else .error .fcr_undefined

/-- Whether bit `i` of `fcr31` belongs to a named field of `fcr31_t`: `rounding_mode` (0..1),
the flags (2..6), the enables (7..11), the causes (12..17), `compare` (23) and `fs` (24). -/
def fcr31_named_bit (i : Nat) : Bool := decide (i < 18) || i == 23 || i == 24

/-- A state for examples: coprocessor 1 usable, FR = 1. -/
def r4300i_fr_example : r4300i_t :=
  { r4300i_zero with cp0 := { cp0_zero with status := 0x24000000 } }

/-- A state for examples: `gpr[0]` holds 5. -/
def r4300i_gpr0_example : r4300i_t :=
  { r4300i_zero with gpr := fun r => if r = 0 then 5 else 0 }

/-- A state for examples: coprocessor 1 usable, FR = 0, `gpr[8] = 0xFFFFFFFF80000001`,
`gpr[9] = 0xFFFFFFFFFFFFFFFF`, `f[2] = 0x1111111122222222`. -/
def r4300i_move_example : r4300i_t :=
  { r4300i_zero with
    prev_pc := 0x1000,
    cp0 := { cp0_zero with status := 0x20000000 },
    gpr := fun r => if r = 8 then 0xFFFFFFFF80000001 else if r = 9 then 0xFFFFFFFFFFFFFFFF
      else 0,
    f := fun r => if r = 2 then 0x1111111122222222 else 0 }

/-! ### Argument checks of the conversions to integer (`fpu_instructions.c`) -/

/-- The value of a finite float times `2 ^ 150`, an integer: a normal float is
`(2^23 + mantissa) * 2^(exponent - 150)`, a subnormal or zero is `mantissa * 2^(-149)`.
The shift `n <<< k` is the product `n * 2 ^ k`. -/
def f32_scaled (x : Nat) : Int :=
  let magnitude : Nat :=
    if f32_exponent x = 0 then 2 * f32_mantissa x
    else (2 ^ 23 + f32_mantissa x) <<< f32_exponent x
  if signbit_s x then -(magnitude : Int) else (magnitude : Int)

/-- The value of a finite double times `2 ^ 1075`, an integer: a normal double is
`(2^52 + mantissa) * 2^(exponent - 1075)`, a subnormal or zero is `mantissa * 2^(-1074)`. -/
def f64_scaled (x : Nat) : Int :=
  let magnitude : Nat :=
    if f64_exponent x = 0 then 2 * f64_mantissa x
    else (2 ^ 52 + f64_mantissa x) <<< f64_exponent x
  if signbit_d x then -(magnitude : Int) else (magnitude : Int)

/-- The function `set_cause_cvt_w_s(f)`; the comparisons with the constants
`2147483648.0` and `-2147483648.0` are exact, here on the values times `2 ^ 150`. -/
def set_cause_cvt_w_s (cpu : r4300i_t) (f : Nat) : r4300i_t :=
  match fpclassify_s f with
  | .FP_NAN => set_cause_unimplemented_operation cpu
  | .FP_INFINITE => set_cause_unimplemented_operation cpu
  | .FP_SUBNORMAL => set_cause_unimplemented_operation cpu
  | .FP_NORMAL =>
    if f32_scaled f ≥ (2147483648 <<< 150 : Nat) ∨
        f32_scaled f < -(2147483648 <<< 150 : Nat) then
      set_cause_unimplemented_operation cpu
    else cpu
  | .FP_ZERO => cpu

/-- The function `set_cause_cvt_w_d(d)`; the values are taken times `2 ^ 1075`. -/
def set_cause_cvt_w_d (cpu : r4300i_t) (d : Nat) : r4300i_t :=
  match fpclassify_d d with
  | .FP_NAN => set_cause_unimplemented_operation cpu
  | .FP_INFINITE => set_cause_unimplemented_operation cpu
  | .FP_SUBNORMAL => set_cause_unimplemented_operation cpu
  | .FP_NORMAL =>
    if f64_scaled d ≥ (2147483648 <<< 1075 : Nat) ∨
        f64_scaled d < -(2147483648 <<< 1075 : Nat) then
      set_cause_unimplemented_operation cpu
    else cpu
  | .FP_ZERO => cpu

/-- The function `set_cause_cvt_l_s(f)`; the values are taken times `2 ^ 150`. -/
def set_cause_cvt_l_s (cpu : r4300i_t) (f : Nat) : r4300i_t :=
  match fpclassify_s f with
  | .FP_NAN => set_cause_unimplemented_operation cpu
  | .FP_INFINITE => set_cause_unimplemented_operation cpu
  | .FP_SUBNORMAL => set_cause_unimplemented_operation cpu
  | .FP_NORMAL =>
    if f32_scaled f ≥ (9007199254740992 <<< 150 : Nat) ∨
        f32_scaled f ≤ -(9007199254740992 <<< 150 : Nat) then
      set_cause_unimplemented_operation cpu
    else cpu
  | .FP_ZERO => cpu

/-- The function `set_cause_cvt_l_d(d)`; the values are taken times `2 ^ 1075`. -/
def set_cause_cvt_l_d (cpu : r4300i_t) (d : Nat) : r4300i_t :=
  match fpclassify_d d with
  | .FP_NAN => set_cause_unimplemented_operation cpu
  | .FP_INFINITE => set_cause_unimplemented_operation cpu
  | .FP_SUBNORMAL => set_cause_unimplemented_operation cpu
  | .FP_NORMAL =>
    if f64_scaled d ≥ (9007199254740992 <<< 1075 : Nat) ∨
        f64_scaled d ≤ -(9007199254740992 <<< 1075 : Nat) then
      set_cause_unimplemented_operation cpu
    else cpu
  | .FP_ZERO => cpu

/-- A finite float of magnitude at least `2 ^ n`. -/
def f32_magnitude_ge (x : Nat) (n : Nat) : Prop :=
  (f32_is_normal x ∨ f32_is_subnormal x ∨ f32_is_zero x) ∧
    2 ^ n <<< 150 ≤ (f32_scaled x).natAbs

instance (x n : Nat) : Decidable (f32_magnitude_ge x n) :=
  inferInstanceAs (Decidable ((f32_is_normal x ∨ f32_is_subnormal x ∨ f32_is_zero x) ∧
    2 ^ n <<< 150 ≤ (f32_scaled x).natAbs))

/-- A finite double of magnitude at least `2 ^ n`. -/
def f64_magnitude_ge (x : Nat) (n : Nat) : Prop :=
  (f64_is_normal x ∨ f64_is_subnormal x ∨ f64_is_zero x) ∧
    2 ^ n <<< 1075 ≤ (f64_scaled x).natAbs

instance (x n : Nat) : Decidable (f64_magnitude_ge x n) :=
  inferInstanceAs (Decidable ((f64_is_normal x ∨ f64_is_subnormal x ∨ f64_is_zero x) ∧
    2 ^ n <<< 1075 ≤ (f64_scaled x).natAbs))

/-! ### Comparison instructions (`fpu_instructions.c`) -/

/-- The C library function `isnanf` on a float bit pattern. -/
def isnanf (x : Nat) : Bool := f32_exponent x == 255 && f32_mantissa x != 0

/-- The C library macro `isnan` on a double bit pattern. -/
def isnan (x : Nat) : Bool := f64_exponent x == 2047 && f64_mantissa x != 0

/-- Modelled from the spec: `is_nan_f` belongs to the missing header `float_util.h`; the
spec has the signaling predicates raise `invalid_operation` on any NaN. -/
def is_nan_f (x : Nat) : Bool := isnanf x

/-- Modelled from the spec: `is_nan_d` belongs to the missing header `float_util.h`; the
spec has the signaling predicates raise `invalid_operation` on any NaN. -/
def is_nan_d (x : Nat) : Bool := isnan x

/-- The position of a non-NaN float in the IEEE-754 order: sign and magnitude, so that both
zeros are 0 and the infinities are the extremes. -/
def f32_order_key (x : Nat) : Int :=
  if signbit_s x then -((x % 2 ^ 31 : Nat) : Int) else ((x % 2 ^ 31 : Nat) : Int)

/-- The position of a non-NaN double in the IEEE-754 order. -/
def f64_order_key (x : Nat) : Int :=
  if signbit_d x then -((x % 2 ^ 63 : Nat) : Int) else ((x % 2 ^ 63 : Nat) : Int)

/-- The C comparison `a == b` on floats: false when an operand is NaN. -/
def f32_eq (a b : Nat) : Bool :=
  !isnanf a && !isnanf b && decide (f32_order_key a = f32_order_key b)

/-- The C comparison `a < b` on floats: false when an operand is NaN. -/
def f32_lt (a b : Nat) : Bool :=
  !isnanf a && !isnanf b && decide (f32_order_key a < f32_order_key b)

/-- The C comparison `a <= b` on floats: false when an operand is NaN. -/
def f32_le (a b : Nat) : Bool :=
  !isnanf a && !isnanf b && decide (f32_order_key a ≤ f32_order_key b)

/-- The C comparison `a == b` on doubles: false when an operand is NaN. -/
def f64_eq (a b : Nat) : Bool :=
  !isnan a && !isnan b && decide (f64_order_key a = f64_order_key b)

/-- The C comparison `a < b` on doubles: false when an operand is NaN. -/
def f64_lt (a b : Nat) : Bool :=
  !isnan a && !isnan b && decide (f64_order_key a < f64_order_key b)

/-- The C comparison `a <= b` on doubles: false when an operand is NaN. -/
def f64_le (a b : Nat) : Bool :=
  !isnan a && !isnan b && decide (f64_order_key a ≤ f64_order_key b)

/-- The macro `unordered_s(a, b)`. -/
def unordered_s (a b : Nat) : Bool := isnanf a || isnanf b

/-- The macro `unordered_d(a, b)`. -/
def unordered_d (a b : Nat) : Bool := isnan a || isnan b

/-- The macro `check_qnans_f(fs, ft)`; `Except.error` is the state of the early return. -/
def check_qnans_f (handler : exception_handler_t) (cpu : r4300i_t) (fs ft : Nat) :
    Except r4300i_t r4300i_t :=
  if is_qnan_f fs || is_qnan_f ft then
    let fired := fire_fpu_exception handler (set_cause_invalid_operation cpu)
    if fired.1 then .error fired.2 else .ok fired.2
  else .ok cpu

/-- The macro `check_qnans_d(fs, ft)`. -/
def check_qnans_d (handler : exception_handler_t) (cpu : r4300i_t) (fs ft : Nat) :
    Except r4300i_t r4300i_t :=
  if is_qnan_d fs || is_qnan_d ft then
    let fired := fire_fpu_exception handler (set_cause_invalid_operation cpu)
    if fired.1 then .error fired.2 else .ok fired.2
  else .ok cpu

/-- The macro `check_nans_f(fs, ft)`. -/
def check_nans_f (handler : exception_handler_t) (cpu : r4300i_t) (fs ft : Nat) :
    Except r4300i_t r4300i_t :=
  if is_nan_f fs || is_nan_f ft then
    let fired := fire_fpu_exception handler (set_cause_invalid_operation cpu)
    if fired.1 then .error fired.2 else .ok fired.2
  else .ok cpu

/-- The macro `check_nans_d(fs, ft)`. -/
def check_nans_d (handler : exception_handler_t) (cpu : r4300i_t) (fs ft : Nat) :
    Except r4300i_t r4300i_t :=
  if is_nan_d fs || is_nan_d ft then
    let fired := fire_fpu_exception handler (set_cause_invalid_operation cpu)
    if fired.1 then .error fired.2 else .ok fired.2
  else .ok cpu

/-- The assignment `N64CPU.fcr31.compare = b`. -/
def set_fcr31_compare (cpu : r4300i_t) (b : Bool) : r4300i_t :=
  { cpu with fcr31 := write_bit32 cpu.fcr31 23 b }

/-- The body shared by the sixteen single-precision comparison instructions: `checkcp1`,
the reads of `fs` and `ft`, the NaN check `check` (`check_qnans_f` or `check_nans_f`), and
the assignment of the predicate `pred` to `fcr31.compare`. -/
def fpu_compare_s (env : fpu_env)
    (check : exception_handler_t → r4300i_t → Nat → Nat → Except r4300i_t r4300i_t)
    (pred : Nat → Nat → Bool) (cpu : r4300i_t) (fs ft : Nat) : r4300i_t :=
  match checkcp1 env.handler cpu with
  | .error cpu1 => cpu1
  | .ok cpu1 =>
    let a := env.get_fpu_register_float_fs cpu1 fs
    let b := env.get_fpu_register_float_ft cpu1 ft
    match check env.handler cpu1 a b with
    | .error cpu2 => cpu2
    | .ok cpu2 => set_fcr31_compare cpu2 (pred a b)

/-- The body shared by the sixteen double-precision comparison instructions. -/
def fpu_compare_d (env : fpu_env)
    (check : exception_handler_t → r4300i_t → Nat → Nat → Except r4300i_t r4300i_t)
    (pred : Nat → Nat → Bool) (cpu : r4300i_t) (fs ft : Nat) : r4300i_t :=
  match checkcp1 env.handler cpu with
  | .error cpu1 => cpu1
  | .ok cpu1 =>
    let a := env.get_fpu_register_double_fs cpu1 fs
    let b := env.get_fpu_register_double_ft cpu1 ft
    match check env.handler cpu1 a b with
    | .error cpu2 => cpu2
    | .ok cpu2 => set_fcr31_compare cpu2 (pred a b)

/-- The instruction `mips_cp_c_f_s` with register fields `fs` and `ft`. -/
def mips_cp_c_f_s (env : fpu_env) (cpu : r4300i_t) (fs ft : Nat) : r4300i_t :=
  fpu_compare_s env check_qnans_f (fun _ _ => false) cpu fs ft

/-- The instruction `mips_cp_c_un_s` with register fields `fs` and `ft`. -/
def mips_cp_c_un_s (env : fpu_env) (cpu : r4300i_t) (fs ft : Nat) : r4300i_t :=
  fpu_compare_s env check_qnans_f (fun a b => unordered_s a b) cpu fs ft

/-- The instruction `mips_cp_c_eq_s` with register fields `fs` and `ft`. -/
def mips_cp_c_eq_s (env : fpu_env) (cpu : r4300i_t) (fs ft : Nat) : r4300i_t :=
  fpu_compare_s env check_qnans_f (fun a b => f32_eq a b) cpu fs ft

/-- The instruction `mips_cp_c_ueq_s` with register fields `fs` and `ft`. -/
def mips_cp_c_ueq_s (env : fpu_env) (cpu : r4300i_t) (fs ft : Nat) : r4300i_t :=
  fpu_compare_s env check_qnans_f (fun a b => f32_eq a b || unordered_s a b) cpu fs ft

/-- The instruction `mips_cp_c_olt_s` with register fields `fs` and `ft`. -/
def mips_cp_c_olt_s (env : fpu_env) (cpu : r4300i_t) (fs ft : Nat) : r4300i_t :=
  fpu_compare_s env check_qnans_f (fun a b => f32_lt a b) cpu fs ft

/-- The instruction `mips_cp_c_ult_s` with register fields `fs` and `ft`. -/
def mips_cp_c_ult_s (env : fpu_env) (cpu : r4300i_t) (fs ft : Nat) : r4300i_t :=
  fpu_compare_s env check_qnans_f (fun a b => f32_lt a b || unordered_s a b) cpu fs ft

/-- The instruction `mips_cp_c_ole_s` with register fields `fs` and `ft`. -/
def mips_cp_c_ole_s (env : fpu_env) (cpu : r4300i_t) (fs ft : Nat) : r4300i_t :=
  fpu_compare_s env check_qnans_f (fun a b => f32_le a b) cpu fs ft

/-- The instruction `mips_cp_c_ule_s` with register fields `fs` and `ft`. -/
def mips_cp_c_ule_s (env : fpu_env) (cpu : r4300i_t) (fs ft : Nat) : r4300i_t :=
  fpu_compare_s env check_qnans_f (fun a b => f32_le a b || unordered_s a b) cpu fs ft

/-- The instruction `mips_cp_c_sf_s` with register fields `fs` and `ft`. -/
def mips_cp_c_sf_s (env : fpu_env) (cpu : r4300i_t) (fs ft : Nat) : r4300i_t :=
  fpu_compare_s env check_nans_f (fun _ _ => false) cpu fs ft

/-- The instruction `mips_cp_c_ngle_s` with register fields `fs` and `ft`. -/
def mips_cp_c_ngle_s (env : fpu_env) (cpu : r4300i_t) (fs ft : Nat) : r4300i_t :=
  fpu_compare_s env check_nans_f (fun a b => unordered_s a b) cpu fs ft

/-- The instruction `mips_cp_c_seq_s` with register fields `fs` and `ft`. -/
def mips_cp_c_seq_s (env : fpu_env) (cpu : r4300i_t) (fs ft : Nat) : r4300i_t :=
  fpu_compare_s env check_nans_f (fun a b => f32_eq a b) cpu fs ft

/-- The instruction `mips_cp_c_ngl_s` with register fields `fs` and `ft`. -/
def mips_cp_c_ngl_s (env : fpu_env) (cpu : r4300i_t) (fs ft : Nat) : r4300i_t :=
  fpu_compare_s env check_nans_f (fun a b => f32_eq a b || unordered_s a b) cpu fs ft

/-- The instruction `mips_cp_c_lt_s` with register fields `fs` and `ft`. -/
def mips_cp_c_lt_s (env : fpu_env) (cpu : r4300i_t) (fs ft : Nat) : r4300i_t :=
  fpu_compare_s env check_nans_f (fun a b => f32_lt a b) cpu fs ft

/-- The instruction `mips_cp_c_nge_s` with register fields `fs` and `ft`. -/
def mips_cp_c_nge_s (env : fpu_env) (cpu : r4300i_t) (fs ft : Nat) : r4300i_t :=
  fpu_compare_s env check_nans_f (fun a b => f32_lt a b || unordered_s a b) cpu fs ft

/-- The instruction `mips_cp_c_le_s` with register fields `fs` and `ft`. -/
def mips_cp_c_le_s (env : fpu_env) (cpu : r4300i_t) (fs ft : Nat) : r4300i_t :=
  fpu_compare_s env check_nans_f (fun a b => f32_le a b) cpu fs ft

/-- The instruction `mips_cp_c_ngt_s` with register fields `fs` and `ft`. -/
def mips_cp_c_ngt_s (env : fpu_env) (cpu : r4300i_t) (fs ft : Nat) : r4300i_t :=
  fpu_compare_s env check_nans_f (fun a b => f32_le a b || unordered_s a b) cpu fs ft

/-- The instruction `mips_cp_c_f_d` with register fields `fs` and `ft`. -/
def mips_cp_c_f_d (env : fpu_env) (cpu : r4300i_t) (fs ft : Nat) : r4300i_t :=
  fpu_compare_d env check_qnans_d (fun _ _ => false) cpu fs ft

/-- The instruction `mips_cp_c_un_d` with register fields `fs` and `ft`. -/
def mips_cp_c_un_d (env : fpu_env) (cpu : r4300i_t) (fs ft : Nat) : r4300i_t :=
  fpu_compare_d env check_qnans_d (fun a b => unordered_d a b) cpu fs ft

/-- The instruction `mips_cp_c_eq_d` with register fields `fs` and `ft`. -/
def mips_cp_c_eq_d (env : fpu_env) (cpu : r4300i_t) (fs ft : Nat) : r4300i_t :=
  fpu_compare_d env check_qnans_d (fun a b => f64_eq a b) cpu fs ft

/-- The instruction `mips_cp_c_ueq_d` with register fields `fs` and `ft`. -/
def mips_cp_c_ueq_d (env : fpu_env) (cpu : r4300i_t) (fs ft : Nat) : r4300i_t :=
  fpu_compare_d env check_qnans_d (fun a b => f64_eq a b || unordered_d a b) cpu fs ft

/-- The instruction `mips_cp_c_olt_d` with register fields `fs` and `ft`. -/
def mips_cp_c_olt_d (env : fpu_env) (cpu : r4300i_t) (fs ft : Nat) : r4300i_t :=
  fpu_compare_d env check_qnans_d (fun a b => f64_lt a b) cpu fs ft

/-- The instruction `mips_cp_c_ult_d` with register fields `fs` and `ft`. -/
def mips_cp_c_ult_d (env : fpu_env) (cpu : r4300i_t) (fs ft : Nat) : r4300i_t :=
  fpu_compare_d env check_qnans_d (fun a b => f64_lt a b || unordered_d a b) cpu fs ft

/-- The instruction `mips_cp_c_ole_d` with register fields `fs` and `ft`. -/
def mips_cp_c_ole_d (env : fpu_env) (cpu : r4300i_t) (fs ft : Nat) : r4300i_t :=
  fpu_compare_d env check_qnans_d (fun a b => f64_le a b) cpu fs ft

/-- The instruction `mips_cp_c_ule_d` with register fields `fs` and `ft`. -/
def mips_cp_c_ule_d (env : fpu_env) (cpu : r4300i_t) (fs ft : Nat) : r4300i_t :=
  fpu_compare_d env check_qnans_d (fun a b => f64_le a b || unordered_d a b) cpu fs ft

/-- The instruction `mips_cp_c_sf_d` with register fields `fs` and `ft`. -/
def mips_cp_c_sf_d (env : fpu_env) (cpu : r4300i_t) (fs ft : Nat) : r4300i_t :=
  fpu_compare_d env check_nans_d (fun _ _ => false) cpu fs ft

/-- The instruction `mips_cp_c_ngle_d` with register fields `fs` and `ft`. -/
def mips_cp_c_ngle_d (env : fpu_env) (cpu : r4300i_t) (fs ft : Nat) : r4300i_t :=
  fpu_compare_d env check_nans_d (fun a b => unordered_d a b) cpu fs ft

/-- The instruction `mips_cp_c_seq_d` with register fields `fs` and `ft`. -/
def mips_cp_c_seq_d (env : fpu_env) (cpu : r4300i_t) (fs ft : Nat) : r4300i_t :=
  fpu_compare_d env check_nans_d (fun a b => f64_eq a b) cpu fs ft

/-- The instruction `mips_cp_c_ngl_d` with register fields `fs` and `ft`. -/
def mips_cp_c_ngl_d (env : fpu_env) (cpu : r4300i_t) (fs ft : Nat) : r4300i_t :=
  fpu_compare_d env check_nans_d (fun a b => f64_eq a b || unordered_d a b) cpu fs ft

/-- The instruction `mips_cp_c_lt_d` with register fields `fs` and `ft`. -/
def mips_cp_c_lt_d (env : fpu_env) (cpu : r4300i_t) (fs ft : Nat) : r4300i_t :=
  fpu_compare_d env check_nans_d (fun a b => f64_lt a b) cpu fs ft

/-- The instruction `mips_cp_c_nge_d` with register fields `fs` and `ft`. The source writes
`unordered_s(fs, ft)` here: the doubles are converted to float for `isnanf`, and the
conversion maps a NaN to a NaN and every other double to a non-NaN, so the value is that
of `unordered_d`. -/
def mips_cp_c_nge_d (env : fpu_env) (cpu : r4300i_t) (fs ft : Nat) : r4300i_t :=
  fpu_compare_d env check_nans_d (fun a b => f64_lt a b || unordered_d a b) cpu fs ft

/-- The instruction `mips_cp_c_le_d` with register fields `fs` and `ft`. -/
def mips_cp_c_le_d (env : fpu_env) (cpu : r4300i_t) (fs ft : Nat) : r4300i_t :=
  fpu_compare_d env check_nans_d (fun a b => f64_le a b) cpu fs ft

/-- The instruction `mips_cp_c_ngt_d` with register fields `fs` and `ft`. The source writes
`unordered_s(fs, ft)` here: the doubles are converted to float for `isnanf`, and the
conversion maps a NaN to a NaN and every other double to a non-NaN, so the value is that
of `unordered_d`. -/
def mips_cp_c_ngt_d (env : fpu_env) (cpu : r4300i_t) (fs ft : Nat) : r4300i_t :=
  fpu_compare_d env check_nans_d (fun a b => f64_le a b || unordered_d a b) cpu fs ft

/-- A comparison instruction: environment, state, register fields `fs` and `ft`. -/
abbrev fpu_compare_instr := fpu_env → r4300i_t → Nat → Nat → r4300i_t

/-- The eight quiet comparison instructions in single precision. -/
def quiet_compares_s : List fpu_compare_instr :=
  [mips_cp_c_f_s, mips_cp_c_un_s, mips_cp_c_eq_s, mips_cp_c_ueq_s,
   mips_cp_c_olt_s, mips_cp_c_ult_s, mips_cp_c_ole_s, mips_cp_c_ule_s]

/-- The eight signaling comparison instructions in single precision. -/
def signaling_compares_s : List fpu_compare_instr :=
  [mips_cp_c_sf_s, mips_cp_c_ngle_s, mips_cp_c_seq_s, mips_cp_c_ngl_s,
   mips_cp_c_lt_s, mips_cp_c_nge_s, mips_cp_c_le_s, mips_cp_c_ngt_s]

/-- The eight quiet comparison instructions in double precision. -/
def quiet_compares_d : List fpu_compare_instr :=
  [mips_cp_c_f_d, mips_cp_c_un_d, mips_cp_c_eq_d, mips_cp_c_ueq_d,
   mips_cp_c_olt_d, mips_cp_c_ult_d, mips_cp_c_ole_d, mips_cp_c_ule_d]

/-- The eight signaling comparison instructions in double precision. -/
def signaling_compares_d : List fpu_compare_instr :=
  [mips_cp_c_sf_d, mips_cp_c_ngle_d, mips_cp_c_seq_d, mips_cp_c_ngl_d,
   mips_cp_c_lt_d, mips_cp_c_nge_d, mips_cp_c_le_d, mips_cp_c_ngt_d]

/-- A state for examples: coprocessor 1 usable, `enable_invalid_operation` set, `f[2]` a
quiet NaN (as a float and as a double), `f[4]` the double `1.0`. -/
def r4300i_compare_example : r4300i_t :=
  { r4300i_zero with
    prev_pc := 0x1000,
    fcr31 := 0x800,
    cp0 := { cp0_zero with status := 0x20000000 },
    f := fun r => if r = 2 then 0x7FF800007FC00000 else if r = 4 then 0x3FF0000000000000
      else 0 }

/-- A state for examples: as `r4300i_compare_example` with every enable bit clear and
`f[6]` a signaling NaN (as a float and as a double). -/
def r4300i_compare_quiet_example : r4300i_t :=
  { r4300i_zero with
    prev_pc := 0x1000,
    cp0 := { cp0_zero with status := 0x20000000 },
    f := fun r => if r = 2 then 0x7FF800007FC00000 else if r = 4 then 0x3FF0000000000000
      else if r = 6 then 0x7FF000017F800001 else 0 }

/-! ### Reads of coprocessor-0 registers -/

/-- The function `get_cp0_register(cpu, r)`; the body assigns nothing, so the state is not
returned. -/
def get_cp0_register (cpu : r4300i_t) (r : Nat) : Except fault Nat :=
  if r = R4300I_CP0_REG_ENTRYLO0 then .ok cpu.cp0.entry_lo0
  else if r = R4300I_CP0_REG_BADVADDR then .ok cpu.cp0.bad_vaddr
  else if r = R4300I_CP0_REG_STATUS then .ok cpu.cp0.status
  else if r = R4300I_CP0_REG_ENTRYHI then .ok cpu.cp0.entry_hi
  else if r = R4300I_CP0_REG_CAUSE then .ok cpu.cp0.cause
  else if r = R4300I_CP0_REG_EPC then .ok cpu.cp0.EPC
  else if r = R4300I_CP0_REG_COUNT then
    let shifted := cpu.cp0.count >>> 1
    .ok (shifted % 2 ^ 32)
  else if r = R4300I_CP0_REG_COMPARE then .ok cpu.cp0.compare
  else if r = R4300I_CP0_REG_INDEX then .ok (cpu.cp0.index &&& 0x8000003F)
  else if r = R4300I_CP0_REG_CONTEXT then .ok cpu.cp0.context
  else if r = R4300I_CP0_REG_PAGEMASK then .ok cpu.cp0.page_mask
  else if r = R4300I_CP0_REG_WIRED then .ok cpu.cp0.wired
  else .error .unsupported_cp0_read

/-- The invariant named in the comment on the field `interrupts` of `r4300i_t`: the byte is
the cached value of `cp0.cause.interrupt_pending & cp0.status.im`. -/
def r4300i_t.interrupts_cached (cpu : r4300i_t) : Prop :=
  cpu.interrupts = cause_interrupt_pending cpu.cp0.cause &&& status_im cpu.cp0.status

instance (cpu : r4300i_t) : Decidable cpu.interrupts_cached :=
  inferInstanceAs (Decidable (cpu.interrupts =
    cause_interrupt_pending cpu.cp0.cause &&& status_im cpu.cp0.status))

/-- A state for examples: the timer interrupt is pending (`ip7`) and enabled (`im7`), and
`interrupts` holds the cached byte `0x80`. -/
def r4300i_timer_example : r4300i_t :=
  { r4300i_zero with
    cp0 := { cp0_zero with cause := 0x8000, status := 0x8001, count := 0x1FFFFFFFF },
    interrupts := 0x80 }

/-! ### Conversions from a 64-bit integer and the store of a double (`fpu_instructions.c`) -/

/-- The cast `(s64)` of a `dword`: its two's-complement value. -/
def to_s64 (v : Nat) : Int :=
  if v % 2 ^ 64 < 2 ^ 63 then ((v % 2 ^ 64 : Nat) : Int)
  else ((v % 2 ^ 64 : Nat) : Int) - ((2 ^ 64 : Nat) : Int)

/-- The statement `fpu_op_check_except({ result = (double)fs; })`, resp. `(float)fs`: a host
conversion under a macro of a missing header. `Except.error` is the state of an early
return, `Except.ok` the state and the bit pattern of `result`. -/
abbrev fpu_convert_t := r4300i_t → Nat → Except r4300i_t (r4300i_t × Nat)

/-- The `if` statement shared by `mips_cp_cvt_d_l` and `mips_cp_cvt_s_l`: the range check of
the source integer `fs`. `Except.error` is the state of the early return. -/
def cvt_from_l_range_check (handler : exception_handler_t) (cpu : r4300i_t) (fs : Nat) :
    Except r4300i_t r4300i_t :=
  if to_s64 fs ≥ to_s64 0x0080000000000000 ∨ to_s64 fs < to_s64 0xff80000000000000 then
    let fired := fire_fpu_exception handler (set_cause_unimplemented_operation cpu)
    if fired.1 then .error fired.2 else .ok fired.2
  else .ok cpu

/-- The instruction `mips_cp_cvt_d_l` with register fields `fs` and `fd`. The reader
`get_fpu_register_dword_fr` belongs to a missing header and is a parameter. -/
def mips_cp_cvt_d_l (env : fpu_env) (get_fpu_register_dword_fr : r4300i_t → Nat → Nat)
    (convert : fpu_convert_t) (cpu : r4300i_t) (fs fd : Nat) : Except fault r4300i_t :=
  match checkcp1 env.handler cpu with
  | .error cpu1 => .ok cpu1
  | .ok cpu1 =>
    let fs_value := get_fpu_register_dword_fr cpu1 fs
    match cvt_from_l_range_check env.handler cpu1 fs_value with
    | .error cpu2 => .ok cpu2
    | .ok cpu2 =>
      match convert cpu2 fs_value with
      | .error cpu3 => .ok cpu3
      | .ok (cpu3, result) =>
        match check_fpu_result_d env.handler cpu3 result with
        | .error cpu4 => .ok cpu4
        | .ok (cpu4, result1) => .ok (set_fpu_register_double cpu4 fd result1)

/-- The instruction `mips_cp_cvt_s_l` with register fields `fs` and `fd`. -/
def mips_cp_cvt_s_l (env : fpu_env) (get_fpu_register_dword_fr : r4300i_t → Nat → Nat)
    (convert : fpu_convert_t) (cpu : r4300i_t) (fs fd : Nat) : Except fault r4300i_t :=
  match checkcp1 env.handler cpu with
  | .error cpu1 => .ok cpu1
  | .ok cpu1 =>
    let fs_value := get_fpu_register_dword_fr cpu1 fs
    match cvt_from_l_range_check env.handler cpu1 fs_value with
    | .error cpu2 => .ok cpu2
    | .ok cpu2 =>
      match convert cpu2 fs_value with
      | .error cpu3 => .ok cpu3
      | .ok (cpu3, result) =>
        match check_fpu_result_s env.handler cpu3 result with
        | .error cpu4 => .ok cpu4
        | .ok (cpu4, result1) => set_fpu_register_float cpu4 fd result1

/-- A conversion for examples: the result is the bit pattern 0, no host exception. -/
def fpu_convert_example : fpu_convert_t := fun cpu _ => .ok (cpu, 0)

/-- A state for examples: coprocessor 1 usable, `f[2] = 2^55`, `f[4] = 2^55 - 1`,
`f[6] = -2^55`, `f[8] = -2^55 - 1` (as 64-bit two's-complement integers). -/
def r4300i_long_example : r4300i_t :=
  { r4300i_zero with
    prev_pc := 0x1000,
    cp0 := { cp0_zero with status := 0x20000000 },
    f := fun r => if r = 2 then 0x0080000000000000 else if r = 4 then 0x007FFFFFFFFFFFFF
      else if r = 6 then 0xFF80000000000000 else if r = 8 then 0xFF7FFFFFFFFFFFFF else 0 }

/-- The parts of the bus that `mips_sdc1` calls and the sources do not contain. A failed
`resolve_virtual_address` leaves its error in `N64CP0.tlb_error`: here it is the
`Except.error` value. Physical memory is a map from address to 64-bit value. -/
structure bus_env where
  resolve_virtual_address : r4300i_t → Nat → bus_access_t → Except Nat Nat
  on_tlb_exception : r4300i_t → Nat → r4300i_t
  get_tlb_exception_code : Nat → bus_access_t → Nat
  n64_write_physical_dword : (Nat → Nat) → Nat → Nat → (Nat → Nat)

/-- The conversion of the `s16` field `offset` to `u64`: sign extension of the low 16
bits. -/
def sign_extend16_to_64 (offset : Nat) : Nat :=
  if offset % 2 ^ 16 < 2 ^ 15 then offset % 2 ^ 16 else offset % 2 ^ 16 + (2 ^ 64 - 2 ^ 16)

/-- The instruction `mips_sdc1` with fields `base`, `ft` and `offset`, on the CPU state and
physical memory. The reader `get_fpu_register_dword_fr` is a parameter. -/
def mips_sdc1 (handler : exception_handler_t) (bus : bus_env)
    (get_fpu_register_dword_fr : r4300i_t → Nat → Nat)
    (cpu : r4300i_t) (mem : Nat → Nat) (base ft offset : Nat) : r4300i_t × (Nat → Nat) :=
  match checkcp1_preservecause handler cpu with
  | .error cpu1 => (cpu1, mem)
  | .ok cpu1 =>
    let address := (get_register cpu1 base + sign_extend16_to_64 offset) % 2 ^ 64
    let value := get_fpu_register_dword_fr cpu1 ft
    match bus.resolve_virtual_address cpu1 address .BUS_LOAD with
    | .error tlb_error =>
      let cpu2 := bus.on_tlb_exception cpu1 address
      (handler cpu2 cpu2.prev_pc (bus.get_tlb_exception_code tlb_error .BUS_STORE) 0, mem)
    | .ok physical => (cpu1, bus.n64_write_physical_dword mem physical value)

/-- A bus for examples in which every page is mapped and valid with the dirty bit clear: a
load resolves to the low 32 bits of the address, a store fails with the error 2
(TLB modification). The exception code is 1 (modification) for a store that failed so,
else 2 for a load and 3 for a store. -/
def bus_env_example : bus_env :=
  { resolve_virtual_address := fun _ address access =>
      match access with
      | .BUS_LOAD => .ok (address % 2 ^ 32)
      | .BUS_STORE => .error 2,
    on_tlb_exception := fun cpu address =>
      { cpu with cp0 := { cpu.cp0 with bad_vaddr := address % 2 ^ 32 } },
    get_tlb_exception_code := fun tlb_error access =>
      match access with
      | .BUS_LOAD => 2
      | .BUS_STORE => if tlb_error = 2 then 1 else 3,
    n64_write_physical_dword := fun mem physical value =>
      Function.update mem physical (value % 2 ^ 64) }

/-! ### Growth of the IR list -/

/-- One call that adds an instruction to the IR list: `append_ir_instruction(instruction,
guest_reg)` or `insert_ir_instruction(after, instruction)`. -/
inductive ir_list_call where
  | call_append (instruction : ir_instruction_t) (guest_reg : Nat)
  | call_insert (after : ir_ptr) (instruction : ir_instruction_t)

/-- Performs one call. -/
def ir_list_call.exec (ctx : ir_context_t) :
    ir_list_call → Except fault (ir_context_t × ir_ptr)
  | .call_append instruction guest_reg => append_ir_instruction ctx instruction guest_reg
  | .call_insert after instruction => insert_ir_instruction ctx after instruction

/-- Performs a sequence of calls, stopping at the first one that does not return. -/
def ir_list_run (ctx : ir_context_t) : List ir_list_call → Except fault ir_context_t
  | [] => .ok ctx
  | c :: cs =>
    match c.exec ctx with
    | .ok (ctx1, _) => ir_list_run ctx1 cs
    | .error e => .error e

/-- Every `insert_ir_instruction` of the sequence is passed, as `after`, an instruction that
is in the IR list when the call is made. -/
def ir_list_calls_valid (ctx : ir_context_t) : List ir_list_call → Prop
  | [] => True
  | c :: cs =>
    (match c with
     | .call_insert after _ => ∃ a, after = some a ∧ a ∈ ctx.ir_list
     | .call_append _ _ => True) ∧
    ∀ ctx1 p, c.exec ctx = .ok (ctx1, p) → ir_list_calls_valid ctx1 cs

/-- The list `l` is the IR list of the context and holds every allocated instruction: it is
linked from `ir_cache_head` to `ir_cache_tail`, starts with instruction 0, contains every
index below `ir_cache_index`, and every allocated instruction carries its arena position in
the field `index`. -/
structure ir_context_t.list_complete (ctx : ir_context_t) (l : List Nat) : Prop where
  linked : ctx.linked l
  complete : ∀ a, a < ctx.ir_cache_index → a ∈ l
  first : l.head? = some 0
  index_field : ∀ i, i < ctx.ir_cache_index → (ctx.ir_cache i).index = i

/-- A sequence for examples: two appends, then an insert after instruction 0 and one after
instruction 2, the tail. -/
def ir_list_calls_example : List ir_list_call :=
  [ .call_append (ir_instruction_local .IR_NOP .zeroed) 3,
    .call_append (ir_instruction_local .IR_ERET .indeterminate) NO_GUEST_REG,
    .call_insert (some 0) (ir_instruction_local .IR_NOP .zeroed),
    .call_insert (some 2) (ir_instruction_local .IR_NOP .zeroed) ]

/-- Every `insert_ir_instruction` of the sequence is passed an instruction that was
allocated before the call, when `index` instructions are allocated at the start and every
call allocates one. -/
def ir_list_calls_allocated (index : Nat) : List ir_list_call → Bool
  | [] => true
  | .call_append _ _ :: cs => ir_list_calls_allocated (index + 1) cs
  | .call_insert after _ :: cs =>
    (match after with
     | some a => decide (a < index)
     | none => false) && ir_list_calls_allocated (index + 1) cs

/-! ### Flush records of conditional block exits -/

/-- A translation that binds each of the registers 1..31 to the zero constant and
announces the block exit PC. -/
def ir_calls_bind_all : List ir_call :=
  (List.range' 1 31).map
      (fun r => .call_dest (.emit_set_constant { type := .VALUE_TYPE_U64, raw := 0 }) r) ++
    [.call_set_block_exit_pc (some 0)]

/-- The context after `ir_calls_bind_all`, run from a fresh reset. -/
def ir_context_bound : ir_context_t :=
  match ir_run (fun _ => 0) (ir_context_reset ir_context_zero) ir_calls_bind_all with
  | .ok ctx => ctx
  | .error _ => ir_context_zero

/-- The translation `ir_calls_bind_all` followed by four conditional block exits. -/
def ir_calls_four_exits : List ir_call :=
  ir_calls_bind_all ++ List.replicate 4 (.call_conditional_block_exit (some 0) 0)

/-- A well-formed context in which the block exit PC is announced and each of the registers
1..31 is bound to instruction 0, the zero constant. -/
structure ir_context_t.all_bound_to_zero (ctx : ir_context_t) : Prop where
  wf : ctx.well_formed
  bound : ∀ i, i ∈ List.range' 1 31 → ctx.guest_gpr_to_value i = some 0
  emitted : ctx.block_end_pc_ir_emitted = true

/-! ### The bounds of the two arenas -/

/-- Every slot handed out so far lies inside its C array: `ir_cache_index` is at most
`IR_CACHE_SIZE` and `ir_flush_cache_index` is at most `IR_FLUSH_CACHE_SIZE`. -/
def ir_context_t.in_bounds (ctx : ir_context_t) : Prop :=
  ctx.ir_cache_index ≤ IR_CACHE_SIZE ∧ ctx.ir_flush_cache_index ≤ IR_FLUSH_CACHE_SIZE

instance (ctx : ir_context_t) : Decidable ctx.in_bounds :=
  inferInstanceAs (Decidable (_ ∧ _))

/-- The `int` argument of the call is one for which the sums of the callee are representable:
`index + 1` of `ir_emit_conditional_block_exit` is an `int`. -/
def ir_call.args_in_range : ir_call → Bool
  | .call_conditional_block_exit _ index => decide (-2147483648 ≤ index ∧ index < 2147483647)
  | _ => true

/-- Every call of the sequence keeps the two arenas within their C arrays: the context that
a call leaves is in bounds. The indices only grow during a call, so every store of such a
call goes to a slot of its array. The sequence starts in a context that is in bounds, and
it ends at the first call that does not return. -/
def ir_calls_in_bounds (layout : ir_payload → Nat) (ctx : ir_context_t) :
    List ir_call → Bool
  | [] => true
  | c :: cs =>
    c.args_in_range &&
      match c.exec layout ctx with
      | .ok (ctx1, _) => decide ctx1.in_bounds && ir_calls_in_bounds layout ctx1 cs
      | .error _ => true

/-- The translation `ir_calls_fill`, which uses every slot of the arena, followed by a flush
of register 1 that is inserted after instruction 0. -/
def ir_calls_fill_flush : List ir_call :=
  ir_calls_fill ++ [.call_flush_guest_reg (some 0) (some 0) 1]

/-- The translation `ir_calls_bind_all` followed by three conditional block exits. -/
def ir_calls_three_exits : List ir_call :=
  ir_calls_bind_all ++ List.replicate 3 (.call_conditional_block_exit (some 0) 0)

/-- A sequence of `n` calls `append_ir_instruction(NOP, NO_GUEST_REG)`. -/
def ir_list_calls_fill (n : Nat) : List ir_list_call :=
  List.replicate n (.call_append (ir_instruction_local .IR_NOP .zeroed) NO_GUEST_REG)

/-! ## Theorems: coprocessor-0 status writes -/

theorem status_write_eq (cpu : r4300i_t) (v : Nat) :
    set_cp0_register cpu R4300I_CP0_REG_STATUS v =
      .ok (r4300i_interrupt_update
        { cpu with cp0 := { cpu.cp0 with status :=
            (cpu.cp0.status &&& ((v % 2 ^ 32) &&& not32 CP0_STATUS_WRITE_MASK))
              ||| ((v % 2 ^ 32) &&& CP0_STATUS_WRITE_MASK) } }) := by
  simp [set_cp0_register, R4300I_CP0_REG_STATUS, R4300I_CP0_REG_INDEX, R4300I_CP0_REG_RANDOM,
    R4300I_CP0_REG_COUNT, R4300I_CP0_REG_CAUSE, R4300I_CP0_REG_TAGLO, R4300I_CP0_REG_TAGHI,
    R4300I_CP0_REG_COMPARE, on_change_fr]

/-- The status write in closed form: the new status word is
`(old & v & ~mask) | (v & mask)`. -/
theorem status_write_value (cpu : r4300i_t) (v : Nat) :
    ∃ cpu1, set_cp0_register cpu R4300I_CP0_REG_STATUS v = .ok cpu1 ∧
      cpu1.cp0.status = (cpu.cp0.status &&& ((v % 2 ^ 32) &&& not32 CP0_STATUS_WRITE_MASK))
        ||| ((v % 2 ^ 32) &&& CP0_STATUS_WRITE_MASK) :=
  ⟨_, status_write_eq cpu v, rfl⟩

/-- C1 (evaluated at the failing input): with bit 19 of `cp0.status` set and `v = 0`, the
status write returns a status word whose bits outside the write mask are all zero, although
the old status had bit 19 (outside the mask) set: the bit is not preserved. -/
theorem status_write_clears_bit_outside_mask :
    ∃ cpu1,
      set_cp0_register { r4300i_zero with cp0 := { cp0_zero with status := 0x00080000 } }
        R4300I_CP0_REG_STATUS 0 = .ok cpu1 ∧
      cpu1.cp0.status &&& not32 0xFF57FFFF = 0 ∧
      (0x00080000 : Nat) &&& not32 0xFF57FFFF = 0x00080000 := by
  refine ⟨_, status_write_eq _ 0, ?_, ?_⟩
  · decide
  · decide

/-- C2: for every CPU state and every 32-bit value `v`, the status write returns and the
bits of the new `cp0.status` inside the write mask are those of `v`:
`new & 0xFF57FFFF == v & 0xFF57FFFF`. -/
theorem status_write_overwrites_masked_bits (cpu : r4300i_t) (v : Nat) (hv : v < 2 ^ 32) :
    ∃ cpu1, set_cp0_register cpu R4300I_CP0_REG_STATUS v = .ok cpu1 ∧
      cpu1.cp0.status &&& 0xFF57FFFF = v &&& 0xFF57FFFF := by
  refine ⟨_, status_write_eq cpu v, ?_⟩
  show ((cpu.cp0.status &&& ((v % 2 ^ 32) &&& not32 CP0_STATUS_WRITE_MASK))
        ||| ((v % 2 ^ 32) &&& CP0_STATUS_WRITE_MASK)) &&& 0xFF57FFFF = v &&& 0xFF57FFFF
  have hz : not32 CP0_STATUS_WRITE_MASK &&& 0xFF57FFFF = 0 := by decide
  have hm : CP0_STATUS_WRITE_MASK &&& 0xFF57FFFF = CP0_STATUS_WRITE_MASK := by decide
  rw [Nat.mod_eq_of_lt hv, Nat.and_distrib_right, Nat.and_assoc, Nat.and_assoc, hz,
    Nat.and_zero, Nat.and_zero, Nat.zero_or, Nat.and_assoc, hm]
  rfl

/-- Witness for C2 at status `0x00A80000` and `v = 0x12345678`. -/
theorem status_write_overwrites_masked_bits_witness :
    (0x12345678 : Nat) < 2 ^ 32 ∧
    ∃ cpu1,
      set_cp0_register { r4300i_zero with cp0 := { cp0_zero with status := 0x00A80000 } }
        R4300I_CP0_REG_STATUS 0x12345678 = .ok cpu1 ∧
      cpu1.cp0.status &&& 0xFF57FFFF = 0x12345678 &&& 0xFF57FFFF :=
  ⟨by decide, status_write_overwrites_masked_bits _ 0x12345678 (by decide)⟩

/-! ## Theorems: code cache -/

theorem flush_fold_spec (n : Nat) (d : n64_dynarec_t) :
    ((List.range n).foldl
      (fun (acc : n64_dynarec_t) i =>
        { acc with blockcache := Function.update acc.blockcache i none }) d)
      = { d with blockcache := fun j => if j < n then none else d.blockcache j } := by
  induction n with
  | zero => simp
  | succ k ih =>
    rw [List.range_succ, List.foldl_append, ih]
    simp only [List.foldl_cons, List.foldl_nil]
    congr 1
    funext j
    by_cases hj : j = k
    · subst hj; simp
    · rw [Function.update_noteq hj]
      by_cases h1 : j < k
      · have : j < k + 1 := by omega
        simp [h1, this]
      · have : ¬ j < k + 1 := by omega
        simp [h1, this]

theorem flush_code_cache_eq (n : Nat) (d : n64_dynarec_t) :
    flush_code_cache n d =
      { d with codecache_used := 0,
               blockcache := fun j => if j < n then none else d.blockcache j } := by
  unfold flush_code_cache
  rw [flush_fold_spec]


/-- C4: from any prior state, `flush_code_cache` leaves `codecache_used == 0` and every
outer block-cache slot `i < BLOCKCACHE_OUTER_SIZE` equal to `NULL`; hence a block lookup at
any physical address (whose outer index lies in the table) finds no block. -/
theorem flush_code_cache_empties (n : Nat) (d : n64_dynarec_t) :
    (flush_code_cache n d).codecache_used = 0 ∧
    (flush_code_cache n d).codecache_size = d.codecache_size ∧
    (∀ i, i < n → (flush_code_cache n d).blockcache i = none) ∧
    (∀ (outer_index inner_index : Nat → Nat) (p : Nat), outer_index p < n →
      blockcache_lookup outer_index inner_index (flush_code_cache n d) p = none) := by
  rw [flush_code_cache_eq]
  refine ⟨rfl, rfl, ?_, ?_⟩
  · intro i hi
    simp [hi]
  · intro oi ii p hp
    simp [blockcache_lookup, hp]

/-- Witness for C4: the example cache holds a block at outer slot 2 before the flush and
none afterwards. -/
theorem flush_code_cache_empties_witness :
    (blockcache_lookup (fun p => p / 4096) (fun p => p % 4096 / 4) dynarec_example 8192).isSome
      = true ∧
    (flush_code_cache 4 dynarec_example).codecache_used = 0 ∧
    (flush_code_cache 4 dynarec_example).blockcache 2 = none ∧
    blockcache_lookup (fun p => p / 4096) (fun p => p % 4096 / 4)
      (flush_code_cache 4 dynarec_example) 8192 = none :=
  ⟨by decide,
   (flush_code_cache_empties 4 dynarec_example).1,
   (flush_code_cache_empties 4 dynarec_example).2.2.1 2 (by decide),
   (flush_code_cache_empties 4 dynarec_example).2.2.2 _ _ 8192 (by decide)⟩

/-- C3: `dynarec_bumpalloc(n)` in any state. With `+` the `size_t` addition of the code:
if `codecache_used + n < codecache_size` the result is the offset `codecache_used`, the
high-water mark advances by `n` and the block cache is untouched; if
`codecache_used + n >= codecache_size` the cache is flushed first, so every outer slot is
`NULL`, the result is offset 0 and `codecache_used` becomes `n`. A request of exactly the
remaining capacity is in the second case. -/
theorem dynarec_bumpalloc_spec (osz : Nat) (d : n64_dynarec_t) (n : Nat) :
    (size_t_add d.codecache_used n < d.codecache_size →
      (dynarec_bumpalloc osz d n).1 = d.codecache_used ∧
      (dynarec_bumpalloc osz d n).2.codecache_used = size_t_add d.codecache_used n ∧
      (dynarec_bumpalloc osz d n).2.codecache_size = d.codecache_size ∧
      (dynarec_bumpalloc osz d n).2.blockcache = d.blockcache) ∧
    (size_t_add d.codecache_used n ≥ d.codecache_size →
      (dynarec_bumpalloc osz d n).1 = 0 ∧
      (dynarec_bumpalloc osz d n).2.codecache_used = size_t_add 0 n ∧
      (dynarec_bumpalloc osz d n).2.codecache_size = d.codecache_size ∧
      (∀ i, i < osz → (dynarec_bumpalloc osz d n).2.blockcache i = none)) ∧
    (d.codecache_used ≤ d.codecache_size → d.codecache_size < 2 ^ 64 →
      size_t_add d.codecache_used (d.codecache_size - d.codecache_used) ≥ d.codecache_size) ∧
    (n < 2 ^ 64 → size_t_add 0 n = n) ∧
    (d.codecache_used + n < 2 ^ 64 → size_t_add d.codecache_used n = d.codecache_used + n) := by
  refine ⟨?_, ?_, ?_, ?_, ?_⟩
  · intro h
    have h1 : ¬ (size_t_add d.codecache_used n ≥ d.codecache_size) := by omega
    simp [dynarec_bumpalloc, h1]
  · intro h
    have e : dynarec_bumpalloc osz d n =
        (0, { d with codecache_used := size_t_add 0 n,
                     blockcache := fun j => if j < osz then none else d.blockcache j }) := by
      simp [dynarec_bumpalloc, h, flush_code_cache_eq]
    rw [e]
    refine ⟨rfl, rfl, rfl, ?_⟩
    intro i hi
    simp [hi]
  · intro h1 h2
    have : d.codecache_used + (d.codecache_size - d.codecache_used) = d.codecache_size := by omega
    simp only [size_t_add, this, Nat.mod_eq_of_lt h2]
    exact Nat.le_refl _
  · intro h
    unfold size_t_add
    rw [Nat.zero_add]
    exact Nat.mod_eq_of_lt h
  · intro h
    unfold size_t_add
    exact Nat.mod_eq_of_lt h

/-- Witness for C3 on the example cache (100 bytes, 40 used): a request of 10 bytes is
served at offset 40 without a flush; a request of exactly the remaining 60 bytes flushes and
is served at offset 0. -/
theorem dynarec_bumpalloc_spec_witness :
    ((dynarec_bumpalloc 4 dynarec_example 10).1 = 40 ∧
      (dynarec_bumpalloc 4 dynarec_example 10).2.codecache_used = 50 ∧
      (dynarec_bumpalloc 4 dynarec_example 10).2.blockcache = dynarec_example.blockcache) ∧
    ((dynarec_bumpalloc 4 dynarec_example 60).1 = 0 ∧
      (dynarec_bumpalloc 4 dynarec_example 60).2.codecache_used = 60 ∧
      (dynarec_bumpalloc 4 dynarec_example 60).2.blockcache 2 = none) :=
  ⟨⟨((dynarec_bumpalloc_spec 4 dynarec_example 10).1 (by decide)).1,
    ((dynarec_bumpalloc_spec 4 dynarec_example 10).1 (by decide)).2.1,
    ((dynarec_bumpalloc_spec 4 dynarec_example 10).1 (by decide)).2.2.2⟩,
   ⟨((dynarec_bumpalloc_spec 4 dynarec_example 60).2.1 (by decide)).1,
    ((dynarec_bumpalloc_spec 4 dynarec_example 60).2.1 (by decide)).2.1,
    ((dynarec_bumpalloc_spec 4 dynarec_example 60).2.1 (by decide)).2.2.2 2 (by decide)⟩⟩

/-! ## Theorems: IR context -/

theorem array_fill_apply {α : Type} (n : Nat) (v : α) (a : Nat → α) (j : Nat) :
    array_fill n v a j = if j < n then v else a j := by
  unfold array_fill
  induction n with
  | zero => simp
  | succ k ih =>
    rw [List.range_succ, List.foldl_append]
    simp only [List.foldl_cons, List.foldl_nil]
    by_cases hj : j = k
    · subst hj; simp
    · rw [Function.update_noteq hj, ih]
      by_cases h1 : j < k
      · have : j < k + 1 := by omega
        simp [h1, this]
      · have : ¬ j < k + 1 := by omega
        simp [h1, this]

theorem update_guest_reg_mapping_frame (ctx : ir_context_t) (g : Nat) (v : ir_ptr) :
    (update_guest_reg_mapping ctx g v).ir_cache = ctx.ir_cache ∧
    (update_guest_reg_mapping ctx g v).ir_cache_head = ctx.ir_cache_head ∧
    (update_guest_reg_mapping ctx g v).ir_cache_tail = ctx.ir_cache_tail ∧
    (update_guest_reg_mapping ctx g v).ir_cache_index = ctx.ir_cache_index ∧
    (update_guest_reg_mapping ctx g v).ir_flush_cache = ctx.ir_flush_cache ∧
    (update_guest_reg_mapping ctx g v).ir_flush_cache_index = ctx.ir_flush_cache_index ∧
    (update_guest_reg_mapping ctx g v).block_end_pc_ir_emitted = ctx.block_end_pc_ir_emitted ∧
    (update_guest_reg_mapping ctx g v).block_end_pc_compiled = ctx.block_end_pc_compiled := by
  unfold update_guest_reg_mapping
  split <;> exact ⟨rfl, rfl, rfl, rfl, rfl, rfl, rfl, rfl⟩

theorem update_guest_reg_mapping_map (ctx : ir_context_t) (g : Nat) (v : ir_ptr) (j : Nat) :
    (update_guest_reg_mapping ctx g v).guest_gpr_to_value j =
      if j = g ∧ 0 < g ∧ g < 32 then v else ctx.guest_gpr_to_value j := by
  unfold update_guest_reg_mapping
  by_cases h : g > 0 ∧ g < 32
  · rw [if_pos h]
    by_cases hj : j = g
    · subst hj
      simp [h.1, h.2]
    · simp [hj, Function.update_noteq hj]
  · rw [if_neg h]
    have : ¬ (j = g ∧ 0 < g ∧ g < 32) := fun hh => h hh.2
    rw [if_neg this]

theorem append_eq (ctx : ir_context_t) (ins : ir_instruction_t) (g t : Nat)
    (ht : ctx.ir_cache_tail = some t) :
    ∃ ctx1, append_ir_instruction ctx ins g = .ok (ctx1, some ctx.ir_cache_index) ∧
      ctx1.ir_cache_index = ctx.ir_cache_index + 1 ∧
      ctx1.ir_cache_tail = some ctx.ir_cache_index ∧
      ctx1.ir_cache_head = ctx.ir_cache_head ∧
      ctx1.ir_flush_cache = ctx.ir_flush_cache ∧
      ctx1.ir_flush_cache_index = ctx.ir_flush_cache_index ∧
      ctx1.block_end_pc_ir_emitted = ctx.block_end_pc_ir_emitted ∧
      ctx1.block_end_pc_compiled = ctx.block_end_pc_compiled ∧
      ctx1.guest_gpr_to_value =
        (update_guest_reg_mapping ctx g (some ctx.ir_cache_index)).guest_gpr_to_value ∧
      (t ≠ ctx.ir_cache_index →
        ctx1.ir_cache ctx.ir_cache_index = ins.appended ctx.ir_cache_index t) ∧
      (t ≠ ctx.ir_cache_index →
        ctx1.ir_cache t = { ctx.ir_cache t with next := some ctx.ir_cache_index }) ∧
      (∀ j, j ≠ ctx.ir_cache_index → j ≠ t → ctx1.ir_cache j = ctx.ir_cache j) ∧
      (∀ j, j ≠ ctx.ir_cache_index →
        (ctx1.ir_cache j).type = (ctx.ir_cache j).type ∧
        (ctx1.ir_cache j).payload = (ctx.ir_cache j).payload) := by
  simp only [append_ir_instruction, allocate_ir_instruction, ir_context_t.modify_node, ht]
  refine ⟨_, rfl, ?_, ?_, ?_, ?_, ?_, ?_, ?_, ?_, ?_, ?_, ?_, ?_⟩
  · rw [(update_guest_reg_mapping_frame _ _ _).2.2.2.1]
  · rw [(update_guest_reg_mapping_frame _ _ _).2.2.1]
  · rw [(update_guest_reg_mapping_frame _ _ _).2.1]
  · rw [(update_guest_reg_mapping_frame _ _ _).2.2.2.2.1]
  · rw [(update_guest_reg_mapping_frame _ _ _).2.2.2.2.2.1]
  · rw [(update_guest_reg_mapping_frame _ _ _).2.2.2.2.2.2.1]
  · rw [(update_guest_reg_mapping_frame _ _ _).2.2.2.2.2.2.2]
  · funext j
    rw [update_guest_reg_mapping_map, update_guest_reg_mapping_map]
  · intro h
    rw [(update_guest_reg_mapping_frame _ _ _).1]
    simp [ir_instruction_t.appended, Function.update_noteq (Ne.symm h)]
  · intro h
    rw [(update_guest_reg_mapping_frame _ _ _).1]
    simp [Function.update_noteq h]
  · intro j h1 h2
    rw [(update_guest_reg_mapping_frame _ _ _).1]
    simp [Function.update_noteq h1, Function.update_noteq h2]
  · intro j h1
    rw [(update_guest_reg_mapping_frame _ _ _).1]
    by_cases h2 : j = t
    · subst h2
      simp [Function.update_noteq h1]
    · simp [Function.update_noteq h1, Function.update_noteq h2]
theorem well_formed_reset (ctx : ir_context_t) : (ir_context_reset ctx).well_formed := by
  refine ⟨?_, rfl, ?_, ?_, ⟨0, rfl, Nat.zero_lt_one⟩⟩ <;> simp [ir_context_reset]

theorem well_formed_update (ctx : ir_context_t) (h : ctx.well_formed) (g : Nat) (v : ir_ptr) :
    (update_guest_reg_mapping ctx g v).well_formed := by
  have hf := update_guest_reg_mapping_frame ctx g v
  refine ⟨?_, ?_, ?_, ?_, ?_⟩
  · rw [update_guest_reg_mapping_map]
    have : ¬ (0 = g ∧ 0 < g ∧ g < 32) := by omega
    rw [if_neg this]
    exact h.gpr0
  · rw [hf.2.1]; exact h.head
  · rw [hf.1]; exact h.node0_type
  · rw [hf.1]; exact h.node0_payload
  · rw [hf.2.2.1, hf.2.2.2.1]; exact h.tail

theorem well_formed_append (ctx : ir_context_t) (h : ctx.well_formed) (ins : ir_instruction_t)
    (g : Nat) :
    ∃ ctx1, append_ir_instruction ctx ins g = .ok (ctx1, some ctx.ir_cache_index) ∧
      ctx1.well_formed := by
  obtain ⟨t, ht, hlt⟩ := h.tail
  obtain ⟨c, he, hidx, htail, hhead, -, -, -, -, hmap, -, -, -, hty⟩ := append_eq ctx ins g t ht
  refine ⟨c, he, ⟨?_, ?_, ?_, ?_, ?_⟩⟩
  · rw [hmap, update_guest_reg_mapping_map]
    have : ¬ (0 = g ∧ 0 < g ∧ g < 32) := by omega
    rw [if_neg this]
    exact h.gpr0
  · rw [hhead]; exact h.head
  · rw [(hty 0 (by omega)).1]; exact h.node0_type
  · rw [(hty 0 (by omega)).2]; exact h.node0_payload
  · exact ⟨ctx.ir_cache_index, htail, by omega⟩

theorem well_formed_of_frame (ctx ctx1 : ir_context_t) (h : ctx.well_formed)
    (h1 : ctx1.guest_gpr_to_value = ctx.guest_gpr_to_value)
    (h2 : ctx1.ir_cache = ctx.ir_cache)
    (h3 : ctx1.ir_cache_head = ctx.ir_cache_head)
    (h4 : ctx1.ir_cache_tail = ctx.ir_cache_tail)
    (h5 : ctx1.ir_cache_index = ctx.ir_cache_index) : ctx1.well_formed := by
  refine ⟨?_, ?_, ?_, ?_, ?_⟩
  · rw [h1]; exact h.gpr0
  · rw [h3]; exact h.head
  · rw [h2]; exact h.node0_type
  · rw [h2]; exact h.node0_payload
  · rw [h4, h5]; exact h.tail

theorem modify_node_kind (ctx : ir_context_t) (i : Nat)
    (g : ir_instruction_t → ir_instruction_t)
    (hg : ∀ n, (g n).type = n.type ∧ (g n).payload = n.payload) (j : Nat) :
    ((ctx.modify_node i g).ir_cache j).type = (ctx.ir_cache j).type ∧
    ((ctx.modify_node i g).ir_cache j).payload = (ctx.ir_cache j).payload := by
  unfold ir_context_t.modify_node
  by_cases h : j = i
  · subst h; simp [hg]
  · simp [Function.update_noteq h]

theorem modify_node_next_kind (ctx : ir_context_t) (i : Nat) (v : ir_ptr) (j : Nat) :
    ((ctx.modify_node i (fun n => { n with next := v })).ir_cache j).type
      = (ctx.ir_cache j).type ∧
    ((ctx.modify_node i (fun n => { n with next := v })).ir_cache j).payload
      = (ctx.ir_cache j).payload := by
  apply modify_node_kind
  intro n
  exact ⟨rfl, rfl⟩

theorem modify_node_prev_kind (ctx : ir_context_t) (i : Nat) (v : ir_ptr) (j : Nat) :
    ((ctx.modify_node i (fun n => { n with prev := v })).ir_cache j).type
      = (ctx.ir_cache j).type ∧
    ((ctx.modify_node i (fun n => { n with prev := v })).ir_cache j).payload
      = (ctx.ir_cache j).payload := by
  apply modify_node_kind
  intro n
  exact ⟨rfl, rfl⟩

theorem well_formed_insert (ctx : ir_context_t) (h : ctx.well_formed) (after : ir_ptr)
    (ins : ir_instruction_t) (ctx1 : ir_context_t) (p : ir_ptr)
    (hr : insert_ir_instruction ctx after ins = .ok (ctx1, p)) : ctx1.well_formed := by
  unfold insert_ir_instruction at hr
  cases after with
  | none => simp at hr
  | some a =>
    simp only at hr
    cases hn : (ctx.ir_cache a).next with
    | none =>
      rw [hn] at hr
      obtain ⟨c, he, hc⟩ := well_formed_append ctx h ins NO_GUEST_REG
      simp only [he, Except.ok.injEq, Prod.mk.injEq] at hr
      rw [← hr.1]; exact hc
    | some old_next =>
      rw [hn] at hr
      simp only [allocate_ir_instruction, Except.ok.injEq, Prod.mk.injEq] at hr
      obtain ⟨t, ht, hlt⟩ := h.tail
      have hpos : 0 ≠ ctx.ir_cache_index := by omega
      rw [← hr.1]
      refine ⟨h.gpr0, h.head, ?_, ?_, ⟨t, ht, by show t < ctx.ir_cache_index + 1; omega⟩⟩
      · rw [(modify_node_prev_kind _ _ _ 0).1, (modify_node_next_kind _ _ _ 0).1,
          (modify_node_prev_kind _ _ _ 0).1, (modify_node_next_kind _ _ _ 0).1]
        show (Function.update ctx.ir_cache ctx.ir_cache_index _ 0).type = _
        rw [Function.update_noteq hpos]
        exact h.node0_type
      · rw [(modify_node_prev_kind _ _ _ 0).2, (modify_node_next_kind _ _ _ 0).2,
          (modify_node_prev_kind _ _ _ 0).2, (modify_node_next_kind _ _ _ 0).2]
        show (Function.update ctx.ir_cache ctx.ir_cache_index _ 0).payload = _
        rw [Function.update_noteq hpos]
        exact h.node0_payload

theorem cond_exit_flush_step_frame (layout : ir_payload → Nat)
    (acc : ir_context_t × Option Nat) (i : Nat) :
    (cond_exit_flush_step layout acc i).1.guest_gpr_to_value = acc.1.guest_gpr_to_value ∧
    (cond_exit_flush_step layout acc i).1.ir_cache = acc.1.ir_cache ∧
    (cond_exit_flush_step layout acc i).1.ir_cache_head = acc.1.ir_cache_head ∧
    (cond_exit_flush_step layout acc i).1.ir_cache_tail = acc.1.ir_cache_tail ∧
    (cond_exit_flush_step layout acc i).1.ir_cache_index = acc.1.ir_cache_index ∧
    (cond_exit_flush_step layout acc i).1.block_end_pc_ir_emitted =
      acc.1.block_end_pc_ir_emitted ∧
    (cond_exit_flush_step layout acc i).1.block_end_pc_compiled =
      acc.1.block_end_pc_compiled := by
  unfold cond_exit_flush_step
  split
  · exact ⟨rfl, rfl, rfl, rfl, rfl, rfl, rfl⟩
  · simp only [allocate_ir_flush]
    split <;> exact ⟨rfl, rfl, rfl, rfl, rfl, rfl, rfl⟩

theorem cond_exit_flush_fold_frame (layout : ir_payload → Nat) (l : List Nat)
    (acc : ir_context_t × Option Nat) :
    (l.foldl (cond_exit_flush_step layout) acc).1.guest_gpr_to_value
      = acc.1.guest_gpr_to_value ∧
    (l.foldl (cond_exit_flush_step layout) acc).1.ir_cache = acc.1.ir_cache ∧
    (l.foldl (cond_exit_flush_step layout) acc).1.ir_cache_head = acc.1.ir_cache_head ∧
    (l.foldl (cond_exit_flush_step layout) acc).1.ir_cache_tail = acc.1.ir_cache_tail ∧
    (l.foldl (cond_exit_flush_step layout) acc).1.ir_cache_index = acc.1.ir_cache_index ∧
    (l.foldl (cond_exit_flush_step layout) acc).1.block_end_pc_ir_emitted =
      acc.1.block_end_pc_ir_emitted ∧
    (l.foldl (cond_exit_flush_step layout) acc).1.block_end_pc_compiled =
      acc.1.block_end_pc_compiled := by
  induction l generalizing acc with
  | nil => exact ⟨rfl, rfl, rfl, rfl, rfl, rfl, rfl⟩
  | cons i l ih =>
    rw [List.foldl_cons]
    obtain ⟨a1, a2, a3, a4, a5, a6, a7⟩ := ih (cond_exit_flush_step layout acc i)
    obtain ⟨b1, b2, b3, b4, b5, b6, b7⟩ := cond_exit_flush_step_frame layout acc i
    exact ⟨a1.trans b1, a2.trans b2, a3.trans b3, a4.trans b4, a5.trans b5, a6.trans b6,
      a7.trans b7⟩


theorem well_formed_append_of_ok (ctx : ir_context_t) (h : ctx.well_formed)
    (ins : ir_instruction_t) (g : Nat) (ctx1 : ir_context_t) (p : ir_ptr)
    (hr : append_ir_instruction ctx ins g = .ok (ctx1, p)) : ctx1.well_formed := by
  obtain ⟨c, he, hc⟩ := well_formed_append ctx h ins g
  simp only [he, Except.ok.injEq, Prod.mk.injEq] at hr
  rw [← hr.1]; exact hc

theorem well_formed_set_constant (ctx : ir_context_t) (h : ctx.well_formed)
    (value : ir_set_constant_t) (g : Nat) (ctx1 : ir_context_t) (p : ir_ptr)
    (hr : ir_emit_set_constant ctx value g = .ok (ctx1, p)) : ctx1.well_formed := by
  unfold ir_emit_set_constant at hr
  split at hr
  · simp only [Except.ok.injEq, Prod.mk.injEq] at hr
    rw [← hr.1]; exact h
  · split at hr
    · simp only [Except.ok.injEq, Prod.mk.injEq] at hr
      rw [← hr.1]; exact well_formed_update ctx h g _
    · exact well_formed_append_of_ok ctx h _ g ctx1 p hr

theorem well_formed_dest (ctx : ir_context_t) (h : ctx.well_formed) (e : ir_dest_emit)
    (g : Nat) (ctx1 : ir_context_t) (p : ir_ptr)
    (hr : e.call ctx g = .ok (ctx1, p)) : ctx1.well_formed := by
  cases e with
  | emit_set_constant value => exact well_formed_set_constant ctx h value g ctx1 p hr
  | _ => exact well_formed_append_of_ok ctx h _ g ctx1 p hr

theorem well_formed_exec (layout : ir_payload → Nat) (ctx : ir_context_t)
    (h : ctx.well_formed) (c : ir_call) (ctx1 : ir_context_t) (p : ir_ptr)
    (hr : c.exec layout ctx = .ok (ctx1, p)) : ctx1.well_formed := by
  cases c with
  | call_update_guest_reg_mapping g v =>
    simp only [ir_call.exec, Except.ok.injEq, Prod.mk.injEq] at hr
    rw [← hr.1]; exact well_formed_update ctx h g v
  | call_dest e g => exact well_formed_dest ctx h e g ctx1 p hr
  | call_load_guest_reg g =>
    simp only [ir_call.exec, ir_emit_load_guest_reg] at hr
    split at hr
    · simp at hr
    · split at hr
      · simp only [Except.ok.injEq, Prod.mk.injEq] at hr
        rw [← hr.1]; exact h
      · exact well_formed_append_of_ok ctx h _ g ctx1 p hr
  | call_flush_guest_reg l v g =>
    simp only [ir_call.exec, ir_emit_flush_guest_reg] at hr
    split at hr
    · simp at hr
    · split at hr
      · simp at hr
      · exact well_formed_insert ctx h _ _ ctx1 p hr
  | call_boolean_not a g =>
    simp only [ir_call.exec, ir_emit_boolean_not, ir_emit_set_constant_u16, ir_emit_not,
      ir_emit_and] at hr
    cases h1 : ir_emit_set_constant ctx
        { type := .VALUE_TYPE_U16, raw := 1 % 2 ^ 16 } NO_GUEST_REG with
    | error e => rw [h1] at hr; simp [bind, Except.bind] at hr
    | ok r1 =>
      rw [h1] at hr
      have w1 := well_formed_set_constant ctx h _ _ r1.1 r1.2 h1
      simp only [bind, Except.bind] at hr
      cases h2 : append_ir_instruction r1.1 (ir_instruction_local .IR_NOT (.unary_op a))
          NO_GUEST_REG with
      | error e => rw [h2] at hr; simp at hr
      | ok r2 =>
        rw [h2] at hr
        have w2 := well_formed_append_of_ok r1.1 w1 _ _ r2.1 r2.2 h2
        exact well_formed_append_of_ok r2.1 w2 _ _ ctx1 p hr
  | call_store t a v => exact well_formed_append_of_ok ctx h _ _ ctx1 p hr
  | call_set_ptr t q v => exact well_formed_append_of_ok ctx h _ _ ctx1 p hr
  | call_conditional_set_block_exit_pc c t f =>
    refine well_formed_append_of_ok _ ?_ _ _ ctx1 p hr
    exact well_formed_of_frame ctx _ h rfl rfl rfl rfl rfl
  | call_conditional_block_exit c i =>
    simp only [ir_call.exec, ir_emit_conditional_block_exit] at hr
    split at hr
    · simp at hr
    · obtain ⟨f1, f2, f3, f4, f5, -, -⟩ :=
        cond_exit_flush_fold_frame layout (List.range' 1 31) (ctx, none)
      exact well_formed_append_of_ok _ (well_formed_of_frame ctx _ h f1 f2 f3 f4 f5) _ _
        ctx1 p hr
  | call_set_block_exit_pc a =>
    refine well_formed_append_of_ok _ ?_ _ _ ctx1 p hr
    exact well_formed_of_frame ctx _ h rfl rfl rfl rfl rfl
  | call_interpreter_fallback n =>
    simp [ir_call.exec, ir_emit_interpreter_fallback] at hr
  | call_multiply a b t => exact well_formed_append_of_ok ctx h _ _ ctx1 p hr
  | call_divide a b t => exact well_formed_append_of_ok ctx h _ _ ctx1 p hr
  | call_eret =>
    refine well_formed_append_of_ok _ ?_ _ _ ctx1 p hr
    exact well_formed_of_frame ctx _ h rfl rfl rfl rfl rfl

theorem well_formed_run (layout : ir_payload → Nat) (calls : List ir_call)
    (ctx : ir_context_t) (h : ctx.well_formed) (ctx1 : ir_context_t)
    (hr : ir_run layout ctx calls = .ok ctx1) : ctx1.well_formed := by
  induction calls generalizing ctx with
  | nil =>
    simp only [ir_run, Except.ok.injEq] at hr
    rw [← hr]; exact h
  | cons c cs ih =>
    simp only [ir_run] at hr
    cases hc : c.exec layout ctx with
    | error e => rw [hc] at hr; simp at hr
    | ok r =>
      rw [hc] at hr
      exact ih r.1 (well_formed_exec layout ctx h c r.1 r.2 hc) hr

/-- C5: `ir_context_reset` yields the same context from any two previous contexts, namely:
node 0 is the `SET_CONSTANT` of type `U64` and value 0, register 0 is bound to node 0 and
registers 1..31 are unbound, `ir_cache_index == 1`, `ir_flush_cache_index == 0`, head and
tail are node 0, every other arena slot and every flush record is zeroed, and both
block-end flags are false. -/
theorem ir_context_reset_spec (ctx ctx2 : ir_context_t) :
    (ir_context_reset ctx).agrees (ir_context_reset ctx2) ∧
    (ir_context_reset ctx).ir_cache 0 = ir_node_zero_constant ∧
    (ir_context_reset ctx).guest_gpr_to_value 0 = some 0 ∧
    (∀ i, 1 ≤ i → i < 32 → (ir_context_reset ctx).guest_gpr_to_value i = none) ∧
    (ir_context_reset ctx).ir_cache_index = 1 ∧
    (ir_context_reset ctx).ir_flush_cache_index = 0 ∧
    (ir_context_reset ctx).ir_cache_head = some 0 ∧
    (ir_context_reset ctx).ir_cache_tail = some 0 ∧
    (∀ i, 1 ≤ i → i < IR_CACHE_SIZE → (ir_context_reset ctx).ir_cache i = ir_instruction_zero) ∧
    (∀ i, i < IR_FLUSH_CACHE_SIZE →
      (ir_context_reset ctx).ir_flush_cache i = ir_instruction_flush_zero) ∧
    (ir_context_reset ctx).block_end_pc_ir_emitted = false ∧
    (ir_context_reset ctx).block_end_pc_compiled = false := by
  have hmap : ∀ (c : ir_context_t) (i : Nat), i < 32 →
      (ir_context_reset c).guest_gpr_to_value i = if i = 0 then some 0 else none := by
    intro c i hi
    show Function.update (array_fill 32 none c.guest_gpr_to_value) 0 (some 0) i = _
    by_cases h0 : i = 0
    · subst h0; simp
    · rw [Function.update_noteq h0, array_fill_apply, if_pos hi, if_neg h0]
  have hcache : ∀ (c : ir_context_t) (i : Nat), i < IR_CACHE_SIZE →
      (ir_context_reset c).ir_cache i =
        if i = 0 then ir_node_zero_constant else ir_instruction_zero := by
    intro c i hi
    show Function.update (array_fill IR_CACHE_SIZE ir_instruction_zero c.ir_cache) 0 _ i = _
    by_cases h0 : i = 0
    · subst h0
      rw [Function.update_same, array_fill_apply, if_pos hi, if_pos rfl]
      rfl
    · rw [Function.update_noteq h0, array_fill_apply, if_pos hi, if_neg h0]
  have hflush : ∀ (c : ir_context_t) (i : Nat), i < IR_FLUSH_CACHE_SIZE →
      (ir_context_reset c).ir_flush_cache i = ir_instruction_flush_zero := by
    intro c i hi
    show array_fill IR_FLUSH_CACHE_SIZE ir_instruction_flush_zero c.ir_flush_cache i = _
    rw [array_fill_apply, if_pos hi]
  refine ⟨⟨?_, ?_, rfl, rfl, rfl, ?_, rfl, rfl, rfl⟩, ?_, ?_, ?_, rfl, rfl, rfl, rfl, ?_, ?_,
    rfl, rfl⟩
  · intro i hi; rw [hmap ctx i hi, hmap ctx2 i hi]
  · intro i hi; rw [hcache ctx i hi, hcache ctx2 i hi]
  · intro i hi; rw [hflush ctx i hi, hflush ctx2 i hi]
  · rw [hcache ctx 0 (by decide), if_pos rfl]
  · rw [hmap ctx 0 (by decide), if_pos rfl]
  · intro i h1 hi
    rw [hmap ctx i hi, if_neg (by omega)]
  · intro i h1 hi
    rw [hcache ctx i hi, if_neg (by omega)]
  · exact hflush ctx

/-- Witness for C5: resetting a used context and resetting the zero-initialised global give
the same data; register 7, arena slot 9 and flush record 3 of the used context are cleared. -/
theorem ir_context_reset_spec_witness :
    (ir_context_reset ir_context_used).agrees (ir_context_reset ir_context_zero) ∧
    ir_context_used.guest_gpr_to_value 7 = some 3 ∧
    (ir_context_reset ir_context_used).guest_gpr_to_value 7 = none ∧
    (ir_context_reset ir_context_used).ir_cache 9 = ir_instruction_zero ∧
    (ir_context_reset ir_context_used).ir_flush_cache 3 = ir_instruction_flush_zero :=
  ⟨(ir_context_reset_spec ir_context_used ir_context_zero).1,
   rfl,
   (ir_context_reset_spec ir_context_used ir_context_zero).2.2.2.1 7 (by decide) (by decide),
   (ir_context_reset_spec ir_context_used ir_context_zero).2.2.2.2.2.2.2.2.1 9 (by decide)
     (by decide),
   (ir_context_reset_spec ir_context_used ir_context_zero).2.2.2.2.2.2.2.2.2.1 3 (by decide)⟩

theorem cond_exit_flush_step_skip (layout : ir_payload → Nat)
    (acc : ir_context_t × Option Nat) (i : Nat)
    (h : ∀ v, acc.1.guest_gpr_to_value i = some v →
      (acc.1.ir_cache v).type = .IR_LOAD_GUEST_REG) :
    cond_exit_flush_step layout acc i = acc := by
  unfold cond_exit_flush_step
  cases hv : acc.1.guest_gpr_to_value i with
  | none => rfl
  | some v =>
    simp only
    rw [if_neg]
    intro hh
    exact hh.1 (h v hv)

theorem cond_exit_flush_fold_skip (layout : ir_payload → Nat) (l : List Nat)
    (acc : ir_context_t × Option Nat)
    (h : ∀ i ∈ l, ∀ v, acc.1.guest_gpr_to_value i = some v →
      (acc.1.ir_cache v).type = .IR_LOAD_GUEST_REG) :
    l.foldl (cond_exit_flush_step layout) acc = acc := by
  induction l with
  | nil => rfl
  | cons i l ih =>
    rw [List.foldl_cons, cond_exit_flush_step_skip layout acc i (h i (List.mem_cons_self i l))]
    exact ih (fun j hj => h j (List.mem_cons_of_mem i hj))

theorem copy_register_only_loads :
    ∀ i ∈ List.range' 1 31,
      (ir_context_copy_register.guest_gpr_to_value i).all
        (fun v => decide ((ir_context_copy_register.ir_cache v).type = .IR_LOAD_GUEST_REG))
        = true := by
  decide

/-- C10 (evaluated at the failing input): after `ir_calls_copy_register` register 1 is bound
to node 1, a `LOAD_GUEST_REG` of register 2, so it holds a value that differs from the one
in the state array. `ir_emit_conditional_block_exit` then returns node 4, a
`COND_BLOCK_EXIT` whose flush list is empty: register 1 is not in it, whatever the object
representation behind the punned byte is. -/
theorem cond_block_exit_omits_copied_register :
    ∀ layout : ir_payload → Nat,
      ir_run layout (ir_context_reset ir_context_zero) ir_calls_copy_register
        = .ok ir_context_copy_register ∧
      ir_context_copy_register.guest_gpr_to_value 1 = some 1 ∧
      (ir_context_copy_register.ir_cache 1).type = .IR_LOAD_GUEST_REG ∧
      (ir_context_copy_register.ir_cache 1).payload = .load_guest_reg 2 ∧
      ∃ ctx2,
        ir_emit_conditional_block_exit layout ir_context_copy_register (some 2) 0
          = .ok (ctx2, some 4) ∧
        (ctx2.ir_cache 4).type = .IR_COND_BLOCK_EXIT ∧
        flush_list ctx2 IR_FLUSH_CACHE_SIZE (regs_to_flush_of ctx2 (some 4)) = [] := by
  intro layout
  refine ⟨rfl, rfl, rfl, rfl, ?_⟩
  have hfold : (List.range' 1 31).foldl (cond_exit_flush_step layout)
      (ir_context_copy_register, none) = (ir_context_copy_register, none) := by
    apply cond_exit_flush_fold_skip
    intro i hi v hv
    have := copy_register_only_loads i hi
    rw [hv] at this
    exact of_decide_eq_true this
  unfold ir_emit_conditional_block_exit
  rw [if_neg (by decide), hfold]
  exact ⟨_, rfl, rfl, rfl⟩

/-! ## Theorems: block-exit flag and arena bounds -/

theorem append_block_exit (ctx : ir_context_t) (h : ctx.well_formed) (ins : ir_instruction_t)
    (g : Nat) (ctx1 : ir_context_t) (p : ir_ptr)
    (hr : append_ir_instruction ctx ins g = .ok (ctx1, p)) :
    ctx1.block_end_pc_ir_emitted = ctx.block_end_pc_ir_emitted ∧
    (ctx1.has_block_exit ↔ ctx.has_block_exit ∨ ins.type.is_block_exit = true) := by
  obtain ⟨t, ht, hlt⟩ := h.tail
  have hne : t ≠ ctx.ir_cache_index := by omega
  obtain ⟨c, he, hidx, -, -, -, -, hfl, -, -, hnew, -, -, hty⟩ := append_eq ctx ins g t ht
  simp only [he, Except.ok.injEq, Prod.mk.injEq] at hr
  obtain ⟨hc, -⟩ := hr
  subst hc
  refine ⟨hfl, ?_⟩
  have hnt : (c.ir_cache ctx.ir_cache_index).type = ins.type := by
    rw [hnew hne]; rfl
  constructor
  · rintro ⟨i, hi, hx⟩
    by_cases hii : i = ctx.ir_cache_index
    · subst hii
      right
      rw [← hnt]; exact hx
    · left
      refine ⟨i, by omega, ?_⟩
      rw [← (hty i hii).1]; exact hx
  · rintro (⟨i, hi, hx⟩ | hx)
    · refine ⟨i, by omega, ?_⟩
      rw [(hty i (by omega)).1]; exact hx
    · exact ⟨ctx.ir_cache_index, by omega, by rw [hnt]; exact hx⟩

theorem insert_block_exit (ctx : ir_context_t) (h : ctx.well_formed) (after : ir_ptr)
    (ins : ir_instruction_t) (ctx1 : ir_context_t) (p : ir_ptr)
    (hr : insert_ir_instruction ctx after ins = .ok (ctx1, p)) :
    ctx1.block_end_pc_ir_emitted = ctx.block_end_pc_ir_emitted ∧
    (ctx1.has_block_exit ↔ ctx.has_block_exit ∨ ins.type.is_block_exit = true) := by
  unfold insert_ir_instruction at hr
  cases after with
  | none => simp at hr
  | some a =>
    simp only at hr
    cases hn : (ctx.ir_cache a).next with
    | none =>
      rw [hn] at hr
      exact append_block_exit ctx h ins NO_GUEST_REG ctx1 p hr
    | some old_next =>
      rw [hn] at hr
      simp only [allocate_ir_instruction, Except.ok.injEq, Prod.mk.injEq] at hr
      obtain ⟨hc, -⟩ := hr
      have hty : ∀ j, (ctx1.ir_cache j).type =
          if j = ctx.ir_cache_index then ins.type else (ctx.ir_cache j).type := by
        intro j
        rw [← hc, (modify_node_prev_kind _ _ _ j).1, (modify_node_next_kind _ _ _ j).1,
          (modify_node_prev_kind _ _ _ j).1, (modify_node_next_kind _ _ _ j).1]
        show (Function.update ctx.ir_cache ctx.ir_cache_index _ j).type = _
        by_cases hj : j = ctx.ir_cache_index
        · subst hj; simp
        · rw [Function.update_noteq hj, if_neg hj]
      have hidx : ctx1.ir_cache_index = ctx.ir_cache_index + 1 := by rw [← hc]; rfl
      refine ⟨by rw [← hc]; rfl, ?_⟩
      constructor
      · rintro ⟨i, hi, hx⟩
        rw [hty i] at hx
        by_cases hii : i = ctx.ir_cache_index
        · right; rw [if_pos hii] at hx; exact hx
        · left; rw [if_neg hii] at hx; exact ⟨i, by omega, hx⟩
      · rintro (⟨i, hi, hx⟩ | hx)
        · refine ⟨i, by omega, ?_⟩
          rw [hty i, if_neg (by omega)]; exact hx
        · refine ⟨ctx.ir_cache_index, by omega, ?_⟩
          rw [hty, if_pos rfl]; exact hx

theorem has_block_exit_of_frame (ctx ctx1 : ir_context_t)
    (h2 : ctx1.ir_cache = ctx.ir_cache) (h5 : ctx1.ir_cache_index = ctx.ir_cache_index) :
    ctx1.has_block_exit ↔ ctx.has_block_exit := by
  unfold ir_context_t.has_block_exit
  rw [h2, h5]

theorem set_constant_block_exit (ctx : ir_context_t) (h : ctx.well_formed)
    (value : ir_set_constant_t) (g : Nat) (ctx1 : ir_context_t) (p : ir_ptr)
    (hr : ir_emit_set_constant ctx value g = .ok (ctx1, p)) :
    ctx1.block_end_pc_ir_emitted = ctx.block_end_pc_ir_emitted ∧
    (ctx1.has_block_exit ↔ ctx.has_block_exit) := by
  unfold ir_emit_set_constant at hr
  split at hr
  · simp only [Except.ok.injEq, Prod.mk.injEq] at hr
    rw [← hr.1]; exact ⟨rfl, Iff.rfl⟩
  · split at hr
    · simp only [Except.ok.injEq, Prod.mk.injEq] at hr
      rw [← hr.1]
      have hf := update_guest_reg_mapping_frame ctx g ctx.ir_cache_head
      exact ⟨hf.2.2.2.2.2.2.1, has_block_exit_of_frame _ _ hf.1 hf.2.2.2.1⟩
    · have := append_block_exit ctx h _ g ctx1 p hr
      simpa [ir_instruction_local, ir_type.is_block_exit] using this

theorem exec_block_exit (layout : ir_payload → Nat) (ctx : ir_context_t)
    (h : ctx.well_formed) (c : ir_call) (ctx1 : ir_context_t) (p : ir_ptr)
    (hr : c.exec layout ctx = .ok (ctx1, p)) :
    ctx1.block_end_pc_ir_emitted = (ctx.block_end_pc_ir_emitted || c.sets_block_end_pc) ∧
    (ctx1.has_block_exit ↔ ctx.has_block_exit ∨ c.sets_block_end_pc = true) := by
  cases c with
  | call_update_guest_reg_mapping g v =>
    simp only [ir_call.exec, Except.ok.injEq, Prod.mk.injEq] at hr
    rw [← hr.1]
    have hf := update_guest_reg_mapping_frame ctx g v
    refine ⟨by simp [ir_call.sets_block_end_pc, hf.2.2.2.2.2.2.1], ?_⟩
    simpa [ir_call.sets_block_end_pc] using has_block_exit_of_frame _ _ hf.1 hf.2.2.2.1
  | call_dest e g =>
    have key : ctx1.block_end_pc_ir_emitted = ctx.block_end_pc_ir_emitted ∧
        (ctx1.has_block_exit ↔ ctx.has_block_exit) := by
      cases e with
      | emit_set_constant value => exact set_constant_block_exit ctx h value g ctx1 p hr
      | _ =>
        have := append_block_exit ctx h _ g ctx1 p hr
        simpa [ir_instruction_local, ir_type.is_block_exit] using this
    simpa [ir_call.sets_block_end_pc] using key
  | call_load_guest_reg g =>
    simp only [ir_call.exec, ir_emit_load_guest_reg] at hr
    split at hr
    · simp at hr
    · split at hr
      · simp only [Except.ok.injEq, Prod.mk.injEq] at hr
        rw [← hr.1]; simp [ir_call.sets_block_end_pc]
      · have := append_block_exit ctx h _ g ctx1 p hr
        simpa [ir_instruction_local, ir_type.is_block_exit, ir_call.sets_block_end_pc]
          using this
  | call_flush_guest_reg l v g =>
    simp only [ir_call.exec, ir_emit_flush_guest_reg] at hr
    split at hr
    · simp at hr
    · split at hr
      · simp at hr
      · have := insert_block_exit ctx h _ _ ctx1 p hr
        simpa [ir_instruction_local, ir_type.is_block_exit, ir_call.sets_block_end_pc]
          using this
  | call_boolean_not a g =>
    simp only [ir_call.exec, ir_emit_boolean_not, ir_emit_set_constant_u16, ir_emit_not,
      ir_emit_and] at hr
    cases h1 : ir_emit_set_constant ctx
        { type := .VALUE_TYPE_U16, raw := 1 % 2 ^ 16 } NO_GUEST_REG with
    | error e => rw [h1] at hr; simp [bind, Except.bind] at hr
    | ok r1 =>
      rw [h1] at hr
      have w1 := well_formed_set_constant ctx h _ _ r1.1 r1.2 h1
      have e1 := set_constant_block_exit ctx h _ _ r1.1 r1.2 h1
      simp only [bind, Except.bind] at hr
      cases h2 : append_ir_instruction r1.1 (ir_instruction_local .IR_NOT (.unary_op a))
          NO_GUEST_REG with
      | error e => rw [h2] at hr; simp at hr
      | ok r2 =>
        rw [h2] at hr
        have w2 := well_formed_append_of_ok r1.1 w1 _ _ r2.1 r2.2 h2
        have e2 := append_block_exit r1.1 w1 _ _ r2.1 r2.2 h2
        have e3 := append_block_exit r2.1 w2 _ _ ctx1 p hr
        simp only [ir_instruction_local, ir_type.is_block_exit, or_false, Bool.false_eq_true]
          at e2 e3
        refine ⟨?_, ?_⟩
        · rw [e3.1, e2.1, e1.1]; simp [ir_call.sets_block_end_pc]
        · rw [e3.2, e2.2, e1.2]; simp [ir_call.sets_block_end_pc]
  | call_store t a v =>
    have := append_block_exit ctx h _ _ ctx1 p hr
    simpa [ir_instruction_local, ir_type.is_block_exit, ir_call.sets_block_end_pc] using this
  | call_set_ptr t q v =>
    have := append_block_exit ctx h _ _ ctx1 p hr
    simpa [ir_instruction_local, ir_type.is_block_exit, ir_call.sets_block_end_pc] using this
  | call_conditional_set_block_exit_pc c t f =>
    have := append_block_exit _ (well_formed_of_frame ctx
      { ctx with block_end_pc_ir_emitted := true } h rfl rfl rfl rfl rfl) _ _ ctx1 p hr
    simp only [ir_instruction_local, ir_type.is_block_exit] at this
    refine ⟨by rw [this.1]; simp [ir_call.sets_block_end_pc], ?_⟩
    rw [this.2]
    simp [ir_call.sets_block_end_pc, ir_context_t.has_block_exit]
  | call_conditional_block_exit c i =>
    simp only [ir_call.exec, ir_emit_conditional_block_exit] at hr
    split at hr
    · simp at hr
    · obtain ⟨f1, f2, f3, f4, f5, f6, -⟩ :=
        cond_exit_flush_fold_frame layout (List.range' 1 31) (ctx, none)
      have := append_block_exit _ (well_formed_of_frame ctx _ h f1 f2 f3 f4 f5) _ _ ctx1 p hr
      simp only [ir_instruction_local, ir_type.is_block_exit, or_false, Bool.false_eq_true]
        at this
      refine ⟨?_, ?_⟩
      · rw [this.1, f6]; simp [ir_call.sets_block_end_pc]
      · rw [this.2, has_block_exit_of_frame _ _ f2 f5]; simp [ir_call.sets_block_end_pc]
  | call_set_block_exit_pc a =>
    have := append_block_exit _ (well_formed_of_frame ctx
      { ctx with block_end_pc_ir_emitted := true } h rfl rfl rfl rfl rfl) _ _ ctx1 p hr
    simp only [ir_instruction_local, ir_type.is_block_exit] at this
    refine ⟨by rw [this.1]; simp [ir_call.sets_block_end_pc], ?_⟩
    rw [this.2]
    simp [ir_call.sets_block_end_pc, ir_context_t.has_block_exit]
  | call_interpreter_fallback n =>
    simp [ir_call.exec, ir_emit_interpreter_fallback] at hr
  | call_multiply a b t =>
    have := append_block_exit ctx h _ _ ctx1 p hr
    simpa [ir_instruction_local, ir_type.is_block_exit, ir_call.sets_block_end_pc] using this
  | call_divide a b t =>
    have := append_block_exit ctx h _ _ ctx1 p hr
    simpa [ir_instruction_local, ir_type.is_block_exit, ir_call.sets_block_end_pc] using this
  | call_eret =>
    have := append_block_exit _ (well_formed_of_frame ctx
      { ctx with block_end_pc_ir_emitted := true } h rfl rfl rfl rfl rfl) _ _ ctx1 p hr
    simp only [ir_instruction_local, ir_type.is_block_exit] at this
    refine ⟨by rw [this.1]; simp [ir_call.sets_block_end_pc], ?_⟩
    rw [this.2]
    simp [ir_call.sets_block_end_pc, ir_context_t.has_block_exit]

theorem run_block_exit (layout : ir_payload → Nat) (calls : List ir_call)
    (ctx : ir_context_t) (h : ctx.well_formed) (ctx1 : ir_context_t)
    (hr : ir_run layout ctx calls = .ok ctx1) :
    ctx1.block_end_pc_ir_emitted =
      (ctx.block_end_pc_ir_emitted || calls.any ir_call.sets_block_end_pc) ∧
    (ctx1.has_block_exit ↔
      ctx.has_block_exit ∨ calls.any ir_call.sets_block_end_pc = true) := by
  induction calls generalizing ctx with
  | nil =>
    simp only [ir_run, Except.ok.injEq] at hr
    rw [← hr]; simp
  | cons c cs ih =>
    simp only [ir_run] at hr
    cases hc : c.exec layout ctx with
    | error e => rw [hc] at hr; simp at hr
    | ok r =>
      rw [hc] at hr
      obtain ⟨e1, e2⟩ := exec_block_exit layout ctx h c r.1 r.2 hc
      obtain ⟨i1, i2⟩ := ih r.1 (well_formed_exec layout ctx h c r.1 r.2 hc) hr
      refine ⟨?_, ?_⟩
      · rw [i1, e1, List.any_cons, Bool.or_assoc]
      · rw [i2, e2, List.any_cons, Bool.or_eq_true, or_assoc]

theorem append_ok_index (ctx : ir_context_t) (h : ctx.well_formed) (ins : ir_instruction_t)
    (g : Nat) :
    ∃ ctx1, append_ir_instruction ctx ins g = .ok (ctx1, some ctx.ir_cache_index) ∧
      ctx1.well_formed ∧ ctx1.ir_cache_index = ctx.ir_cache_index + 1 := by
  obtain ⟨t, ht, -⟩ := h.tail
  obtain ⟨c, he, hidx, -⟩ := append_eq ctx ins g t ht
  exact ⟨c, he, well_formed_append_of_ok ctx h ins g c _ he, hidx⟩

theorem run_replicate_eret (layout : ir_payload → Nat) (n : Nat) (ctx : ir_context_t)
    (h : ctx.well_formed) :
    ∃ ctx1, ir_run layout ctx (List.replicate n .call_eret) = .ok ctx1 ∧
      ctx1.well_formed ∧ ctx1.ir_cache_index = ctx.ir_cache_index + n := by
  induction n generalizing ctx with
  | zero => exact ⟨ctx, rfl, h, rfl⟩
  | succ k ih =>
    have hw : ({ ctx with block_end_pc_ir_emitted := true } : ir_context_t).well_formed :=
      well_formed_of_frame ctx _ h rfl rfl rfl rfl rfl
    obtain ⟨c, he, hc, hidx⟩ := append_ok_index _ hw
      (ir_instruction_local .IR_ERET .indeterminate) NO_GUEST_REG
    obtain ⟨c2, hrun, hw2, hidx2⟩ := ih c hc
    refine ⟨c2, ?_, hw2, ?_⟩
    · rw [List.replicate_succ]
      simp only [ir_run, ir_call.exec, ir_emit_eret]
      rw [he]
      exact hrun
    · rw [hidx2, hidx]
      show ctx.ir_cache_index + 1 + k = ctx.ir_cache_index + (k + 1)
      omega

/-! ## Theorems: the IR list -/

theorem ir_chain_congr (c c1 : Nat → ir_instruction_t) (l : List Nat) (p : ir_ptr)
    (h : ∀ x ∈ l, (c1 x).prev = (c x).prev ∧ (c1 x).next = (c x).next)
    (hc : ir_chain c p l) : ir_chain c1 p l := by
  induction l generalizing p with
  | nil => trivial
  | cons a rest ih =>
    obtain ⟨h1, h2, h3⟩ := hc
    have ha := h a (List.mem_cons_self a rest)
    exact ⟨ha.1.trans h1, ha.2.trans h2,
      ih (some a) (fun x hx => h x (List.mem_cons_of_mem a hx)) h3⟩

theorem ir_chain_next_at (c : Nat → ir_instruction_t) (l1 l2 : List Nat) (a : Nat)
    (p : ir_ptr) (hc : ir_chain c p (l1 ++ a :: l2)) : (c a).next = l2.head? := by
  induction l1 generalizing p with
  | nil => exact hc.2.1
  | cons x l1 ih => exact ih (some x) hc.2.2

theorem head_append_cons (l1 l2 l3 : List Nat) (a : Nat) :
    (l1 ++ a :: l2).head? = (l1 ++ a :: l3).head? := by
  cases l1 <;> rfl

theorem ir_chain_insert (c c1 : Nat → ir_instruction_t) (n a : Nat) (l1 l2 : List Nat)
    (p : ir_ptr)
    (hc : ir_chain c p (l1 ++ a :: l2))
    (hnd : (l1 ++ a :: l2).Nodup) (hn : n ∉ l1 ++ a :: l2)
    (ha : (c1 a).prev = (c a).prev ∧ (c1 a).next = some n)
    (hnew : (c1 n).prev = some a ∧ (c1 n).next = l2.head?)
    (hb : ∀ b, l2.head? = some b → (c1 b).prev = some n ∧ (c1 b).next = (c b).next)
    (ho : ∀ x, x ≠ a → x ≠ n → l2.head? ≠ some x →
      (c1 x).prev = (c x).prev ∧ (c1 x).next = (c x).next) :
    ir_chain c1 p (l1 ++ a :: n :: l2) := by
  induction l1 generalizing p with
  | nil =>
    simp only [List.nil_append] at hc hnd hn ⊢
    obtain ⟨h1, h2, h3⟩ := hc
    refine ⟨ha.1.trans h1, ha.2, hnew.1, hnew.2, ?_⟩
    cases l2 with
    | nil => trivial
    | cons b l3 =>
      obtain ⟨g1, g2, g3⟩ := h3
      have hbb := hb b rfl
      refine ⟨hbb.1, hbb.2.trans g2, ?_⟩
      apply ir_chain_congr c c1 l3 (some b) _ g3
      intro x hx
      have hxa : x ≠ a := by
        rintro rfl
        exact (List.nodup_cons.mp hnd).1 (List.mem_cons_of_mem b hx)
      have hxn : x ≠ n := by
        rintro rfl
        exact hn (List.mem_cons_of_mem a (List.mem_cons_of_mem b hx))
      have hxb : x ≠ b := by
        rintro rfl
        exact (List.nodup_cons.mp (List.nodup_cons.mp hnd).2).1 hx
      exact ho x hxa hxn (by simpa using Ne.symm hxb)
  | cons x l1 ih =>
    simp only [List.cons_append] at hc hnd hn ⊢
    obtain ⟨h1, h2, h3⟩ := hc
    have hxl : x ∉ l1 ++ a :: l2 := (List.nodup_cons.mp hnd).1
    have hxa : x ≠ a := by
      rintro rfl
      exact hxl (List.mem_append_right l1 (List.mem_cons_self x l2))
    have hxn : x ≠ n := by
      rintro rfl
      exact hn (List.mem_cons_self x _)
    have hx2 : l2.head? ≠ some x := by
      intro hh
      have : x ∈ l2 := List.mem_of_mem_head? hh
      exact hxl (List.mem_append_right l1 (List.mem_cons_of_mem a this))
    have hox := ho x hxa hxn hx2
    refine ⟨hox.1.trans h1, ?_, ?_⟩
    · rw [hox.2, h2]
      exact head_append_cons l1 l2 (n :: l2) a
    · exact ih (some x) h3 (List.nodup_cons.mp hnd).2
        (fun hm => hn (List.mem_cons_of_mem x hm))

theorem ir_list_from_of_chain (c : Nat → ir_instruction_t) (l : List Nat) (p : ir_ptr)
    (fuel : Nat) (hf : l.length ≤ fuel) (hc : ir_chain c p l) :
    ir_list_from c fuel l.head? = l := by
  induction l generalizing p fuel with
  | nil => cases fuel <;> rfl
  | cons a rest ih =>
    cases fuel with
    | zero => simp at hf
    | succ f =>
      obtain ⟨-, h2, h3⟩ := hc
      show a :: ir_list_from c f (c a).next = a :: rest
      rw [h2, ih (some a) f (by simpa using hf) h3]

theorem length_le_of_nodup_lt (l : List Nat) (n : Nat) (hnd : l.Nodup)
    (h : ∀ a ∈ l, a < n) : l.length ≤ n := by
  have hsub : l.toFinset ⊆ Finset.range n := by
    intro a ha
    exact Finset.mem_range.mpr (h a (List.mem_toFinset.mp ha))
  have := Finset.card_le_card hsub
  rwa [List.toFinset_card_of_nodup hnd, Finset.card_range] at this

theorem ir_list_of_linked (ctx : ir_context_t) (l : List Nat) (h : ctx.linked l) :
    ctx.ir_list = l := by
  unfold ir_context_t.ir_list
  rw [h.head]
  exact ir_list_from_of_chain ctx.ir_cache l none ctx.ir_cache_index
    (length_le_of_nodup_lt l _ h.nodup h.allocated) h.chain

theorem linked_reset (ctx : ir_context_t) : (ir_context_reset ctx).linked [0] := by
  have hs := well_formed_reset ctx
  refine ⟨rfl, rfl, ⟨?_, ?_, trivial⟩, List.nodup_singleton 0, ?_⟩
  · simp [ir_context_reset, array_fill_apply, IR_CACHE_SIZE, ir_instruction_zero]
  · simp [ir_context_reset, array_fill_apply, IR_CACHE_SIZE, ir_instruction_zero]
  · intro a ha
    rw [List.mem_singleton.mp ha]
    exact Nat.zero_lt_one
theorem modify_node_apply (ctx : ir_context_t) (i : Nat)
    (g : ir_instruction_t → ir_instruction_t) (j : Nat) :
    (ctx.modify_node i g).ir_cache j = if j = i then g (ctx.ir_cache i) else ctx.ir_cache j := by
  unfold ir_context_t.modify_node
  by_cases h : j = i
  · subst h; simp
  · simp [Function.update_noteq h, h]

theorem insert_eq (ctx : ir_context_t) (a b : Nat) (ins : ir_instruction_t)
    (hn : (ctx.ir_cache a).next = some b) (ha : a ≠ ctx.ir_cache_index)
    (hb : b ≠ ctx.ir_cache_index) (hab : a ≠ b) :
    ∃ ctx1, insert_ir_instruction ctx (some a) ins = .ok (ctx1, some ctx.ir_cache_index) ∧
      ctx1.ir_cache_index = ctx.ir_cache_index + 1 ∧
      ctx1.ir_cache_tail = ctx.ir_cache_tail ∧
      ctx1.ir_cache_head = ctx.ir_cache_head ∧
      ctx1.guest_gpr_to_value = ctx.guest_gpr_to_value ∧
      ctx1.ir_cache a = { ctx.ir_cache a with next := some ctx.ir_cache_index } ∧
      (ctx1.ir_cache ctx.ir_cache_index).prev = some a ∧
      (ctx1.ir_cache ctx.ir_cache_index).next = some b ∧
      (ctx1.ir_cache ctx.ir_cache_index).type = ins.type ∧
      (ctx1.ir_cache ctx.ir_cache_index).payload = ins.payload ∧
      ctx1.ir_cache b = { ctx.ir_cache b with prev := some ctx.ir_cache_index } ∧
      (∀ x, x ≠ a → x ≠ ctx.ir_cache_index → x ≠ b → ctx1.ir_cache x = ctx.ir_cache x) := by
  unfold insert_ir_instruction
  simp only [hn, allocate_ir_instruction]
  refine ⟨_, rfl, rfl, rfl, rfl, rfl, ?_, ?_, ?_, ?_, ?_, ?_, ?_⟩
  · simp [modify_node_apply, Function.update_apply, ha, hb, hab, Ne.symm hb, Ne.symm ha]
  · simp [modify_node_apply, Function.update_apply, ha, hb, hab, Ne.symm hb, Ne.symm ha]
  · simp [modify_node_apply, Function.update_apply, ha, hb, hab, Ne.symm hb, Ne.symm ha]
  · simp [modify_node_apply, Function.update_apply, ha, hb, hab, Ne.symm hb, Ne.symm ha]
  · simp [modify_node_apply, Function.update_apply, ha, hb, hab, Ne.symm hb, Ne.symm ha]
  · simp [modify_node_apply, Function.update_apply, ha, hb, hab, Ne.symm hb, Ne.symm ha,
      Ne.symm hab]
  · intro x h1 h2 h3
    simp [modify_node_apply, Function.update_apply, h1, h2, h3]
theorem nodup_insert (l1 l2 : List Nat) (a n : Nat) (hnd : (l1 ++ a :: l2).Nodup)
    (hn : n ∉ l1 ++ a :: l2) : (l1 ++ a :: n :: l2).Nodup := by
  have hp : (l1 ++ a :: n :: l2).Perm (n :: (l1 ++ a :: l2)) := by
    have := @List.perm_middle _ n (l1 ++ [a]) l2
    simpa using this
  exact hp.nodup_iff.mpr (List.nodup_cons.mpr ⟨hn, hnd⟩)

theorem getLast_insert_nil (l1 : List Nat) (a n : Nat) :
    (l1 ++ [a]).getLast? = some a ∧ (l1 ++ [a, n]).getLast? = some n := by
  constructor
  · simp
  · have : l1 ++ [a, n] = (l1 ++ [a]) ++ [n] := by simp
    rw [this]; simp

theorem getLast_insert_cons (l1 l3 : List Nat) (a n b : Nat) :
    (l1 ++ a :: n :: b :: l3).getLast? = (l1 ++ a :: b :: l3).getLast? := by
  rw [List.getLast?_append, List.getLast?_append]
  simp [List.getLast?_cons_cons]

theorem linked_insert (ctx ctx1 : ir_context_t) (l1 l2 : List Nat) (a : Nat)
    (hl : ctx.linked (l1 ++ a :: l2))
    (hidx : ctx1.ir_cache_index = ctx.ir_cache_index + 1)
    (hhead : ctx1.ir_cache_head = ctx.ir_cache_head)
    (htail : ctx1.ir_cache_tail = (l1 ++ a :: ctx.ir_cache_index :: l2).getLast?)
    (ha : (ctx1.ir_cache a).prev = (ctx.ir_cache a).prev ∧
      (ctx1.ir_cache a).next = some ctx.ir_cache_index)
    (hnew : (ctx1.ir_cache ctx.ir_cache_index).prev = some a ∧
      (ctx1.ir_cache ctx.ir_cache_index).next = l2.head?)
    (hb : ∀ b, l2.head? = some b →
      (ctx1.ir_cache b).prev = some ctx.ir_cache_index ∧
      (ctx1.ir_cache b).next = (ctx.ir_cache b).next)
    (ho : ∀ x, x ≠ a → x ≠ ctx.ir_cache_index → l2.head? ≠ some x →
      (ctx1.ir_cache x).prev = (ctx.ir_cache x).prev ∧
      (ctx1.ir_cache x).next = (ctx.ir_cache x).next) :
    ctx1.linked (l1 ++ a :: ctx.ir_cache_index :: l2) := by
  have hn : ctx.ir_cache_index ∉ l1 ++ a :: l2 := fun hm =>
    Nat.lt_irrefl _ (hl.allocated _ hm)
  refine ⟨?_, htail, ?_, nodup_insert l1 l2 a _ hl.nodup hn, ?_⟩
  · rw [hhead, hl.head]
    exact head_append_cons l1 l2 _ a
  · exact ir_chain_insert ctx.ir_cache ctx1.ir_cache _ a l1 l2 none hl.chain hl.nodup hn
      ha hnew hb ho
  · intro x hx
    rw [hidx]
    have : x = ctx.ir_cache_index ∨ x ∈ l1 ++ a :: l2 := by
      simp only [List.mem_append, List.mem_cons] at hx ⊢
      tauto
    rcases this with h | h
    · omega
    · have := hl.allocated x h
      omega

theorem and_ne_zero_iff_testBit (a b : Nat) :
    a &&& b ≠ 0 ↔ ∃ i, a.testBit i = true ∧ b.testBit i = true := by
  constructor
  · intro h
    by_contra hc
    apply h
    apply Nat.eq_of_testBit_eq
    intro i
    rw [Nat.testBit_and, Nat.zero_testBit]
    by_contra hh
    apply hc
    refine ⟨i, ?_, ?_⟩
    · cases ha : a.testBit i <;> simp_all
    · cases hb : b.testBit i <;> simp_all
  · rintro ⟨i, ha, hb⟩ h0
    have := congrArg (fun x => Nat.testBit x i) h0
    simp [Nat.testBit_and, ha, hb] at this

theorem testBit_or_bit (f k i : Nat) :
    (f ||| (1 <<< k)).testBit i = (f.testBit i || decide (k = i)) := by
  rw [Nat.testBit_or, Nat.one_shiftLeft, Nat.testBit_two_pow]

theorem fcr31_cause_testBit (f i : Nat) :
    (fcr31_cause f).testBit i = (decide (i < 6) && f.testBit (12 + i)) := by
  unfold fcr31_cause
  rw [Nat.testBit_mod_two_pow, Nat.testBit_shiftRight]

theorem fcr31_enable_testBit (f i : Nat) :
    (fcr31_enable f ||| (1 <<< 5)).testBit i =
      ((decide (i < 5) && f.testBit (7 + i)) || decide (5 = i)) := by
  unfold fcr31_enable
  rw [testBit_or_bit, Nat.testBit_mod_two_pow, Nat.testBit_shiftRight]

theorem fire_condition_iff (f : Nat) :
    fcr31_cause f &&& (fcr31_enable f ||| (1 <<< 5)) ≠ 0 ↔
      (f.testBit 17 = true ∨
       (f.testBit 12 = true ∧ f.testBit 7 = true) ∨
       (f.testBit 13 = true ∧ f.testBit 8 = true) ∨
       (f.testBit 14 = true ∧ f.testBit 9 = true) ∨
       (f.testBit 15 = true ∧ f.testBit 10 = true) ∨
       (f.testBit 16 = true ∧ f.testBit 11 = true)) := by
  rw [and_ne_zero_iff_testBit]
  constructor
  · rintro ⟨i, hc, he⟩
    rw [fcr31_cause_testBit] at hc
    rw [fcr31_enable_testBit] at he
    simp only [Bool.and_eq_true, decide_eq_true_eq, Bool.or_eq_true] at hc he
    obtain ⟨hi, hc⟩ := hc
    interval_cases i
    · simp at he; right; left; exact ⟨hc, he⟩
    · simp at he; right; right; left; exact ⟨hc, he⟩
    · simp at he; right; right; right; left; exact ⟨hc, he⟩
    · simp at he; right; right; right; right; left; exact ⟨hc, he⟩
    · simp at he; right; right; right; right; right; exact ⟨hc, he⟩
    · left; exact hc
  · rintro (h | ⟨h1, h2⟩ | ⟨h1, h2⟩ | ⟨h1, h2⟩ | ⟨h1, h2⟩ | ⟨h1, h2⟩)
    · refine ⟨5, ?_, ?_⟩
      · rw [fcr31_cause_testBit]; simpa using h
      · rw [fcr31_enable_testBit]; simp
    · refine ⟨0, ?_, ?_⟩
      · rw [fcr31_cause_testBit]; simpa using h1
      · rw [fcr31_enable_testBit]; simpa using h2
    · refine ⟨1, ?_, ?_⟩
      · rw [fcr31_cause_testBit]; simpa using h1
      · rw [fcr31_enable_testBit]; simpa using h2
    · refine ⟨2, ?_, ?_⟩
      · rw [fcr31_cause_testBit]; simpa using h1
      · rw [fcr31_enable_testBit]; simpa using h2
    · refine ⟨3, ?_, ?_⟩
      · rw [fcr31_cause_testBit]; simpa using h1
      · rw [fcr31_enable_testBit]; simpa using h2
    · refine ⟨4, ?_, ?_⟩
      · rw [fcr31_cause_testBit]; simpa using h1
      · rw [fcr31_enable_testBit]; simpa using h2

theorem fire_fpu_exception_eq (handler : exception_handler_t) (cpu : r4300i_t) :
    fire_fpu_exception handler cpu =
      if fcr31_cause cpu.fcr31 &&& (fcr31_enable cpu.fcr31 ||| (1 <<< 5)) ≠ 0 then
        (true, handler cpu cpu.prev_pc EXCEPTION_FLOATING_POINT 0)
      else (false, cpu) := rfl

/-- C14: for every `fcr31` value, `fire_fpu_exception` returns true, and the state it leaves
is the one returned by `r4300i_handle_exception(prev_pc, EXCEPTION_FLOATING_POINT, 0)`, if
and only if `cause_unimplemented_operation` is set or one of the five other kinds has both
its cause bit and its enable bit set; otherwise it returns false and changes nothing. A set
`cause_unimplemented_operation` fires whatever the enable bits are. -/
theorem fire_fpu_exception_iff (handler : exception_handler_t) (cpu : r4300i_t) :
    ((fire_fpu_exception handler cpu).1 = true ↔
      (fcr31_cause_unimplemented_operation cpu.fcr31 = true ∨
       (fcr31_cause_inexact_operation cpu.fcr31 = true ∧
          fcr31_enable_inexact_operation cpu.fcr31 = true) ∨
       (fcr31_cause_underflow cpu.fcr31 = true ∧ fcr31_enable_underflow cpu.fcr31 = true) ∨
       (fcr31_cause_overflow cpu.fcr31 = true ∧ fcr31_enable_overflow cpu.fcr31 = true) ∨
       (fcr31_cause_division_by_zero cpu.fcr31 = true ∧
          fcr31_enable_division_by_zero cpu.fcr31 = true) ∨
       (fcr31_cause_invalid_operation cpu.fcr31 = true ∧
          fcr31_enable_invalid_operation cpu.fcr31 = true))) ∧
    ((fire_fpu_exception handler cpu).1 = true →
      (fire_fpu_exception handler cpu).2 =
        handler cpu cpu.prev_pc EXCEPTION_FLOATING_POINT 0) ∧
    ((fire_fpu_exception handler cpu).1 = false → (fire_fpu_exception handler cpu).2 = cpu) ∧
    (fcr31_cause_unimplemented_operation cpu.fcr31 = true →
      fire_fpu_exception handler cpu =
        (true, handler cpu cpu.prev_pc EXCEPTION_FLOATING_POINT 0)) := by
  have hc := fire_condition_iff cpu.fcr31
  rw [fire_fpu_exception_eq]
  by_cases h : fcr31_cause cpu.fcr31 &&& (fcr31_enable cpu.fcr31 ||| (1 <<< 5)) ≠ 0
  · rw [if_pos h]
    refine ⟨⟨fun _ => hc.mp h, fun _ => rfl⟩, fun _ => rfl, fun hh => Bool.noConfusion hh,
      fun _ => rfl⟩
  · rw [if_neg h]
    refine ⟨⟨fun hh => Bool.noConfusion hh, fun hh => absurd (hc.mpr hh) h⟩,
      fun hh => Bool.noConfusion hh, fun _ => rfl, fun hh => absurd (hc.mpr (Or.inl hh)) h⟩

/-- Witness for C14: with only `cause_unimplemented_operation` set (`fcr31 = 0x20000`) the
exception fires although every enable bit is clear; with `cause_inexact_operation` set and
its enable clear (`fcr31 = 0x1000`) nothing fires. -/
theorem fire_fpu_exception_iff_witness :
    fire_fpu_exception (fun cpu pc _ _ => { cpu with pc := 0x80000180, next_pc := pc })
        { r4300i_zero with fcr31 := 0x20000, prev_pc := 0x1000 }
      = (true, { r4300i_zero with fcr31 := 0x20000, prev_pc := 0x1000, pc := 0x80000180,
                                   next_pc := 0x1000 }) ∧
    (fire_fpu_exception (fun cpu pc _ _ => { cpu with pc := 0x80000180, next_pc := pc })
        { r4300i_zero with fcr31 := 0x1000, prev_pc := 0x1000 }).2
      = { r4300i_zero with fcr31 := 0x1000, prev_pc := 0x1000 } :=
  ⟨(fire_fpu_exception_iff _ { r4300i_zero with fcr31 := 0x20000, prev_pc := 0x1000 }).2.2.2
      (by decide),
   (fire_fpu_exception_iff _ { r4300i_zero with fcr31 := 0x1000, prev_pc := 0x1000 }).2.2.1
      (by decide)⟩
theorem fpclassify_s_cases (x : Nat) :
    (f32_is_nan x → fpclassify_s x = .FP_NAN) ∧
    (f32_is_subnormal x → fpclassify_s x = .FP_SUBNORMAL) ∧
    (f32_is_infinite x → fpclassify_s x = .FP_INFINITE) ∧
    (f32_is_zero x → fpclassify_s x = .FP_ZERO) ∧
    (f32_is_normal x → fpclassify_s x = .FP_NORMAL) := by
  unfold fpclassify_s f32_is_nan f32_is_subnormal f32_is_infinite f32_is_zero f32_is_normal
  refine ⟨?_, ?_, ?_, ?_, ?_⟩
  · rintro ⟨h1, h2⟩; simp [h1, h2]
  · rintro ⟨h1, h2⟩; simp [h1, h2]
  · rintro ⟨h1, h2⟩; simp [h1, h2]
  · rintro ⟨h1, h2⟩; simp [h1, h2]
  · rintro ⟨h1, h2⟩; simp [h1, h2]

theorem fpclassify_d_cases (x : Nat) :
    (f64_is_nan x → fpclassify_d x = .FP_NAN) ∧
    (f64_is_subnormal x → fpclassify_d x = .FP_SUBNORMAL) ∧
    (f64_is_infinite x → fpclassify_d x = .FP_INFINITE) ∧
    (f64_is_zero x → fpclassify_d x = .FP_ZERO) ∧
    (f64_is_normal x → fpclassify_d x = .FP_NORMAL) := by
  unfold fpclassify_d f64_is_nan f64_is_subnormal f64_is_infinite f64_is_zero f64_is_normal
  refine ⟨?_, ?_, ?_, ?_, ?_⟩
  · rintro ⟨h1, h2⟩; simp [h1, h2]
  · rintro ⟨h1, h2⟩; simp [h1, h2]
  · rintro ⟨h1, h2⟩; simp [h1, h2]
  · rintro ⟨h1, h2⟩; simp [h1, h2]
  · rintro ⟨h1, h2⟩; simp [h1, h2]

theorem f32_class_exhaustive (x : Nat) :
    f32_is_quiet_nan x ∨ f32_is_signaling_nan x ∨ f32_is_subnormal x ∨ f32_is_infinite x ∨
      f32_is_zero x ∨ f32_is_normal x := by
  unfold f32_is_quiet_nan f32_is_signaling_nan f32_is_subnormal f32_is_infinite f32_is_zero
    f32_is_normal
  by_cases h1 : f32_exponent x = 255 <;> by_cases h2 : f32_exponent x = 0 <;>
    by_cases h3 : f32_mantissa x = 0 <;> cases h4 : x.testBit 22 <;> simp_all

theorem f64_class_exhaustive (x : Nat) :
    f64_is_quiet_nan x ∨ f64_is_signaling_nan x ∨ f64_is_subnormal x ∨ f64_is_infinite x ∨
      f64_is_zero x ∨ f64_is_normal x := by
  unfold f64_is_quiet_nan f64_is_signaling_nan f64_is_subnormal f64_is_infinite f64_is_zero
    f64_is_normal
  by_cases h1 : f64_exponent x = 2047 <;> by_cases h2 : f64_exponent x = 0 <;>
    by_cases h3 : f64_mantissa x = 0 <;> cases h4 : x.testBit 51 <;> simp_all

theorem set_cause_fpu_arg_s_eq (cpu : r4300i_t) (x : Nat) :
    (f32_is_quiet_nan x →
      set_cause_fpu_arg_s cpu x = { cpu with fcr31 := cpu.fcr31 ||| (1 <<< 16) }) ∧
    (f32_is_signaling_nan x ∨ f32_is_subnormal x →
      set_cause_fpu_arg_s cpu x = { cpu with fcr31 := cpu.fcr31 ||| (1 <<< 17) }) ∧
    (f32_is_infinite x ∨ f32_is_zero x ∨ f32_is_normal x → set_cause_fpu_arg_s cpu x = cpu) := by
  have hc := fpclassify_s_cases x
  refine ⟨?_, ?_, ?_⟩
  · rintro ⟨h1, h2, h3⟩
    unfold set_cause_fpu_arg_s
    rw [hc.1 ⟨h1, h2⟩]
    simp [is_qnan_f, h1, h3, set_cause_invalid_operation]
  · rintro (⟨h1, h2, h3⟩ | h)
    · unfold set_cause_fpu_arg_s
      rw [hc.1 ⟨h1, h2⟩]
      simp [is_qnan_f, h1, h3, set_cause_unimplemented_operation]
    · unfold set_cause_fpu_arg_s
      rw [hc.2.1 h]
      rfl
  · rintro (h | h | h)
    · unfold set_cause_fpu_arg_s; rw [hc.2.2.1 h]
    · unfold set_cause_fpu_arg_s; rw [hc.2.2.2.1 h]
    · unfold set_cause_fpu_arg_s; rw [hc.2.2.2.2 h]

theorem set_cause_fpu_arg_d_eq (cpu : r4300i_t) (x : Nat) :
    (f64_is_quiet_nan x →
      set_cause_fpu_arg_d cpu x = { cpu with fcr31 := cpu.fcr31 ||| (1 <<< 16) }) ∧
    (f64_is_signaling_nan x ∨ f64_is_subnormal x →
      set_cause_fpu_arg_d cpu x = { cpu with fcr31 := cpu.fcr31 ||| (1 <<< 17) }) ∧
    (f64_is_infinite x ∨ f64_is_zero x ∨ f64_is_normal x → set_cause_fpu_arg_d cpu x = cpu) := by
  have hc := fpclassify_d_cases x
  refine ⟨?_, ?_, ?_⟩
  · rintro ⟨h1, h2, h3⟩
    unfold set_cause_fpu_arg_d
    rw [hc.1 ⟨h1, h2⟩]
    simp [is_qnan_d, h1, h3, set_cause_invalid_operation]
  · rintro (⟨h1, h2, h3⟩ | h)
    · unfold set_cause_fpu_arg_d
      rw [hc.1 ⟨h1, h2⟩]
      simp [is_qnan_d, h1, h3, set_cause_unimplemented_operation]
    · unfold set_cause_fpu_arg_d
      rw [hc.2.1 h]
      rfl
  · rintro (h | h | h)
    · unfold set_cause_fpu_arg_d; rw [hc.2.2.1 h]
    · unfold set_cause_fpu_arg_d; rw [hc.2.2.2.1 h]
    · unfold set_cause_fpu_arg_d; rw [hc.2.2.2.2 h]

theorem cause_bits_after_invalid (f : Nat) :
    fcr31_cause_invalid_operation (f ||| (1 <<< 16)) = true ∧
    fcr31_cause_unimplemented_operation (f ||| (1 <<< 16))
      = fcr31_cause_unimplemented_operation f := by
  unfold fcr31_cause_invalid_operation fcr31_cause_unimplemented_operation
  rw [testBit_or_bit, testBit_or_bit]
  simp

theorem cause_bits_after_unimplemented (f : Nat) :
    fcr31_cause_unimplemented_operation (f ||| (1 <<< 17)) = true ∧
    fcr31_cause_invalid_operation (f ||| (1 <<< 17)) = fcr31_cause_invalid_operation f := by
  unfold fcr31_cause_invalid_operation fcr31_cause_unimplemented_operation
  rw [testBit_or_bit, testBit_or_bit]
  simp

/-- C15: for every float (resp. double) bit pattern `x`, which is always of exactly one of
the six classes, `set_cause_fpu_arg_s` (resp. `set_cause_fpu_arg_d`) sets
`cause_invalid_operation` and leaves `cause_unimplemented_operation` as it was when `x` is a
quiet NaN, sets `cause_unimplemented_operation` and leaves `cause_invalid_operation` as it
was when `x` is a signaling NaN or a subnormal, and leaves the state unchanged when `x` is
an infinity, a zero or a normal number. -/
theorem set_cause_fpu_arg_spec (cpu : r4300i_t) (x : Nat) :
    (f32_is_quiet_nan x ∨ f32_is_signaling_nan x ∨ f32_is_subnormal x ∨ f32_is_infinite x ∨
      f32_is_zero x ∨ f32_is_normal x) ∧
    (f32_is_quiet_nan x →
      set_cause_fpu_arg_s cpu x = { cpu with fcr31 := cpu.fcr31 ||| (1 <<< 16) } ∧
      fcr31_cause_invalid_operation (set_cause_fpu_arg_s cpu x).fcr31 = true ∧
      fcr31_cause_unimplemented_operation (set_cause_fpu_arg_s cpu x).fcr31
        = fcr31_cause_unimplemented_operation cpu.fcr31) ∧
    (f32_is_signaling_nan x ∨ f32_is_subnormal x →
      set_cause_fpu_arg_s cpu x = { cpu with fcr31 := cpu.fcr31 ||| (1 <<< 17) } ∧
      fcr31_cause_unimplemented_operation (set_cause_fpu_arg_s cpu x).fcr31 = true ∧
      fcr31_cause_invalid_operation (set_cause_fpu_arg_s cpu x).fcr31
        = fcr31_cause_invalid_operation cpu.fcr31) ∧
    (f32_is_infinite x ∨ f32_is_zero x ∨ f32_is_normal x → set_cause_fpu_arg_s cpu x = cpu) ∧
    (f64_is_quiet_nan x ∨ f64_is_signaling_nan x ∨ f64_is_subnormal x ∨ f64_is_infinite x ∨
      f64_is_zero x ∨ f64_is_normal x) ∧
    (f64_is_quiet_nan x →
      set_cause_fpu_arg_d cpu x = { cpu with fcr31 := cpu.fcr31 ||| (1 <<< 16) } ∧
      fcr31_cause_invalid_operation (set_cause_fpu_arg_d cpu x).fcr31 = true ∧
      fcr31_cause_unimplemented_operation (set_cause_fpu_arg_d cpu x).fcr31
        = fcr31_cause_unimplemented_operation cpu.fcr31) ∧
    (f64_is_signaling_nan x ∨ f64_is_subnormal x →
      set_cause_fpu_arg_d cpu x = { cpu with fcr31 := cpu.fcr31 ||| (1 <<< 17) } ∧
      fcr31_cause_unimplemented_operation (set_cause_fpu_arg_d cpu x).fcr31 = true ∧
      fcr31_cause_invalid_operation (set_cause_fpu_arg_d cpu x).fcr31
        = fcr31_cause_invalid_operation cpu.fcr31) ∧
    (f64_is_infinite x ∨ f64_is_zero x ∨ f64_is_normal x → set_cause_fpu_arg_d cpu x = cpu) := by
  have hs := set_cause_fpu_arg_s_eq cpu x
  have hd := set_cause_fpu_arg_d_eq cpu x
  refine ⟨f32_class_exhaustive x, ?_, ?_, hs.2.2, f64_class_exhaustive x, ?_, ?_, hd.2.2⟩
  · intro h
    rw [hs.1 h]
    exact ⟨rfl, cause_bits_after_invalid cpu.fcr31⟩
  · intro h
    rw [hs.2.1 h]
    exact ⟨rfl, cause_bits_after_unimplemented cpu.fcr31⟩
  · intro h
    rw [hd.1 h]
    exact ⟨rfl, cause_bits_after_invalid cpu.fcr31⟩
  · intro h
    rw [hd.2.1 h]
    exact ⟨rfl, cause_bits_after_unimplemented cpu.fcr31⟩

/-- Witness for C15: the quiet NaN `0x7FC00000` sets `cause_invalid_operation` (bit 16), the
signaling NaN `0x7F800001` and the subnormal `0x00000001` set
`cause_unimplemented_operation` (bit 17), the normal `1.0 = 0x3F800000` changes nothing; the
same for the doubles `0x7FF8000000000000` and `0x0000000000000001`. -/
theorem set_cause_fpu_arg_spec_witness :
    (set_cause_fpu_arg_s r4300i_zero 0x7FC00000).fcr31 = 0x10000 ∧
    (set_cause_fpu_arg_s r4300i_zero 0x7F800001).fcr31 = 0x20000 ∧
    (set_cause_fpu_arg_s r4300i_zero 0x00000001).fcr31 = 0x20000 ∧
    set_cause_fpu_arg_s r4300i_zero 0x3F800000 = r4300i_zero ∧
    (set_cause_fpu_arg_d r4300i_zero 0x7FF8000000000000).fcr31 = 0x10000 ∧
    (set_cause_fpu_arg_d r4300i_zero 0x0000000000000001).fcr31 = 0x20000 :=
  ⟨congrArg r4300i_t.fcr31
     ((set_cause_fpu_arg_spec r4300i_zero 0x7FC00000).2.1 (by decide)).1,
   congrArg r4300i_t.fcr31
     ((set_cause_fpu_arg_spec r4300i_zero 0x7F800001).2.2.1 (Or.inl (by decide))).1,
   congrArg r4300i_t.fcr31
     ((set_cause_fpu_arg_spec r4300i_zero 0x00000001).2.2.1 (Or.inr (by decide))).1,
   (set_cause_fpu_arg_spec r4300i_zero 0x3F800000).2.2.2.1 (Or.inr (Or.inr (by decide))),
   congrArg r4300i_t.fcr31
     ((set_cause_fpu_arg_spec r4300i_zero 0x7FF8000000000000).2.2.2.2.2.1 (by decide)).1,
   congrArg r4300i_t.fcr31
     ((set_cause_fpu_arg_spec r4300i_zero 0x0000000000000001).2.2.2.2.2.2.1
       (Or.inr (by decide))).1⟩
theorem rounding_mode_or_bit (f k : Nat) (hk : 2 ≤ k) :
    fcr31_rounding_mode (f ||| (1 <<< k)) = fcr31_rounding_mode f := by
  unfold fcr31_rounding_mode
  apply Nat.eq_of_testBit_eq
  intro i
  rw [Nat.testBit_mod_two_pow, Nat.testBit_mod_two_pow, testBit_or_bit]
  by_cases hi : i < 2
  · have : k ≠ i := by omega
    simp [hi, this]
  · simp [hi]

theorem cause_bits_after_flush (f : Nat) :
    fcr31_cause_underflow (f ||| (1 <<< 13) ||| (1 <<< 12)) = true ∧
    fcr31_cause_inexact_operation (f ||| (1 <<< 13) ||| (1 <<< 12)) = true ∧
    (∀ i, i ≠ 12 → i ≠ 13 → (f ||| (1 <<< 13) ||| (1 <<< 12)).testBit i = f.testBit i) := by
  unfold fcr31_cause_underflow fcr31_cause_inexact_operation
  refine ⟨?_, ?_, ?_⟩
  · rw [testBit_or_bit, testBit_or_bit]; simp
  · rw [testBit_or_bit, testBit_or_bit]; simp
  · intro i h1 h2
    rw [testBit_or_bit, testBit_or_bit]
    simp [Ne.symm h1, Ne.symm h2]

theorem flush_subnormal_s_values (rm x : Nat) (hrm : rm < 4) :
    (rm = R4300I_CP1_ROUND_NEAREST ∨ rm = R4300I_CP1_ROUND_ZERO ∨
      rm = R4300I_CP1_ROUND_POSINF ∨ rm = R4300I_CP1_ROUND_NEGINF) ∧
    (rm = R4300I_CP1_ROUND_NEAREST ∨ rm = R4300I_CP1_ROUND_ZERO →
      flush_subnormal_s rm x = if signbit_s x then 0x80000000 else 0x00000000) ∧
    (rm = R4300I_CP1_ROUND_POSINF →
      flush_subnormal_s rm x = if signbit_s x then 0x80000000 else 0x00800000) ∧
    (rm = R4300I_CP1_ROUND_NEGINF →
      flush_subnormal_s rm x = if signbit_s x then 0x80800000 else 0x00000000) ∧
    ¬ f32_is_subnormal (flush_subnormal_s rm x) := by
  unfold flush_subnormal_s R4300I_CP1_ROUND_NEAREST R4300I_CP1_ROUND_ZERO
    R4300I_CP1_ROUND_POSINF R4300I_CP1_ROUND_NEGINF FLT_MIN
  interval_cases rm <;> cases signbit_s x <;> simp <;> decide

theorem flush_subnormal_d_values (rm x : Nat) (hrm : rm < 4) :
    (rm = R4300I_CP1_ROUND_NEAREST ∨ rm = R4300I_CP1_ROUND_ZERO ∨
      rm = R4300I_CP1_ROUND_POSINF ∨ rm = R4300I_CP1_ROUND_NEGINF) ∧
    (rm = R4300I_CP1_ROUND_NEAREST ∨ rm = R4300I_CP1_ROUND_ZERO →
      flush_subnormal_d rm x = if signbit_d x then 0x8000000000000000 else 0) ∧
    (rm = R4300I_CP1_ROUND_POSINF →
      flush_subnormal_d rm x = if signbit_d x then 0x8000000000000000 else 0x0010000000000000) ∧
    (rm = R4300I_CP1_ROUND_NEGINF →
      flush_subnormal_d rm x = if signbit_d x then 0x8010000000000000 else 0) ∧
    ¬ f64_is_subnormal (flush_subnormal_d rm x) := by
  unfold flush_subnormal_d R4300I_CP1_ROUND_NEAREST R4300I_CP1_ROUND_ZERO
    R4300I_CP1_ROUND_POSINF R4300I_CP1_ROUND_NEGINF DBL_MIN
  interval_cases rm <;> cases signbit_d x <;> simp <;> decide

theorem rounding_mode_lt (f : Nat) : fcr31_rounding_mode f < 4 := by
  unfold fcr31_rounding_mode
  exact Nat.mod_lt _ (by decide)

theorem set_cause_fpu_result_s_subnormal (cpu : r4300i_t) (x : Nat)
    (hs : f32_is_subnormal x) :
    ((fcr31_flush_subnormals cpu.fcr31 = false ∨ fcr31_enable_underflow cpu.fcr31 = true ∨
        fcr31_enable_inexact_operation cpu.fcr31 = true) →
      set_cause_fpu_result_s cpu x = ({ cpu with fcr31 := cpu.fcr31 ||| (1 <<< 17) }, x)) ∧
    ((fcr31_flush_subnormals cpu.fcr31 = true ∧ fcr31_enable_underflow cpu.fcr31 = false ∧
        fcr31_enable_inexact_operation cpu.fcr31 = false) →
      set_cause_fpu_result_s cpu x =
        ({ cpu with fcr31 := cpu.fcr31 ||| (1 <<< 13) ||| (1 <<< 12) },
         flush_subnormal_s (fcr31_rounding_mode cpu.fcr31) x)) := by
  have hc := (fpclassify_s_cases x).2.1 hs
  refine ⟨?_, ?_⟩
  · intro h
    unfold set_cause_fpu_result_s
    rw [hc]
    simp only [set_cause_unimplemented_operation]
    rw [if_pos]
    rcases h with h | h | h <;> simp [h]
  · rintro ⟨h1, h2, h3⟩
    unfold set_cause_fpu_result_s
    rw [hc]
    simp only [set_cause_underflow, set_cause_inexact_operation]
    rw [if_neg (by simp [h1, h2, h3]), rounding_mode_or_bit _ 12 (by decide),
      rounding_mode_or_bit _ 13 (by decide)]

theorem set_cause_fpu_result_d_subnormal (cpu : r4300i_t) (x : Nat)
    (hs : f64_is_subnormal x) :
    ((fcr31_flush_subnormals cpu.fcr31 = false ∨ fcr31_enable_underflow cpu.fcr31 = true ∨
        fcr31_enable_inexact_operation cpu.fcr31 = true) →
      set_cause_fpu_result_d cpu x = ({ cpu with fcr31 := cpu.fcr31 ||| (1 <<< 17) }, x)) ∧
    ((fcr31_flush_subnormals cpu.fcr31 = true ∧ fcr31_enable_underflow cpu.fcr31 = false ∧
        fcr31_enable_inexact_operation cpu.fcr31 = false) →
      set_cause_fpu_result_d cpu x =
        ({ cpu with fcr31 := cpu.fcr31 ||| (1 <<< 13) ||| (1 <<< 12) },
         flush_subnormal_d (fcr31_rounding_mode cpu.fcr31) x)) := by
  have hc := (fpclassify_d_cases x).2.1 hs
  refine ⟨?_, ?_⟩
  · intro h
    unfold set_cause_fpu_result_d
    rw [hc]
    simp only [set_cause_unimplemented_operation]
    rw [if_pos]
    rcases h with h | h | h <;> simp [h]
  · rintro ⟨h1, h2, h3⟩
    unfold set_cause_fpu_result_d
    rw [hc]
    simp only [set_cause_underflow, set_cause_inexact_operation]
    rw [if_neg (by simp [h1, h2, h3]), rounding_mode_or_bit _ 12 (by decide),
      rounding_mode_or_bit _ 13 (by decide)]
/-- C17: for every subnormal result `x` (float or double), the result check sets
`cause_unimplemented_operation` and leaves the value unchanged if and only if
`flush_subnormals` is 0 or `enable_underflow` is 1 or `enable_inexact_operation` is 1;
otherwise it sets `cause_underflow` and `cause_inexact_operation`, leaves every other bit of
`fcr31`, `cause_unimplemented_operation` included, as it was, and replaces the value. -/
theorem subnormal_result_spec (cpu : r4300i_t) (x : Nat) :
    (f32_is_subnormal x →
      ((fcr31_flush_subnormals cpu.fcr31 = false ∨ fcr31_enable_underflow cpu.fcr31 = true ∨
          fcr31_enable_inexact_operation cpu.fcr31 = true) →
        set_cause_fpu_result_s cpu x = ({ cpu with fcr31 := cpu.fcr31 ||| (1 <<< 17) }, x) ∧
        fcr31_cause_unimplemented_operation (set_cause_fpu_result_s cpu x).1.fcr31 = true) ∧
      ((fcr31_flush_subnormals cpu.fcr31 = true ∧ fcr31_enable_underflow cpu.fcr31 = false ∧
          fcr31_enable_inexact_operation cpu.fcr31 = false) →
        (set_cause_fpu_result_s cpu x).1 =
          { cpu with fcr31 := cpu.fcr31 ||| (1 <<< 13) ||| (1 <<< 12) } ∧
        fcr31_cause_underflow (set_cause_fpu_result_s cpu x).1.fcr31 = true ∧
        fcr31_cause_inexact_operation (set_cause_fpu_result_s cpu x).1.fcr31 = true ∧
        fcr31_cause_unimplemented_operation (set_cause_fpu_result_s cpu x).1.fcr31
          = fcr31_cause_unimplemented_operation cpu.fcr31) ∧
      ((set_cause_fpu_result_s cpu x).2 = x ↔
        (fcr31_flush_subnormals cpu.fcr31 = false ∨ fcr31_enable_underflow cpu.fcr31 = true ∨
          fcr31_enable_inexact_operation cpu.fcr31 = true))) ∧
    (f64_is_subnormal x →
      ((fcr31_flush_subnormals cpu.fcr31 = false ∨ fcr31_enable_underflow cpu.fcr31 = true ∨
          fcr31_enable_inexact_operation cpu.fcr31 = true) →
        set_cause_fpu_result_d cpu x = ({ cpu with fcr31 := cpu.fcr31 ||| (1 <<< 17) }, x) ∧
        fcr31_cause_unimplemented_operation (set_cause_fpu_result_d cpu x).1.fcr31 = true) ∧
      ((fcr31_flush_subnormals cpu.fcr31 = true ∧ fcr31_enable_underflow cpu.fcr31 = false ∧
          fcr31_enable_inexact_operation cpu.fcr31 = false) →
        (set_cause_fpu_result_d cpu x).1 =
          { cpu with fcr31 := cpu.fcr31 ||| (1 <<< 13) ||| (1 <<< 12) } ∧
        fcr31_cause_underflow (set_cause_fpu_result_d cpu x).1.fcr31 = true ∧
        fcr31_cause_inexact_operation (set_cause_fpu_result_d cpu x).1.fcr31 = true ∧
        fcr31_cause_unimplemented_operation (set_cause_fpu_result_d cpu x).1.fcr31
          = fcr31_cause_unimplemented_operation cpu.fcr31) ∧
      ((set_cause_fpu_result_d cpu x).2 = x ↔
        (fcr31_flush_subnormals cpu.fcr31 = false ∨ fcr31_enable_underflow cpu.fcr31 = true ∨
          fcr31_enable_inexact_operation cpu.fcr31 = true))) := by
  have hdich : (fcr31_flush_subnormals cpu.fcr31 = false ∨
      fcr31_enable_underflow cpu.fcr31 = true ∨
      fcr31_enable_inexact_operation cpu.fcr31 = true) ∨
      (fcr31_flush_subnormals cpu.fcr31 = true ∧ fcr31_enable_underflow cpu.fcr31 = false ∧
        fcr31_enable_inexact_operation cpu.fcr31 = false) := by
    cases fcr31_flush_subnormals cpu.fcr31 <;> cases fcr31_enable_underflow cpu.fcr31 <;>
      cases fcr31_enable_inexact_operation cpu.fcr31 <;> simp
  have hbits := cause_bits_after_flush cpu.fcr31
  constructor
  · intro hs
    obtain ⟨h1, h2⟩ := set_cause_fpu_result_s_subnormal cpu x hs
    refine ⟨?_, ?_, ?_⟩
    · intro h
      rw [h1 h]
      exact ⟨rfl, (cause_bits_after_unimplemented cpu.fcr31).1⟩
    · intro h
      rw [h2 h]
      exact ⟨rfl, hbits.1, hbits.2.1, hbits.2.2 17 (by decide) (by decide)⟩
    · rcases hdich with h | h
      · rw [h1 h]
        exact ⟨fun _ => h, fun _ => rfl⟩
      · rw [h2 h]
        constructor
        · intro heq
          have hns := (flush_subnormal_s_values (fcr31_rounding_mode cpu.fcr31) x
            (rounding_mode_lt _)).2.2.2.2
          have : f32_is_subnormal (flush_subnormal_s (fcr31_rounding_mode cpu.fcr31) x) := by
            show f32_is_subnormal
              ((⟨{ cpu with fcr31 := cpu.fcr31 ||| (1 <<< 13) ||| (1 <<< 12) },
                flush_subnormal_s (fcr31_rounding_mode cpu.fcr31) x⟩ : r4300i_t × Nat).2)
            rw [heq]; exact hs
          exact absurd this hns
        · rintro (h' | h' | h')
          · rw [h.1] at h'; exact Bool.noConfusion h'
          · rw [h.2.1] at h'; exact Bool.noConfusion h'
          · rw [h.2.2] at h'; exact Bool.noConfusion h'
  · intro hs
    obtain ⟨h1, h2⟩ := set_cause_fpu_result_d_subnormal cpu x hs
    refine ⟨?_, ?_, ?_⟩
    · intro h
      rw [h1 h]
      exact ⟨rfl, (cause_bits_after_unimplemented cpu.fcr31).1⟩
    · intro h
      rw [h2 h]
      exact ⟨rfl, hbits.1, hbits.2.1, hbits.2.2 17 (by decide) (by decide)⟩
    · rcases hdich with h | h
      · rw [h1 h]
        exact ⟨fun _ => h, fun _ => rfl⟩
      · rw [h2 h]
        constructor
        · intro heq
          have hns := (flush_subnormal_d_values (fcr31_rounding_mode cpu.fcr31) x
            (rounding_mode_lt _)).2.2.2.2
          have : f64_is_subnormal (flush_subnormal_d (fcr31_rounding_mode cpu.fcr31) x) := by
            show f64_is_subnormal
              ((⟨{ cpu with fcr31 := cpu.fcr31 ||| (1 <<< 13) ||| (1 <<< 12) },
                flush_subnormal_d (fcr31_rounding_mode cpu.fcr31) x⟩ : r4300i_t × Nat).2)
            rw [heq]; exact hs
          exact absurd this hns
        · rintro (h' | h' | h')
          · rw [h.1] at h'; exact Bool.noConfusion h'
          · rw [h.2.1] at h'; exact Bool.noConfusion h'
          · rw [h.2.2] at h'; exact Bool.noConfusion h'

/-- Witness for C17 on the subnormal float `0x00000001`: with `flush_subnormals` clear
(`fcr31 = 0`) the value is kept and `cause_unimplemented_operation` is set; with only
`flush_subnormals` set (`fcr31 = 0x1000000`) `cause_underflow` and `cause_inexact_operation`
are set instead. -/
theorem subnormal_result_spec_witness :
    set_cause_fpu_result_s r4300i_zero 0x00000001
      = ({ r4300i_zero with fcr31 := 0x20000 }, 0x00000001) ∧
    (set_cause_fpu_result_s { r4300i_zero with fcr31 := 0x1000000 } 0x00000001).1
      = { r4300i_zero with fcr31 := 0x1003000 } ∧
    (set_cause_fpu_result_d { r4300i_zero with fcr31 := 0x1000000 } 0x0000000000000001).1
      = { r4300i_zero with fcr31 := 0x1003000 } :=
  ⟨(((subnormal_result_spec r4300i_zero 0x00000001).1 (by decide)).1
      (Or.inl (by decide))).1,
   (((subnormal_result_spec { r4300i_zero with fcr31 := 0x1000000 } 0x00000001).1
      (by decide)).2.1 (by decide)).1,
   (((subnormal_result_spec { r4300i_zero with fcr31 := 0x1000000 } 0x0000000000000001).2
      (by decide)).2.1 (by decide)).1⟩

/-- C18: when a subnormal result is flushed (`flush_subnormals = 1`, `enable_underflow = 0`,
`enable_inexact_operation = 0`) its replacement depends on the rounding mode, which is one
of the four, and on its sign: round-nearest and round-zero give the zero of the same sign;
round-to-plus-infinity gives `-0` for a negative input and the smallest positive normal
otherwise; round-to-minus-infinity gives the negative normal of smallest magnitude for a
negative input and `+0` otherwise. The replacement is never subnormal. -/
theorem flushed_subnormal_value (cpu : r4300i_t) (x : Nat)
    (hf : fcr31_flush_subnormals cpu.fcr31 = true)
    (hu : fcr31_enable_underflow cpu.fcr31 = false)
    (hi : fcr31_enable_inexact_operation cpu.fcr31 = false) :
    (fcr31_rounding_mode cpu.fcr31 = R4300I_CP1_ROUND_NEAREST ∨
      fcr31_rounding_mode cpu.fcr31 = R4300I_CP1_ROUND_ZERO ∨
      fcr31_rounding_mode cpu.fcr31 = R4300I_CP1_ROUND_POSINF ∨
      fcr31_rounding_mode cpu.fcr31 = R4300I_CP1_ROUND_NEGINF) ∧
    (f32_is_subnormal x →
      (fcr31_rounding_mode cpu.fcr31 = R4300I_CP1_ROUND_NEAREST ∨
        fcr31_rounding_mode cpu.fcr31 = R4300I_CP1_ROUND_ZERO →
        (set_cause_fpu_result_s cpu x).2 = if signbit_s x then 0x80000000 else 0x00000000) ∧
      (fcr31_rounding_mode cpu.fcr31 = R4300I_CP1_ROUND_POSINF →
        (set_cause_fpu_result_s cpu x).2 = if signbit_s x then 0x80000000 else 0x00800000) ∧
      (fcr31_rounding_mode cpu.fcr31 = R4300I_CP1_ROUND_NEGINF →
        (set_cause_fpu_result_s cpu x).2 = if signbit_s x then 0x80800000 else 0x00000000) ∧
      ¬ f32_is_subnormal (set_cause_fpu_result_s cpu x).2) ∧
    (f64_is_subnormal x →
      (fcr31_rounding_mode cpu.fcr31 = R4300I_CP1_ROUND_NEAREST ∨
        fcr31_rounding_mode cpu.fcr31 = R4300I_CP1_ROUND_ZERO →
        (set_cause_fpu_result_d cpu x).2 = if signbit_d x then 0x8000000000000000 else 0) ∧
      (fcr31_rounding_mode cpu.fcr31 = R4300I_CP1_ROUND_POSINF →
        (set_cause_fpu_result_d cpu x).2 =
          if signbit_d x then 0x8000000000000000 else 0x0010000000000000) ∧
      (fcr31_rounding_mode cpu.fcr31 = R4300I_CP1_ROUND_NEGINF →
        (set_cause_fpu_result_d cpu x).2 =
          if signbit_d x then 0x8010000000000000 else 0) ∧
      ¬ f64_is_subnormal (set_cause_fpu_result_d cpu x).2) := by
  have hvs := flush_subnormal_s_values (fcr31_rounding_mode cpu.fcr31) x (rounding_mode_lt _)
  have hvd := flush_subnormal_d_values (fcr31_rounding_mode cpu.fcr31) x (rounding_mode_lt _)
  refine ⟨hvs.1, ?_, ?_⟩
  · intro hs
    rw [(set_cause_fpu_result_s_subnormal cpu x hs).2 ⟨hf, hu, hi⟩]
    exact hvs.2
  · intro hs
    rw [(set_cause_fpu_result_d_subnormal cpu x hs).2 ⟨hf, hu, hi⟩]
    exact hvd.2

/-- Witness for C18 with `flush_subnormals` set and round-to-minus-infinity
(`fcr31 = 0x1000003`): the negative subnormal float `0x80000001` becomes `0x80800000`, the
positive subnormal double `1` becomes `+0`. -/
theorem flushed_subnormal_value_witness :
    (set_cause_fpu_result_s { r4300i_zero with fcr31 := 0x1000003 } 0x80000001).2
      = 0x80800000 ∧
    (set_cause_fpu_result_d { r4300i_zero with fcr31 := 0x1000003 } 0x0000000000000001).2
      = 0 :=
  ⟨((flushed_subnormal_value { r4300i_zero with fcr31 := 0x1000003 } 0x80000001
      (by decide) (by decide) (by decide)).2.1 (by decide)).2.2.1 (by decide),
   ((flushed_subnormal_value { r4300i_zero with fcr31 := 0x1000003 } 0x0000000000000001
      (by decide) (by decide) (by decide)).2.2 (by decide)).2.2.1 (by decide)⟩
theorem no_fire_after_flush (handler : exception_handler_t) (cpu : r4300i_t)
    (hu : fcr31_enable_underflow cpu.fcr31 = false)
    (hi : fcr31_enable_inexact_operation cpu.fcr31 = false)
    (h14 : fcr31_cause_overflow cpu.fcr31 = false)
    (h15 : fcr31_cause_division_by_zero cpu.fcr31 = false)
    (h16 : fcr31_cause_invalid_operation cpu.fcr31 = false)
    (h17 : fcr31_cause_unimplemented_operation cpu.fcr31 = false) :
    fire_fpu_exception handler { cpu with fcr31 := cpu.fcr31 ||| (1 <<< 13) ||| (1 <<< 12) }
      = (false, { cpu with fcr31 := cpu.fcr31 ||| (1 <<< 13) ||| (1 <<< 12) }) := by
  rw [fire_fpu_exception_eq, if_neg]
  rw [fire_condition_iff]
  have hb := (cause_bits_after_flush cpu.fcr31).2.2
  unfold fcr31_enable_underflow fcr31_enable_inexact_operation fcr31_cause_overflow
    fcr31_cause_division_by_zero fcr31_cause_invalid_operation
    fcr31_cause_unimplemented_operation at *
  show ¬ ((cpu.fcr31 ||| (1 <<< 13) ||| (1 <<< 12)).testBit 17 = true ∨ _)
  rw [hb 17 (by decide) (by decide), hb 7 (by decide) (by decide),
    hb 8 (by decide) (by decide), hb 14 (by decide) (by decide),
    hb 15 (by decide) (by decide), hb 16 (by decide) (by decide), h17, hi, hu, h14, h15, h16]
  simp

/-- C19: with `flush_subnormals = 1`, `enable_underflow = 0`, `enable_inexact_operation = 0`
and none of the cause bits overflow, division by zero, invalid operation, unimplemented
operation set on entry, checking a subnormal result raises no exception:
`set_cause_fpu_result_s` / `_d` sets `cause_underflow` and `cause_inexact_operation`,
`fire_fpu_exception` then returns false, and the check goes on with the flushed value. -/
theorem flushed_subnormal_no_exception (handler : exception_handler_t) (cpu : r4300i_t)
    (x : Nat)
    (hf : fcr31_flush_subnormals cpu.fcr31 = true)
    (hu : fcr31_enable_underflow cpu.fcr31 = false)
    (hi : fcr31_enable_inexact_operation cpu.fcr31 = false)
    (h14 : fcr31_cause_overflow cpu.fcr31 = false)
    (h15 : fcr31_cause_division_by_zero cpu.fcr31 = false)
    (h16 : fcr31_cause_invalid_operation cpu.fcr31 = false)
    (h17 : fcr31_cause_unimplemented_operation cpu.fcr31 = false) :
    (f32_is_subnormal x →
      (fire_fpu_exception handler (set_cause_fpu_result_s cpu x).1).1 = false ∧
      fcr31_cause_underflow (set_cause_fpu_result_s cpu x).1.fcr31 = true ∧
      fcr31_cause_inexact_operation (set_cause_fpu_result_s cpu x).1.fcr31 = true ∧
      check_fpu_result_s handler cpu x =
        .ok ({ cpu with fcr31 := cpu.fcr31 ||| (1 <<< 13) ||| (1 <<< 12) },
             flush_subnormal_s (fcr31_rounding_mode cpu.fcr31) x)) ∧
    (f64_is_subnormal x →
      (fire_fpu_exception handler (set_cause_fpu_result_d cpu x).1).1 = false ∧
      fcr31_cause_underflow (set_cause_fpu_result_d cpu x).1.fcr31 = true ∧
      fcr31_cause_inexact_operation (set_cause_fpu_result_d cpu x).1.fcr31 = true ∧
      check_fpu_result_d handler cpu x =
        .ok ({ cpu with fcr31 := cpu.fcr31 ||| (1 <<< 13) ||| (1 <<< 12) },
             flush_subnormal_d (fcr31_rounding_mode cpu.fcr31) x)) := by
  have hfire := no_fire_after_flush handler cpu hu hi h14 h15 h16 h17
  have hbits := cause_bits_after_flush cpu.fcr31
  constructor
  · intro hs
    have he := (set_cause_fpu_result_s_subnormal cpu x hs).2 ⟨hf, hu, hi⟩
    refine ⟨?_, ?_, ?_, ?_⟩
    · rw [he, hfire]
    · rw [he]; exact hbits.1
    · rw [he]; exact hbits.2.1
    · unfold check_fpu_result_s
      simp only [he, hfire]
      rfl
  · intro hs
    have he := (set_cause_fpu_result_d_subnormal cpu x hs).2 ⟨hf, hu, hi⟩
    refine ⟨?_, ?_, ?_, ?_⟩
    · rw [he, hfire]
    · rw [he]; exact hbits.1
    · rw [he]; exact hbits.2.1
    · unfold check_fpu_result_d
      simp only [he, hfire]
      rfl

/-- Witness for C19: in round-to-plus-infinity mode with `flush_subnormals` set
(`fcr31 = 0x1000002`) the smallest positive subnormal float `0x00000001` becomes the
smallest positive normal `0x00800000`; both cause bits are set (`fcr31 = 0x1003002`) and the
check goes on without an exception. -/
theorem flushed_subnormal_no_exception_witness :
    check_fpu_result_s (fun cpu _ _ _ => { cpu with pc := 0x80000180 })
        { r4300i_zero with fcr31 := 0x1000002 } 0x00000001
      = .ok ({ r4300i_zero with fcr31 := 0x1003002 }, 0x00800000) :=
  ((flushed_subnormal_no_exception (fun cpu _ _ _ => { cpu with pc := 0x80000180 })
      { r4300i_zero with fcr31 := 0x1000002 } 0x00000001
      (by decide) (by decide) (by decide) (by decide) (by decide) (by decide) (by decide)).1
      (by decide)).2.2.2

/-- C20: every NaN result, quiet or signaling, with any payload and any sign, is rewritten
to `0x7FBFFFFF` by `set_cause_fpu_result_s` and to `0x7FF7FFFFFFFFFFFF` by
`set_cause_fpu_result_d`, and the state (all of `fcr31` included) is unchanged; results
that are infinities, zeros or normal numbers are returned unchanged with the state
unchanged. -/
theorem nan_result_spec (cpu : r4300i_t) (x : Nat) :
    (f32_is_nan x ↔ f32_is_quiet_nan x ∨ f32_is_signaling_nan x) ∧
    (f32_is_nan x → set_cause_fpu_result_s cpu x = (cpu, 0x7FBFFFFF)) ∧
    (f32_is_infinite x ∨ f32_is_zero x ∨ f32_is_normal x →
      set_cause_fpu_result_s cpu x = (cpu, x)) ∧
    (f64_is_nan x ↔ f64_is_quiet_nan x ∨ f64_is_signaling_nan x) ∧
    (f64_is_nan x → set_cause_fpu_result_d cpu x = (cpu, 0x7FF7FFFFFFFFFFFF)) ∧
    (f64_is_infinite x ∨ f64_is_zero x ∨ f64_is_normal x →
      set_cause_fpu_result_d cpu x = (cpu, x)) := by
  have hs := fpclassify_s_cases x
  have hd := fpclassify_d_cases x
  refine ⟨?_, ?_, ?_, ?_, ?_, ?_⟩
  · unfold f32_is_nan f32_is_quiet_nan f32_is_signaling_nan
    cases x.testBit 22 <;> simp
  · intro h
    unfold set_cause_fpu_result_s
    rw [hs.1 h]
  · rintro (h | h | h)
    · unfold set_cause_fpu_result_s; rw [hs.2.2.1 h]
    · unfold set_cause_fpu_result_s; rw [hs.2.2.2.1 h]
    · unfold set_cause_fpu_result_s; rw [hs.2.2.2.2 h]
  · unfold f64_is_nan f64_is_quiet_nan f64_is_signaling_nan
    cases x.testBit 51 <;> simp
  · intro h
    unfold set_cause_fpu_result_d
    rw [hd.1 h]
  · rintro (h | h | h)
    · unfold set_cause_fpu_result_d; rw [hd.2.2.1 h]
    · unfold set_cause_fpu_result_d; rw [hd.2.2.2.1 h]
    · unfold set_cause_fpu_result_d; rw [hd.2.2.2.2 h]

/-- Witness for C20: the negative quiet NaN `0xFFC12345` becomes `0x7FBFFFFF`, the
signaling double NaN `0x7FF0000000000001` becomes `0x7FF7FFFFFFFFFFFF`, minus infinity
`0xFF800000` is kept; `fcr31` stays `0x1000F83` each time. -/
theorem nan_result_spec_witness :
    set_cause_fpu_result_s { r4300i_zero with fcr31 := 0x1000F83 } 0xFFC12345
      = ({ r4300i_zero with fcr31 := 0x1000F83 }, 0x7FBFFFFF) ∧
    set_cause_fpu_result_d { r4300i_zero with fcr31 := 0x1000F83 } 0x7FF0000000000001
      = ({ r4300i_zero with fcr31 := 0x1000F83 }, 0x7FF7FFFFFFFFFFFF) ∧
    set_cause_fpu_result_s { r4300i_zero with fcr31 := 0x1000F83 } 0xFF800000
      = ({ r4300i_zero with fcr31 := 0x1000F83 }, 0xFF800000) :=
  ⟨(nan_result_spec _ 0xFFC12345).2.1 (by decide),
   (nan_result_spec _ 0x7FF0000000000001).2.2.2.2.1 (by decide),
   (nan_result_spec _ 0xFF800000).2.2.1 (Or.inl (by decide))⟩


/-! ## Theorems: FPU arithmetic instructions -/

theorem enable_invalid_or_bit (f k : Nat) (hk : k ≠ 11) :
    fcr31_enable_invalid_operation (f ||| (1 <<< k)) = fcr31_enable_invalid_operation f := by
  unfold fcr31_enable_invalid_operation
  rw [testBit_or_bit]
  simp [hk]

theorem cp1_entry_state_frame (cpu : r4300i_t) :
    fcr31_enable_invalid_operation (cp1_entry_state cpu).fcr31 =
      fcr31_enable_invalid_operation cpu.fcr31 ∧
    { cp1_entry_state cpu with fcr31 := cpu.fcr31 } = cpu := by
  refine ⟨?_, rfl⟩
  have hb : (not32 (0x3F <<< 12)).testBit 11 = true := by decide
  show (cpu.fcr31 &&& not32 (0x3F <<< 12)).testBit 11 = cpu.fcr31.testBit 11
  rw [Nat.testBit_and, hb, Bool.and_true]

theorem set_cause_fpu_arg_s_frame (c : r4300i_t) (x : Nat) :
    fcr31_enable_invalid_operation (set_cause_fpu_arg_s c x).fcr31 =
      fcr31_enable_invalid_operation c.fcr31 ∧
    { set_cause_fpu_arg_s c x with fcr31 := c.fcr31 } = c := by
  have h16 := enable_invalid_or_bit c.fcr31 16 (by decide)
  have h17 := enable_invalid_or_bit c.fcr31 17 (by decide)
  unfold set_cause_fpu_arg_s
  split
  · split
    · exact ⟨h16, rfl⟩
    · exact ⟨h17, rfl⟩
  · exact ⟨h17, rfl⟩
  · exact ⟨rfl, rfl⟩
  · exact ⟨rfl, rfl⟩
  · exact ⟨rfl, rfl⟩

theorem set_cause_fpu_arg_d_frame (c : r4300i_t) (x : Nat) :
    fcr31_enable_invalid_operation (set_cause_fpu_arg_d c x).fcr31 =
      fcr31_enable_invalid_operation c.fcr31 ∧
    { set_cause_fpu_arg_d c x with fcr31 := c.fcr31 } = c := by
  have h16 := enable_invalid_or_bit c.fcr31 16 (by decide)
  have h17 := enable_invalid_or_bit c.fcr31 17 (by decide)
  unfold set_cause_fpu_arg_d
  split
  · split
    · exact ⟨h16, rfl⟩
    · exact ⟨h17, rfl⟩
  · exact ⟨h17, rfl⟩
  · exact ⟨rfl, rfl⟩
  · exact ⟨rfl, rfl⟩
  · exact ⟨rfl, rfl⟩

theorem check_fpu_arg_s_cases (handler : exception_handler_t) (c : r4300i_t) (x : Nat) :
    check_fpu_arg_s handler c x =
        .error (handler (set_cause_fpu_arg_s c x) c.prev_pc EXCEPTION_FLOATING_POINT 0) ∨
      check_fpu_arg_s handler c x = .ok (set_cause_fpu_arg_s c x) := by
  have hp : (set_cause_fpu_arg_s c x).prev_pc = c.prev_pc := by
    have hh := congrArg r4300i_t.prev_pc (set_cause_fpu_arg_s_frame c x).2
    exact hh
  unfold check_fpu_arg_s
  rw [fire_fpu_exception_eq]
  split
  · left; simp [hp]
  · right; simp

theorem check_fpu_arg_d_cases (handler : exception_handler_t) (c : r4300i_t) (x : Nat) :
    check_fpu_arg_d handler c x =
        .error (handler (set_cause_fpu_arg_d c x) c.prev_pc EXCEPTION_FLOATING_POINT 0) ∨
      check_fpu_arg_d handler c x = .ok (set_cause_fpu_arg_d c x) := by
  have hp : (set_cause_fpu_arg_d c x).prev_pc = c.prev_pc := by
    have hh := congrArg r4300i_t.prev_pc (set_cause_fpu_arg_d_frame c x).2
    exact hh
  unfold check_fpu_arg_d
  rw [fire_fpu_exception_eq]
  split
  · left; simp [hp]
  · right; simp

theorem check_fpu_arg_s_traps (handler : exception_handler_t) (c : r4300i_t) (x : Nat)
    (h : f32_arg_traps c.fcr31 x) :
    check_fpu_arg_s handler c x =
      .error (handler (set_cause_fpu_arg_s c x) c.prev_pc EXCEPTION_FLOATING_POINT 0) := by
  have hfire : fcr31_cause (set_cause_fpu_arg_s c x).fcr31 &&&
      (fcr31_enable (set_cause_fpu_arg_s c x).fcr31 ||| (1 <<< 5)) ≠ 0 := by
    rw [fire_condition_iff]
    rcases h with h | h | ⟨h, he⟩
    · left
      rw [(set_cause_fpu_arg_s_eq c x).2.1 (Or.inl h)]
      show (c.fcr31 ||| (1 <<< 17)).testBit 17 = true
      rw [testBit_or_bit]; simp
    · left
      rw [(set_cause_fpu_arg_s_eq c x).2.1 (Or.inr h)]
      show (c.fcr31 ||| (1 <<< 17)).testBit 17 = true
      rw [testBit_or_bit]; simp
    · right; right; right; right; right
      rw [(set_cause_fpu_arg_s_eq c x).1 h]
      constructor
      · show (c.fcr31 ||| (1 <<< 16)).testBit 16 = true
        rw [testBit_or_bit]; simp
      · exact (enable_invalid_or_bit c.fcr31 16 (by decide)).trans he
  have hp : (set_cause_fpu_arg_s c x).prev_pc = c.prev_pc := by
    have hh := congrArg r4300i_t.prev_pc (set_cause_fpu_arg_s_frame c x).2
    exact hh
  unfold check_fpu_arg_s
  rw [fire_fpu_exception_eq, if_pos hfire]
  simp [hp]

theorem check_fpu_arg_d_traps (handler : exception_handler_t) (c : r4300i_t) (x : Nat)
    (h : f64_arg_traps c.fcr31 x) :
    check_fpu_arg_d handler c x =
      .error (handler (set_cause_fpu_arg_d c x) c.prev_pc EXCEPTION_FLOATING_POINT 0) := by
  have hfire : fcr31_cause (set_cause_fpu_arg_d c x).fcr31 &&&
      (fcr31_enable (set_cause_fpu_arg_d c x).fcr31 ||| (1 <<< 5)) ≠ 0 := by
    rw [fire_condition_iff]
    rcases h with h | h | ⟨h, he⟩
    · left
      rw [(set_cause_fpu_arg_d_eq c x).2.1 (Or.inl h)]
      show (c.fcr31 ||| (1 <<< 17)).testBit 17 = true
      rw [testBit_or_bit]; simp
    · left
      rw [(set_cause_fpu_arg_d_eq c x).2.1 (Or.inr h)]
      show (c.fcr31 ||| (1 <<< 17)).testBit 17 = true
      rw [testBit_or_bit]; simp
    · right; right; right; right; right
      rw [(set_cause_fpu_arg_d_eq c x).1 h]
      constructor
      · show (c.fcr31 ||| (1 <<< 16)).testBit 16 = true
        rw [testBit_or_bit]; simp
      · exact (enable_invalid_or_bit c.fcr31 16 (by decide)).trans he
  have hp : (set_cause_fpu_arg_d c x).prev_pc = c.prev_pc := by
    have hh := congrArg r4300i_t.prev_pc (set_cause_fpu_arg_d_frame c x).2
    exact hh
  unfold check_fpu_arg_d
  rw [fire_fpu_exception_eq, if_pos hfire]
  simp [hp]

theorem f32_arg_traps_congr (f g x : Nat)
    (h : fcr31_enable_invalid_operation g = fcr31_enable_invalid_operation f) :
    f32_arg_traps f x → f32_arg_traps g x := by
  rintro (h1 | h1 | ⟨h1, h2⟩)
  · exact Or.inl h1
  · exact Or.inr (Or.inl h1)
  · exact Or.inr (Or.inr ⟨h1, h.trans h2⟩)

theorem f64_arg_traps_congr (f g x : Nat)
    (h : fcr31_enable_invalid_operation g = fcr31_enable_invalid_operation f) :
    f64_arg_traps f x → f64_arg_traps g x := by
  rintro (h1 | h1 | ⟨h1, h2⟩)
  · exact Or.inl h1
  · exact Or.inr (Or.inl h1)
  · exact Or.inr (Or.inr ⟨h1, h.trans h2⟩)

theorem checkcp1_usable (handler : exception_handler_t) (cpu : r4300i_t)
    (hcu : status_cu1 cpu.cp0.status = true) :
    checkcp1 handler cpu = .ok (cp1_entry_state cpu) := by
  unfold checkcp1 checkcp1_preservecause
  rw [hcu]
  rfl

theorem FPU_OP_S_bad_operand (env : fpu_env) (op : fpu_op_t) (cpu : r4300i_t) (fs ft fd : Nat)
    (hcu : status_cu1 cpu.cp0.status = true)
    (h : f32_arg_traps cpu.fcr31 (env.get_fpu_register_float_fs (cp1_entry_state cpu) fs) ∨
      f32_arg_traps cpu.fcr31 (env.get_fpu_register_float_ft (cp1_entry_state cpu) ft)) :
    ∃ cpu2, FPU_OP_S env op cpu fs ft fd =
        .ok (env.handler cpu2 cpu.prev_pc EXCEPTION_FLOATING_POINT 0) ∧
      { cpu2 with fcr31 := cpu.fcr31 } = cpu := by
  have h0 := cp1_entry_state_frame cpu
  unfold FPU_OP_S
  rw [checkcp1_usable env.handler cpu hcu]
  simp only []
  have h1 := set_cause_fpu_arg_s_frame (cp1_entry_state cpu)
    (env.get_fpu_register_float_fs (cp1_entry_state cpu) fs)
  rcases check_fpu_arg_s_cases env.handler (cp1_entry_state cpu)
    (env.get_fpu_register_float_fs (cp1_entry_state cpu) fs) with he | hk
  · rw [he]
    exact ⟨_, rfl, congrArg (fun z : r4300i_t => { z with fcr31 := cpu.fcr31 }) h1.2⟩
  · have hb : f32_arg_traps cpu.fcr31
        (env.get_fpu_register_float_ft (cp1_entry_state cpu) ft) := by
      rcases h with h | h
      · have := check_fpu_arg_s_traps env.handler (cp1_entry_state cpu) _
          (f32_arg_traps_congr _ _ _ h0.1 h)
        rw [this] at hk
        cases hk
      · exact h
    rw [hk]
    simp only []
    have h2 := set_cause_fpu_arg_s_frame (set_cause_fpu_arg_s (cp1_entry_state cpu)
      (env.get_fpu_register_float_fs (cp1_entry_state cpu) fs))
      (env.get_fpu_register_float_ft (cp1_entry_state cpu) ft)
    rw [check_fpu_arg_s_traps env.handler _ _
      (f32_arg_traps_congr _ _ _ (h1.1.trans h0.1) hb)]
    have hp := congrArg r4300i_t.prev_pc h1.2
    refine ⟨_, congrArg (fun z : Nat =>
      (Except.ok (env.handler _ z EXCEPTION_FLOATING_POINT 0) : Except fault r4300i_t))
      hp, ?_⟩
    exact (congrArg (fun z : r4300i_t => { z with fcr31 := cpu.fcr31 }) h2.2).trans
      (congrArg (fun z : r4300i_t => { z with fcr31 := cpu.fcr31 }) h1.2)

theorem FPU_OP_D_bad_operand (env : fpu_env) (op : fpu_op_t) (cpu : r4300i_t) (fs ft fd : Nat)
    (hcu : status_cu1 cpu.cp0.status = true)
    (h : f64_arg_traps cpu.fcr31 (env.get_fpu_register_double_fs (cp1_entry_state cpu) fs) ∨
      f64_arg_traps cpu.fcr31 (env.get_fpu_register_double_ft (cp1_entry_state cpu) ft)) :
    ∃ cpu2, FPU_OP_D env op cpu fs ft fd =
        .ok (env.handler cpu2 cpu.prev_pc EXCEPTION_FLOATING_POINT 0) ∧
      { cpu2 with fcr31 := cpu.fcr31 } = cpu := by
  have h0 := cp1_entry_state_frame cpu
  unfold FPU_OP_D
  rw [checkcp1_usable env.handler cpu hcu]
  simp only []
  have h1 := set_cause_fpu_arg_d_frame (cp1_entry_state cpu)
    (env.get_fpu_register_double_fs (cp1_entry_state cpu) fs)
  rcases check_fpu_arg_d_cases env.handler (cp1_entry_state cpu)
    (env.get_fpu_register_double_fs (cp1_entry_state cpu) fs) with he | hk
  · rw [he]
    exact ⟨_, rfl, congrArg (fun z : r4300i_t => { z with fcr31 := cpu.fcr31 }) h1.2⟩
  · have hb : f64_arg_traps cpu.fcr31
        (env.get_fpu_register_double_ft (cp1_entry_state cpu) ft) := by
      rcases h with h | h
      · have := check_fpu_arg_d_traps env.handler (cp1_entry_state cpu) _
          (f64_arg_traps_congr _ _ _ h0.1 h)
        rw [this] at hk
        cases hk
      · exact h
    rw [hk]
    simp only []
    have h2 := set_cause_fpu_arg_d_frame (set_cause_fpu_arg_d (cp1_entry_state cpu)
      (env.get_fpu_register_double_fs (cp1_entry_state cpu) fs))
      (env.get_fpu_register_double_ft (cp1_entry_state cpu) ft)
    rw [check_fpu_arg_d_traps env.handler _ _
      (f64_arg_traps_congr _ _ _ (h1.1.trans h0.1) hb)]
    have hp := congrArg r4300i_t.prev_pc h1.2
    refine ⟨_, congrArg (fun z : Nat =>
      (Except.ok (env.handler _ z EXCEPTION_FLOATING_POINT 0) : Except fault r4300i_t))
      hp, ?_⟩
    exact (congrArg (fun z : r4300i_t => { z with fcr31 := cpu.fcr31 }) h2.2).trans
      (congrArg (fun z : r4300i_t => { z with fcr31 := cpu.fcr31 }) h1.2)

/-- C16: an arithmetic instruction built from `FPU_OP_S` (resp. `FPU_OP_D`), for any
operation `op` and with coprocessor 1 usable, whose operand `fs` or `ft` is a signaling NaN
or a subnormal, or a quiet NaN while `enable_invalid_operation` is set, ends in the state
`r4300i_handle_exception(prev_pc, EXCEPTION_FLOATING_POINT, 0)` entered from a state `cpu2`
that differs from the state before the instruction in `fcr31` only: no FPU register, `fd`
included, was written. -/
theorem fpu_op_bad_operand_no_commit (env : fpu_env) (op : fpu_op_t) (cpu : r4300i_t)
    (fs ft fd : Nat) (hcu : status_cu1 cpu.cp0.status = true) :
    (f32_arg_traps cpu.fcr31 (env.get_fpu_register_float_fs (cp1_entry_state cpu) fs) ∨
      f32_arg_traps cpu.fcr31 (env.get_fpu_register_float_ft (cp1_entry_state cpu) ft) →
      ∃ cpu2, FPU_OP_S env op cpu fs ft fd =
          .ok (env.handler cpu2 cpu.prev_pc EXCEPTION_FLOATING_POINT 0) ∧
        { cpu2 with fcr31 := cpu.fcr31 } = cpu ∧
        ∀ r, get_fpu_register_dword cpu2 r = get_fpu_register_dword cpu r) ∧
    (f64_arg_traps cpu.fcr31 (env.get_fpu_register_double_fs (cp1_entry_state cpu) fs) ∨
      f64_arg_traps cpu.fcr31 (env.get_fpu_register_double_ft (cp1_entry_state cpu) ft) →
      ∃ cpu2, FPU_OP_D env op cpu fs ft fd =
          .ok (env.handler cpu2 cpu.prev_pc EXCEPTION_FLOATING_POINT 0) ∧
        { cpu2 with fcr31 := cpu.fcr31 } = cpu ∧
        ∀ r, get_fpu_register_dword cpu2 r = get_fpu_register_dword cpu r) := by
  constructor
  · intro h
    obtain ⟨cpu2, h1, h2⟩ := FPU_OP_S_bad_operand env op cpu fs ft fd hcu h
    refine ⟨cpu2, h1, h2, fun r => ?_⟩
    have hf := congrArg r4300i_t.f h2
    exact congrFun hf r
  · intro h
    obtain ⟨cpu2, h1, h2⟩ := FPU_OP_D_bad_operand env op cpu fs ft fd hcu h
    refine ⟨cpu2, h1, h2, fun r => ?_⟩
    have hf := congrArg r4300i_t.f h2
    exact congrFun hf r

/-- Witness for C16: in the example state `f[2]` holds a subnormal (as a float and as a
double), so an instruction with `fs = 2`, `ft = 4`, `fd = 6` raises the floating-point
exception and writes no FPU register. -/
theorem fpu_op_bad_operand_no_commit_witness :
    status_cu1 r4300i_fpu_example.cp0.status = true ∧
    f32_is_subnormal
      (fpu_env_example.get_fpu_register_float_fs (cp1_entry_state r4300i_fpu_example) 2) ∧
    f64_is_subnormal
      (fpu_env_example.get_fpu_register_double_fs (cp1_entry_state r4300i_fpu_example) 2) ∧
    (∃ cpu2, FPU_OP_S fpu_env_example fpu_op_example r4300i_fpu_example 2 4 6 =
        .ok (fpu_env_example.handler cpu2 r4300i_fpu_example.prev_pc
          EXCEPTION_FLOATING_POINT 0) ∧
      { cpu2 with fcr31 := r4300i_fpu_example.fcr31 } = r4300i_fpu_example ∧
      ∀ r, get_fpu_register_dword cpu2 r = get_fpu_register_dword r4300i_fpu_example r) ∧
    (∃ cpu2, FPU_OP_D fpu_env_example fpu_op_example r4300i_fpu_example 2 4 6 =
        .ok (fpu_env_example.handler cpu2 r4300i_fpu_example.prev_pc
          EXCEPTION_FLOATING_POINT 0) ∧
      { cpu2 with fcr31 := r4300i_fpu_example.fcr31 } = r4300i_fpu_example ∧
      ∀ r, get_fpu_register_dword cpu2 r = get_fpu_register_dword r4300i_fpu_example r) :=
  ⟨by decide, by decide, by decide,
    (fpu_op_bad_operand_no_commit fpu_env_example fpu_op_example r4300i_fpu_example 2 4 6
      (by decide)).1 (Or.inl (Or.inr (Or.inl (by decide)))),
    (fpu_op_bad_operand_no_commit fpu_env_example fpu_op_example r4300i_fpu_example 2 4 6
      (by decide)).2 (Or.inl (Or.inr (Or.inl (by decide))))⟩


/-! ## Theorems: general-purpose registers -/

theorem set_register_gpr0 (cpu : r4300i_t) (r v : Nat) :
    (set_register cpu r v).gpr 0 = cpu.gpr 0 := by
  unfold set_register
  split
  · rename_i h
    show Function.update cpu.gpr r (v % 2 ^ 64) 0 = cpu.gpr 0
    exact Function.update_noteq (fun h0 => h h0.symm) _ _
  · rfl

theorem register_writes_gpr0 (writes : List (Nat × Nat)) (cpu : r4300i_t) :
    (register_writes cpu writes).gpr 0 = cpu.gpr 0 := by
  induction writes generalizing cpu with
  | nil => rfl
  | cons w ws ih =>
    show (register_writes (set_register cpu w.1 w.2) ws).gpr 0 = cpu.gpr 0
    rw [ih, set_register_gpr0]

/-- C29: `set_register(cpu, r, v)` for `r` in 0..31 and a 64-bit `v`. When `r != 0` the
result is the state with `gpr[r] == v` and every other GPR and every other field (pc, FPU,
CP0, ...) unchanged; when `r == 0` the state is unchanged. So `gpr[0]` is never modified,
also not by a sequence of register writes, which therefore preserves `gpr[0] == 0`. -/
theorem set_register_spec (cpu : r4300i_t) (r v : Nat) (_hr : r < 32) (hv : v < 2 ^ 64) :
    (r ≠ 0 →
      set_register cpu r v = { cpu with gpr := Function.update cpu.gpr r v } ∧
      (set_register cpu r v).gpr r = v ∧
      ∀ r1, r1 ≠ r → (set_register cpu r v).gpr r1 = cpu.gpr r1) ∧
    (r = 0 → set_register cpu r v = cpu) ∧
    (set_register cpu r v).gpr 0 = cpu.gpr 0 ∧
    (∀ writes, (register_writes cpu writes).gpr 0 = cpu.gpr 0) ∧
    (∀ writes, cpu.gpr 0 = 0 → (register_writes cpu writes).gpr 0 = 0) := by
  have hmod : v % 2 ^ 64 = v := Nat.mod_eq_of_lt hv
  refine ⟨?_, ?_, set_register_gpr0 cpu r v, fun ws => register_writes_gpr0 ws cpu,
    fun ws h0 => (register_writes_gpr0 ws cpu).trans h0⟩
  · intro hne
    have he : set_register cpu r v = { cpu with gpr := Function.update cpu.gpr r v } := by
      unfold set_register
      rw [if_pos hne, hmod]
    rw [he]
    refine ⟨rfl, ?_, ?_⟩
    · show Function.update cpu.gpr r v r = v
      exact Function.update_same _ _ _
    · intro r1 h1
      show Function.update cpu.gpr r v r1 = cpu.gpr r1
      exact Function.update_noteq h1 _ _
  · intro h0
    unfold set_register
    rw [if_neg (by simpa using h0)]

/-- Witness for C29: writing `0xFFFFFFFFFFFFFFFF` to `r9` and to `r0` in the example state. -/
theorem set_register_spec_witness :
    (set_register r4300i_move_example 9 0xFFFFFFFFFFFFFFFF).gpr 9 = 0xFFFFFFFFFFFFFFFF ∧
    set_register r4300i_move_example 0 0xFFFFFFFFFFFFFFFF = r4300i_move_example ∧
    (register_writes r4300i_move_example [(0, 7), (9, 3), (0, 1)]).gpr 0 = 0 :=
  ⟨((set_register_spec r4300i_move_example 9 0xFFFFFFFFFFFFFFFF (by decide)
      (by decide)).1 (by decide)).2.1,
   (set_register_spec r4300i_move_example 0 0xFFFFFFFFFFFFFFFF (by decide)
      (by decide)).2.1 rfl,
   (set_register_spec r4300i_move_example 0 0 (by decide) (by decide)).2.2.2.2
      [(0, 7), (9, 3), (0, 1)] rfl⟩

/-- C30, as stated, fails: in a state whose `gpr[0]` holds 5, `get_register(cpu, 0)`
returns 5, not 0. -/
theorem get_register_zero_not_pinned :
    get_register r4300i_gpr0_example 0 = 5 ∧ get_register r4300i_gpr0_example 0 ≠ 0 := by
  decide

/-- C30, amended: `get_register(cpu, r)` returns the stored value `gpr[r]` for every `r`,
`r == 0` included; it returns 0 for `r == 0` in every state whose `gpr[0]` is 0, and that
holds after every sequence of `set_register` writes from such a state. -/
theorem get_register_spec (cpu : r4300i_t) (r : Nat) :
    get_register cpu r = cpu.gpr r ∧
    (cpu.gpr 0 = 0 → get_register cpu 0 = 0) ∧
    (cpu.gpr 0 = 0 → ∀ writes, get_register (register_writes cpu writes) 0 = 0) :=
  ⟨rfl, fun h => h, fun h ws => (register_writes_gpr0 ws cpu).trans h⟩

/-- Witness for C30: in the example state `gpr[0]` is 0 and stays 0 after writes. -/
theorem get_register_spec_witness :
    r4300i_move_example.gpr 0 = 0 ∧
    get_register r4300i_move_example 8 = 0xFFFFFFFF80000001 ∧
    get_register r4300i_move_example 0 = 0 ∧
    get_register (register_writes r4300i_move_example [(0, 7), (8, 1)]) 0 = 0 :=
  ⟨rfl, (get_register_spec r4300i_move_example 8).1,
   (get_register_spec r4300i_move_example 0).2.1 rfl,
   (get_register_spec r4300i_move_example 0).2.2 rfl [(0, 7), (8, 1)]⟩


/-! ## Theorems: the 32-bit view of the FPU registers -/

theorem fgr_lo_set_lo (raw v : Nat) : fgr_lo (fgr_set_lo raw v) = v % 2 ^ 32 := by
  unfold fgr_lo fgr_set_lo
  omega

theorem fgr_hi_set_lo (raw v : Nat) : fgr_hi (fgr_set_lo raw v) = fgr_hi raw := by
  unfold fgr_set_lo fgr_hi
  omega

theorem fgr_hi_set_hi (raw v : Nat) : fgr_hi (fgr_set_hi raw v) = v % 2 ^ 32 := by
  unfold fgr_set_hi fgr_hi fgr_lo
  omega

theorem fgr_lo_set_hi (raw v : Nat) : fgr_lo (fgr_set_hi raw v) = fgr_lo raw := by
  unfold fgr_set_hi fgr_lo
  omega

theorem and_one_eq_zero_iff (r : Nat) : r &&& 1 = 0 ↔ r % 2 = 0 := by
  rw [Nat.and_one_is_mod]

theorem set_fpu_register_word_even (cpu : r4300i_t) (r v : Nat)
    (hfr : status_fr cpu.cp0.status = false) (he : r % 2 = 0) :
    set_fpu_register_word cpu r v =
      .ok { cpu with f := Function.update cpu.f r (fgr_set_lo (cpu.f r) v) } := by
  unfold set_fpu_register_word
  rw [hfr, Bool.not_false, if_pos rfl, if_pos ((and_one_eq_zero_iff r).mpr he)]

theorem set_fpu_register_word_odd (cpu : r4300i_t) (r v : Nat)
    (hfr : status_fr cpu.cp0.status = false) (ho : r % 2 = 1) :
    set_fpu_register_word cpu r v =
      .ok { cpu with f := Function.update cpu.f (r - 1) (fgr_set_hi (cpu.f (r - 1)) v) } := by
  unfold set_fpu_register_word
  rw [hfr, Bool.not_false, if_pos rfl, if_neg (fun h => by rw [and_one_eq_zero_iff] at h; omega)]

theorem get_fpu_register_word_even (cpu : r4300i_t) (r : Nat)
    (hfr : status_fr cpu.cp0.status = false) (he : r % 2 = 0) :
    get_fpu_register_word cpu r = .ok (fgr_lo (cpu.f r)) := by
  unfold get_fpu_register_word
  rw [hfr, Bool.not_false, if_pos rfl, if_pos ((and_one_eq_zero_iff r).mpr he)]

theorem get_fpu_register_word_odd (cpu : r4300i_t) (r : Nat)
    (hfr : status_fr cpu.cp0.status = false) (ho : r % 2 = 1) :
    get_fpu_register_word cpu r = .ok (fgr_hi (cpu.f (r - 1))) := by
  unfold get_fpu_register_word
  rw [hfr, Bool.not_false, if_pos rfl, if_neg (fun h => by rw [and_one_eq_zero_iff] at h; omega)]

theorem get_set_fpu_register_word (cpu : r4300i_t) (r v : Nat)
    (hfr : status_fr cpu.cp0.status = false) :
    ∃ cpu1, set_fpu_register_word cpu r v = .ok cpu1 ∧
      get_fpu_register_word cpu1 r = .ok (v % 2 ^ 32) ∧
      { cpu1 with f := cpu.f } = cpu := by
  rcases Nat.mod_two_eq_zero_or_one r with he | ho
  · refine ⟨_, set_fpu_register_word_even cpu r v hfr he, ?_, rfl⟩
    rw [get_fpu_register_word_even
      { cpu with f := Function.update cpu.f r (fgr_set_lo (cpu.f r) v) } r hfr he]
    show Except.ok (fgr_lo (Function.update cpu.f r (fgr_set_lo (cpu.f r) v) r)) = _
    rw [Function.update_same, fgr_lo_set_lo]
  · refine ⟨_, set_fpu_register_word_odd cpu r v hfr ho, ?_, rfl⟩
    rw [get_fpu_register_word_odd
      { cpu with f := Function.update cpu.f (r - 1) (fgr_set_hi (cpu.f (r - 1)) v) } r hfr ho]
    show Except.ok (fgr_hi (Function.update cpu.f (r - 1) (fgr_set_hi (cpu.f (r - 1)) v)
      (r - 1))) = _
    rw [Function.update_same, fgr_hi_set_hi]

/-- C27: with `status.fr = 0`, `r` in 0..31 and a 32-bit `v`. For even `r`,
`set_fpu_register_word(r, v)` writes `v` into the low half of `f[r]`; for odd `r` it writes
`v` into the high half of `f[r-1]`. The other half of that register and every other FPU
register keep their value, `get_fpu_register_word(r)` reads the same half, so a get after
the set returns `v`; and for even `r`, writing `lo` to `r` and then `hi` to `r+1` makes
`get_fpu_register_dword(r)` equal `(hi << 32) | lo`. -/
theorem fpu_register_word_fr0 (cpu : r4300i_t) (r v : Nat) (_hr : r < 32) (hv : v < 2 ^ 32)
    (hfr : status_fr cpu.cp0.status = false) :
    (r % 2 = 0 →
      get_fpu_register_word cpu r = .ok (fgr_lo (cpu.f r)) ∧
      ∃ cpu1, set_fpu_register_word cpu r v = .ok cpu1 ∧
        { cpu1 with f := cpu.f } = cpu ∧
        fgr_lo (cpu1.f r) = v ∧ fgr_hi (cpu1.f r) = fgr_hi (cpu.f r) ∧
        (∀ r1, r1 ≠ r → cpu1.f r1 = cpu.f r1) ∧
        get_fpu_register_word cpu1 r = .ok v) ∧
    (r % 2 = 1 →
      get_fpu_register_word cpu r = .ok (fgr_hi (cpu.f (r - 1))) ∧
      ∃ cpu1, set_fpu_register_word cpu r v = .ok cpu1 ∧
        { cpu1 with f := cpu.f } = cpu ∧
        fgr_hi (cpu1.f (r - 1)) = v ∧ fgr_lo (cpu1.f (r - 1)) = fgr_lo (cpu.f (r - 1)) ∧
        (∀ r1, r1 ≠ r - 1 → cpu1.f r1 = cpu.f r1) ∧
        get_fpu_register_word cpu1 r = .ok v) ∧
    (r % 2 = 0 → ∀ hi, hi < 2 ^ 32 →
      ∃ cpu1 cpu2, set_fpu_register_word cpu r v = .ok cpu1 ∧
        set_fpu_register_word cpu1 (r + 1) hi = .ok cpu2 ∧
        get_fpu_register_dword cpu2 r = (hi <<< 32) ||| v) := by
  have hmod : v % 2 ^ 32 = v := Nat.mod_eq_of_lt hv
  refine ⟨?_, ?_, ?_⟩
  · intro he
    refine ⟨get_fpu_register_word_even cpu r hfr he, _,
      set_fpu_register_word_even cpu r v hfr he, rfl, ?_, ?_, ?_, ?_⟩
    · show fgr_lo (Function.update cpu.f r (fgr_set_lo (cpu.f r) v) r) = v
      rw [Function.update_same, fgr_lo_set_lo, hmod]
    · show fgr_hi (Function.update cpu.f r (fgr_set_lo (cpu.f r) v) r) = _
      rw [Function.update_same, fgr_hi_set_lo]
    · intro r1 h1
      show Function.update cpu.f r (fgr_set_lo (cpu.f r) v) r1 = _
      exact Function.update_noteq h1 _ _
    · rw [get_fpu_register_word_even
      { cpu with f := Function.update cpu.f r (fgr_set_lo (cpu.f r) v) } r hfr he]
      show Except.ok (fgr_lo (Function.update cpu.f r (fgr_set_lo (cpu.f r) v) r)) = _
      rw [Function.update_same, fgr_lo_set_lo, hmod]
  · intro ho
    refine ⟨get_fpu_register_word_odd cpu r hfr ho, _,
      set_fpu_register_word_odd cpu r v hfr ho, rfl, ?_, ?_, ?_, ?_⟩
    · show fgr_hi (Function.update cpu.f (r - 1) (fgr_set_hi (cpu.f (r - 1)) v) (r - 1)) = v
      rw [Function.update_same, fgr_hi_set_hi, hmod]
    · show fgr_lo (Function.update cpu.f (r - 1) (fgr_set_hi (cpu.f (r - 1)) v) (r - 1)) = _
      rw [Function.update_same, fgr_lo_set_hi]
    · intro r1 h1
      show Function.update cpu.f (r - 1) (fgr_set_hi (cpu.f (r - 1)) v) r1 = _
      exact Function.update_noteq h1 _ _
    · rw [get_fpu_register_word_odd
      { cpu with f := Function.update cpu.f (r - 1) (fgr_set_hi (cpu.f (r - 1)) v) } r hfr ho]
      show Except.ok (fgr_hi (Function.update cpu.f (r - 1) (fgr_set_hi (cpu.f (r - 1)) v)
        (r - 1))) = _
      rw [Function.update_same, fgr_hi_set_hi, hmod]
  · intro he hi hhi
    have ho : (r + 1) % 2 = 1 := by omega
    refine ⟨_, _, set_fpu_register_word_even cpu r v hfr he,
      set_fpu_register_word_odd
        { cpu with f := Function.update cpu.f r (fgr_set_lo (cpu.f r) v) } (r + 1) hi hfr ho,
      ?_⟩
    show Function.update (Function.update cpu.f r (fgr_set_lo (cpu.f r) v)) (r + 1 - 1)
      (fgr_set_hi (Function.update cpu.f r (fgr_set_lo (cpu.f r) v) (r + 1 - 1)) hi) r = _
    rw [Nat.add_sub_cancel, Function.update_same, Function.update_same]
    unfold fgr_set_hi
    rw [fgr_lo_set_lo, hmod, Nat.mod_eq_of_lt hhi, Nat.shiftLeft_eq, Nat.mul_comm,
      Nat.mul_add_lt_is_or hv]

/-- Witness for C27: in the example state (`f[2] = 0x1111111122222222`, FR = 0) the word
`0xDEADBEEF` written to register 2 replaces the low half of `f[2]`, written to register 3
it replaces the high half of `f[2]`. -/
theorem fpu_register_word_fr0_witness :
    status_fr r4300i_move_example.cp0.status = false ∧
    (∃ cpu1, set_fpu_register_word r4300i_move_example 2 0xDEADBEEF = .ok cpu1 ∧
      fgr_lo (cpu1.f 2) = 0xDEADBEEF ∧ fgr_hi (cpu1.f 2) = 0x11111111 ∧
      get_fpu_register_word cpu1 2 = .ok 0xDEADBEEF) ∧
    (∃ cpu1, set_fpu_register_word r4300i_move_example 3 0xDEADBEEF = .ok cpu1 ∧
      fgr_hi (cpu1.f 2) = 0xDEADBEEF ∧ fgr_lo (cpu1.f 2) = 0x22222222 ∧
      get_fpu_register_word cpu1 3 = .ok 0xDEADBEEF) ∧
    (∃ cpu1 cpu2, set_fpu_register_word r4300i_move_example 2 0xDEADBEEF = .ok cpu1 ∧
      set_fpu_register_word cpu1 3 0x12345678 = .ok cpu2 ∧
      get_fpu_register_dword cpu2 2 = 0x12345678DEADBEEF) := by
  have h2 := fpu_register_word_fr0 r4300i_move_example 2 0xDEADBEEF (by decide) (by decide)
    (by decide)
  have h3 := fpu_register_word_fr0 r4300i_move_example 3 0xDEADBEEF (by decide) (by decide)
    (by decide)
  refine ⟨by decide, ?_, ?_, ?_⟩
  · obtain ⟨-, cpu1, h, -, hlo, hhi, -, hg⟩ := h2.1 (by decide)
    exact ⟨cpu1, h, hlo, hhi.trans (by decide), hg⟩
  · obtain ⟨-, cpu1, h, -, hhi, hlo, -, hg⟩ := h3.2.1 (by decide)
    exact ⟨cpu1, h, hhi, hlo.trans (by decide), hg⟩
  · obtain ⟨cpu1, cpu2, ha, hb, hc⟩ := h2.2.2 (by decide) 0x12345678 (by decide)
    exact ⟨cpu1, cpu2, ha, hb, hc.trans (by decide)⟩


/-- C28, as stated, fails: with `status.fr = 1` the call `set_fpu_register_word(0, 5)` does
not succeed, and neither does `get_fpu_register_word(0)`: both end in `logfatal`. -/
theorem fpu_register_word_fr1_fatal :
    status_fr r4300i_fr_example.cp0.status = true ∧
    set_fpu_register_word r4300i_fr_example 0 5 = .error .fpu_fr_unimplemented ∧
    get_fpu_register_word r4300i_fr_example 0 = .error .fpu_fr_unimplemented ∧
    ¬ ∃ cpu1, set_fpu_register_word r4300i_fr_example 0 5 = .ok cpu1 := by
  refine ⟨by decide, rfl, rfl, ?_⟩
  rintro ⟨cpu1, h⟩
  have he : set_fpu_register_word r4300i_fr_example 0 5 = .error .fpu_fr_unimplemented := rfl
  rw [he] at h
  cases h

/-- C28, amended: with `status.fr = 1` the 32-bit view of `r4300i.h` is unimplemented: for
every register `r` and every word `v`, `set_fpu_register_word(r, v)` and
`get_fpu_register_word(r)` end in `logfatal`, and no register is written. -/
theorem fpu_register_word_fr1 (cpu : r4300i_t) (r v : Nat)
    (hfr : status_fr cpu.cp0.status = true) :
    set_fpu_register_word cpu r v = .error .fpu_fr_unimplemented ∧
    get_fpu_register_word cpu r = .error .fpu_fr_unimplemented := by
  unfold set_fpu_register_word get_fpu_register_word
  rw [hfr]
  exact ⟨rfl, rfl⟩

/-- Witness for C28: the example state with FR = 1, register 7 and the word `0xDEADBEEF`. -/
theorem fpu_register_word_fr1_witness :
    status_fr r4300i_fr_example.cp0.status = true ∧
    set_fpu_register_word r4300i_fr_example 7 0xDEADBEEF = .error .fpu_fr_unimplemented ∧
    get_fpu_register_word r4300i_fr_example 7 = .error .fpu_fr_unimplemented :=
  ⟨by decide, fpu_register_word_fr1 r4300i_fr_example 7 0xDEADBEEF (by decide)⟩

/-! ## Theorems: moves between the GPRs and coprocessor 1 -/

theorem checkcp1_preservecause_usable (handler : exception_handler_t) (cpu : r4300i_t)
    (hcu : status_cu1 cpu.cp0.status = true) :
    checkcp1_preservecause handler cpu = .ok cpu := by
  unfold checkcp1_preservecause
  rw [hcu]
  rfl

theorem sign_extend32_to_64_spec (v : Nat) :
    sign_extend32_to_64 v < 2 ^ 64 ∧
    sign_extend32_to_64 v % 2 ^ 32 = v % 2 ^ 32 ∧
    sign_extend32_to_64 v / 2 ^ 32 = if v.testBit 31 then 2 ^ 32 - 1 else 0 := by
  rw [Nat.testBit_to_div_mod]
  unfold sign_extend32_to_64
  by_cases h : v % 2 ^ 32 < 2 ^ 31
  · rw [if_pos h]
    have hb : ¬ (v / 2 ^ 31 % 2 = 1) := by omega
    simp only [hb, decide_False, Bool.false_eq_true, if_false]
    omega
  · rw [if_neg h]
    have hb : v / 2 ^ 31 % 2 = 1 := by omega
    simp only [hb, decide_True, if_true]
    omega

/-- C26: with coprocessor 1 usable and FR = 0, for every FPU register `r` in 0..31, every
source GPR `rs` (whose value is `v`) and every destination GPR `rt != 0`: `mtc1` of `rs`
into `r` followed by `mfc1` of `r` into `rt` leaves `gpr[rt]` equal to the low 32 bits of
`v` sign-extended to 64 bits, that is with low word `v mod 2^32` and a high word of 32
copies of bit 31 of `v`. -/
theorem mtc1_mfc1_roundtrip (handler : exception_handler_t) (cpu : r4300i_t)
    (rs r rt : Nat) (_hr : r < 32) (_hrt : rt < 32) (hrt0 : rt ≠ 0)
    (hcu : status_cu1 cpu.cp0.status = true) (hfr : status_fr cpu.cp0.status = false) :
    ∃ cpu1 cpu2, mips_mtc1 handler cpu rs r = .ok cpu1 ∧
      mips_mfc1 handler cpu1 rt r = .ok cpu2 ∧
      cpu2.gpr rt = sign_extend32_to_64 (cpu.gpr rs) ∧
      cpu2.gpr rt % 2 ^ 32 = cpu.gpr rs % 2 ^ 32 ∧
      cpu2.gpr rt / 2 ^ 32 = if (cpu.gpr rs).testBit 31 then 2 ^ 32 - 1 else 0 := by
  obtain ⟨cpu1, hset, hget, hframe⟩ :=
    get_set_fpu_register_word cpu r (get_register cpu rs % 2 ^ 32) hfr
  have hcp0 : cpu1.cp0 = cpu.cp0 := by
    have hh := congrArg r4300i_t.cp0 hframe
    exact hh
  have hcu1 : status_cu1 cpu1.cp0.status = true := by rw [hcp0]; exact hcu
  have hsx := sign_extend32_to_64_spec (cpu.gpr rs)
  have hm : mips_mtc1 handler cpu rs r = .ok cpu1 := by
    unfold mips_mtc1
    rw [checkcp1_preservecause_usable handler cpu hcu]
    exact hset
  have hval : sign_extend32_to_64 (get_register cpu rs % 2 ^ 32 % 2 ^ 32) =
      sign_extend32_to_64 (cpu.gpr rs) := by
    unfold sign_extend32_to_64 get_register
    rw [Nat.mod_mod, Nat.mod_mod]
  have hf : mips_mfc1 handler cpu1 rt r =
      .ok (set_register cpu1 rt (sign_extend32_to_64 (cpu.gpr rs))) := by
    unfold mips_mfc1 get_fpu_register_word_fr
    rw [checkcp1_preservecause_usable handler cpu1 hcu1]
    simp only []
    rw [hget]
    show Except.ok (set_register cpu1 rt _) = _
    rw [hval]
  have hg : (set_register cpu1 rt (sign_extend32_to_64 (cpu.gpr rs))).gpr rt =
      sign_extend32_to_64 (cpu.gpr rs) := by
    unfold set_register
    rw [if_pos hrt0, Nat.mod_eq_of_lt hsx.1]
    exact Function.update_same _ _ _
  refine ⟨cpu1, _, hm, hf, hg, ?_, ?_⟩
  · rw [hg]; exact hsx.2.1
  · rw [hg]; exact hsx.2.2

/-- Witness for C26: in the example state `gpr[8] = 0xFFFFFFFF80000001`; after `mtc1` of
`r8` into FPU register 3 and `mfc1` of register 3 into `r2`, `gpr[2]` is
`0xFFFFFFFF80000001`; from `r9 = 0xFFFFFFFFFFFFFFFF` through register 4 it is all ones. -/
theorem mtc1_mfc1_roundtrip_witness :
    status_cu1 r4300i_move_example.cp0.status = true ∧
    status_fr r4300i_move_example.cp0.status = false ∧
    (∃ cpu1 cpu2, mips_mtc1 fpu_env_example.handler r4300i_move_example 8 3 = .ok cpu1 ∧
      mips_mfc1 fpu_env_example.handler cpu1 2 3 = .ok cpu2 ∧
      cpu2.gpr 2 = 0xFFFFFFFF80000001) := by
  obtain ⟨cpu1, cpu2, h1, h2, h3, -, -⟩ := mtc1_mfc1_roundtrip fpu_env_example.handler
    r4300i_move_example 8 3 2 (by decide) (by decide) (by decide) (by decide) (by decide)
  exact ⟨by decide, by decide, cpu1, cpu2, h1, h2, h3.trans (by decide)⟩


/-! ## Theorems: writes to `fcr31` -/

theorem fcr31_mask_testBit (i : Nat) : (0x183ffff : Nat).testBit i = fcr31_named_bit i := by
  by_cases h : i < 25
  · interval_cases i <;> decide
  · have hlt : (0x183ffff : Nat) < 2 ^ i :=
      Nat.lt_of_lt_of_le (by decide : (0x183ffff : Nat) < 2 ^ 25)
        (Nat.pow_le_pow_right (by decide) (by omega))
    rw [Nat.testBit_lt_two_pow hlt]
    unfold fcr31_named_bit
    have h1 : ¬ i < 18 := by omega
    have h2 : (i == 23) = false := by
      rw [beq_eq_false_iff_ne]; omega
    have h3 : (i == 24) = false := by
      rw [beq_eq_false_iff_ne]; omega
    simp [h1, h2, h3]

theorem fcr31_masked_testBit (v i : Nat) :
    ((v % 2 ^ 32) &&& 0x183ffff).testBit i = (fcr31_named_bit i && v.testBit i) := by
  rw [Nat.testBit_and, fcr31_mask_testBit, Nat.testBit_mod_two_pow]
  by_cases h : i < 32
  · simp [h, Bool.and_comm]
  · have hn : fcr31_named_bit i = false := by
      unfold fcr31_named_bit
      have h1 : ¬ i < 18 := by omega
      have h2 : (i == 23) = false := by
        rw [beq_eq_false_iff_ne]; omega
      have h3 : (i == 24) = false := by
        rw [beq_eq_false_iff_ne]; omega
      simp [h1, h2, h3]
    simp [h, hn]

/-- C25: with coprocessor 1 usable, `ctc1` of GPR `rt` (holding `v`) with `fs = 31` sets
`fcr31.raw` to `(low 32 bits of v) & 0x183FFFF` and then checks for a pending exception: if
it fires, the exception handler is entered from the state with the masked `fcr31`, if not
the instruction ends in that state. Bit `i` of the masked value is bit `i` of `v` for the
named fields (bits 0..17, 23 and 24) and zero for every other bit (18..22 and 25..31).
With `fs = 0` the state is unchanged. -/
theorem mips_ctc1_spec (handler : exception_handler_t) (cpu : r4300i_t) (rt : Nat)
    (hcu : status_cu1 cpu.cp0.status = true) :
    mips_ctc1 handler cpu rt 31 =
      .ok (fire_fpu_exception handler
        { cpu with fcr31 := (cpu.gpr rt % 2 ^ 32) &&& 0x183ffff }).2 ∧
    ((fire_fpu_exception handler
        { cpu with fcr31 := (cpu.gpr rt % 2 ^ 32) &&& 0x183ffff }).1 = true →
      mips_ctc1 handler cpu rt 31 =
        .ok (handler { cpu with fcr31 := (cpu.gpr rt % 2 ^ 32) &&& 0x183ffff }
          cpu.prev_pc EXCEPTION_FLOATING_POINT 0)) ∧
    ((fire_fpu_exception handler
        { cpu with fcr31 := (cpu.gpr rt % 2 ^ 32) &&& 0x183ffff }).1 = false →
      mips_ctc1 handler cpu rt 31 =
        .ok { cpu with fcr31 := (cpu.gpr rt % 2 ^ 32) &&& 0x183ffff }) ∧
    (∀ i, ((cpu.gpr rt % 2 ^ 32) &&& 0x183ffff).testBit i =
      (fcr31_named_bit i && (cpu.gpr rt).testBit i)) ∧
    (∀ i, (18 ≤ i ∧ i ≤ 22) ∨ 25 ≤ i →
      ((cpu.gpr rt % 2 ^ 32) &&& 0x183ffff).testBit i = false) ∧
    mips_ctc1 handler cpu rt 0 = .ok cpu := by
  have h31 : mips_ctc1 handler cpu rt 31 =
      .ok (fire_fpu_exception handler
        { cpu with fcr31 := (cpu.gpr rt % 2 ^ 32) &&& 0x183ffff }).2 := by
    unfold mips_ctc1
    rw [checkcp1_preservecause_usable handler cpu hcu]
    rfl
  have hcases := fire_fpu_exception_eq handler
    { cpu with fcr31 := (cpu.gpr rt % 2 ^ 32) &&& 0x183ffff }
  refine ⟨h31, ?_, ?_, fcr31_masked_testBit (cpu.gpr rt), ?_, ?_⟩
  · intro hf
    rw [h31]
    rw [hcases] at hf ⊢
    split at hf
    · rename_i hc
      rw [if_pos hc]
    · cases hf
  · intro hf
    rw [h31]
    rw [hcases] at hf ⊢
    split at hf
    · cases hf
    · rename_i hc
      rw [if_neg hc]
  · intro i hi
    rw [fcr31_masked_testBit]
    have hn : fcr31_named_bit i = false := by
      unfold fcr31_named_bit
      have h1 : ¬ i < 18 := by omega
      have h2 : (i == 23) = false := by
        rw [beq_eq_false_iff_ne]; omega
      have h3 : (i == 24) = false := by
        rw [beq_eq_false_iff_ne]; omega
      simp [h1, h2, h3]
    rw [hn, Bool.false_and]
  · unfold mips_ctc1
    rw [checkcp1_preservecause_usable handler cpu hcu]
    rfl

/-- Witness for C25: `ctc1` of `r9 = 0xFFFFFFFFFFFFFFFF` with `fs = 31` leaves `0x183FFFF` in
`fcr31` when the handler is entered (the unimplemented-operation cause is set, so the check
fires), and `ctc1` of `r0 = 0` writes 0 and does not fire. -/
theorem mips_ctc1_spec_witness :
    status_cu1 r4300i_move_example.cp0.status = true ∧
    mips_ctc1 fpu_env_example.handler r4300i_move_example 9 31 =
      .ok (fpu_env_example.handler { r4300i_move_example with fcr31 := 0x183ffff }
        0x1000 EXCEPTION_FLOATING_POINT 0) ∧
    mips_ctc1 fpu_env_example.handler r4300i_move_example 0 31 =
      .ok { r4300i_move_example with fcr31 := 0 } ∧
    mips_ctc1 fpu_env_example.handler r4300i_move_example 9 0 = .ok r4300i_move_example :=
  ⟨by decide,
   (mips_ctc1_spec fpu_env_example.handler r4300i_move_example 9 (by decide)).2.1
     (by decide),
   (mips_ctc1_spec fpu_env_example.handler r4300i_move_example 0 (by decide)).2.2.1
     (by decide),
   (mips_ctc1_spec fpu_env_example.handler r4300i_move_example 9
     (by decide)).2.2.2.2.2⟩


/-! ## Theorems: argument checks of the conversions to integer -/

theorem f32_class_five (x : Nat) :
    f32_is_nan x ∨ f32_is_infinite x ∨ f32_is_subnormal x ∨ f32_is_zero x ∨ f32_is_normal x := by
  unfold f32_is_nan f32_is_subnormal f32_is_infinite f32_is_zero f32_is_normal
  by_cases h1 : f32_exponent x = 255 <;> by_cases h2 : f32_exponent x = 0 <;>
    by_cases h3 : f32_mantissa x = 0 <;> simp_all

theorem f64_class_five (x : Nat) :
    f64_is_nan x ∨ f64_is_infinite x ∨ f64_is_subnormal x ∨ f64_is_zero x ∨ f64_is_normal x := by
  unfold f64_is_nan f64_is_subnormal f64_is_infinite f64_is_zero f64_is_normal
  by_cases h1 : f64_exponent x = 2047 <;> by_cases h2 : f64_exponent x = 0 <;>
    by_cases h3 : f64_mantissa x = 0 <;> simp_all

theorem f32_scaled_zero (x : Nat) (h : f32_is_zero x) : f32_scaled x = 0 := by
  unfold f32_scaled
  simp only [h.1, h.2, if_true]
  split <;> rfl

theorem f64_scaled_zero (x : Nat) (h : f64_is_zero x) : f64_scaled x = 0 := by
  unfold f64_scaled
  simp only [h.1, h.2, if_true]
  split <;> rfl

theorem unimplemented_bit_iff (cpu cpu1 : r4300i_t) (p : Prop)
    (h1 : p → cpu1 = set_cause_unimplemented_operation cpu) (h2 : ¬ p → cpu1 = cpu) :
    fcr31_cause_unimplemented_operation cpu1.fcr31 = true ↔
      fcr31_cause_unimplemented_operation cpu.fcr31 = true ∨ p := by
  by_cases hp : p
  · rw [h1 hp]
    constructor
    · intro _; exact Or.inr hp
    · intro _; exact (cause_bits_after_unimplemented cpu.fcr31).1
  · rw [h2 hp]
    constructor
    · intro h; exact Or.inl h
    · rintro (h | h)
      · exact h
      · exact absurd h hp

theorem set_cause_cvt_w_s_eq (cpu : r4300i_t) (x : Nat) :
    (f32_is_nan x ∨ f32_is_infinite x ∨ f32_is_subnormal x →
      set_cause_cvt_w_s cpu x = set_cause_unimplemented_operation cpu) ∧
    (f32_is_zero x → set_cause_cvt_w_s cpu x = cpu) ∧
    (f32_is_normal x →
      set_cause_cvt_w_s cpu x =
        if f32_scaled x ≥ (2147483648 <<< 150 : Nat) ∨
            f32_scaled x < -(2147483648 <<< 150 : Nat) then
          set_cause_unimplemented_operation cpu
        else cpu) := by
  have hc := fpclassify_s_cases x
  refine ⟨?_, ?_, ?_⟩
  · rintro (h | h | h)
    · unfold set_cause_cvt_w_s; rw [hc.1 h]
    · unfold set_cause_cvt_w_s; rw [hc.2.2.1 h]
    · unfold set_cause_cvt_w_s; rw [hc.2.1 h]
  · intro h
    unfold set_cause_cvt_w_s; rw [hc.2.2.2.1 h]
  · intro h
    unfold set_cause_cvt_w_s; rw [hc.2.2.2.2 h]

theorem set_cause_cvt_w_d_eq (cpu : r4300i_t) (x : Nat) :
    (f64_is_nan x ∨ f64_is_infinite x ∨ f64_is_subnormal x →
      set_cause_cvt_w_d cpu x = set_cause_unimplemented_operation cpu) ∧
    (f64_is_zero x → set_cause_cvt_w_d cpu x = cpu) ∧
    (f64_is_normal x →
      set_cause_cvt_w_d cpu x =
        if f64_scaled x ≥ (2147483648 <<< 1075 : Nat) ∨
            f64_scaled x < -(2147483648 <<< 1075 : Nat) then
          set_cause_unimplemented_operation cpu
        else cpu) := by
  have hc := fpclassify_d_cases x
  refine ⟨?_, ?_, ?_⟩
  · rintro (h | h | h)
    · unfold set_cause_cvt_w_d; rw [hc.1 h]
    · unfold set_cause_cvt_w_d; rw [hc.2.2.1 h]
    · unfold set_cause_cvt_w_d; rw [hc.2.1 h]
  · intro h
    unfold set_cause_cvt_w_d; rw [hc.2.2.2.1 h]
  · intro h
    unfold set_cause_cvt_w_d; rw [hc.2.2.2.2 h]

theorem set_cause_cvt_l_s_eq (cpu : r4300i_t) (x : Nat) :
    (f32_is_nan x ∨ f32_is_infinite x ∨ f32_is_subnormal x →
      set_cause_cvt_l_s cpu x = set_cause_unimplemented_operation cpu) ∧
    (f32_is_zero x → set_cause_cvt_l_s cpu x = cpu) ∧
    (f32_is_normal x →
      set_cause_cvt_l_s cpu x =
        if f32_scaled x ≥ (9007199254740992 <<< 150 : Nat) ∨
            f32_scaled x ≤ -(9007199254740992 <<< 150 : Nat) then
          set_cause_unimplemented_operation cpu
        else cpu) := by
  have hc := fpclassify_s_cases x
  refine ⟨?_, ?_, ?_⟩
  · rintro (h | h | h)
    · unfold set_cause_cvt_l_s; rw [hc.1 h]
    · unfold set_cause_cvt_l_s; rw [hc.2.2.1 h]
    · unfold set_cause_cvt_l_s; rw [hc.2.1 h]
  · intro h
    unfold set_cause_cvt_l_s; rw [hc.2.2.2.1 h]
  · intro h
    unfold set_cause_cvt_l_s; rw [hc.2.2.2.2 h]

theorem set_cause_cvt_l_d_eq (cpu : r4300i_t) (x : Nat) :
    (f64_is_nan x ∨ f64_is_infinite x ∨ f64_is_subnormal x →
      set_cause_cvt_l_d cpu x = set_cause_unimplemented_operation cpu) ∧
    (f64_is_zero x → set_cause_cvt_l_d cpu x = cpu) ∧
    (f64_is_normal x →
      set_cause_cvt_l_d cpu x =
        if f64_scaled x ≥ (9007199254740992 <<< 1075 : Nat) ∨
            f64_scaled x ≤ -(9007199254740992 <<< 1075 : Nat) then
          set_cause_unimplemented_operation cpu
        else cpu) := by
  have hc := fpclassify_d_cases x
  refine ⟨?_, ?_, ?_⟩
  · rintro (h | h | h)
    · unfold set_cause_cvt_l_d; rw [hc.1 h]
    · unfold set_cause_cvt_l_d; rw [hc.2.2.1 h]
    · unfold set_cause_cvt_l_d; rw [hc.2.1 h]
  · intro h
    unfold set_cause_cvt_l_d; rw [hc.2.2.2.1 h]
  · intro h
    unfold set_cause_cvt_l_d; rw [hc.2.2.2.2 h]

theorem abs_ge_iff (a : Int) (c : Nat) : (a ≥ (c : Int) ∨ a ≤ -(c : Int)) ↔ c ≤ a.natAbs := by
  omega

theorem abs_ge_ne_iff (a : Int) (c : Nat) (hc : 0 < c) :
    (a ≥ (c : Int) ∨ a < -(c : Int)) ↔ (c ≤ a.natAbs ∧ a ≠ -(c : Int)) := by
  omega

theorem cvt_l_s_rejects (cpu : r4300i_t) (x : Nat) :
    (f32_is_nan x ∨ f32_is_infinite x ∨ f32_is_subnormal x ∨ f32_magnitude_ge x 53 →
      set_cause_cvt_l_s cpu x = set_cause_unimplemented_operation cpu) ∧
    (¬ (f32_is_nan x ∨ f32_is_infinite x ∨ f32_is_subnormal x ∨ f32_magnitude_ge x 53) →
      set_cause_cvt_l_s cpu x = cpu) := by
  have he := set_cause_cvt_l_s_eq cpu x
  have hk : (2 ^ 53 <<< 150 : Nat) = 9007199254740992 <<< 150 := by decide
  have hpos : 0 < (9007199254740992 <<< 150 : Nat) := by decide
  have habs := abs_ge_iff (f32_scaled x) (9007199254740992 <<< 150)
  constructor
  · rintro (h | h | h | ⟨hfin, hm⟩)
    · exact he.1 (Or.inl h)
    · exact he.1 (Or.inr (Or.inl h))
    · exact he.1 (Or.inr (Or.inr h))
    · rw [hk] at hm
      rcases hfin with hn | hs | hz
      · rw [he.2.2 hn, if_pos (habs.mpr hm)]
      · exact he.1 (Or.inr (Or.inr hs))
      · rw [f32_scaled_zero x hz] at hm
        have : (0 : Int).natAbs = 0 := rfl
        omega
  · intro hno
    rcases f32_class_five x with h | h | h | h | h
    · exact absurd (Or.inl h) hno
    · exact absurd (Or.inr (Or.inl h)) hno
    · exact absurd (Or.inr (Or.inr (Or.inl h))) hno
    · exact he.2.1 h
    · rw [he.2.2 h, if_neg]
      intro hcond
      apply hno
      refine Or.inr (Or.inr (Or.inr ⟨Or.inl h, ?_⟩))
      rw [hk]
      exact habs.mp hcond

theorem cvt_l_d_rejects (cpu : r4300i_t) (x : Nat) :
    (f64_is_nan x ∨ f64_is_infinite x ∨ f64_is_subnormal x ∨ f64_magnitude_ge x 53 →
      set_cause_cvt_l_d cpu x = set_cause_unimplemented_operation cpu) ∧
    (¬ (f64_is_nan x ∨ f64_is_infinite x ∨ f64_is_subnormal x ∨ f64_magnitude_ge x 53) →
      set_cause_cvt_l_d cpu x = cpu) := by
  have he := set_cause_cvt_l_d_eq cpu x
  have hk : (2 ^ 53 <<< 1075 : Nat) = 9007199254740992 <<< 1075 := by decide
  have hpos : 0 < (9007199254740992 <<< 1075 : Nat) := by decide
  have habs := abs_ge_iff (f64_scaled x) (9007199254740992 <<< 1075)
  constructor
  · rintro (h | h | h | ⟨hfin, hm⟩)
    · exact he.1 (Or.inl h)
    · exact he.1 (Or.inr (Or.inl h))
    · exact he.1 (Or.inr (Or.inr h))
    · rw [hk] at hm
      rcases hfin with hn | hs | hz
      · rw [he.2.2 hn, if_pos (habs.mpr hm)]
      · exact he.1 (Or.inr (Or.inr hs))
      · rw [f64_scaled_zero x hz] at hm
        have : (0 : Int).natAbs = 0 := rfl
        omega
  · intro hno
    rcases f64_class_five x with h | h | h | h | h
    · exact absurd (Or.inl h) hno
    · exact absurd (Or.inr (Or.inl h)) hno
    · exact absurd (Or.inr (Or.inr (Or.inl h))) hno
    · exact he.2.1 h
    · rw [he.2.2 h, if_neg]
      intro hcond
      apply hno
      refine Or.inr (Or.inr (Or.inr ⟨Or.inl h, ?_⟩))
      rw [hk]
      exact habs.mp hcond

theorem cvt_w_s_rejects (cpu : r4300i_t) (x : Nat) :
    (f32_is_nan x ∨ f32_is_infinite x ∨ f32_is_subnormal x ∨
        (f32_magnitude_ge x 31 ∧ f32_scaled x ≠ -((2 ^ 31 <<< 150 : Nat) : Int)) →
      set_cause_cvt_w_s cpu x = set_cause_unimplemented_operation cpu) ∧
    (¬ (f32_is_nan x ∨ f32_is_infinite x ∨ f32_is_subnormal x ∨
        (f32_magnitude_ge x 31 ∧ f32_scaled x ≠ -((2 ^ 31 <<< 150 : Nat) : Int))) →
      set_cause_cvt_w_s cpu x = cpu) := by
  have he := set_cause_cvt_w_s_eq cpu x
  have hk : (2 ^ 31 <<< 150 : Nat) = 2147483648 <<< 150 := by decide
  have hpos : 0 < (2147483648 <<< 150 : Nat) := by decide
  have habs := abs_ge_ne_iff (f32_scaled x) (2147483648 <<< 150) hpos
  rw [hk]
  constructor
  · rintro (h | h | h | ⟨⟨hfin, hm⟩, hne⟩)
    · exact he.1 (Or.inl h)
    · exact he.1 (Or.inr (Or.inl h))
    · exact he.1 (Or.inr (Or.inr h))
    · rw [hk] at hm
      rcases hfin with hn | hs | hz
      · rw [he.2.2 hn, if_pos (habs.mpr ⟨hm, hne⟩)]
      · exact he.1 (Or.inr (Or.inr hs))
      · rw [f32_scaled_zero x hz] at hm
        have : (0 : Int).natAbs = 0 := rfl
        omega
  · intro hno
    rcases f32_class_five x with h | h | h | h | h
    · exact absurd (Or.inl h) hno
    · exact absurd (Or.inr (Or.inl h)) hno
    · exact absurd (Or.inr (Or.inr (Or.inl h))) hno
    · exact he.2.1 h
    · rw [he.2.2 h, if_neg]
      intro hcond
      apply hno
      have hh := habs.mp hcond
      refine Or.inr (Or.inr (Or.inr ⟨⟨Or.inl h, ?_⟩, hh.2⟩))
      rw [hk]
      exact hh.1

theorem cvt_w_d_rejects (cpu : r4300i_t) (x : Nat) :
    (f64_is_nan x ∨ f64_is_infinite x ∨ f64_is_subnormal x ∨
        (f64_magnitude_ge x 31 ∧ f64_scaled x ≠ -((2 ^ 31 <<< 1075 : Nat) : Int)) →
      set_cause_cvt_w_d cpu x = set_cause_unimplemented_operation cpu) ∧
    (¬ (f64_is_nan x ∨ f64_is_infinite x ∨ f64_is_subnormal x ∨
        (f64_magnitude_ge x 31 ∧ f64_scaled x ≠ -((2 ^ 31 <<< 1075 : Nat) : Int))) →
      set_cause_cvt_w_d cpu x = cpu) := by
  have he := set_cause_cvt_w_d_eq cpu x
  have hk : (2 ^ 31 <<< 1075 : Nat) = 2147483648 <<< 1075 := by decide
  have hpos : 0 < (2147483648 <<< 1075 : Nat) := by decide
  have habs := abs_ge_ne_iff (f64_scaled x) (2147483648 <<< 1075) hpos
  rw [hk]
  constructor
  · rintro (h | h | h | ⟨⟨hfin, hm⟩, hne⟩)
    · exact he.1 (Or.inl h)
    · exact he.1 (Or.inr (Or.inl h))
    · exact he.1 (Or.inr (Or.inr h))
    · rw [hk] at hm
      rcases hfin with hn | hs | hz
      · rw [he.2.2 hn, if_pos (habs.mpr ⟨hm, hne⟩)]
      · exact he.1 (Or.inr (Or.inr hs))
      · rw [f64_scaled_zero x hz] at hm
        have : (0 : Int).natAbs = 0 := rfl
        omega
  · intro hno
    rcases f64_class_five x with h | h | h | h | h
    · exact absurd (Or.inl h) hno
    · exact absurd (Or.inr (Or.inl h)) hno
    · exact absurd (Or.inr (Or.inr (Or.inl h))) hno
    · exact he.2.1 h
    · rw [he.2.2 h, if_neg]
      intro hcond
      apply hno
      have hh := habs.mp hcond
      refine Or.inr (Or.inr (Or.inr ⟨⟨Or.inl h, ?_⟩, hh.2⟩))
      rw [hk]
      exact hh.1

/-- C21, as stated, fails: `-2^31` (float `0xCF000000`, double `0xC1E0000000000000`) is a
normal number of magnitude `2^31`, and neither `set_cause_cvt_w_s` nor `set_cause_cvt_w_d`
sets `cause_unimplemented_operation` for it. -/
theorem cvt_w_accepts_int_min :
    f32_magnitude_ge 0xCF000000 31 ∧
    f32_scaled 0xCF000000 = -((2 ^ 31 <<< 150 : Nat) : Int) ∧
    set_cause_cvt_w_s r4300i_zero 0xCF000000 = r4300i_zero ∧
    fcr31_cause_unimplemented_operation
      (set_cause_cvt_w_s r4300i_zero 0xCF000000).fcr31 = false ∧
    f64_magnitude_ge 0xC1E0000000000000 31 ∧
    f64_scaled 0xC1E0000000000000 = -((2 ^ 31 <<< 1075 : Nat) : Int) ∧
    set_cause_cvt_w_d r4300i_zero 0xC1E0000000000000 = r4300i_zero ∧
    fcr31_cause_unimplemented_operation
      (set_cause_cvt_w_d r4300i_zero 0xC1E0000000000000).fcr31 = false :=
  ⟨by decide, by decide, rfl, by decide, by decide, by decide, rfl, by decide⟩

/-- C21, amended: for every float (resp. double) bit pattern `x`, `set_cause_cvt_w_s`
(resp. `set_cause_cvt_w_d`) sets `cause_unimplemented_operation`, and changes nothing else,
if and only if `x` is NaN, infinite, subnormal, or a number of magnitude at least `2^31`
other than `-2^31`; otherwise the state is unchanged. So the double `2^31 - 1` and the
largest float below `2^31` are accepted, `-2^31` is accepted, and `2^31` is rejected. -/
theorem cvt_w_arg_check (cpu : r4300i_t) (x : Nat) :
    ((f32_is_nan x ∨ f32_is_infinite x ∨ f32_is_subnormal x ∨
        (f32_magnitude_ge x 31 ∧ f32_scaled x ≠ -((2 ^ 31 <<< 150 : Nat) : Int)) →
      set_cause_cvt_w_s cpu x = { cpu with fcr31 := cpu.fcr31 ||| (1 <<< 17) }) ∧
    (¬ (f32_is_nan x ∨ f32_is_infinite x ∨ f32_is_subnormal x ∨
        (f32_magnitude_ge x 31 ∧ f32_scaled x ≠ -((2 ^ 31 <<< 150 : Nat) : Int))) →
      set_cause_cvt_w_s cpu x = cpu) ∧
    (fcr31_cause_unimplemented_operation (set_cause_cvt_w_s cpu x).fcr31 = true ↔
      fcr31_cause_unimplemented_operation cpu.fcr31 = true ∨
        (f32_is_nan x ∨ f32_is_infinite x ∨ f32_is_subnormal x ∨
          (f32_magnitude_ge x 31 ∧ f32_scaled x ≠ -((2 ^ 31 <<< 150 : Nat) : Int))))) ∧
    ((f64_is_nan x ∨ f64_is_infinite x ∨ f64_is_subnormal x ∨
        (f64_magnitude_ge x 31 ∧ f64_scaled x ≠ -((2 ^ 31 <<< 1075 : Nat) : Int)) →
      set_cause_cvt_w_d cpu x = { cpu with fcr31 := cpu.fcr31 ||| (1 <<< 17) }) ∧
    (¬ (f64_is_nan x ∨ f64_is_infinite x ∨ f64_is_subnormal x ∨
        (f64_magnitude_ge x 31 ∧ f64_scaled x ≠ -((2 ^ 31 <<< 1075 : Nat) : Int))) →
      set_cause_cvt_w_d cpu x = cpu) ∧
    (fcr31_cause_unimplemented_operation (set_cause_cvt_w_d cpu x).fcr31 = true ↔
      fcr31_cause_unimplemented_operation cpu.fcr31 = true ∨
        (f64_is_nan x ∨ f64_is_infinite x ∨ f64_is_subnormal x ∨
          (f64_magnitude_ge x 31 ∧ f64_scaled x ≠ -((2 ^ 31 <<< 1075 : Nat) : Int))))) ∧
    (f64_scaled 0x41DFFFFFFFC00000 = (((2 ^ 31 - 1) <<< 1075 : Nat) : Int) ∧
      set_cause_cvt_w_d cpu 0x41DFFFFFFFC00000 = cpu ∧
      set_cause_cvt_w_s cpu 0x4EFFFFFF = cpu ∧
      set_cause_cvt_w_s cpu 0xCF000000 = cpu ∧
      set_cause_cvt_w_d cpu 0xC1E0000000000000 = cpu ∧
      f32_scaled 0x4F000000 = ((2 ^ 31 <<< 150 : Nat) : Int) ∧
      set_cause_cvt_w_s cpu 0x4F000000 = { cpu with fcr31 := cpu.fcr31 ||| (1 <<< 17) } ∧
      f64_scaled 0x41E0000000000000 = ((2 ^ 31 <<< 1075 : Nat) : Int) ∧
      set_cause_cvt_w_d cpu 0x41E0000000000000 =
        { cpu with fcr31 := cpu.fcr31 ||| (1 <<< 17) }) := by
  have hs := cvt_w_s_rejects cpu x
  have hd := cvt_w_d_rejects cpu x
  refine ⟨⟨hs.1, hs.2, unimplemented_bit_iff cpu _ _ hs.1 hs.2⟩,
    ⟨hd.1, hd.2, unimplemented_bit_iff cpu _ _ hd.1 hd.2⟩,
    by decide, ?_, ?_, ?_, ?_, by decide, ?_, by decide, ?_⟩
  · exact (cvt_w_d_rejects cpu 0x41DFFFFFFFC00000).2 (by decide)
  · exact (cvt_w_s_rejects cpu 0x4EFFFFFF).2 (by decide)
  · exact (cvt_w_s_rejects cpu 0xCF000000).2 (by decide)
  · exact (cvt_w_d_rejects cpu 0xC1E0000000000000).2 (by decide)
  · exact (cvt_w_s_rejects cpu 0x4F000000).1 (by decide)
  · exact (cvt_w_d_rejects cpu 0x41E0000000000000).1 (by decide)

/-- Witness for C21: the float `2^31` (`0x4F000000`) sets `cause_unimplemented_operation`
in the zero state, the float NaN `0x7FC00000` does, and `1.0` does not. -/
theorem cvt_w_arg_check_witness :
    (set_cause_cvt_w_s r4300i_zero 0x4F000000).fcr31 = 0x20000 ∧
    (set_cause_cvt_w_s r4300i_zero 0x7FC00000).fcr31 = 0x20000 ∧
    set_cause_cvt_w_s r4300i_zero 0x3F800000 = r4300i_zero :=
  ⟨congrArg r4300i_t.fcr31 ((cvt_w_arg_check r4300i_zero 0x4F000000).1.1 (by decide)),
   congrArg r4300i_t.fcr31 ((cvt_w_arg_check r4300i_zero 0x7FC00000).1.1 (by decide)),
   (cvt_w_arg_check r4300i_zero 0x3F800000).1.2.1 (by decide)⟩

/-- C22: for every float (resp. double) bit pattern `x`, `set_cause_cvt_l_s` (resp.
`set_cause_cvt_l_d`) sets `cause_unimplemented_operation`, and changes nothing else, if and
only if `x` is NaN, infinite, subnormal, or a number of magnitude at least `2^53`;
otherwise the state is unchanged. So the double `2^53 - 1` is accepted and both `2^53` and
`-2^53` are rejected. -/
theorem cvt_l_arg_check (cpu : r4300i_t) (x : Nat) :
    ((f32_is_nan x ∨ f32_is_infinite x ∨ f32_is_subnormal x ∨ f32_magnitude_ge x 53 →
      set_cause_cvt_l_s cpu x = { cpu with fcr31 := cpu.fcr31 ||| (1 <<< 17) }) ∧
    (¬ (f32_is_nan x ∨ f32_is_infinite x ∨ f32_is_subnormal x ∨ f32_magnitude_ge x 53) →
      set_cause_cvt_l_s cpu x = cpu) ∧
    (fcr31_cause_unimplemented_operation (set_cause_cvt_l_s cpu x).fcr31 = true ↔
      fcr31_cause_unimplemented_operation cpu.fcr31 = true ∨
        (f32_is_nan x ∨ f32_is_infinite x ∨ f32_is_subnormal x ∨ f32_magnitude_ge x 53))) ∧
    ((f64_is_nan x ∨ f64_is_infinite x ∨ f64_is_subnormal x ∨ f64_magnitude_ge x 53 →
      set_cause_cvt_l_d cpu x = { cpu with fcr31 := cpu.fcr31 ||| (1 <<< 17) }) ∧
    (¬ (f64_is_nan x ∨ f64_is_infinite x ∨ f64_is_subnormal x ∨ f64_magnitude_ge x 53) →
      set_cause_cvt_l_d cpu x = cpu) ∧
    (fcr31_cause_unimplemented_operation (set_cause_cvt_l_d cpu x).fcr31 = true ↔
      fcr31_cause_unimplemented_operation cpu.fcr31 = true ∨
        (f64_is_nan x ∨ f64_is_infinite x ∨ f64_is_subnormal x ∨ f64_magnitude_ge x 53))) ∧
    (f64_scaled 0x433FFFFFFFFFFFFF = (((2 ^ 53 - 1) <<< 1075 : Nat) : Int) ∧
      set_cause_cvt_l_d cpu 0x433FFFFFFFFFFFFF = cpu ∧
      set_cause_cvt_l_s cpu 0x59FFFFFF = cpu ∧
      f64_scaled 0x4340000000000000 = ((2 ^ 53 <<< 1075 : Nat) : Int) ∧
      set_cause_cvt_l_d cpu 0x4340000000000000 =
        { cpu with fcr31 := cpu.fcr31 ||| (1 <<< 17) } ∧
      f64_scaled 0xC340000000000000 = -((2 ^ 53 <<< 1075 : Nat) : Int) ∧
      set_cause_cvt_l_d cpu 0xC340000000000000 =
        { cpu with fcr31 := cpu.fcr31 ||| (1 <<< 17) } ∧
      f32_scaled 0x5A000000 = ((2 ^ 53 <<< 150 : Nat) : Int) ∧
      set_cause_cvt_l_s cpu 0x5A000000 = { cpu with fcr31 := cpu.fcr31 ||| (1 <<< 17) } ∧
      f32_scaled 0xDA000000 = -((2 ^ 53 <<< 150 : Nat) : Int) ∧
      set_cause_cvt_l_s cpu 0xDA000000 =
        { cpu with fcr31 := cpu.fcr31 ||| (1 <<< 17) }) := by
  have hs := cvt_l_s_rejects cpu x
  have hd := cvt_l_d_rejects cpu x
  refine ⟨⟨hs.1, hs.2, unimplemented_bit_iff cpu _ _ hs.1 hs.2⟩,
    ⟨hd.1, hd.2, unimplemented_bit_iff cpu _ _ hd.1 hd.2⟩,
    by decide, ?_, ?_, by decide, ?_, by decide, ?_, by decide, ?_, by decide, ?_⟩
  · exact (cvt_l_d_rejects cpu 0x433FFFFFFFFFFFFF).2 (by decide)
  · exact (cvt_l_s_rejects cpu 0x59FFFFFF).2 (by decide)
  · exact (cvt_l_d_rejects cpu 0x4340000000000000).1 (by decide)
  · exact (cvt_l_d_rejects cpu 0xC340000000000000).1 (by decide)
  · exact (cvt_l_s_rejects cpu 0x5A000000).1 (by decide)
  · exact (cvt_l_s_rejects cpu 0xDA000000).1 (by decide)

/-- Witness for C22: the double `2^53` (`0x4340000000000000`) sets
`cause_unimplemented_operation` in the zero state, the double `2^53 - 1` does not. -/
theorem cvt_l_arg_check_witness :
    (set_cause_cvt_l_d r4300i_zero 0x4340000000000000).fcr31 = 0x20000 ∧
    set_cause_cvt_l_d r4300i_zero 0x433FFFFFFFFFFFFF = r4300i_zero :=
  ⟨congrArg r4300i_t.fcr31 ((cvt_l_arg_check r4300i_zero 0x4340000000000000).2.1.1
     (by decide)),
   (cvt_l_arg_check r4300i_zero 0x433FFFFFFFFFFFFF).2.1.2.1 (by decide)⟩


/-! ## Theorems: comparison instructions -/

theorem not32_bit23_testBit (j : Nat) :
    (not32 (1 <<< 23)).testBit j = (decide (j < 32) && !decide (j = 23)) := by
  by_cases h : j < 32
  · interval_cases j <;> decide
  · have hlt : not32 (1 <<< 23) < 2 ^ j :=
      Nat.lt_of_lt_of_le (by decide : not32 (1 <<< 23) < 2 ^ 32)
        (Nat.pow_le_pow_right (by decide) (by omega))
    rw [Nat.testBit_lt_two_pow hlt]
    simp [h]

theorem write_bit32_23_testBit (f : Nat) (c : Bool) (j : Nat) :
    (write_bit32 f 23 c).testBit j =
      if j = 23 then c else (decide (j < 32) && f.testBit j) := by
  unfold write_bit32
  rw [Nat.testBit_or, Nat.testBit_and, not32_bit23_testBit]
  have hb : (c.toNat <<< 23).testBit j = (decide (j = 23) && c) := by
    cases c
    · simp
    · rw [Bool.toNat_true, Nat.one_shiftLeft, Nat.testBit_two_pow]
      by_cases h : j = 23
      · simp [h]
      · have h1 : ¬ 23 = j := fun hh => h hh.symm
        simp [h, h1]
  rw [hb]
  by_cases h : j = 23
  · subst h; simp
  · simp [h, Bool.and_comm]

theorem fcr31_cause_set_compare (cpu : r4300i_t) (c : Bool) :
    fcr31_cause (set_fcr31_compare cpu c).fcr31 = fcr31_cause cpu.fcr31 := by
  apply Nat.eq_of_testBit_eq
  intro i
  rw [fcr31_cause_testBit, fcr31_cause_testBit]
  show (decide (i < 6) && (write_bit32 cpu.fcr31 23 c).testBit (12 + i)) = _
  rw [write_bit32_23_testBit]
  by_cases h : i < 6
  · have h1 : ¬ (12 + i = 23) := by omega
    have h2 : 12 + i < 32 := by omega
    simp [h, h1, h2]
  · simp [h]

theorem fcr31_compare_set_compare (cpu : r4300i_t) (c : Bool) :
    fcr31_compare (set_fcr31_compare cpu c).fcr31 = c := by
  show (write_bit32 cpu.fcr31 23 c).testBit 23 = c
  rw [write_bit32_23_testBit, if_pos rfl]

theorem cp1_entry_cause_bits (cpu : r4300i_t) (i : Nat) (hi : 12 ≤ i ∧ i ≤ 17) :
    (cp1_entry_state cpu).fcr31.testBit i = false := by
  show (cpu.fcr31 &&& not32 (0x3F <<< 12)).testBit i = false
  rw [Nat.testBit_and]
  have hb : (not32 (0x3F <<< 12)).testBit i = false := by
    obtain ⟨h1, h2⟩ := hi
    interval_cases i <;> decide
  rw [hb, Bool.and_false]

theorem cp1_entry_cause_zero (cpu : r4300i_t) : fcr31_cause (cp1_entry_state cpu).fcr31 = 0 := by
  apply Nat.eq_of_testBit_eq
  intro i
  rw [fcr31_cause_testBit, Nat.zero_testBit]
  by_cases h : i < 6
  · rw [cp1_entry_cause_bits cpu (12 + i) ⟨by omega, by omega⟩, Bool.and_false]
  · simp [h]

theorem cp1_entry_compare (cpu : r4300i_t) :
    fcr31_compare (set_cause_invalid_operation (cp1_entry_state cpu)).fcr31 =
      (decide (23 < 32) && fcr31_compare cpu.fcr31) := by
  show ((cpu.fcr31 &&& not32 (0x3F <<< 12)) ||| (1 <<< 16)).testBit 23 = _
  rw [testBit_or_bit, Nat.testBit_and]
  have hb : (not32 (0x3F <<< 12)).testBit 23 = true := by decide
  rw [hb]
  simp [fcr31_compare]

theorem cause_after_invalid (cpu : r4300i_t) :
    fcr31_cause (set_cause_invalid_operation (cp1_entry_state cpu)).fcr31 = 1 <<< 4 := by
  apply Nat.eq_of_testBit_eq
  intro i
  rw [fcr31_cause_testBit, Nat.one_shiftLeft, Nat.testBit_two_pow]
  show (decide (i < 6) && ((cp1_entry_state cpu).fcr31 ||| (1 <<< 16)).testBit (12 + i)) = _
  rw [testBit_or_bit]
  by_cases h : i < 6
  · rw [cp1_entry_cause_bits cpu (12 + i) ⟨by omega, by omega⟩]
    by_cases h4 : i = 4
    · subst h4; simp
    · have h1 : ¬ (16 = 12 + i) := by omega
      have h2 : ¬ (4 = i) := fun hh => h4 hh.symm
      simp [h, h1, h2]
  · have h2 : ¬ (4 = i) := by omega
    simp [h, h2]

theorem fire_after_invalid (handler : exception_handler_t) (cpu : r4300i_t) :
    fire_fpu_exception handler (set_cause_invalid_operation (cp1_entry_state cpu)) =
      if fcr31_enable_invalid_operation cpu.fcr31 = true then
        (true, handler (set_cause_invalid_operation (cp1_entry_state cpu)) cpu.prev_pc
          EXCEPTION_FLOATING_POINT 0)
      else (false, set_cause_invalid_operation (cp1_entry_state cpu)) := by
  have hen : (set_cause_invalid_operation (cp1_entry_state cpu)).fcr31.testBit 11 =
      fcr31_enable_invalid_operation cpu.fcr31 :=
    (enable_invalid_or_bit (cp1_entry_state cpu).fcr31 16 (by decide)).trans
      (cp1_entry_state_frame cpu).1
  have hbit : ∀ i, 12 ≤ i ∧ i ≤ 17 →
      (set_cause_invalid_operation (cp1_entry_state cpu)).fcr31.testBit i = decide (16 = i) := by
    intro i hi
    show ((cp1_entry_state cpu).fcr31 ||| (1 <<< 16)).testBit i = _
    rw [testBit_or_bit, cp1_entry_cause_bits cpu i hi, Bool.false_or]
  have hiff := fire_condition_iff (set_cause_invalid_operation (cp1_entry_state cpu)).fcr31
  rw [hbit 17 (by omega), hbit 12 (by omega), hbit 13 (by omega), hbit 14 (by omega),
    hbit 15 (by omega), hbit 16 (by omega), hen] at hiff
  rw [fire_fpu_exception_eq]
  by_cases he : fcr31_enable_invalid_operation cpu.fcr31 = true
  · rw [if_pos he, if_pos (hiff.mpr (by simp [he]))]
    rfl
  · rw [if_neg he, if_neg]
    intro hc
    have := hiff.mp hc
    simp [he] at this

theorem fpu_compare_s_spec (env : fpu_env)
    (check : exception_handler_t → r4300i_t → Nat → Nat → Except r4300i_t r4300i_t)
    (nanp : Nat → Bool) (pred : Nat → Nat → Bool) (cpu : r4300i_t) (fs ft : Nat)
    (hcheck : ∀ h c a b, check h c a b =
      if (nanp a || nanp b) = true then
        (if (fire_fpu_exception h (set_cause_invalid_operation c)).1 = true then
          .error (fire_fpu_exception h (set_cause_invalid_operation c)).2
        else .ok (fire_fpu_exception h (set_cause_invalid_operation c)).2)
      else .ok c)
    (hcu : status_cu1 cpu.cp0.status = true) :
    fpu_compare_s env check pred cpu fs ft =
      if (nanp (env.get_fpu_register_float_fs (cp1_entry_state cpu) fs) ||
          nanp (env.get_fpu_register_float_ft (cp1_entry_state cpu) ft)) = true then
        if fcr31_enable_invalid_operation cpu.fcr31 = true then
          env.handler (set_cause_invalid_operation (cp1_entry_state cpu)) cpu.prev_pc
            EXCEPTION_FLOATING_POINT 0
        else
          set_fcr31_compare (set_cause_invalid_operation (cp1_entry_state cpu))
            (pred (env.get_fpu_register_float_fs (cp1_entry_state cpu) fs)
              (env.get_fpu_register_float_ft (cp1_entry_state cpu) ft))
      else
        set_fcr31_compare (cp1_entry_state cpu)
          (pred (env.get_fpu_register_float_fs (cp1_entry_state cpu) fs)
            (env.get_fpu_register_float_ft (cp1_entry_state cpu) ft)) := by
  unfold fpu_compare_s
  rw [checkcp1_usable env.handler cpu hcu]
  simp only []
  rw [hcheck, fire_after_invalid]
  by_cases hn : (nanp (env.get_fpu_register_float_fs (cp1_entry_state cpu) fs) ||
      nanp (env.get_fpu_register_float_ft (cp1_entry_state cpu) ft)) = true
  · by_cases he : fcr31_enable_invalid_operation cpu.fcr31 = true
    · simp only [hn, he, if_true]
    · simp only [hn, he, if_true, if_false, Bool.false_eq_true]
  · simp only [hn, if_false, Bool.false_eq_true]

theorem fpu_compare_d_spec (env : fpu_env)
    (check : exception_handler_t → r4300i_t → Nat → Nat → Except r4300i_t r4300i_t)
    (nanp : Nat → Bool) (pred : Nat → Nat → Bool) (cpu : r4300i_t) (fs ft : Nat)
    (hcheck : ∀ h c a b, check h c a b =
      if (nanp a || nanp b) = true then
        (if (fire_fpu_exception h (set_cause_invalid_operation c)).1 = true then
          .error (fire_fpu_exception h (set_cause_invalid_operation c)).2
        else .ok (fire_fpu_exception h (set_cause_invalid_operation c)).2)
      else .ok c)
    (hcu : status_cu1 cpu.cp0.status = true) :
    fpu_compare_d env check pred cpu fs ft =
      if (nanp (env.get_fpu_register_double_fs (cp1_entry_state cpu) fs) ||
          nanp (env.get_fpu_register_double_ft (cp1_entry_state cpu) ft)) = true then
        if fcr31_enable_invalid_operation cpu.fcr31 = true then
          env.handler (set_cause_invalid_operation (cp1_entry_state cpu)) cpu.prev_pc
            EXCEPTION_FLOATING_POINT 0
        else
          set_fcr31_compare (set_cause_invalid_operation (cp1_entry_state cpu))
            (pred (env.get_fpu_register_double_fs (cp1_entry_state cpu) fs)
              (env.get_fpu_register_double_ft (cp1_entry_state cpu) ft))
      else
        set_fcr31_compare (cp1_entry_state cpu)
          (pred (env.get_fpu_register_double_fs (cp1_entry_state cpu) fs)
            (env.get_fpu_register_double_ft (cp1_entry_state cpu) ft)) := by
  unfold fpu_compare_d
  rw [checkcp1_usable env.handler cpu hcu]
  simp only []
  rw [hcheck, fire_after_invalid]
  by_cases hn : (nanp (env.get_fpu_register_double_fs (cp1_entry_state cpu) fs) ||
      nanp (env.get_fpu_register_double_ft (cp1_entry_state cpu) ft)) = true
  · by_cases he : fcr31_enable_invalid_operation cpu.fcr31 = true
    · simp only [hn, he, if_true]
    · simp only [hn, he, if_true, if_false, Bool.false_eq_true]
  · simp only [hn, if_false, Bool.false_eq_true]

theorem check_qnans_f_eq (h : exception_handler_t) (c : r4300i_t) (a b : Nat) :
    check_qnans_f h c a b =
      if (is_qnan_f a || is_qnan_f b) = true then
        (if (fire_fpu_exception h (set_cause_invalid_operation c)).1 = true then
          .error (fire_fpu_exception h (set_cause_invalid_operation c)).2
        else .ok (fire_fpu_exception h (set_cause_invalid_operation c)).2)
      else .ok c := rfl

theorem check_qnans_d_eq (h : exception_handler_t) (c : r4300i_t) (a b : Nat) :
    check_qnans_d h c a b =
      if (is_qnan_d a || is_qnan_d b) = true then
        (if (fire_fpu_exception h (set_cause_invalid_operation c)).1 = true then
          .error (fire_fpu_exception h (set_cause_invalid_operation c)).2
        else .ok (fire_fpu_exception h (set_cause_invalid_operation c)).2)
      else .ok c := rfl

theorem check_nans_f_eq (h : exception_handler_t) (c : r4300i_t) (a b : Nat) :
    check_nans_f h c a b =
      if (is_nan_f a || is_nan_f b) = true then
        (if (fire_fpu_exception h (set_cause_invalid_operation c)).1 = true then
          .error (fire_fpu_exception h (set_cause_invalid_operation c)).2
        else .ok (fire_fpu_exception h (set_cause_invalid_operation c)).2)
      else .ok c := rfl

theorem check_nans_d_eq (h : exception_handler_t) (c : r4300i_t) (a b : Nat) :
    check_nans_d h c a b =
      if (is_nan_d a || is_nan_d b) = true then
        (if (fire_fpu_exception h (set_cause_invalid_operation c)).1 = true then
          .error (fire_fpu_exception h (set_cause_invalid_operation c)).2
        else .ok (fire_fpu_exception h (set_cause_invalid_operation c)).2)
      else .ok c := rfl

theorem is_qnan_f_iff (x : Nat) : is_qnan_f x = true ↔ f32_is_quiet_nan x := by
  unfold is_qnan_f f32_is_quiet_nan f32_mantissa
  constructor
  · intro h
    simp only [Bool.and_eq_true, beq_iff_eq] at h
    refine ⟨h.1, ?_, h.2⟩
    intro h0
    have hb : (x % 2 ^ 23).testBit 22 = true := by
      rw [Nat.testBit_mod_two_pow, h.2]; rfl
    rw [h0] at hb
    simp at hb
  · rintro ⟨h1, -, h3⟩
    simp [h1, h3]

theorem is_qnan_d_iff (x : Nat) : is_qnan_d x = true ↔ f64_is_quiet_nan x := by
  unfold is_qnan_d f64_is_quiet_nan f64_mantissa
  constructor
  · intro h
    simp only [Bool.and_eq_true, beq_iff_eq] at h
    refine ⟨h.1, ?_, h.2⟩
    intro h0
    have hb : (x % 2 ^ 52).testBit 51 = true := by
      rw [Nat.testBit_mod_two_pow, h.2]; rfl
    rw [h0] at hb
    simp at hb
  · rintro ⟨h1, -, h3⟩
    simp [h1, h3]

theorem isnanf_iff (x : Nat) : isnanf x = true ↔ f32_is_nan x := by
  unfold isnanf f32_is_nan
  simp

theorem isnan_iff (x : Nat) : isnan x = true ↔ f64_is_nan x := by
  unfold isnan f64_is_nan
  simp

theorem or_true_iff_of (p q : Bool) (P Q : Prop) (hp : p = true ↔ P) (hq : q = true ↔ Q) :
    (p || q) = true ↔ P ∨ Q := by
  rw [Bool.or_eq_true, hp, hq]

theorem compare_outcome_of_spec (result : r4300i_t) (p en : Bool) (P : Prop)
    (hp : p = true ↔ P) (H T1 T2 : r4300i_t)
    (h : result = if p = true then (if en = true then H else T1) else T2) :
    (P → (en = true → result = H) ∧ (en = false → result = T1)) ∧ (¬ P → result = T2) := by
  constructor
  · intro hP
    rw [if_pos (hp.mpr hP)] at h
    constructor
    · intro he; rw [if_pos he] at h; exact h
    · intro he; rw [if_neg (by simp [he])] at h; exact h
  · intro hP
    rw [if_neg (fun hh => hP (hp.mp hh))] at h
    exact h

theorem compare_bit_of_spec (result : r4300i_t) (p en c : Bool) (H T1 T2 : r4300i_t)
    (h : result = if p = true then (if en = true then H else set_fcr31_compare T1 c)
      else set_fcr31_compare T2 c)
    (hno : ¬ (p = true ∧ en = true)) : fcr31_compare result.fcr31 = c := by
  rw [h]
  by_cases hp : p = true
  · have he : ¬ en = true := fun he => hno ⟨hp, he⟩
    rw [if_pos hp, if_neg he]
    exact fcr31_compare_set_compare T1 c
  · rw [if_neg hp]
    exact fcr31_compare_set_compare T2 c

theorem quiet_compares_s_shape (instr : fpu_compare_instr) (h : instr ∈ quiet_compares_s) :
    ∃ pred, instr = fun env cpu fs ft => fpu_compare_s env check_qnans_f pred cpu fs ft := by
  simp only [quiet_compares_s, List.mem_cons, List.mem_singleton, List.mem_nil_iff,
    or_false] at h
  rcases h with rfl | rfl | rfl | rfl | rfl | rfl | rfl | rfl
  all_goals exact ⟨_, rfl⟩

theorem signaling_compares_s_shape (instr : fpu_compare_instr) (h : instr ∈ signaling_compares_s) :
    ∃ pred, instr = fun env cpu fs ft => fpu_compare_s env check_nans_f pred cpu fs ft := by
  simp only [signaling_compares_s, List.mem_cons, List.mem_singleton, List.mem_nil_iff,
    or_false] at h
  rcases h with rfl | rfl | rfl | rfl | rfl | rfl | rfl | rfl
  all_goals exact ⟨_, rfl⟩

theorem quiet_compares_d_shape (instr : fpu_compare_instr) (h : instr ∈ quiet_compares_d) :
    ∃ pred, instr = fun env cpu fs ft => fpu_compare_d env check_qnans_d pred cpu fs ft := by
  simp only [quiet_compares_d, List.mem_cons, List.mem_singleton, List.mem_nil_iff,
    or_false] at h
  rcases h with rfl | rfl | rfl | rfl | rfl | rfl | rfl | rfl
  all_goals exact ⟨_, rfl⟩

theorem signaling_compares_d_shape (instr : fpu_compare_instr) (h : instr ∈ signaling_compares_d) :
    ∃ pred, instr = fun env cpu fs ft => fpu_compare_d env check_nans_d pred cpu fs ft := by
  simp only [signaling_compares_d, List.mem_cons, List.mem_singleton, List.mem_nil_iff,
    or_false] at h
  rcases h with rfl | rfl | rfl | rfl | rfl | rfl | rfl | rfl
  all_goals exact ⟨_, rfl⟩

theorem quiet_compares_s_outcome (env : fpu_env) (cpu : r4300i_t) (fs ft : Nat)
    (hcu : status_cu1 cpu.cp0.status = true) (instr : fpu_compare_instr)
    (hmem : instr ∈ quiet_compares_s) :
    ((f32_is_quiet_nan (env.get_fpu_register_float_fs (cp1_entry_state cpu) fs) ∨
          f32_is_quiet_nan (env.get_fpu_register_float_ft (cp1_entry_state cpu) ft) →
        (fcr31_enable_invalid_operation cpu.fcr31 = true →
          instr env cpu fs ft =
            env.handler (set_cause_invalid_operation (cp1_entry_state cpu)) cpu.prev_pc
              EXCEPTION_FLOATING_POINT 0) ∧
        (fcr31_enable_invalid_operation cpu.fcr31 = false →
          ∃ c, instr env cpu fs ft =
            set_fcr31_compare (set_cause_invalid_operation (cp1_entry_state cpu)) c)) ∧
      (¬ (f32_is_quiet_nan (env.get_fpu_register_float_fs (cp1_entry_state cpu) fs) ∨
          f32_is_quiet_nan (env.get_fpu_register_float_ft (cp1_entry_state cpu) ft)) →
        ∃ c, instr env cpu fs ft = set_fcr31_compare (cp1_entry_state cpu) c)) := by
  obtain ⟨pred, rfl⟩ := quiet_compares_s_shape instr hmem
  have hspec := fpu_compare_s_spec env check_qnans_f is_qnan_f pred cpu fs ft check_qnans_f_eq hcu
  have ho := compare_outcome_of_spec _ _ _ _
    (or_true_iff_of _ _ _ _
      (is_qnan_f_iff (env.get_fpu_register_float_fs (cp1_entry_state cpu) fs))
      (is_qnan_f_iff (env.get_fpu_register_float_ft (cp1_entry_state cpu) ft))) _ _ _ hspec
  refine ⟨fun hp => ⟨(ho.1 hp).1, fun he => ⟨_, (ho.1 hp).2 he⟩⟩, fun hp => ⟨_, ho.2 hp⟩⟩

theorem signaling_compares_s_outcome (env : fpu_env) (cpu : r4300i_t) (fs ft : Nat)
    (hcu : status_cu1 cpu.cp0.status = true) (instr : fpu_compare_instr)
    (hmem : instr ∈ signaling_compares_s) :
    ((f32_is_nan (env.get_fpu_register_float_fs (cp1_entry_state cpu) fs) ∨
          f32_is_nan (env.get_fpu_register_float_ft (cp1_entry_state cpu) ft) →
        (fcr31_enable_invalid_operation cpu.fcr31 = true →
          instr env cpu fs ft =
            env.handler (set_cause_invalid_operation (cp1_entry_state cpu)) cpu.prev_pc
              EXCEPTION_FLOATING_POINT 0) ∧
        (fcr31_enable_invalid_operation cpu.fcr31 = false →
          ∃ c, instr env cpu fs ft =
            set_fcr31_compare (set_cause_invalid_operation (cp1_entry_state cpu)) c)) ∧
      (¬ (f32_is_nan (env.get_fpu_register_float_fs (cp1_entry_state cpu) fs) ∨
          f32_is_nan (env.get_fpu_register_float_ft (cp1_entry_state cpu) ft)) →
        ∃ c, instr env cpu fs ft = set_fcr31_compare (cp1_entry_state cpu) c)) := by
  obtain ⟨pred, rfl⟩ := signaling_compares_s_shape instr hmem
  have hspec := fpu_compare_s_spec env check_nans_f is_nan_f pred cpu fs ft check_nans_f_eq hcu
  have ho := compare_outcome_of_spec _ _ _ _
    (or_true_iff_of _ _ _ _
      (isnanf_iff (env.get_fpu_register_float_fs (cp1_entry_state cpu) fs))
      (isnanf_iff (env.get_fpu_register_float_ft (cp1_entry_state cpu) ft))) _ _ _ hspec
  refine ⟨fun hp => ⟨(ho.1 hp).1, fun he => ⟨_, (ho.1 hp).2 he⟩⟩, fun hp => ⟨_, ho.2 hp⟩⟩

theorem quiet_compares_d_outcome (env : fpu_env) (cpu : r4300i_t) (fs ft : Nat)
    (hcu : status_cu1 cpu.cp0.status = true) (instr : fpu_compare_instr)
    (hmem : instr ∈ quiet_compares_d) :
    ((f64_is_quiet_nan (env.get_fpu_register_double_fs (cp1_entry_state cpu) fs) ∨
          f64_is_quiet_nan (env.get_fpu_register_double_ft (cp1_entry_state cpu) ft) →
        (fcr31_enable_invalid_operation cpu.fcr31 = true →
          instr env cpu fs ft =
            env.handler (set_cause_invalid_operation (cp1_entry_state cpu)) cpu.prev_pc
              EXCEPTION_FLOATING_POINT 0) ∧
        (fcr31_enable_invalid_operation cpu.fcr31 = false →
          ∃ c, instr env cpu fs ft =
            set_fcr31_compare (set_cause_invalid_operation (cp1_entry_state cpu)) c)) ∧
      (¬ (f64_is_quiet_nan (env.get_fpu_register_double_fs (cp1_entry_state cpu) fs) ∨
          f64_is_quiet_nan (env.get_fpu_register_double_ft (cp1_entry_state cpu) ft)) →
        ∃ c, instr env cpu fs ft = set_fcr31_compare (cp1_entry_state cpu) c)) := by
  obtain ⟨pred, rfl⟩ := quiet_compares_d_shape instr hmem
  have hspec := fpu_compare_d_spec env check_qnans_d is_qnan_d pred cpu fs ft check_qnans_d_eq hcu
  have ho := compare_outcome_of_spec _ _ _ _
    (or_true_iff_of _ _ _ _
      (is_qnan_d_iff (env.get_fpu_register_double_fs (cp1_entry_state cpu) fs))
      (is_qnan_d_iff (env.get_fpu_register_double_ft (cp1_entry_state cpu) ft))) _ _ _ hspec
  refine ⟨fun hp => ⟨(ho.1 hp).1, fun he => ⟨_, (ho.1 hp).2 he⟩⟩, fun hp => ⟨_, ho.2 hp⟩⟩

theorem signaling_compares_d_outcome (env : fpu_env) (cpu : r4300i_t) (fs ft : Nat)
    (hcu : status_cu1 cpu.cp0.status = true) (instr : fpu_compare_instr)
    (hmem : instr ∈ signaling_compares_d) :
    ((f64_is_nan (env.get_fpu_register_double_fs (cp1_entry_state cpu) fs) ∨
          f64_is_nan (env.get_fpu_register_double_ft (cp1_entry_state cpu) ft) →
        (fcr31_enable_invalid_operation cpu.fcr31 = true →
          instr env cpu fs ft =
            env.handler (set_cause_invalid_operation (cp1_entry_state cpu)) cpu.prev_pc
              EXCEPTION_FLOATING_POINT 0) ∧
        (fcr31_enable_invalid_operation cpu.fcr31 = false →
          ∃ c, instr env cpu fs ft =
            set_fcr31_compare (set_cause_invalid_operation (cp1_entry_state cpu)) c)) ∧
      (¬ (f64_is_nan (env.get_fpu_register_double_fs (cp1_entry_state cpu) fs) ∨
          f64_is_nan (env.get_fpu_register_double_ft (cp1_entry_state cpu) ft)) →
        ∃ c, instr env cpu fs ft = set_fcr31_compare (cp1_entry_state cpu) c)) := by
  obtain ⟨pred, rfl⟩ := signaling_compares_d_shape instr hmem
  have hspec := fpu_compare_d_spec env check_nans_d is_nan_d pred cpu fs ft check_nans_d_eq hcu
  have ho := compare_outcome_of_spec _ _ _ _
    (or_true_iff_of _ _ _ _
      (isnan_iff (env.get_fpu_register_double_fs (cp1_entry_state cpu) fs))
      (isnan_iff (env.get_fpu_register_double_ft (cp1_entry_state cpu) ft))) _ _ _ hspec
  refine ⟨fun hp => ⟨(ho.1 hp).1, fun he => ⟨_, (ho.1 hp).2 he⟩⟩, fun hp => ⟨_, ho.2 hp⟩⟩

/-- C23: with coprocessor 1 usable, every comparison instruction starts from the state with
the cause bits cleared. For each of the eight quiet predicates (in `.s` and `.d`): if an
operand is a quiet NaN, `cause_invalid_operation` is set (and no other cause bit), and then
either `enable_invalid_operation` is set and the floating-point exception is raised from
that state, `fcr31.compare` still holding its old value, or the instruction ends with
`compare` written; if no operand is a quiet NaN (a signaling NaN included) the instruction
ends with `compare` written and no cause bit set. For each of the eight signaling
predicates the same holds with "NaN of any kind" in place of "quiet NaN". -/
theorem compare_invalid_operation_spec (env : fpu_env) (cpu : r4300i_t) (fs ft : Nat)
    (hcu : status_cu1 cpu.cp0.status = true) :
    (∀ instr ∈ quiet_compares_s,
      ((f32_is_quiet_nan (env.get_fpu_register_float_fs (cp1_entry_state cpu) fs) ∨
          f32_is_quiet_nan (env.get_fpu_register_float_ft (cp1_entry_state cpu) ft) →
        (fcr31_enable_invalid_operation cpu.fcr31 = true →
          instr env cpu fs ft =
            env.handler (set_cause_invalid_operation (cp1_entry_state cpu)) cpu.prev_pc
              EXCEPTION_FLOATING_POINT 0) ∧
        (fcr31_enable_invalid_operation cpu.fcr31 = false →
          ∃ c, instr env cpu fs ft =
            set_fcr31_compare (set_cause_invalid_operation (cp1_entry_state cpu)) c)) ∧
      (¬ (f32_is_quiet_nan (env.get_fpu_register_float_fs (cp1_entry_state cpu) fs) ∨
          f32_is_quiet_nan (env.get_fpu_register_float_ft (cp1_entry_state cpu) ft)) →
        ∃ c, instr env cpu fs ft = set_fcr31_compare (cp1_entry_state cpu) c))) ∧
    (∀ instr ∈ quiet_compares_d,
      ((f64_is_quiet_nan (env.get_fpu_register_double_fs (cp1_entry_state cpu) fs) ∨
          f64_is_quiet_nan (env.get_fpu_register_double_ft (cp1_entry_state cpu) ft) →
        (fcr31_enable_invalid_operation cpu.fcr31 = true →
          instr env cpu fs ft =
            env.handler (set_cause_invalid_operation (cp1_entry_state cpu)) cpu.prev_pc
              EXCEPTION_FLOATING_POINT 0) ∧
        (fcr31_enable_invalid_operation cpu.fcr31 = false →
          ∃ c, instr env cpu fs ft =
            set_fcr31_compare (set_cause_invalid_operation (cp1_entry_state cpu)) c)) ∧
      (¬ (f64_is_quiet_nan (env.get_fpu_register_double_fs (cp1_entry_state cpu) fs) ∨
          f64_is_quiet_nan (env.get_fpu_register_double_ft (cp1_entry_state cpu) ft)) →
        ∃ c, instr env cpu fs ft = set_fcr31_compare (cp1_entry_state cpu) c))) ∧
    (∀ instr ∈ signaling_compares_s,
      ((f32_is_nan (env.get_fpu_register_float_fs (cp1_entry_state cpu) fs) ∨
          f32_is_nan (env.get_fpu_register_float_ft (cp1_entry_state cpu) ft) →
        (fcr31_enable_invalid_operation cpu.fcr31 = true →
          instr env cpu fs ft =
            env.handler (set_cause_invalid_operation (cp1_entry_state cpu)) cpu.prev_pc
              EXCEPTION_FLOATING_POINT 0) ∧
        (fcr31_enable_invalid_operation cpu.fcr31 = false →
          ∃ c, instr env cpu fs ft =
            set_fcr31_compare (set_cause_invalid_operation (cp1_entry_state cpu)) c)) ∧
      (¬ (f32_is_nan (env.get_fpu_register_float_fs (cp1_entry_state cpu) fs) ∨
          f32_is_nan (env.get_fpu_register_float_ft (cp1_entry_state cpu) ft)) →
        ∃ c, instr env cpu fs ft = set_fcr31_compare (cp1_entry_state cpu) c))) ∧
    (∀ instr ∈ signaling_compares_d,
      ((f64_is_nan (env.get_fpu_register_double_fs (cp1_entry_state cpu) fs) ∨
          f64_is_nan (env.get_fpu_register_double_ft (cp1_entry_state cpu) ft) →
        (fcr31_enable_invalid_operation cpu.fcr31 = true →
          instr env cpu fs ft =
            env.handler (set_cause_invalid_operation (cp1_entry_state cpu)) cpu.prev_pc
              EXCEPTION_FLOATING_POINT 0) ∧
        (fcr31_enable_invalid_operation cpu.fcr31 = false →
          ∃ c, instr env cpu fs ft =
            set_fcr31_compare (set_cause_invalid_operation (cp1_entry_state cpu)) c)) ∧
      (¬ (f64_is_nan (env.get_fpu_register_double_fs (cp1_entry_state cpu) fs) ∨
          f64_is_nan (env.get_fpu_register_double_ft (cp1_entry_state cpu) ft)) →
        ∃ c, instr env cpu fs ft = set_fcr31_compare (cp1_entry_state cpu) c))) ∧
    fcr31_cause (set_cause_invalid_operation (cp1_entry_state cpu)).fcr31 = 1 <<< 4 ∧
    fcr31_cause_invalid_operation
      (set_cause_invalid_operation (cp1_entry_state cpu)).fcr31 = true ∧
    fcr31_compare (set_cause_invalid_operation (cp1_entry_state cpu)).fcr31 =
      fcr31_compare cpu.fcr31 ∧
    fcr31_cause (cp1_entry_state cpu).fcr31 = 0 ∧
    (∀ s c, fcr31_cause (set_fcr31_compare s c).fcr31 = fcr31_cause s.fcr31) ∧
    (∀ s c, fcr31_compare (set_fcr31_compare s c).fcr31 = c) := by
  refine ⟨fun instr h => quiet_compares_s_outcome env cpu fs ft hcu instr h,
    fun instr h => quiet_compares_d_outcome env cpu fs ft hcu instr h,
    fun instr h => signaling_compares_s_outcome env cpu fs ft hcu instr h,
    fun instr h => signaling_compares_d_outcome env cpu fs ft hcu instr h,
    cause_after_invalid cpu, (cause_bits_after_invalid _).1, ?_, cp1_entry_cause_zero cpu,
    fcr31_cause_set_compare, fcr31_compare_set_compare⟩
  rw [cp1_entry_compare]
  simp

/-- Witness for C23: in the example state with `enable_invalid_operation` set and a quiet
NaN in `f[2]`, `c.eq.s` raises the floating-point exception; in the example state with the
enables clear and a signaling NaN in `f[6]`, `c.eq.s` ends with no cause bit set and
`c.seq.s` ends with `cause_invalid_operation` set. -/
theorem compare_invalid_operation_spec_witness :
    status_cu1 r4300i_compare_example.cp0.status = true ∧
    f32_is_quiet_nan (fpu_env_example.get_fpu_register_float_fs
      (cp1_entry_state r4300i_compare_example) 2) ∧
    mips_cp_c_eq_s fpu_env_example r4300i_compare_example 2 4 =
      fpu_env_example.handler
        (set_cause_invalid_operation (cp1_entry_state r4300i_compare_example)) 0x1000
        EXCEPTION_FLOATING_POINT 0 ∧
    f32_is_signaling_nan (fpu_env_example.get_fpu_register_float_fs
      (cp1_entry_state r4300i_compare_quiet_example) 6) ∧
    (∃ c, mips_cp_c_eq_s fpu_env_example r4300i_compare_quiet_example 6 4 =
      set_fcr31_compare (cp1_entry_state r4300i_compare_quiet_example) c) ∧
    (∃ c, mips_cp_c_seq_s fpu_env_example r4300i_compare_quiet_example 6 4 =
      set_fcr31_compare
        (set_cause_invalid_operation (cp1_entry_state r4300i_compare_quiet_example)) c) :=
  ⟨by decide, by decide,
   (((compare_invalid_operation_spec fpu_env_example r4300i_compare_example 2 4
      (by decide)).1 mips_cp_c_eq_s (by simp [quiet_compares_s])).1
        (Or.inl (by decide))).1 (by decide),
   by decide,
   ((compare_invalid_operation_spec fpu_env_example r4300i_compare_quiet_example 6 4
      (by decide)).1 mips_cp_c_eq_s (by simp [quiet_compares_s])).2 (by decide),
   (((compare_invalid_operation_spec fpu_env_example r4300i_compare_quiet_example 6 4
      (by decide)).2.2.1 mips_cp_c_seq_s (by simp [signaling_compares_s])).1
        (Or.inl (by decide))).2 (by decide)⟩

theorem quiet_nan_is_nan_s (x : Nat) (h : f32_is_quiet_nan x) : f32_is_nan x := ⟨h.1, h.2.1⟩

theorem quiet_nan_is_nan_d (x : Nat) (h : f64_is_quiet_nan x) : f64_is_nan x := ⟨h.1, h.2.1⟩

theorem quiet_compare_s_bit (env : fpu_env) (pred : Nat → Nat → Bool) (cpu : r4300i_t)
    (fs ft : Nat) (hcu : status_cu1 cpu.cp0.status = true)
    (hno : ¬ ((f32_is_quiet_nan (env.get_fpu_register_float_fs (cp1_entry_state cpu) fs) ∨
        f32_is_quiet_nan (env.get_fpu_register_float_ft (cp1_entry_state cpu) ft)) ∧
      fcr31_enable_invalid_operation cpu.fcr31 = true)) :
    fcr31_compare (fpu_compare_s env check_qnans_f pred cpu fs ft).fcr31 =
      pred (env.get_fpu_register_float_fs (cp1_entry_state cpu) fs)
        (env.get_fpu_register_float_ft (cp1_entry_state cpu) ft) := by
  have hspec := fpu_compare_s_spec env check_qnans_f is_qnan_f pred cpu fs ft
    check_qnans_f_eq hcu
  refine compare_bit_of_spec _ _ _ _ _ _ _ hspec ?_
  rintro ⟨hp, he⟩
  exact hno ⟨(or_true_iff_of _ _ _ _ (is_qnan_f_iff _) (is_qnan_f_iff _)).mp hp, he⟩

theorem quiet_compare_s_ordered (env : fpu_env) (pred1 pred2 : Nat → Nat → Bool)
    (cpu : r4300i_t) (fs ft : Nat) (hcu : status_cu1 cpu.cp0.status = true)
    (hno : ¬ (f32_is_nan (env.get_fpu_register_float_fs (cp1_entry_state cpu) fs) ∨
      f32_is_nan (env.get_fpu_register_float_ft (cp1_entry_state cpu) ft)))
    (hpred : pred1 (env.get_fpu_register_float_fs (cp1_entry_state cpu) fs)
        (env.get_fpu_register_float_ft (cp1_entry_state cpu) ft) =
      pred2 (env.get_fpu_register_float_fs (cp1_entry_state cpu) fs)
        (env.get_fpu_register_float_ft (cp1_entry_state cpu) ft)) :
    fpu_compare_s env check_qnans_f pred1 cpu fs ft =
      fpu_compare_s env check_qnans_f pred2 cpu fs ft := by
  have h1 := fpu_compare_s_spec env check_qnans_f is_qnan_f pred1 cpu fs ft
    check_qnans_f_eq hcu
  have h2 := fpu_compare_s_spec env check_qnans_f is_qnan_f pred2 cpu fs ft
    check_qnans_f_eq hcu
  have hq : ¬ (is_qnan_f (env.get_fpu_register_float_fs (cp1_entry_state cpu) fs) ||
      is_qnan_f (env.get_fpu_register_float_ft (cp1_entry_state cpu) ft)) = true := by
    intro hp
    rcases (or_true_iff_of _ _ _ _ (is_qnan_f_iff _) (is_qnan_f_iff _)).mp hp with h | h
    · exact hno (Or.inl (quiet_nan_is_nan_s _ h))
    · exact hno (Or.inr (quiet_nan_is_nan_s _ h))
  rw [if_neg hq] at h1 h2
  rw [h1, h2, hpred]

theorem unordered_s_iff (a b : Nat) :
    unordered_s a b = true ↔ f32_is_nan a ∨ f32_is_nan b := by
  unfold unordered_s
  exact or_true_iff_of _ _ _ _ (isnanf_iff a) (isnanf_iff b)

theorem quiet_compare_d_bit (env : fpu_env) (pred : Nat → Nat → Bool) (cpu : r4300i_t)
    (fs ft : Nat) (hcu : status_cu1 cpu.cp0.status = true)
    (hno : ¬ ((f64_is_quiet_nan (env.get_fpu_register_double_fs (cp1_entry_state cpu) fs) ∨
        f64_is_quiet_nan (env.get_fpu_register_double_ft (cp1_entry_state cpu) ft)) ∧
      fcr31_enable_invalid_operation cpu.fcr31 = true)) :
    fcr31_compare (fpu_compare_d env check_qnans_d pred cpu fs ft).fcr31 =
      pred (env.get_fpu_register_double_fs (cp1_entry_state cpu) fs)
        (env.get_fpu_register_double_ft (cp1_entry_state cpu) ft) := by
  have hspec := fpu_compare_d_spec env check_qnans_d is_qnan_d pred cpu fs ft
    check_qnans_d_eq hcu
  refine compare_bit_of_spec _ _ _ _ _ _ _ hspec ?_
  rintro ⟨hp, he⟩
  exact hno ⟨(or_true_iff_of _ _ _ _ (is_qnan_d_iff _) (is_qnan_d_iff _)).mp hp, he⟩

theorem quiet_compare_d_ordered (env : fpu_env) (pred1 pred2 : Nat → Nat → Bool)
    (cpu : r4300i_t) (fs ft : Nat) (hcu : status_cu1 cpu.cp0.status = true)
    (hno : ¬ (f64_is_nan (env.get_fpu_register_double_fs (cp1_entry_state cpu) fs) ∨
      f64_is_nan (env.get_fpu_register_double_ft (cp1_entry_state cpu) ft)))
    (hpred : pred1 (env.get_fpu_register_double_fs (cp1_entry_state cpu) fs)
        (env.get_fpu_register_double_ft (cp1_entry_state cpu) ft) =
      pred2 (env.get_fpu_register_double_fs (cp1_entry_state cpu) fs)
        (env.get_fpu_register_double_ft (cp1_entry_state cpu) ft)) :
    fpu_compare_d env check_qnans_d pred1 cpu fs ft =
      fpu_compare_d env check_qnans_d pred2 cpu fs ft := by
  have h1 := fpu_compare_d_spec env check_qnans_d is_qnan_d pred1 cpu fs ft
    check_qnans_d_eq hcu
  have h2 := fpu_compare_d_spec env check_qnans_d is_qnan_d pred2 cpu fs ft
    check_qnans_d_eq hcu
  have hq : ¬ (is_qnan_d (env.get_fpu_register_double_fs (cp1_entry_state cpu) fs) ||
      is_qnan_d (env.get_fpu_register_double_ft (cp1_entry_state cpu) ft)) = true := by
    intro hp
    rcases (or_true_iff_of _ _ _ _ (is_qnan_d_iff _) (is_qnan_d_iff _)).mp hp with h | h
    · exact hno (Or.inl (quiet_nan_is_nan_d _ h))
    · exact hno (Or.inr (quiet_nan_is_nan_d _ h))
  rw [if_neg hq] at h1 h2
  rw [h1, h2, hpred]

theorem unordered_d_iff (a b : Nat) :
    unordered_d a b = true ↔ f64_is_nan a ∨ f64_is_nan b := by
  unfold unordered_d
  exact or_true_iff_of _ _ _ _ (isnan_iff a) (isnan_iff b)

/-- C24: with coprocessor 1 usable, in `.s` and in `.d`. If an operand is NaN and no
exception is raised (that is, unless an operand is a quiet NaN while
`enable_invalid_operation` is set), `c.un`, `c.ueq`, `c.ult` and `c.ule` leave
`fcr31.compare = 1`. If no operand is NaN, `c.un` leaves `compare = 0`, and `c.ueq`,
`c.ult`, `c.ule` end in the same state as `c.eq`, `c.olt`, `c.ole`. -/
theorem unordered_compare_spec (env : fpu_env) (cpu : r4300i_t) (fs ft : Nat)
    (hcu : status_cu1 cpu.cp0.status = true) :
    ((f32_is_nan (env.get_fpu_register_float_fs (cp1_entry_state cpu) fs) ∨
          f32_is_nan (env.get_fpu_register_float_ft (cp1_entry_state cpu) ft) →
        ¬ ((f32_is_quiet_nan (env.get_fpu_register_float_fs (cp1_entry_state cpu) fs) ∨
            f32_is_quiet_nan (env.get_fpu_register_float_ft (cp1_entry_state cpu) ft)) ∧
          fcr31_enable_invalid_operation cpu.fcr31 = true) →
        fcr31_compare (mips_cp_c_un_s env cpu fs ft).fcr31 = true ∧
        fcr31_compare (mips_cp_c_ueq_s env cpu fs ft).fcr31 = true ∧
        fcr31_compare (mips_cp_c_ult_s env cpu fs ft).fcr31 = true ∧
        fcr31_compare (mips_cp_c_ule_s env cpu fs ft).fcr31 = true) ∧
      (¬ (f32_is_nan (env.get_fpu_register_float_fs (cp1_entry_state cpu) fs) ∨
          f32_is_nan (env.get_fpu_register_float_ft (cp1_entry_state cpu) ft)) →
        fcr31_compare (mips_cp_c_un_s env cpu fs ft).fcr31 = false ∧
        mips_cp_c_ueq_s env cpu fs ft = mips_cp_c_eq_s env cpu fs ft ∧
        mips_cp_c_ult_s env cpu fs ft = mips_cp_c_olt_s env cpu fs ft ∧
        mips_cp_c_ule_s env cpu fs ft = mips_cp_c_ole_s env cpu fs ft)) ∧
    ((f64_is_nan (env.get_fpu_register_double_fs (cp1_entry_state cpu) fs) ∨
          f64_is_nan (env.get_fpu_register_double_ft (cp1_entry_state cpu) ft) →
        ¬ ((f64_is_quiet_nan (env.get_fpu_register_double_fs (cp1_entry_state cpu) fs) ∨
            f64_is_quiet_nan (env.get_fpu_register_double_ft (cp1_entry_state cpu) ft)) ∧
          fcr31_enable_invalid_operation cpu.fcr31 = true) →
        fcr31_compare (mips_cp_c_un_d env cpu fs ft).fcr31 = true ∧
        fcr31_compare (mips_cp_c_ueq_d env cpu fs ft).fcr31 = true ∧
        fcr31_compare (mips_cp_c_ult_d env cpu fs ft).fcr31 = true ∧
        fcr31_compare (mips_cp_c_ule_d env cpu fs ft).fcr31 = true) ∧
      (¬ (f64_is_nan (env.get_fpu_register_double_fs (cp1_entry_state cpu) fs) ∨
          f64_is_nan (env.get_fpu_register_double_ft (cp1_entry_state cpu) ft)) →
        fcr31_compare (mips_cp_c_un_d env cpu fs ft).fcr31 = false ∧
        mips_cp_c_ueq_d env cpu fs ft = mips_cp_c_eq_d env cpu fs ft ∧
        mips_cp_c_ult_d env cpu fs ft = mips_cp_c_olt_d env cpu fs ft ∧
        mips_cp_c_ule_d env cpu fs ft = mips_cp_c_ole_d env cpu fs ft)) := by
  constructor
  · constructor
    · intro hnan hno
      have hu := (unordered_s_iff _ _).mpr hnan
      refine ⟨?_, ?_, ?_, ?_⟩
      · exact (quiet_compare_s_bit env _ cpu fs ft hcu hno).trans hu
      · refine (quiet_compare_s_bit env _ cpu fs ft hcu hno).trans ?_
        show (_ || unordered_s _ _) = true
        rw [hu, Bool.or_true]
      · refine (quiet_compare_s_bit env _ cpu fs ft hcu hno).trans ?_
        show (_ || unordered_s _ _) = true
        rw [hu, Bool.or_true]
      · refine (quiet_compare_s_bit env _ cpu fs ft hcu hno).trans ?_
        show (_ || unordered_s _ _) = true
        rw [hu, Bool.or_true]
    · intro hnan
      have hu : unordered_s _ _ = false :=
        Bool.eq_false_iff.mpr (fun h => hnan ((unordered_s_iff _ _).mp h))
      have hno : ¬ ((f32_is_quiet_nan (env.get_fpu_register_float_fs (cp1_entry_state cpu) fs) ∨
            f32_is_quiet_nan (env.get_fpu_register_float_ft (cp1_entry_state cpu) ft)) ∧
          fcr31_enable_invalid_operation cpu.fcr31 = true) := by
        rintro ⟨h | h, -⟩
        · exact hnan (Or.inl (quiet_nan_is_nan_s _ h))
        · exact hnan (Or.inr (quiet_nan_is_nan_s _ h))
      refine ⟨?_, ?_, ?_, ?_⟩
      · exact (quiet_compare_s_bit env _ cpu fs ft hcu hno).trans hu
      · refine quiet_compare_s_ordered env _ _ cpu fs ft hcu hnan ?_
        show (_ || unordered_s _ _) = _
        rw [hu, Bool.or_false]
      · refine quiet_compare_s_ordered env _ _ cpu fs ft hcu hnan ?_
        show (_ || unordered_s _ _) = _
        rw [hu, Bool.or_false]
      · refine quiet_compare_s_ordered env _ _ cpu fs ft hcu hnan ?_
        show (_ || unordered_s _ _) = _
        rw [hu, Bool.or_false]
  · constructor
    · intro hnan hno
      have hu := (unordered_d_iff _ _).mpr hnan
      refine ⟨?_, ?_, ?_, ?_⟩
      · exact (quiet_compare_d_bit env _ cpu fs ft hcu hno).trans hu
      · refine (quiet_compare_d_bit env _ cpu fs ft hcu hno).trans ?_
        show (_ || unordered_d _ _) = true
        rw [hu, Bool.or_true]
      · refine (quiet_compare_d_bit env _ cpu fs ft hcu hno).trans ?_
        show (_ || unordered_d _ _) = true
        rw [hu, Bool.or_true]
      · refine (quiet_compare_d_bit env _ cpu fs ft hcu hno).trans ?_
        show (_ || unordered_d _ _) = true
        rw [hu, Bool.or_true]
    · intro hnan
      have hu : unordered_d _ _ = false :=
        Bool.eq_false_iff.mpr (fun h => hnan ((unordered_d_iff _ _).mp h))
      have hno : ¬ ((f64_is_quiet_nan (env.get_fpu_register_double_fs (cp1_entry_state cpu) fs) ∨
            f64_is_quiet_nan (env.get_fpu_register_double_ft (cp1_entry_state cpu) ft)) ∧
          fcr31_enable_invalid_operation cpu.fcr31 = true) := by
        rintro ⟨h | h, -⟩
        · exact hnan (Or.inl (quiet_nan_is_nan_d _ h))
        · exact hnan (Or.inr (quiet_nan_is_nan_d _ h))
      refine ⟨?_, ?_, ?_, ?_⟩
      · exact (quiet_compare_d_bit env _ cpu fs ft hcu hno).trans hu
      · refine quiet_compare_d_ordered env _ _ cpu fs ft hcu hnan ?_
        show (_ || unordered_d _ _) = _
        rw [hu, Bool.or_false]
      · refine quiet_compare_d_ordered env _ _ cpu fs ft hcu hnan ?_
        show (_ || unordered_d _ _) = _
        rw [hu, Bool.or_false]
      · refine quiet_compare_d_ordered env _ _ cpu fs ft hcu hnan ?_
        show (_ || unordered_d _ _) = _
        rw [hu, Bool.or_false]

/-- Witness for C24: in the example state with the enables clear, `f[2]` holds a quiet NaN
and `f[6]` a signaling NaN, so `c.ult.s` and `c.un.d` leave `compare = 1`; the floats in
`f[4]` and `f[0]` are both zero, so `c.un.s` leaves `compare = 0` and `c.ule.s` ends as
`c.ole.s` does. -/
theorem unordered_compare_spec_witness :
    status_cu1 r4300i_compare_quiet_example.cp0.status = true ∧
    fcr31_compare
      (mips_cp_c_ult_s fpu_env_example r4300i_compare_quiet_example 2 4).fcr31 = true ∧
    fcr31_compare
      (mips_cp_c_un_d fpu_env_example r4300i_compare_quiet_example 6 4).fcr31 = true ∧
    fcr31_compare
      (mips_cp_c_un_s fpu_env_example r4300i_compare_quiet_example 4 0).fcr31 = false ∧
    mips_cp_c_ule_s fpu_env_example r4300i_compare_quiet_example 4 0 =
      mips_cp_c_ole_s fpu_env_example r4300i_compare_quiet_example 4 0 :=
  ⟨by decide,
   ((unordered_compare_spec fpu_env_example r4300i_compare_quiet_example 2 4
      (by decide)).1.1 (by decide) (by decide)).2.2.1,
   ((unordered_compare_spec fpu_env_example r4300i_compare_quiet_example 6 4
      (by decide)).2.1 (by decide) (by decide)).1,
   ((unordered_compare_spec fpu_env_example r4300i_compare_quiet_example 4 0
      (by decide)).1.2 (by decide)).1,
   ((unordered_compare_spec fpu_env_example r4300i_compare_quiet_example 4 0
      (by decide)).1.2 (by decide)).2.2.2⟩


/-! ## Theorems: coprocessor-0 register writes and reads -/

theorem set_cp0_index_eq (cpu : r4300i_t) (v : Nat) :
    set_cp0_register cpu R4300I_CP0_REG_INDEX v =
      .ok { cpu with cp0 := { cpu.cp0 with index := v % 2 ^ 32 } } := by
  unfold set_cp0_register
  rw [if_pos rfl]

theorem set_cp0_count_eq (cpu : r4300i_t) (v : Nat) :
    set_cp0_register cpu R4300I_CP0_REG_COUNT v =
      .ok { cpu with cp0 := { cpu.cp0 with count := v % 2 ^ 32 } } := by
  unfold set_cp0_register
  rw [if_neg (by decide), if_neg (by decide), if_pos rfl]

theorem set_cp0_cause_eq (cpu : r4300i_t) (v : Nat) :
    set_cp0_register cpu R4300I_CP0_REG_CAUSE v =
      .ok { cpu with cp0 := { cpu.cp0 with
        cause := write_bit32 (write_bit32 cpu.cp0.cause 8 ((v % 2 ^ 32).testBit 8)) 9 ((v % 2 ^ 32).testBit 9) } } := by
  unfold set_cp0_register
  rw [if_neg (by decide), if_neg (by decide), if_neg (by decide), if_pos rfl]

theorem set_cp0_compare_eq (cpu : r4300i_t) (v : Nat) :
    set_cp0_register cpu R4300I_CP0_REG_COMPARE v =
      .ok { cpu with cp0 := { cpu.cp0 with
        cause := write_bit32 cpu.cp0.cause 15 false, compare := v % 2 ^ 32 } } := by
  unfold set_cp0_register
  rw [if_neg (by decide), if_neg (by decide), if_neg (by decide), if_neg (by decide),
    if_neg (by decide), if_neg (by decide), if_pos rfl]

theorem set_cp0_entry_lo0_eq (cpu : r4300i_t) (v : Nat) :
    set_cp0_register cpu R4300I_CP0_REG_ENTRYLO0 v =
      .ok { cpu with cp0 := { cpu.cp0 with entry_lo0 := v % 2 ^ 32 } } := by
  unfold set_cp0_register
  rw [if_neg (by decide), if_neg (by decide), if_neg (by decide), if_neg (by decide),
    if_neg (by decide), if_neg (by decide), if_neg (by decide), if_neg (by decide),
    if_pos rfl]

theorem set_cp0_entry_hi_eq (cpu : r4300i_t) (v : Nat) :
    set_cp0_register cpu R4300I_CP0_REG_ENTRYHI v =
      .ok { cpu with cp0 := { cpu.cp0 with entry_hi := v % 2 ^ 32 } } := by
  unfold set_cp0_register
  rw [if_neg (by decide), if_neg (by decide), if_neg (by decide), if_neg (by decide),
    if_neg (by decide), if_neg (by decide), if_neg (by decide), if_neg (by decide),
    if_neg (by decide), if_neg (by decide), if_neg (by decide), if_pos rfl]

theorem set_cp0_page_mask_eq (cpu : r4300i_t) (v : Nat) :
    set_cp0_register cpu R4300I_CP0_REG_PAGEMASK v =
      .ok { cpu with cp0 := { cpu.cp0 with page_mask := v % 2 ^ 32 } } := by
  unfold set_cp0_register
  rw [if_neg (by decide), if_neg (by decide), if_neg (by decide), if_neg (by decide),
    if_neg (by decide), if_neg (by decide), if_neg (by decide), if_neg (by decide),
    if_neg (by decide), if_neg (by decide), if_neg (by decide), if_neg (by decide),
    if_pos rfl]

theorem set_cp0_epc_eq (cpu : r4300i_t) (v : Nat) :
    set_cp0_register cpu R4300I_CP0_REG_EPC v =
      .ok { cpu with cp0 := { cpu.cp0 with EPC := v % 2 ^ 32 } } := by
  unfold set_cp0_register
  rw [if_neg (by decide), if_neg (by decide), if_neg (by decide), if_neg (by decide),
    if_neg (by decide), if_neg (by decide), if_neg (by decide), if_neg (by decide),
    if_neg (by decide), if_neg (by decide), if_neg (by decide), if_neg (by decide),
    if_neg (by decide), if_pos rfl]

/-- C31: for every CPU state and every 32-bit `v`, `set_cp0_register(r, v)` followed by
`get_cp0_register(r)` returns `v` for entry_lo0 (2), page_mask (5), entry_hi (10),
compare (11) and EPC (14), `v & 0x8000003F` for index (0), and `v >> 1` for count (9), whose
write stores `v` verbatim. -/
theorem cp0_write_read (cpu : r4300i_t) (v : Nat) (hv : v < 2 ^ 32) :
    (∃ cpu1, set_cp0_register cpu R4300I_CP0_REG_ENTRYLO0 v = .ok cpu1 ∧
      get_cp0_register cpu1 R4300I_CP0_REG_ENTRYLO0 = .ok v) ∧
    (∃ cpu1, set_cp0_register cpu R4300I_CP0_REG_PAGEMASK v = .ok cpu1 ∧
      get_cp0_register cpu1 R4300I_CP0_REG_PAGEMASK = .ok v) ∧
    (∃ cpu1, set_cp0_register cpu R4300I_CP0_REG_ENTRYHI v = .ok cpu1 ∧
      get_cp0_register cpu1 R4300I_CP0_REG_ENTRYHI = .ok v) ∧
    (∃ cpu1, set_cp0_register cpu R4300I_CP0_REG_COMPARE v = .ok cpu1 ∧
      get_cp0_register cpu1 R4300I_CP0_REG_COMPARE = .ok v) ∧
    (∃ cpu1, set_cp0_register cpu R4300I_CP0_REG_EPC v = .ok cpu1 ∧
      get_cp0_register cpu1 R4300I_CP0_REG_EPC = .ok v) ∧
    (∃ cpu1, set_cp0_register cpu R4300I_CP0_REG_INDEX v = .ok cpu1 ∧
      get_cp0_register cpu1 R4300I_CP0_REG_INDEX = .ok (v &&& 0x8000003F)) ∧
    (∃ cpu1, set_cp0_register cpu R4300I_CP0_REG_COUNT v = .ok cpu1 ∧
      cpu1.cp0.count = v ∧
      get_cp0_register cpu1 R4300I_CP0_REG_COUNT = .ok (v >>> 1)) ∧
    R4300I_CP0_REG_INDEX = 0 ∧ R4300I_CP0_REG_ENTRYLO0 = 2 ∧ R4300I_CP0_REG_PAGEMASK = 5 ∧
    R4300I_CP0_REG_COUNT = 9 ∧ R4300I_CP0_REG_ENTRYHI = 10 ∧ R4300I_CP0_REG_COMPARE = 11 ∧
    R4300I_CP0_REG_EPC = 14 := by
  have hmod : v % 2 ^ 32 = v := Nat.mod_eq_of_lt hv
  refine ⟨⟨_, set_cp0_entry_lo0_eq cpu v, ?_⟩, ⟨_, set_cp0_page_mask_eq cpu v, ?_⟩,
    ⟨_, set_cp0_entry_hi_eq cpu v, ?_⟩, ⟨_, set_cp0_compare_eq cpu v, ?_⟩,
    ⟨_, set_cp0_epc_eq cpu v, ?_⟩, ⟨_, set_cp0_index_eq cpu v, ?_⟩,
    ⟨_, set_cp0_count_eq cpu v, hmod, ?_⟩, rfl, rfl, rfl, rfl, rfl, rfl, rfl⟩
  · show Except.ok (v % 2 ^ 32) = _
    rw [hmod]
  · show Except.ok (v % 2 ^ 32) = _
    rw [hmod]
  · show Except.ok (v % 2 ^ 32) = _
    rw [hmod]
  · show Except.ok (v % 2 ^ 32) = _
    rw [hmod]
  · show Except.ok (v % 2 ^ 32) = _
    rw [hmod]
  · show Except.ok ((v % 2 ^ 32) &&& 0x8000003F) = _
    rw [hmod]
  · show Except.ok (((v % 2 ^ 32) >>> 1) % 2 ^ 32) = _
    rw [hmod, Nat.shiftRight_eq_div_pow]
    have : v / 2 ^ 1 % 2 ^ 32 = v / 2 ^ 1 := Nat.mod_eq_of_lt (by omega)
    rw [this]

/-- Witness for C31: the word `0xFFFFFFFF` written to and read from entry_lo0, index and
count in the zero state. -/
theorem cp0_write_read_witness :
    (∃ cpu1, set_cp0_register r4300i_zero R4300I_CP0_REG_ENTRYLO0 0xFFFFFFFF = .ok cpu1 ∧
      get_cp0_register cpu1 R4300I_CP0_REG_ENTRYLO0 = .ok 0xFFFFFFFF) ∧
    (∃ cpu1, set_cp0_register r4300i_zero R4300I_CP0_REG_INDEX 0xFFFFFFFF = .ok cpu1 ∧
      get_cp0_register cpu1 R4300I_CP0_REG_INDEX = .ok 0x8000003F) ∧
    (∃ cpu1, set_cp0_register r4300i_zero R4300I_CP0_REG_COUNT 0xFFFFFFFF = .ok cpu1 ∧
      cpu1.cp0.count = 0xFFFFFFFF ∧
      get_cp0_register cpu1 R4300I_CP0_REG_COUNT = .ok 0x7FFFFFFF) :=
  ⟨(cp0_write_read r4300i_zero 0xFFFFFFFF (by decide)).1,
   (cp0_write_read r4300i_zero 0xFFFFFFFF (by decide)).2.2.2.2.2.1,
   (cp0_write_read r4300i_zero 0xFFFFFFFF (by decide)).2.2.2.2.2.2.1⟩

/-- C32: for every stored value of `cp0.count`, `get_cp0_register(cpu, COUNT)` returns
`(count >> 1) & 0xFFFFFFFF`, whose bit `i` is bit `i + 1` of the counter for `i` in 0..31
and zero above; the read is a function of the state and assigns nothing. -/
theorem cp0_count_read (cpu : r4300i_t) :
    get_cp0_register cpu R4300I_CP0_REG_COUNT = .ok ((cpu.cp0.count >>> 1) &&& 0xFFFFFFFF) ∧
    (∀ i, ((cpu.cp0.count >>> 1) &&& 0xFFFFFFFF).testBit i =
      (decide (i < 32) && cpu.cp0.count.testBit (i + 1))) ∧
    (cpu.cp0.count >>> 1) &&& 0xFFFFFFFF = cpu.cp0.count / 2 % 2 ^ 32 ∧
    R4300I_CP0_REG_COUNT = 9 := by
  have hand : (cpu.cp0.count >>> 1) &&& 0xFFFFFFFF = (cpu.cp0.count >>> 1) % 2 ^ 32 :=
    Nat.and_pow_two_sub_one_eq_mod _ 32
  refine ⟨?_, ?_, ?_, rfl⟩
  · rw [hand]; rfl
  · intro i
    rw [hand, Nat.testBit_mod_two_pow, Nat.testBit_shiftRight, Nat.add_comm]
  · rw [hand, Nat.shiftRight_eq_div_pow, Nat.pow_one]


theorem not32_bit_testBit_8 (j : Nat) :
    (not32 (1 <<< 8)).testBit j = (decide (j < 32) && !decide (j = 8)) := by
  by_cases h : j < 32
  · interval_cases j <;> decide
  · have hlt : not32 (1 <<< 8) < 2 ^ j :=
      Nat.lt_of_lt_of_le (by decide : not32 (1 <<< 8) < 2 ^ 32)
        (Nat.pow_le_pow_right (by decide) (by omega))
    rw [Nat.testBit_lt_two_pow hlt]
    simp [h]

theorem not32_bit_testBit_9 (j : Nat) :
    (not32 (1 <<< 9)).testBit j = (decide (j < 32) && !decide (j = 9)) := by
  by_cases h : j < 32
  · interval_cases j <;> decide
  · have hlt : not32 (1 <<< 9) < 2 ^ j :=
      Nat.lt_of_lt_of_le (by decide : not32 (1 <<< 9) < 2 ^ 32)
        (Nat.pow_le_pow_right (by decide) (by omega))
    rw [Nat.testBit_lt_two_pow hlt]
    simp [h]

theorem not32_bit_testBit_15 (j : Nat) :
    (not32 (1 <<< 15)).testBit j = (decide (j < 32) && !decide (j = 15)) := by
  by_cases h : j < 32
  · interval_cases j <;> decide
  · have hlt : not32 (1 <<< 15) < 2 ^ j :=
      Nat.lt_of_lt_of_le (by decide : not32 (1 <<< 15) < 2 ^ 32)
        (Nat.pow_le_pow_right (by decide) (by omega))
    rw [Nat.testBit_lt_two_pow hlt]
    simp [h]

theorem not32_0x300_testBit (j : Nat) :
    (not32 0x300).testBit j = (decide (j < 32) && !decide (j = 8) && !decide (j = 9)) := by
  by_cases h : j < 32
  · interval_cases j <;> decide
  · have hlt : not32 0x300 < 2 ^ j :=
      Nat.lt_of_lt_of_le (by decide : not32 0x300 < 2 ^ 32)
        (Nat.pow_le_pow_right (by decide) (by omega))
    rw [Nat.testBit_lt_two_pow hlt]
    simp [h]

theorem mask_0x300_testBit (j : Nat) :
    (0x300 : Nat).testBit j = (decide (j = 8) || decide (j = 9)) := by
  by_cases h : j < 10
  · interval_cases j <;> decide
  · have hlt : (0x300 : Nat) < 2 ^ j :=
      Nat.lt_of_lt_of_le (by decide : (0x300 : Nat) < 2 ^ 10)
        (Nat.pow_le_pow_right (by decide) (by omega))
    rw [Nat.testBit_lt_two_pow hlt]
    have h8 : ¬ j = 8 := by omega
    have h9 : ¬ j = 9 := by omega
    simp [h8, h9]

theorem bit_shift_testBit (c : Bool) (k j : Nat) :
    (c.toNat <<< k).testBit j = (decide (j = k) && c) := by
  cases c
  · simp
  · rw [Bool.toNat_true, Nat.one_shiftLeft, Nat.testBit_two_pow]
    by_cases h : j = k
    · simp [h]
    · have h1 : ¬ k = j := fun hh => h hh.symm
      simp [h, h1]

theorem write_bit32_8_testBit (f : Nat) (c : Bool) (j : Nat) :
    (write_bit32 f 8 c).testBit j =
      if j = 8 then c else (decide (j < 32) && f.testBit j) := by
  unfold write_bit32
  rw [Nat.testBit_or, Nat.testBit_and, not32_bit_testBit_8, bit_shift_testBit]
  by_cases h : j = 8
  · subst h; simp
  · simp [h, Bool.and_comm]

theorem write_bit32_9_testBit (f : Nat) (c : Bool) (j : Nat) :
    (write_bit32 f 9 c).testBit j =
      if j = 9 then c else (decide (j < 32) && f.testBit j) := by
  unfold write_bit32
  rw [Nat.testBit_or, Nat.testBit_and, not32_bit_testBit_9, bit_shift_testBit]
  by_cases h : j = 9
  · subst h; simp
  · simp [h, Bool.and_comm]

theorem write_bit32_15_testBit (f : Nat) (c : Bool) (j : Nat) :
    (write_bit32 f 15 c).testBit j =
      if j = 15 then c else (decide (j < 32) && f.testBit j) := by
  unfold write_bit32
  rw [Nat.testBit_or, Nat.testBit_and, not32_bit_testBit_15, bit_shift_testBit]
  by_cases h : j = 15
  · subst h; simp
  · simp [h, Bool.and_comm]

theorem cause_write_value (c v : Nat) :
    write_bit32 (write_bit32 c 8 ((v % 2 ^ 32).testBit 8)) 9 ((v % 2 ^ 32).testBit 9) =
      (c &&& not32 0x300) ||| (v &&& 0x300) := by
  apply Nat.eq_of_testBit_eq
  intro j
  rw [write_bit32_9_testBit, write_bit32_8_testBit, Nat.testBit_or, Nat.testBit_and,
    Nat.testBit_and, not32_0x300_testBit, mask_0x300_testBit, Nat.testBit_mod_two_pow,
    Nat.testBit_mod_two_pow]
  by_cases h9 : j = 9
  · subst h9; simp
  · by_cases h8 : j = 8
    · subst h8; simp
    · by_cases h : j < 32
      · simp [h8, h9, h]
      · simp [h8, h9, h]

/-- C33: for every CPU state and every 32-bit `v`, `set_cp0_register(cpu, COMPARE, v)`
returns the state with `cp0.compare == v` and with `ip7` (bit 15 of `cp0.cause`) cleared;
every other bit of the 32-bit `cp0.cause` and every other field is unchanged. -/
theorem cp0_compare_write (cpu : r4300i_t) (v : Nat) (hv : v < 2 ^ 32) :
    ∃ cpu1, set_cp0_register cpu R4300I_CP0_REG_COMPARE v = .ok cpu1 ∧
      cpu1 = { cpu with cp0 := { cpu.cp0 with
        cause := write_bit32 cpu.cp0.cause 15 false, compare := v } } ∧
      cpu1.cp0.compare = v ∧
      cpu1.cp0.cause.testBit 15 = false ∧
      (∀ j, j < 32 → j ≠ 15 → cpu1.cp0.cause.testBit j = cpu.cp0.cause.testBit j) ∧
      (cpu.cp0.cause < 2 ^ 32 → cpu1.cp0.cause = cpu.cp0.cause &&& not32 (1 <<< 15)) ∧
      R4300I_CP0_REG_COMPARE = 11 := by
  have hmod : v % 2 ^ 32 = v := Nat.mod_eq_of_lt hv
  have he := set_cp0_compare_eq cpu v
  rw [hmod] at he
  refine ⟨_, he, rfl, rfl, ?_, ?_, ?_, rfl⟩
  · show (write_bit32 cpu.cp0.cause 15 false).testBit 15 = false
    rw [write_bit32_15_testBit, if_pos rfl]
  · intro j hj hne
    show (write_bit32 cpu.cp0.cause 15 false).testBit j = _
    rw [write_bit32_15_testBit, if_neg hne]
    simp [hj]
  · intro _
    show write_bit32 cpu.cp0.cause 15 false = _
    unfold write_bit32
    simp

/-- Witness for C33: in the example state `ip7` is pending (`cause = 0x8000`); writing
`0x12345678` to COMPARE leaves `compare = 0x12345678` and `cause = 0`. -/
theorem cp0_compare_write_witness :
    ∃ cpu1, set_cp0_register r4300i_timer_example R4300I_CP0_REG_COMPARE 0x12345678
        = .ok cpu1 ∧
      cpu1.cp0.compare = 0x12345678 ∧ cpu1.cp0.cause.testBit 15 = false ∧
      cpu1.cp0.cause = 0 := by
  obtain ⟨cpu1, h1, h2, h3, h4, -, h6, -⟩ :=
    cp0_compare_write r4300i_timer_example 0x12345678 (by decide)
  refine ⟨cpu1, h1, h3, h4, ?_⟩
  rw [h6 (by decide)]
  decide

/-- C34: for every CPU state and every 32-bit `v`, `set_cp0_register(cpu, CAUSE, v)` returns
the state in which `cp0.cause` is `(old & ~0x300) | (v & 0x300)`: `ip0` and `ip1` (bits 8
and 9) take the written value, every other bit of the 32-bit register (the exception code,
`ip2`..`ip7`, `coprocessor_error`, `branch_delay`) and every other field is unchanged. -/
theorem cp0_cause_write (cpu : r4300i_t) (v : Nat) (_hv : v < 2 ^ 32) :
    ∃ cpu1, set_cp0_register cpu R4300I_CP0_REG_CAUSE v = .ok cpu1 ∧
      cpu1 = { cpu with cp0 := { cpu.cp0 with
        cause := (cpu.cp0.cause &&& not32 0x300) ||| (v &&& 0x300) } } ∧
      cpu1.cp0.cause = (cpu.cp0.cause &&& not32 0x300) ||| (v &&& 0x300) ∧
      cpu1.cp0.cause.testBit 8 = v.testBit 8 ∧
      cpu1.cp0.cause.testBit 9 = v.testBit 9 ∧
      (∀ j, j < 32 → j ≠ 8 → j ≠ 9 →
        cpu1.cp0.cause.testBit j = cpu.cp0.cause.testBit j) ∧
      R4300I_CP0_REG_CAUSE = 13 := by
  have he := set_cp0_cause_eq cpu v
  rw [cause_write_value] at he
  refine ⟨_, he, rfl, rfl, ?_, ?_, ?_, rfl⟩
  · show ((cpu.cp0.cause &&& not32 0x300) ||| (v &&& 0x300)).testBit 8 = _
    rw [Nat.testBit_or, Nat.testBit_and, Nat.testBit_and, not32_0x300_testBit,
      mask_0x300_testBit]
    simp
  · show ((cpu.cp0.cause &&& not32 0x300) ||| (v &&& 0x300)).testBit 9 = _
    rw [Nat.testBit_or, Nat.testBit_and, Nat.testBit_and, not32_0x300_testBit,
      mask_0x300_testBit]
    simp
  · intro j hj h8 h9
    show ((cpu.cp0.cause &&& not32 0x300) ||| (v &&& 0x300)).testBit j = _
    rw [Nat.testBit_or, Nat.testBit_and, Nat.testBit_and, not32_0x300_testBit,
      mask_0x300_testBit]
    simp [hj, h8, h9]

/-- Witness for C34: with `cause = 0x8000` (`ip7`), writing `0xFFFFFFFF` to CAUSE gives
`cause = 0x8300`. -/
theorem cp0_cause_write_witness :
    ∃ cpu1, set_cp0_register r4300i_timer_example R4300I_CP0_REG_CAUSE 0xFFFFFFFF
        = .ok cpu1 ∧
      cpu1.cp0.cause = 0x8300 := by
  obtain ⟨cpu1, h1, -, h3, -⟩ := cp0_cause_write r4300i_timer_example 0xFFFFFFFF (by decide)
  exact ⟨cpu1, h1, h3.trans (by decide)⟩

/-- C38 (evaluated at the failing input): in the example state the timer interrupt is
pending and enabled and `interrupts` holds the cached byte `0x80`. The COMPARE write clears
`ip7` but leaves `interrupts` at `0x80`, while `interrupt_pending & im` is now 0; the CAUSE
write of `0x100` sets `ip0` and the byte is stale in the same way. In both branches
`interrupts` is left as it was, for every state and every value. -/
theorem cp0_write_leaves_stale_interrupts :
    r4300i_timer_example.interrupts_cached ∧
    (∃ cpu1, set_cp0_register r4300i_timer_example R4300I_CP0_REG_COMPARE 0 = .ok cpu1 ∧
      cpu1.interrupts = 0x80 ∧
      cause_interrupt_pending cpu1.cp0.cause &&& status_im cpu1.cp0.status = 0 ∧
      ¬ cpu1.interrupts_cached) ∧
    (∃ cpu1, set_cp0_register
        { r4300i_zero with cp0 := { cp0_zero with status := 0x0101 } }
        R4300I_CP0_REG_CAUSE 0x100 = .ok cpu1 ∧
      cpu1.interrupts = 0 ∧
      cause_interrupt_pending cpu1.cp0.cause &&& status_im cpu1.cp0.status = 1 ∧
      ¬ cpu1.interrupts_cached) ∧
    (∀ cpu v, ∃ cpu1, set_cp0_register cpu R4300I_CP0_REG_COMPARE v = .ok cpu1 ∧
      cpu1.interrupts = cpu.interrupts) ∧
    (∀ cpu v, ∃ cpu1, set_cp0_register cpu R4300I_CP0_REG_CAUSE v = .ok cpu1 ∧
      cpu1.interrupts = cpu.interrupts) ∧
    (∀ cpu v, ∃ cpu1, set_cp0_register cpu R4300I_CP0_REG_STATUS v = .ok cpu1 ∧
      cpu1.interrupts_cached) := by
  refine ⟨by decide, ⟨_, set_cp0_compare_eq _ 0, ?_, ?_, ?_⟩,
    ⟨_, set_cp0_cause_eq _ 0x100, ?_, ?_, ?_⟩,
    fun cpu v => ⟨_, set_cp0_compare_eq cpu v, rfl⟩,
    fun cpu v => ⟨_, set_cp0_cause_eq cpu v, rfl⟩,
    fun cpu v => ⟨_, status_write_eq cpu v, rfl⟩⟩
  · decide
  · decide
  · decide
  · decide
  · decide
  · decide


/-! ## Theorems: code-cache allocation stays inside the arena -/

/-- C35: in a state with `codecache_used < codecache_size` and for a request
`n < codecache_size` (the arena being an object in memory, `codecache_size <= 2^63`, so the
`size_t` sums do not wrap), `dynarec_bumpalloc(n)` returns an offset `off` with
`off + n < codecache_size`, so the region `[off, off + n)` lies inside the arena, and it
leaves `codecache_used == off + n < codecache_size`. When neither this call nor a following
call for `m` bytes flushes, the second region starts at `off + n`, where the first ends. -/
theorem dynarec_bumpalloc_in_arena (osz : Nat) (d : n64_dynarec_t) (n : Nat)
    (hsz : d.codecache_size ≤ 2 ^ 63) (hu : d.codecache_used < d.codecache_size)
    (hn : n < d.codecache_size) :
    (dynarec_bumpalloc osz d n).1 + n < d.codecache_size ∧
    (dynarec_bumpalloc osz d n).2.codecache_used = (dynarec_bumpalloc osz d n).1 + n ∧
    (dynarec_bumpalloc osz d n).2.codecache_size = d.codecache_size ∧
    (dynarec_bumpalloc osz d n).2.codecache_used < (dynarec_bumpalloc osz d n).2.codecache_size ∧
    (∀ m, m < d.codecache_size →
      size_t_add d.codecache_used n < d.codecache_size →
      size_t_add (dynarec_bumpalloc osz d n).2.codecache_used m < d.codecache_size →
      (dynarec_bumpalloc osz d n).1 = d.codecache_used ∧
      (dynarec_bumpalloc osz (dynarec_bumpalloc osz d n).2 m).1 =
        (dynarec_bumpalloc osz d n).1 + n ∧
      (dynarec_bumpalloc osz (dynarec_bumpalloc osz d n).2 m).1 + m < d.codecache_size) := by
  have hspec := dynarec_bumpalloc_spec osz d n
  have hsum : size_t_add d.codecache_used n = d.codecache_used + n :=
    hspec.2.2.2.2 (by omega)
  have hzero : size_t_add 0 n = n := hspec.2.2.2.1 (by omega)
  by_cases hf : size_t_add d.codecache_used n < d.codecache_size
  · obtain ⟨h1, h2, h3, -⟩ := hspec.1 hf
    have hlt : d.codecache_used + n < d.codecache_size := by rw [hsum] at hf; exact hf
    refine ⟨?_, ?_, h3, ?_, ?_⟩
    · rw [h1]; exact hlt
    · rw [h1, h2, hsum]
    · rw [h2, h3, hsum]; exact hlt
    · intro m hm _ hm2
      have hspec2 := dynarec_bumpalloc_spec osz (dynarec_bumpalloc osz d n).2 m
      obtain ⟨k1, -⟩ := hspec2.1 (by rw [h3]; exact hm2)
      have hsum2 : size_t_add (d.codecache_used + n) m = d.codecache_used + n + m := by
        unfold size_t_add
        exact Nat.mod_eq_of_lt (by omega)
      rw [h2, hsum, hsum2] at hm2
      refine ⟨h1, ?_, ?_⟩
      · rw [k1, h2, hsum, h1]
      · rw [k1, h2, hsum]; exact hm2
  · obtain ⟨h1, h2, h3, -⟩ := hspec.2.1 (by omega)
    refine ⟨?_, ?_, h3, ?_, ?_⟩
    · rw [h1]; omega
    · rw [h1, h2, hzero]; omega
    · rw [h2, h3, hzero]; exact hn
    · intro m _ hnf _
      exact absurd hnf hf

/-- Witness for C35 on the example cache (100 bytes, 40 used): 10 bytes are served at
`[40, 50)`, then 20 bytes at `[50, 70)`; 70 bytes are served at `[0, 70)` after a flush. -/
theorem dynarec_bumpalloc_in_arena_witness :
    (dynarec_bumpalloc 4 dynarec_example 10).1 = 40 ∧
    (dynarec_bumpalloc 4 dynarec_example 10).2.codecache_used = 50 ∧
    (dynarec_bumpalloc 4 (dynarec_bumpalloc 4 dynarec_example 10).2 20).1 = 50 ∧
    (dynarec_bumpalloc 4 dynarec_example 70).1 + 70 < 100 := by
  have h := dynarec_bumpalloc_in_arena 4 dynarec_example 10 (by decide) (by decide)
    (by decide)
  have h2 := dynarec_bumpalloc_in_arena 4 dynarec_example 70 (by decide) (by decide)
    (by decide)
  obtain ⟨k1, k2, k3⟩ := h.2.2.2.2 20 (by decide) (by decide) (by decide)
  exact ⟨k1, h.2.1.trans (by rw [k1]; rfl), k2.trans (by rw [k1]; rfl), h2.1⟩


/-! ## Theorems: conversions from a 64-bit integer and the store of a double -/

theorem fire_after_unimplemented (handler : exception_handler_t) (cpu : r4300i_t) :
    fire_fpu_exception handler (set_cause_unimplemented_operation cpu) =
      (true, handler (set_cause_unimplemented_operation cpu) cpu.prev_pc
        EXCEPTION_FLOATING_POINT 0) := by
  have hbit : (set_cause_unimplemented_operation cpu).fcr31.testBit 17 = true := by
    show (cpu.fcr31 ||| (1 <<< 17)).testBit 17 = true
    rw [testBit_or_bit]; simp
  rw [fire_fpu_exception_eq,
    if_pos ((fire_condition_iff (set_cause_unimplemented_operation cpu).fcr31).mpr
      (Or.inl hbit))]
  rfl

theorem cvt_from_l_range_check_eq (handler : exception_handler_t) (cpu : r4300i_t)
    (v : Nat) :
    cvt_from_l_range_check handler cpu v =
      if to_s64 v ≥ 36028797018963968 ∨ to_s64 v < -36028797018963968 then
        .error (handler (set_cause_unimplemented_operation cpu) cpu.prev_pc
          EXCEPTION_FLOATING_POINT 0)
      else .ok cpu := by
  have hc1 : to_s64 0x0080000000000000 = 36028797018963968 := by decide
  have hc2 : to_s64 0xff80000000000000 = -36028797018963968 := by decide
  unfold cvt_from_l_range_check
  rw [hc1, hc2, fire_after_unimplemented]
  rfl

/-- C40: with coprocessor 1 usable, let `x` be the source register of `mips_cp_cvt_d_l` or
`mips_cp_cvt_s_l` read as a signed 64-bit integer. The bounds of the range check are `2^55`
and `-2^55`. If `x >= 2^55` or `x < -2^55`, the check sets `cause_unimplemented_operation`
and the instruction ends by raising the floating-point exception from a state that differs
from the one before the instruction in `fcr31` only, so `fd` is not written. If
`-2^55 <= x < 2^55` the check passes with the state unchanged and every cause bit clear. -/
theorem cvt_from_l_range (env : fpu_env) (reader : r4300i_t → Nat → Nat)
    (convert : fpu_convert_t) (cpu : r4300i_t) (fs fd : Nat)
    (hcu : status_cu1 cpu.cp0.status = true) :
    to_s64 0x0080000000000000 = 2 ^ 55 ∧
    to_s64 0xff80000000000000 = -(2 ^ 55) ∧
    (to_s64 (reader (cp1_entry_state cpu) fs) ≥ 2 ^ 55 ∨
        to_s64 (reader (cp1_entry_state cpu) fs) < -(2 ^ 55) →
      cvt_from_l_range_check env.handler (cp1_entry_state cpu)
          (reader (cp1_entry_state cpu) fs) =
        .error (env.handler (set_cause_unimplemented_operation (cp1_entry_state cpu))
          cpu.prev_pc EXCEPTION_FLOATING_POINT 0) ∧
      mips_cp_cvt_d_l env reader convert cpu fs fd =
        .ok (env.handler (set_cause_unimplemented_operation (cp1_entry_state cpu))
          cpu.prev_pc EXCEPTION_FLOATING_POINT 0) ∧
      mips_cp_cvt_s_l env reader convert cpu fs fd =
        .ok (env.handler (set_cause_unimplemented_operation (cp1_entry_state cpu))
          cpu.prev_pc EXCEPTION_FLOATING_POINT 0) ∧
      fcr31_cause_unimplemented_operation
        (set_cause_unimplemented_operation (cp1_entry_state cpu)).fcr31 = true ∧
      { set_cause_unimplemented_operation (cp1_entry_state cpu) with fcr31 := cpu.fcr31 }
        = cpu) ∧
    (-(2 ^ 55) ≤ to_s64 (reader (cp1_entry_state cpu) fs) ∧
        to_s64 (reader (cp1_entry_state cpu) fs) < 2 ^ 55 →
      cvt_from_l_range_check env.handler (cp1_entry_state cpu)
          (reader (cp1_entry_state cpu) fs) = .ok (cp1_entry_state cpu) ∧
      fcr31_cause (cp1_entry_state cpu).fcr31 = 0) ∧
    ((∃ s, cvt_from_l_range_check env.handler (cp1_entry_state cpu)
          (reader (cp1_entry_state cpu) fs) = .error s) ↔
      ¬ (-(2 ^ 55) ≤ to_s64 (reader (cp1_entry_state cpu) fs) ∧
        to_s64 (reader (cp1_entry_state cpu) fs) < 2 ^ 55)) := by
  have hp : (2 : Int) ^ 55 = 36028797018963968 := by norm_num
  have hchk := cvt_from_l_range_check_eq env.handler (cp1_entry_state cpu)
    (reader (cp1_entry_state cpu) fs)
  rw [hp]
  refine ⟨by decide, by decide, ?_, ?_, ?_⟩
  · intro hout
    have hc : cvt_from_l_range_check env.handler (cp1_entry_state cpu)
        (reader (cp1_entry_state cpu) fs) =
        .error (env.handler (set_cause_unimplemented_operation (cp1_entry_state cpu))
          cpu.prev_pc EXCEPTION_FLOATING_POINT 0) := by
      rw [hchk, if_pos hout]
      rfl
    refine ⟨hc, ?_, ?_, (cause_bits_after_unimplemented _).1, rfl⟩
    · unfold mips_cp_cvt_d_l
      rw [checkcp1_usable env.handler cpu hcu]
      simp only []
      rw [hc]
    · unfold mips_cp_cvt_s_l
      rw [checkcp1_usable env.handler cpu hcu]
      simp only []
      rw [hc]
  · intro hin
    refine ⟨?_, cp1_entry_cause_zero cpu⟩
    rw [hchk, if_neg (by omega)]
  · rw [hchk]
    constructor
    · rintro ⟨s, hs⟩ hin
      rw [if_neg (by omega)] at hs
      cases hs
    · intro hno
      rw [if_pos (by omega)]
      exact ⟨_, rfl⟩

/-- Witness for C40: in the example state `f[2] = 2^55` and `f[8] = -2^55 - 1` make
`cvt.d.l` raise the exception, `f[4] = 2^55 - 1` and `f[6] = -2^55` pass the range check. -/
theorem cvt_from_l_range_witness :
    status_cu1 r4300i_long_example.cp0.status = true ∧
    mips_cp_cvt_d_l fpu_env_example (fun c r => c.f r) fpu_convert_example
        r4300i_long_example 2 10 =
      .ok (fpu_env_example.handler
        (set_cause_unimplemented_operation (cp1_entry_state r4300i_long_example)) 0x1000
        EXCEPTION_FLOATING_POINT 0) ∧
    mips_cp_cvt_s_l fpu_env_example (fun c r => c.f r) fpu_convert_example
        r4300i_long_example 8 10 =
      .ok (fpu_env_example.handler
        (set_cause_unimplemented_operation (cp1_entry_state r4300i_long_example)) 0x1000
        EXCEPTION_FLOATING_POINT 0) ∧
    cvt_from_l_range_check fpu_env_example.handler (cp1_entry_state r4300i_long_example)
        0x007FFFFFFFFFFFFF = .ok (cp1_entry_state r4300i_long_example) ∧
    cvt_from_l_range_check fpu_env_example.handler (cp1_entry_state r4300i_long_example)
        0xFF80000000000000 = .ok (cp1_entry_state r4300i_long_example) :=
  ⟨by decide,
   ((cvt_from_l_range fpu_env_example (fun c r => c.f r) fpu_convert_example
      r4300i_long_example 2 10 (by decide)).2.2.1 (Or.inl (by decide))).2.1,
   ((cvt_from_l_range fpu_env_example (fun c r => c.f r) fpu_convert_example
      r4300i_long_example 8 10 (by decide)).2.2.1 (Or.inr (by decide))).2.2.1,
   ((cvt_from_l_range fpu_env_example (fun c r => c.f r) fpu_convert_example
      r4300i_long_example 4 10 (by decide)).2.2.2.1 (by decide)).1,
   ((cvt_from_l_range fpu_env_example (fun c r => c.f r) fpu_convert_example
      r4300i_long_example 6 10 (by decide)).2.2.2.1 (by decide)).1⟩

/-- C39 (evaluated at the failing input): on the example bus every page is mapped with the
dirty bit clear, so a store access to address `0x1000` fails with a TLB modification. Yet
`mips_sdc1` of `f[2]` to `0x1000` raises nothing and writes the value to physical address
`0x1000`: the resolver is called with `BUS_LOAD`. For every bus, the instruction is the same
as on the bus whose resolver answers every access as a load. -/
theorem mips_sdc1_resolves_as_load :
    bus_env_example.resolve_virtual_address r4300i_long_example 0x1000 .BUS_STORE
      = .error 2 ∧
    (mips_sdc1 fpu_env_example.handler bus_env_example (fun c r => c.f r)
      r4300i_long_example (fun _ => 0) 0 2 0x1000).1 = r4300i_long_example ∧
    (mips_sdc1 fpu_env_example.handler bus_env_example (fun c r => c.f r)
      r4300i_long_example (fun _ => 0) 0 2 0x1000).2 0x1000 = 0x0080000000000000 ∧
    (∀ (handler : exception_handler_t) (bus : bus_env) (reader : r4300i_t → Nat → Nat)
      (cpu : r4300i_t) (mem : Nat → Nat) (base ft offset : Nat),
      mips_sdc1 handler bus reader cpu mem base ft offset =
        mips_sdc1 handler
          { bus with resolve_virtual_address :=
              fun c a _ => bus.resolve_virtual_address c a .BUS_LOAD }
          reader cpu mem base ft offset) :=
  ⟨rfl, rfl, by decide, fun _ _ _ _ _ _ _ _ => rfl⟩


/-! ## Theorems: the IR list stays a well-formed doubly-linked list -/

theorem reset_list_complete (ctx : ir_context_t) :
    (ir_context_reset ctx).list_complete [0] := by
  refine ⟨linked_reset ctx, ?_, rfl, ?_⟩
  · intro a ha
    have h1 : (ir_context_reset ctx).ir_cache_index = 1 := rfl
    rw [h1] at ha
    have : a = 0 := by omega
    subst this
    exact List.mem_singleton.mpr rfl
  · intro i hi
    have h1 : (ir_context_reset ctx).ir_cache_index = 1 := rfl
    rw [h1] at hi
    have : i = 0 := by omega
    subst this
    simp [ir_context_reset, array_fill_apply, IR_CACHE_SIZE, ir_instruction_zero]

theorem append_list_complete (ctx : ir_context_t) (l : List Nat) (ins : ir_instruction_t)
    (g : Nat) (h : ctx.list_complete l) :
    ∃ ctx1, append_ir_instruction ctx ins g = .ok (ctx1, some ctx.ir_cache_index) ∧
      ctx1.list_complete (l ++ [ctx.ir_cache_index]) ∧
      ctx1.ir_cache_index = ctx.ir_cache_index + 1 := by
  have hne : l ≠ [] := by
    intro h0
    have := h.first
    rw [h0] at this
    cases this
  obtain ⟨t, ht⟩ : ∃ t, l.getLast? = some t := by
    cases hl : l.getLast? with
    | none => exact absurd (List.getLast?_eq_none_iff.mp hl) hne
    | some t => exact ⟨t, rfl⟩
  have hsplit : l.dropLast ++ [t] = l := List.dropLast_append_getLast? t ht
  have htail : ctx.ir_cache_tail = some t := h.linked.tail.trans ht
  have htmem : t ∈ l := List.mem_of_mem_getLast? ht
  have htlt : t < ctx.ir_cache_index := h.linked.allocated t htmem
  have hne2 : t ≠ ctx.ir_cache_index := by omega
  obtain ⟨c, he, hidx, hnt, hhead, -, -, -, -, -, hnew, hold, hoth, -⟩ :=
    append_eq ctx ins g t htail
  have hnode := hnew hne2
  have holdt := hold hne2
  have hl1 : ctx.linked (l.dropLast ++ t :: []) := by
    rw [hsplit]; exact h.linked
  have hlinked : c.linked (l.dropLast ++ t :: ctx.ir_cache_index :: []) := by
    refine linked_insert ctx c l.dropLast [] t hl1 hidx hhead ?_ ?_ ?_ ?_ ?_
    · rw [hnt]; exact (getLast_insert_nil l.dropLast t _).2.symm
    · rw [holdt]; exact ⟨rfl, rfl⟩
    · rw [hnode]; exact ⟨rfl, rfl⟩
    · intro b hb; simp at hb
    · intro x h1 h2 _
      rw [hoth x h2 h1]
      exact ⟨rfl, rfl⟩
  have hleq : l.dropLast ++ t :: ctx.ir_cache_index :: [] = l ++ [ctx.ir_cache_index] := by
    rw [← hsplit]
    simp
  rw [hleq] at hlinked
  refine ⟨c, he, ⟨hlinked, ?_, ?_, ?_⟩, hidx⟩
  · intro a ha
    rw [hidx] at ha
    by_cases hx : a = ctx.ir_cache_index
    · subst hx
      exact List.mem_append_right l (List.mem_singleton.mpr rfl)
    · exact List.mem_append_left _ (h.complete a (by omega))
  · rw [List.head?_append_of_ne_nil l hne]
    exact h.first
  · intro i hi
    rw [hidx] at hi
    by_cases hx : i = ctx.ir_cache_index
    · subst hx
      rw [hnode]
      rfl
    · by_cases hxt : i = t
      · subst hxt
        rw [holdt]
        exact h.index_field i htlt
      · rw [hoth i hx hxt]
        exact h.index_field i (by omega)

theorem insert_new_index (ctx : ir_context_t) (a b : Nat) (ins : ir_instruction_t)
    (hn : (ctx.ir_cache a).next = some b) (ha : a ≠ ctx.ir_cache_index)
    (hb : b ≠ ctx.ir_cache_index) (ctx1 : ir_context_t)
    (p : ir_ptr) (he : insert_ir_instruction ctx (some a) ins = .ok (ctx1, p)) :
    (ctx1.ir_cache ctx.ir_cache_index).index = ctx.ir_cache_index := by
  unfold insert_ir_instruction at he
  simp only [hn, allocate_ir_instruction] at he
  have hc := (Prod.mk.inj (Except.ok.inj he)).1
  rw [← hc]
  simp [modify_node_apply, Function.update_apply, ha, hb, Ne.symm hb, Ne.symm ha]

theorem insert_list_complete (ctx : ir_context_t) (l : List Nat) (a : Nat)
    (ins : ir_instruction_t) (h : ctx.list_complete l) (ha : a ∈ l) :
    ∃ ctx1 l1, insert_ir_instruction ctx (some a) ins = .ok (ctx1, some ctx.ir_cache_index) ∧
      ctx1.list_complete l1 ∧
      ctx1.ir_cache_index = ctx.ir_cache_index + 1 := by
  obtain ⟨s, r, hsr⟩ := List.append_of_mem ha
  subst hsr
  have hnext := ir_chain_next_at ctx.ir_cache s r a none h.linked.chain
  have halloc : a < ctx.ir_cache_index := h.linked.allocated a ha
  cases r with
  | nil =>
    have hins : insert_ir_instruction ctx (some a) ins =
        append_ir_instruction ctx ins NO_GUEST_REG := by
      unfold insert_ir_instruction
      simp only [hnext, List.head?_nil]
    rw [hins]
    obtain ⟨c, he, hc, hidx⟩ := append_list_complete ctx _ ins NO_GUEST_REG h
    exact ⟨c, _, he, hc, hidx⟩
  | cons b l3 =>
    have hnb : (ctx.ir_cache a).next = some b := by rw [hnext]; rfl
    have hbmem : b ∈ s ++ a :: b :: l3 :=
      List.mem_append_right s (List.mem_cons_of_mem a (List.mem_cons_self b l3))
    have hballoc : b < ctx.ir_cache_index := h.linked.allocated b hbmem
    have hab : a ≠ b := by
      rintro rfl
      have := (List.nodup_append.mp h.linked.nodup).2.1
      exact (List.nodup_cons.mp this).1 (List.mem_cons_self a l3)
    obtain ⟨c, he, hidx, htl, hhead, -, hca, hnp, hnn, -, -, hcb, hoth⟩ :=
      insert_eq ctx a b ins hnb (by omega) (by omega) hab
    have hni := insert_new_index ctx a b ins hnb (by omega) (by omega) c _ he
    have hlinked : c.linked (s ++ a :: ctx.ir_cache_index :: b :: l3) := by
      refine linked_insert ctx c s (b :: l3) a h.linked hidx hhead ?_ ?_ ?_ ?_ ?_
      · rw [htl, h.linked.tail]; exact (getLast_insert_cons s l3 a _ b).symm
      · rw [hca]; exact ⟨rfl, rfl⟩
      · exact ⟨hnp, hnn⟩
      · intro b1 hb1
        have : b = b1 := by simpa using hb1
        subst this
        rw [hcb]; exact ⟨rfl, rfl⟩
      · intro x h1 h2 h3
        have hxb : x ≠ b := by
          rintro rfl
          exact h3 rfl
        rw [hoth x h1 h2 hxb]
        exact ⟨rfl, rfl⟩
    refine ⟨c, _, he, ⟨hlinked, ?_, ?_, ?_⟩, hidx⟩
    · intro x hx
      rw [hidx] at hx
      by_cases hxi : x = ctx.ir_cache_index
      · subst hxi
        exact List.mem_append_right s
          (List.mem_cons_of_mem a (List.mem_cons_self _ _))
      · have hm := h.complete x (by omega)
        rcases List.mem_append.mp hm with hm1 | hm2
        · exact List.mem_append_left _ hm1
        · rcases List.mem_cons.mp hm2 with rfl | hm3
          · exact List.mem_append_right s (List.mem_cons_self _ _)
          · exact List.mem_append_right s
              (List.mem_cons_of_mem a (List.mem_cons_of_mem _ hm3))
    · rw [← h.first]
      exact head_append_cons s _ _ a
    · intro i hi
      rw [hidx] at hi
      by_cases hx : i = ctx.ir_cache_index
      · subst hx
        exact hni
      · by_cases hxa : i = a
        · subst hxa
          rw [hca]
          exact h.index_field i halloc
        · by_cases hxb : i = b
          · subst hxb
            rw [hcb]
            exact h.index_field i hballoc
          · rw [hoth i hxa hx hxb]
            exact h.index_field i (by omega)

theorem ir_list_run_complete (calls : List ir_list_call) (ctx : ir_context_t)
    (l : List Nat) (h : ctx.list_complete l) (hv : ir_list_calls_valid ctx calls) :
    ∃ ctx1 l1, ir_list_run ctx calls = .ok ctx1 ∧ ctx1.list_complete l1 ∧
      ctx1.ir_cache_index = ctx.ir_cache_index + calls.length := by
  induction calls generalizing ctx l with
  | nil => exact ⟨ctx, l, rfl, h, rfl⟩
  | cons c cs ih =>
    obtain ⟨hv1, hv2⟩ := hv
    cases c with
    | call_append ins g =>
      obtain ⟨c1, he, hc, hidx⟩ := append_list_complete ctx l ins g h
      obtain ⟨c2, l2, hr, hc2, hidx2⟩ := ih c1 _ hc (hv2 c1 _ he)
      refine ⟨c2, l2, ?_, hc2, ?_⟩
      · show (match append_ir_instruction ctx ins g with
          | .ok (ctx1, _) => ir_list_run ctx1 cs
          | .error e => .error e) = _
        rw [he]
        exact hr
      · rw [hidx2, hidx, List.length_cons]
        omega
    | call_insert after ins =>
      obtain ⟨a, rfl, hmem⟩ := hv1
      rw [ir_list_of_linked ctx l h.linked] at hmem
      obtain ⟨c1, l1, he, hc, hidx⟩ := insert_list_complete ctx l a ins h hmem
      obtain ⟨c2, l2, hr, hc2, hidx2⟩ := ih c1 _ hc (hv2 c1 _ he)
      refine ⟨c2, l2, ?_, hc2, ?_⟩
      · show (match insert_ir_instruction ctx (some a) ins with
          | .ok (ctx1, _) => ir_list_run ctx1 cs
          | .error e => .error e) = _
        rw [he]
        exact hr
      · rw [hidx2, hidx, List.length_cons]
        omega


theorem ir_chain_next_prev (c : Nat → ir_instruction_t) (l : List Nat) (p : ir_ptr)
    (hc : ir_chain c p l) :
    ∀ n m, n ∈ l → (c n).next = some m → m ∈ l ∧ (c m).prev = some n := by
  induction l generalizing p with
  | nil => intro n m hn; cases hn
  | cons a rest ih =>
    obtain ⟨-, h2, h3⟩ := hc
    intro n m hn hnext
    rcases List.mem_cons.mp hn with rfl | hr
    · rw [h2] at hnext
      cases rest with
      | nil => cases hnext
      | cons b r1 =>
        have hb : b = m := by simpa using hnext
        subst hb
        exact ⟨List.mem_cons_of_mem _ (List.mem_cons_self b r1), h3.1⟩
    · obtain ⟨k1, k2⟩ := ih (some a) h3 n m hr hnext
      exact ⟨List.mem_cons_of_mem a k1, k2⟩

theorem ir_chain_has_next (c : Nat → ir_instruction_t) (l : List Nat) (p : ir_ptr)
    (hc : ir_chain c p l) :
    ∀ n, n ∈ l → l.getLast? ≠ some n → ∃ m, (c n).next = some m := by
  induction l generalizing p with
  | nil => intro n hn; cases hn
  | cons a rest ih =>
    obtain ⟨-, h2, h3⟩ := hc
    intro n hn hlast
    cases rest with
    | nil =>
      have : n = a := by simpa using hn
      subst this
      exact absurd rfl hlast
    | cons b r1 =>
      rcases List.mem_cons.mp hn with rfl | hr
      · exact ⟨b, h2⟩
      · have hl : (a :: b :: r1).getLast? = (b :: r1).getLast? := by
          simp [List.getLast?_cons_cons]
        rw [hl] at hlast
        exact ih (some a) h3 n hr hlast

theorem list_complete_length (ctx : ir_context_t) (l : List Nat) (h : ctx.list_complete l) :
    (∀ a, a ∈ l ↔ a < ctx.ir_cache_index) ∧ l.length = ctx.ir_cache_index := by
  have hiff : ∀ a, a ∈ l ↔ a < ctx.ir_cache_index :=
    fun a => ⟨h.linked.allocated a, h.complete a⟩
  refine ⟨hiff, ?_⟩
  have hperm : l.Perm (List.range ctx.ir_cache_index) :=
    (List.perm_ext_iff_of_nodup h.linked.nodup (List.nodup_range _)).mpr
      (fun a => by rw [hiff, List.mem_range])
  rw [hperm.length_eq, List.length_range]

theorem valid_of_allocated (calls : List ir_list_call) (ctx : ir_context_t) (l : List Nat)
    (h : ctx.list_complete l)
    (ha : ir_list_calls_allocated ctx.ir_cache_index calls = true) :
    ir_list_calls_valid ctx calls := by
  induction calls generalizing ctx l with
  | nil => trivial
  | cons c cs ih =>
    cases c with
    | call_append ins g =>
      refine ⟨trivial, ?_⟩
      intro ctx1 p he
      obtain ⟨c1, he1, hc, hidx⟩ := append_list_complete ctx l ins g h
      have heq : append_ir_instruction ctx ins g = .ok (ctx1, p) := he
      rw [he1] at heq
      have hc1 : c1 = ctx1 := (Prod.mk.inj (Except.ok.inj heq)).1
      subst hc1
      refine ih c1 _ hc ?_
      rw [hidx]
      exact ha
    | call_insert after ins =>
      cases after with
      | none =>
        simp [ir_list_calls_allocated] at ha
      | some a =>
        have ha2 : decide (a < ctx.ir_cache_index) = true ∧
            ir_list_calls_allocated (ctx.ir_cache_index + 1) cs = true := by
          simpa [ir_list_calls_allocated] using ha
        have halt : a < ctx.ir_cache_index := of_decide_eq_true ha2.1
        have hmem : a ∈ l := h.complete a halt
        refine ⟨⟨a, rfl, ?_⟩, ?_⟩
        · rw [ir_list_of_linked ctx l h.linked]
          exact hmem
        · intro ctx1 p he
          obtain ⟨c1, l1, he1, hc, hidx⟩ := insert_list_complete ctx l a ins h hmem
          have heq : insert_ir_instruction ctx (some a) ins = .ok (ctx1, p) := he
          rw [he1] at heq
          have hc1 : c1 = ctx1 := (Prod.mk.inj (Except.ok.inj heq)).1
          subst hc1
          refine ih c1 _ hc ?_
          rw [hidx]
          exact ha2.2

/-! ## Theorems: the flush-record arena -/

theorem ir_run_append (layout : ir_payload → Nat) (a b : List ir_call) (ctx : ir_context_t) :
    ir_run layout ctx (a ++ b) =
      match ir_run layout ctx a with
      | .ok ctx1 => ir_run layout ctx1 b
      | .error e => .error e := by
  induction a generalizing ctx with
  | nil => rfl
  | cons c cs ih =>
    show (match c.exec layout ctx with
      | .ok (ctx1, _) => ir_run layout ctx1 (cs ++ b)
      | .error e => .error e) = _
    cases hc : c.exec layout ctx with
    | error e => simp [ir_run, hc]
    | ok r =>
      obtain ⟨ctx1, p⟩ := r
      simp only [ir_run, hc]
      exact ih ctx1

theorem cond_exit_flush_step_index (layout : ir_payload → Nat)
    (acc : ir_context_t × Option Nat) (i : Nat) :
    acc.1.ir_flush_cache_index ≤ (cond_exit_flush_step layout acc i).1.ir_flush_cache_index ∧
    (cond_exit_flush_step layout acc i).1.ir_flush_cache_index ≤
      acc.1.ir_flush_cache_index + 1 := by
  unfold cond_exit_flush_step
  split
  · exact ⟨Nat.le_refl _, Nat.le_succ _⟩
  · simp only [allocate_ir_flush]
    split
    · exact ⟨Nat.le_succ _, Nat.le_refl _⟩
    · exact ⟨Nat.le_refl _, Nat.le_succ _⟩

theorem cond_exit_flush_fold_index (layout : ir_payload → Nat) (l : List Nat)
    (acc : ir_context_t × Option Nat) :
    acc.1.ir_flush_cache_index ≤
      (l.foldl (cond_exit_flush_step layout) acc).1.ir_flush_cache_index ∧
    (l.foldl (cond_exit_flush_step layout) acc).1.ir_flush_cache_index ≤
      acc.1.ir_flush_cache_index + l.length := by
  induction l generalizing acc with
  | nil => exact ⟨Nat.le_refl _, Nat.le_refl _⟩
  | cons i l ih =>
    rw [List.foldl_cons, List.length_cons]
    have h1 := cond_exit_flush_step_index layout acc i
    have h2 := ih (cond_exit_flush_step layout acc i)
    omega

theorem cond_exit_flush_step_zero (layout : ir_payload → Nat)
    (acc : ir_context_t × Option Nat) (i : Nat) (z : ir_set_constant_t)
    (hb : acc.1.guest_gpr_to_value i = some 0)
    (ht : (acc.1.ir_cache 0).type = .IR_SET_CONSTANT)
    (hp : (acc.1.ir_cache 0).payload = .set_constant z)
    (hne : layout (.set_constant z) ≠ i) :
    (cond_exit_flush_step layout acc i).1.ir_flush_cache_index =
      acc.1.ir_flush_cache_index + 1 := by
  unfold cond_exit_flush_step
  simp only [hb]
  rw [if_pos]
  · rfl
  · rw [ht, hp]
    exact ⟨by decide, hne⟩

theorem cond_exit_flush_fold_zero (layout : ir_payload → Nat) (z : ir_set_constant_t)
    (l : List Nat) (hnd : l.Nodup) (acc : ir_context_t × Option Nat)
    (hb : ∀ i ∈ l, acc.1.guest_gpr_to_value i = some 0)
    (ht : (acc.1.ir_cache 0).type = .IR_SET_CONSTANT)
    (hp : (acc.1.ir_cache 0).payload = .set_constant z) :
    acc.1.ir_flush_cache_index + l.length ≤
      (l.foldl (cond_exit_flush_step layout) acc).1.ir_flush_cache_index +
        (if layout (.set_constant z) ∈ l then 1 else 0) := by
  induction l generalizing acc with
  | nil => simp
  | cons i l ih =>
    obtain ⟨hni, hnd1⟩ := List.nodup_cons.mp hnd
    have hf := cond_exit_flush_step_frame layout acc i
    have hstep := cond_exit_flush_step_index layout acc i
    have hrec := ih hnd1 (cond_exit_flush_step layout acc i)
      (fun j hj => by rw [hf.1]; exact hb j (List.mem_cons_of_mem i hj))
      (by rw [hf.2.1]; exact ht) (by rw [hf.2.1]; exact hp)
    rw [List.foldl_cons, List.length_cons]
    by_cases hk : layout (.set_constant z) = i
    · have hmem : layout (.set_constant z) ∈ i :: l := by rw [hk]; exact List.mem_cons_self i l
      have hnm : layout (.set_constant z) ∉ l := by rw [hk]; exact hni
      rw [if_pos hmem]
      rw [if_neg hnm] at hrec
      omega
    · have h1 := cond_exit_flush_step_zero layout acc i z
        (hb i (List.mem_cons_self i l)) ht hp hk
      by_cases hm : layout (.set_constant z) ∈ l
      · have hmem : layout (.set_constant z) ∈ i :: l := List.mem_cons_of_mem i hm
        rw [if_pos hmem]
        rw [if_pos hm] at hrec
        omega
      · have hnmem : layout (.set_constant z) ∉ i :: l := by
          intro hh
          rcases List.mem_cons.mp hh with h2 | h2
          · exact hk h2
          · exact hm h2
        rw [if_neg hnmem]
        rw [if_neg hm] at hrec
        omega

theorem cond_exit_all_bound (layout : ir_payload → Nat) (ctx : ir_context_t)
    (condition : ir_ptr) (index : Int) (h : ctx.all_bound_to_zero) :
    ∃ ctx1 p, ir_emit_conditional_block_exit layout ctx condition index = .ok (ctx1, p) ∧
      ctx1.all_bound_to_zero ∧
      ctx.ir_flush_cache_index + 30 ≤ ctx1.ir_flush_cache_index ∧
      ctx1.ir_flush_cache_index ≤ ctx.ir_flush_cache_index + 31 := by
  have hf := cond_exit_flush_fold_frame layout (List.range' 1 31) (ctx, none)
  have hub := cond_exit_flush_fold_index layout (List.range' 1 31) (ctx, none)
  have hlb := cond_exit_flush_fold_zero layout { type := .VALUE_TYPE_U64, raw := 0 }
    (List.range' 1 31) (List.nodup_range' 1 31) (ctx, none) h.bound h.wf.node0_type
    h.wf.node0_payload
  have hlen : (List.range' 1 31).length = 31 := by decide
  rw [hlen] at hub hlb
  have hwf1 := well_formed_of_frame ctx
    ((List.range' 1 31).foldl (cond_exit_flush_step layout) (ctx, none)).1 h.wf
    hf.1 hf.2.1 hf.2.2.1 hf.2.2.2.1 hf.2.2.2.2.1
  obtain ⟨t, ht, -⟩ := hwf1.tail
  obtain ⟨c, he, -, -, -, -, hfi, hem, -, hmap, -⟩ :=
    append_eq ((List.range' 1 31).foldl (cond_exit_flush_step layout) (ctx, none)).1
      (ir_instruction_local .IR_COND_BLOCK_EXIT
        (.cond_block_exit
          ((List.range' 1 31).foldl (cond_exit_flush_step layout) (ctx, none)).2
          condition (index + 1)))
      NO_GUEST_REG t ht
  have hexit : ir_emit_conditional_block_exit layout ctx condition index =
      .ok (c, some ((List.range' 1 31).foldl (cond_exit_flush_step layout)
        (ctx, none)).1.ir_cache_index) := by
    unfold ir_emit_conditional_block_exit
    rw [h.emitted]
    exact he
  refine ⟨c, _, hexit, ⟨well_formed_append_of_ok _ hwf1 _ _ _ _ he, ?_, ?_⟩, ?_, ?_⟩
  · intro i hi
    rw [hmap, update_guest_reg_mapping_map, if_neg, hf.1]
    · exact h.bound i hi
    · intro hh
      exact absurd hh.2.2 (by decide)
  · rw [hem, hf.2.2.2.2.2.1]
    exact h.emitted
  · rw [hfi]
    have : (if layout (.set_constant { type := .VALUE_TYPE_U64, raw := 0 }) ∈ List.range' 1 31
        then 1 else 0) ≤ 1 := by split <;> omega
    have hlb1 : ctx.ir_flush_cache_index + 31 ≤
        ((List.range' 1 31).foldl (cond_exit_flush_step layout) (ctx, none)).1.ir_flush_cache_index
          + (if layout (.set_constant { type := .VALUE_TYPE_U64, raw := 0 }) ∈ List.range' 1 31
            then 1 else 0) := hlb
    omega
  · rw [hfi]
    exact hub.2

theorem run_bind_all (layout : ir_payload → Nat) :
    ir_run layout (ir_context_reset ir_context_zero) ir_calls_bind_all = .ok ir_context_bound :=
  rfl

theorem ir_context_bound_flush_index : ir_context_bound.ir_flush_cache_index = 0 := by
  decide

theorem ir_context_bound_all_bound : ir_context_bound.all_bound_to_zero := by
  refine ⟨?_, ?_, ?_⟩
  · exact well_formed_run (fun _ => 0) ir_calls_bind_all (ir_context_reset ir_context_zero)
      (well_formed_reset ir_context_zero) ir_context_bound (run_bind_all _)
  · decide
  · decide

theorem append_flush_index_of_ok (ctx ctx1 : ir_context_t) (ins : ir_instruction_t) (g : Nat)
    (p : ir_ptr) (h : append_ir_instruction ctx ins g = .ok (ctx1, p)) :
    ctx1.ir_flush_cache_index = ctx.ir_flush_cache_index := by
  cases ht : ctx.ir_cache_tail with
  | none =>
    simp only [append_ir_instruction, allocate_ir_instruction, ir_context_t.modify_node, ht]
      at h
    cases h
  | some t =>
    obtain ⟨c, he, -, -, -, -, hfi, -⟩ := append_eq ctx ins g t ht
    rw [he] at h
    have hc : c = ctx1 := congrArg Prod.fst (Except.ok.inj h)
    rw [← hc]
    exact hfi

theorem cond_exit_flush_index_of_ok (layout : ir_payload → Nat) (ctx ctx1 : ir_context_t)
    (condition : ir_ptr) (index : Int) (p : ir_ptr)
    (h : ir_emit_conditional_block_exit layout ctx condition index = .ok (ctx1, p)) :
    ctx.ir_flush_cache_index ≤ ctx1.ir_flush_cache_index ∧
    ctx1.ir_flush_cache_index ≤ ctx.ir_flush_cache_index + 31 := by
  have hb := cond_exit_flush_fold_index layout (List.range' 1 31) (ctx, none)
  have hlen : (List.range' 1 31).length = 31 := by decide
  rw [hlen] at hb
  unfold ir_emit_conditional_block_exit at h
  cases hem : ctx.block_end_pc_ir_emitted with
  | false =>
    rw [hem] at h
    cases h
  | true =>
    rw [hem] at h
    have hfi := append_flush_index_of_ok _ _ _ _ _ h
    rw [hfi]
    exact hb


/-! ## Theorems: the bounds of the two arenas -/

theorem reset_in_bounds (ctx0 : ir_context_t) : (ir_context_reset ctx0).in_bounds :=
  ⟨by show 1 ≤ IR_CACHE_SIZE; decide, Nat.zero_le _⟩

theorem ir_calls_in_bounds_append (layout : ir_payload → Nat) (a b : List ir_call)
    (ctx c : ir_context_t) (hr : ir_run layout ctx a = .ok c) :
    ir_calls_in_bounds layout ctx (a ++ b) =
      (ir_calls_in_bounds layout ctx a && ir_calls_in_bounds layout c b) := by
  induction a generalizing ctx with
  | nil =>
    have hc : ctx = c := Except.ok.inj hr
    subst hc
    simp [ir_calls_in_bounds]
  | cons x xs ih =>
    simp only [ir_run] at hr
    cases hx : x.exec layout ctx with
    | error e => rw [hx] at hr; simp at hr
    | ok r =>
      obtain ⟨c1, p⟩ := r
      rw [hx] at hr
      simp only [List.cons_append, ir_calls_in_bounds, hx]
      rw [List.append_eq, ih c1 hr]
      simp only [Bool.and_assoc]

theorem in_bounds_of_calls (layout : ir_payload → Nat) (calls : List ir_call)
    (ctx ctx1 : ir_context_t) (h0 : ctx.in_bounds)
    (hb : ir_calls_in_bounds layout ctx calls = true)
    (hr : ir_run layout ctx calls = .ok ctx1) : ctx1.in_bounds := by
  induction calls generalizing ctx with
  | nil =>
    have hc : ctx = ctx1 := Except.ok.inj hr
    rw [← hc]
    exact h0
  | cons c cs ih =>
    simp only [ir_run] at hr
    simp only [ir_calls_in_bounds] at hb
    cases hc : c.exec layout ctx with
    | error e => rw [hc] at hr; simp at hr
    | ok r =>
      obtain ⟨c1, p⟩ := r
      rw [hc] at hr hb
      simp only [Bool.and_eq_true, decide_eq_true_eq] at hb
      exact ih c1 hb.2.1 hb.2.2 hr

theorem eret_step (ctx : ir_context_t) (h : ctx.well_formed) :
    ∃ c t, ctx.ir_cache_tail = some t ∧ t < ctx.ir_cache_index ∧
      ir_emit_eret ctx = .ok (c, some ctx.ir_cache_index) ∧ c.well_formed ∧
      c.ir_cache_index = ctx.ir_cache_index + 1 ∧
      c.ir_flush_cache_index = ctx.ir_flush_cache_index ∧
      c.ir_cache_tail = some ctx.ir_cache_index ∧
      c.ir_cache t = { ctx.ir_cache t with next := some ctx.ir_cache_index } ∧
      (∀ j, j ≠ ctx.ir_cache_index → j ≠ t → c.ir_cache j = ctx.ir_cache j) := by
  have hw : ({ ctx with block_end_pc_ir_emitted := true } : ir_context_t).well_formed :=
    well_formed_of_frame ctx _ h rfl rfl rfl rfl rfl
  obtain ⟨t, ht, hlt⟩ := h.tail
  obtain ⟨c, he, hidx, htail, -, -, hfi, -, -, -, -, hold, hother, -⟩ :=
    append_eq ({ ctx with block_end_pc_ir_emitted := true } : ir_context_t)
      (ir_instruction_local .IR_ERET .indeterminate) NO_GUEST_REG t ht
  refine ⟨c, t, ht, hlt, he, well_formed_append_of_ok _ hw _ _ _ _ he, hidx, hfi, htail,
    hold (by show t ≠ ctx.ir_cache_index; omega), hother⟩

theorem run_replicate_eret_bounds (layout : ir_payload → Nat) (n : Nat) (ctx : ir_context_t)
    (h : ctx.well_formed) (hi : ctx.ir_cache_index + n ≤ IR_CACHE_SIZE)
    (hf : ctx.ir_flush_cache_index ≤ IR_FLUSH_CACHE_SIZE) :
    ir_calls_in_bounds layout ctx (List.replicate n .call_eret) = true := by
  induction n generalizing ctx with
  | zero => rfl
  | succ k ih =>
    obtain ⟨c, t, -, -, he, hw, hidx, hfi, -⟩ := eret_step ctx h
    have hin : c.in_bounds := ⟨by rw [hidx]; omega, by rw [hfi]; exact hf⟩
    rw [List.replicate_succ]
    simp only [ir_calls_in_bounds, ir_call.exec, he, ir_call.args_in_range, Bool.true_and,
      Bool.and_eq_true, decide_eq_true_eq]
    exact ⟨hin, ih c hw (by rw [hidx]; omega) (by rw [hfi]; exact hf)⟩

theorem run_replicate_eret_next (layout : ir_payload → Nat) (n : Nat) (ctx : ir_context_t)
    (h : ctx.well_formed) (h0 : (ctx.ir_cache 0).next = some 1)
    (ht : ∃ t, ctx.ir_cache_tail = some t ∧ 1 ≤ t) (ctx1 : ir_context_t)
    (hr : ir_run layout ctx (List.replicate n .call_eret) = .ok ctx1) :
    (ctx1.ir_cache 0).next = some 1 := by
  induction n generalizing ctx with
  | zero =>
    have hc : ctx = ctx1 := Except.ok.inj hr
    rw [← hc]
    exact h0
  | succ k ih =>
    obtain ⟨c, t, htl, hlt, he, hw, -, -, htail, -, hother⟩ := eret_step ctx h
    obtain ⟨t1, ht1, hge⟩ := ht
    have htt : t = t1 := Option.some.inj (htl.symm.trans ht1)
    rw [List.replicate_succ] at hr
    simp only [ir_run, ir_call.exec, he] at hr
    refine ih c hw ?_ ⟨ctx.ir_cache_index, htail, by omega⟩ hr
    rw [hother 0 (by omega) (by omega)]
    exact h0

theorem run_fill_next (layout : ir_payload → Nat) (k : Nat) (ctx ctx1 : ir_context_t)
    (h : ctx.well_formed) (ht : ctx.ir_cache_tail = some 0) (hi : ctx.ir_cache_index = 1)
    (hr : ir_run layout ctx (List.replicate (k + 1) .call_eret) = .ok ctx1) :
    (ctx1.ir_cache 0).next = some 1 := by
  obtain ⟨c, t, htl, -, he, hw, -, -, htail, hold, -⟩ := eret_step ctx h
  have ht0 : t = 0 := Option.some.inj (htl.symm.trans ht)
  subst ht0
  rw [hi] at he htail hold
  rw [List.replicate_succ] at hr
  simp only [ir_run, ir_call.exec, he] at hr
  refine run_replicate_eret_next layout k c hw ?_ ⟨1, htail, Nat.le_refl 1⟩ ctx1 hr
  rw [hold]

theorem ir_context_full_spec :
    ir_run (fun _ => 0) (ir_context_reset ir_context_zero) ir_calls_fill = .ok ir_context_full ∧
    ir_context_full.well_formed ∧ ir_context_full.ir_cache_index = 4096 ∧
    ir_calls_in_bounds (fun _ => 0) (ir_context_reset ir_context_zero) ir_calls_fill = true ∧
    (ir_context_full.ir_cache 0).next = some 1 := by
  obtain ⟨c, hrun, hw, hidx⟩ := run_replicate_eret (fun _ => 0) 4095
    (ir_context_reset ir_context_zero) (well_formed_reset ir_context_zero)
  have hc : ir_context_full = c := by
    unfold ir_context_full ir_calls_fill
    rw [hrun]
  rw [hc]
  refine ⟨hrun, hw, hidx, ?_, ?_⟩
  · exact run_replicate_eret_bounds (fun _ => 0) 4095 (ir_context_reset ir_context_zero)
      (well_formed_reset ir_context_zero) (by show 1 + 4095 ≤ IR_CACHE_SIZE; decide)
      (Nat.zero_le _)
  · exact run_fill_next (fun _ => 0) 4094 (ir_context_reset ir_context_zero) c
      (well_formed_reset ir_context_zero) rfl rfl hrun

theorem allocate_ir_instruction_slot (ctx : ir_context_t) (ins : ir_instruction_t) :
    (allocate_ir_instruction ctx ins).2 = ctx.ir_cache_index := rfl

theorem allocate_ir_flush_slot (ctx : ir_context_t) (flush : ir_instruction_flush_t) :
    (allocate_ir_flush ctx flush).2 = ctx.ir_flush_cache_index := rfl

/-- C12 (counterexample): after a reset and 4095 `ir_emit_eret` calls, every one of which
stores inside the arena, `ir_cache_index == IR_CACHE_SIZE`: the arena is full. In that
context `allocate_ir_instruction` has no fatal path; the slot it stores to is 4096, which
is not below `IR_CACHE_SIZE`. -/
theorem allocate_past_arena_end :
    IR_CACHE_SIZE = 4096 ∧
    ir_calls_in_bounds (fun _ => 0) (ir_context_reset ir_context_zero) ir_calls_fill = true ∧
    ir_run (fun _ => 0) (ir_context_reset ir_context_zero) ir_calls_fill = .ok ir_context_full ∧
    ir_context_full.ir_cache_index = IR_CACHE_SIZE ∧
    (allocate_ir_instruction ir_context_full
      (ir_instruction_local .IR_ERET .indeterminate)).2 = 4096 ∧
    ¬ (allocate_ir_instruction ir_context_full
      (ir_instruction_local .IR_ERET .indeterminate)).2 < IR_CACHE_SIZE := by
  obtain ⟨hrun, -, hidx, hb, -⟩ := ir_context_full_spec
  have hslot : (allocate_ir_instruction ir_context_full
      (ir_instruction_local .IR_ERET .indeterminate)).2 = 4096 :=
    (allocate_ir_instruction_slot _ _).trans hidx
  refine ⟨rfl, hb, hrun, hidx, hslot, ?_⟩
  rw [hslot]
  decide

/-- C12 (amended): `allocate_ir_instruction` performs no bounds check and has no fatal
path: the slot it stores to is `ir_cache_index`, whatever its value, so the store is inside
the arena exactly when `ir_cache_index < IR_CACHE_SIZE` on entry. In that case the
instruction is stored at that slot, the other slots are unchanged, the index grows by one
and stays within `IR_CACHE_SIZE`, and `append_ir_instruction` in a well-formed context
returns that slot. -/
theorem allocate_ir_instruction_unchecked (ctx : ir_context_t) (ins : ir_instruction_t)
    (g : Nat) :
    (allocate_ir_instruction ctx ins).2 = ctx.ir_cache_index ∧
    ((allocate_ir_instruction ctx ins).2 < IR_CACHE_SIZE ↔ ctx.ir_cache_index < IR_CACHE_SIZE) ∧
    (ctx.ir_cache_index < IR_CACHE_SIZE →
      (allocate_ir_instruction ctx ins).1.ir_cache_index = ctx.ir_cache_index + 1 ∧
      (allocate_ir_instruction ctx ins).1.ir_cache_index ≤ IR_CACHE_SIZE ∧
      ((allocate_ir_instruction ctx ins).1.ir_cache ctx.ir_cache_index).type = ins.type ∧
      ((allocate_ir_instruction ctx ins).1.ir_cache ctx.ir_cache_index).payload
        = ins.payload ∧
      (∀ j, j ≠ ctx.ir_cache_index →
        (allocate_ir_instruction ctx ins).1.ir_cache j = ctx.ir_cache j) ∧
      (ctx.well_formed →
        ∃ ctx1, append_ir_instruction ctx ins g = .ok (ctx1, some ctx.ir_cache_index) ∧
          ctx1.ir_cache_index ≤ IR_CACHE_SIZE ∧
          (ctx1.ir_cache ctx.ir_cache_index).type = ins.type)) := by
  refine ⟨rfl, Iff.rfl, fun hlt => ⟨rfl, ?_, ?_, ?_, ?_, ?_⟩⟩
  · show ctx.ir_cache_index + 1 ≤ IR_CACHE_SIZE
    omega
  · show (Function.update ctx.ir_cache ctx.ir_cache_index _ ctx.ir_cache_index).type = _
    rw [Function.update_same]
  · show (Function.update ctx.ir_cache ctx.ir_cache_index _ ctx.ir_cache_index).payload = _
    rw [Function.update_same]
  · intro j hj
    show Function.update ctx.ir_cache ctx.ir_cache_index _ j = _
    rw [Function.update_noteq hj]
  · intro h
    obtain ⟨t, ht, hlt1⟩ := h.tail
    obtain ⟨c, he, hidx, -, -, -, -, -, -, -, hnew, -⟩ := append_eq ctx ins g t ht
    refine ⟨c, he, ?_, ?_⟩
    · rw [hidx]
      omega
    · rw [hnew (by omega)]
      rfl

/-- Witness for C12 (amended): in the freshly reset context an `ERET` is stored at slot 1,
inside the arena, the index becomes 2, and `append_ir_instruction` returns node 1. -/
theorem allocate_ir_instruction_unchecked_witness :
    (allocate_ir_instruction (ir_context_reset ir_context_zero)
      (ir_instruction_local .IR_ERET .indeterminate)).2 = 1 ∧
    ((allocate_ir_instruction (ir_context_reset ir_context_zero)
      (ir_instruction_local .IR_ERET .indeterminate)).2 < IR_CACHE_SIZE) ∧
    (allocate_ir_instruction (ir_context_reset ir_context_zero)
      (ir_instruction_local .IR_ERET .indeterminate)).1.ir_cache_index = 2 ∧
    (∃ ctx1, append_ir_instruction (ir_context_reset ir_context_zero)
        (ir_instruction_local .IR_ERET .indeterminate) NO_GUEST_REG = .ok (ctx1, some 1) ∧
      ctx1.ir_cache_index ≤ IR_CACHE_SIZE ∧
      (ctx1.ir_cache 1).type = .IR_ERET) :=
  ⟨(allocate_ir_instruction_unchecked (ir_context_reset ir_context_zero)
      (ir_instruction_local .IR_ERET .indeterminate) NO_GUEST_REG).1,
   (allocate_ir_instruction_unchecked (ir_context_reset ir_context_zero)
      (ir_instruction_local .IR_ERET .indeterminate) NO_GUEST_REG).2.1.mpr (by decide),
   ((allocate_ir_instruction_unchecked (ir_context_reset ir_context_zero)
      (ir_instruction_local .IR_ERET .indeterminate) NO_GUEST_REG).2.2 (by decide)).1,
   ((allocate_ir_instruction_unchecked (ir_context_reset ir_context_zero)
      (ir_instruction_local .IR_ERET .indeterminate) NO_GUEST_REG).2.2
      (by decide)).2.2.2.2.2 (well_formed_reset ir_context_zero)⟩

/-- C6 (counterexample): after a reset and 4095 `ir_emit_eret` calls, every one of which
stores inside the arena, the arena is full and instruction 0 is followed by instruction 1.
The call `ir_emit_flush_guest_reg(node 0, node 0, 1)` then inserts after instruction 0, and
the slot that `allocate_ir_instruction` stores its instruction to is `IR_CACHE_SIZE`: the
store lies outside the array, where the struct holds `ir_cache_head`, so this sequence does
not keep the arenas within their arrays. -/
theorem zero_node_pin_overrun :
    IR_CACHE_SIZE = 4096 ∧
    ir_calls_in_bounds (fun _ => 0) (ir_context_reset ir_context_zero) ir_calls_fill = true ∧
    ir_run (fun _ => 0) (ir_context_reset ir_context_zero) ir_calls_fill = .ok ir_context_full ∧
    ir_context_full.ir_cache_index = IR_CACHE_SIZE ∧
    (ir_context_full.ir_cache 0).next = some 1 ∧
    (allocate_ir_instruction ir_context_full
      (ir_instruction_local .IR_FLUSH_GUEST_REG (.flush_guest_reg (some 0) 1))).2
        = IR_CACHE_SIZE ∧
    ir_calls_in_bounds (fun _ => 0) (ir_context_reset ir_context_zero) ir_calls_fill_flush
      = false := by
  obtain ⟨hrun, -, hidx, hb, hnext⟩ := ir_context_full_spec
  refine ⟨rfl, hb, hrun, hidx, hnext, (allocate_ir_instruction_slot _ _).trans hidx, ?_⟩
  obtain ⟨c1, he, hidx1, -⟩ := insert_eq ir_context_full 0 1
    (ir_instruction_local .IR_FLUSH_GUEST_REG (.flush_guest_reg (some 0) 1)) hnext
    (by rw [hidx]; decide) (by rw [hidx]; decide) (by decide)
  have hexec : ir_call.exec (fun _ => 0) ir_context_full
      (.call_flush_guest_reg (some 0) (some 0) 1) = .ok (c1, some ir_context_full.ir_cache_index) := by
    show ir_emit_flush_guest_reg ir_context_full (some 0) (some 0) 1 = _
    unfold ir_emit_flush_guest_reg
    rw [if_neg (by decide), if_neg (by decide)]
    exact he
  have hout : ¬ c1.in_bounds := by
    intro h
    have h1 := h.1
    rw [hidx1, hidx] at h1
    exact absurd h1 (by decide)
  unfold ir_calls_fill_flush
  rw [ir_calls_in_bounds_append _ _ _ _ ir_context_full hrun, hb, Bool.true_and]
  simp only [ir_calls_in_bounds, hexec, decide_eq_false hout, Bool.false_and, Bool.and_false]

/-- C6 (amended): starting from `ir_context_reset`, after any sequence of `ir_emit_*` and
`update_guest_reg_mapping` calls that returns, with any arguments (any `guest_reg`, any
pointers), in which every call leaves `ir_cache_index` within `IR_CACHE_SIZE` and
`ir_flush_cache_index` within `IR_FLUSH_CACHE_SIZE`, both indices are within their arrays,
register 0 is still bound to node 0, `ir_cache_head` is still node 0, and node 0 is still
the `SET_CONSTANT` whose value is 0. -/
theorem zero_node_pinned (layout : ir_payload → Nat) (ctx0 : ir_context_t)
    (calls : List ir_call) (ctx1 : ir_context_t)
    (hb : ir_calls_in_bounds layout (ir_context_reset ctx0) calls = true)
    (hr : ir_run layout (ir_context_reset ctx0) calls = .ok ctx1) :
    ctx1.in_bounds ∧
    ctx1.guest_gpr_to_value 0 = some 0 ∧
    ctx1.ir_cache_head = some 0 ∧
    (ctx1.ir_cache 0).type = .IR_SET_CONSTANT ∧
    (ctx1.ir_cache 0).payload = .set_constant { type := .VALUE_TYPE_U64, raw := 0 } := by
  have h := well_formed_run layout calls (ir_context_reset ctx0) (well_formed_reset ctx0) ctx1 hr
  exact ⟨in_bounds_of_calls layout calls _ ctx1 (reset_in_bounds ctx0) hb hr,
    h.gpr0, h.head, h.node0_type, h.node0_payload⟩

/-- Witness for C6 (amended): the example translation stays within the arenas and returns;
it allocated nodes 1 to 14, and node 0 is still pinned. -/
theorem zero_node_pinned_witness :
    ir_calls_in_bounds (fun _ => 0) (ir_context_reset ir_context_zero) ir_calls_example
      = true ∧
    ir_run (fun _ => 0) (ir_context_reset ir_context_zero) ir_calls_example
      = .ok ir_context_example ∧
    ir_context_example.ir_cache_index = 15 ∧
    ir_context_example.in_bounds ∧
    ir_context_example.guest_gpr_to_value 0 = some 0 ∧
    ir_context_example.ir_cache_head = some 0 ∧
    (ir_context_example.ir_cache 0).type = .IR_SET_CONSTANT ∧
    (ir_context_example.ir_cache 0).payload
      = .set_constant { type := .VALUE_TYPE_U64, raw := 0 } :=
  ⟨by decide, rfl, rfl,
   zero_node_pinned (fun _ => 0) ir_context_zero ir_calls_example ir_context_example
     (by decide) rfl⟩

theorem append_cache_index_of_ok (ctx ctx1 : ir_context_t) (ins : ir_instruction_t) (g : Nat)
    (p : ir_ptr) (h : append_ir_instruction ctx ins g = .ok (ctx1, p)) :
    ctx1.ir_cache_index = ctx.ir_cache_index + 1 := by
  cases ht : ctx.ir_cache_tail with
  | none =>
    simp only [append_ir_instruction, allocate_ir_instruction, ir_context_t.modify_node, ht]
      at h
    cases h
  | some t =>
    obtain ⟨c, he, hidx, -⟩ := append_eq ctx ins g t ht
    rw [he] at h
    have hc : c = ctx1 := congrArg Prod.fst (Except.ok.inj h)
    rw [← hc]
    exact hidx

theorem cond_exit_cache_index_of_ok (layout : ir_payload → Nat) (ctx ctx1 : ir_context_t)
    (condition : ir_ptr) (index : Int) (p : ir_ptr)
    (h : ir_emit_conditional_block_exit layout ctx condition index = .ok (ctx1, p)) :
    ctx1.ir_cache_index = ctx.ir_cache_index + 1 := by
  have hf := cond_exit_flush_fold_frame layout (List.range' 1 31) (ctx, none)
  unfold ir_emit_conditional_block_exit at h
  cases hem : ctx.block_end_pc_ir_emitted with
  | false =>
    rw [hem] at h
    cases h
  | true =>
    rw [hem] at h
    have hi := append_cache_index_of_ok _ _ _ _ _ h
    rw [hi]
    exact congrArg (· + 1) hf.2.2.2.2.1

theorem cond_exit_flush_step_alloc (layout : ir_payload → Nat)
    (acc : ir_context_t × Option Nat) (i : Nat) :
    cond_exit_flush_step layout acc i = acc ∨
    ((cond_exit_flush_step layout acc i).1.ir_flush_cache_index
        = acc.1.ir_flush_cache_index + 1 ∧
      ∃ v, acc.1.guest_gpr_to_value i = some v ∧
        (acc.1.ir_cache v).type ≠ .IR_LOAD_GUEST_REG ∧
        (acc.1.ir_cache v).payload.punned_guest_reg layout ≠ i) := by
  unfold cond_exit_flush_step
  cases hg : acc.1.guest_gpr_to_value i with
  | none => exact Or.inl rfl
  | some v =>
    simp only []
    by_cases hc : (acc.1.ir_cache v).type ≠ .IR_LOAD_GUEST_REG ∧
        (acc.1.ir_cache v).payload.punned_guest_reg layout ≠ i
    · rw [if_pos hc]
      exact Or.inr ⟨rfl, v, rfl, hc.1, hc.2⟩
    · rw [if_neg hc]
      exact Or.inl rfl

theorem cond_exit_flush_fold_reaches (layout : ir_payload → Nat) (n : Nat) (l : List Nat)
    (acc : ir_context_t × Option Nat) (h1 : acc.1.ir_flush_cache_index ≤ n)
    (h2 : n < (l.foldl (cond_exit_flush_step layout) acc).1.ir_flush_cache_index) :
    ∃ l1 j l2 v, l = l1 ++ j :: l2 ∧
      (l1.foldl (cond_exit_flush_step layout) acc).1.ir_flush_cache_index = n ∧
      (l1.foldl (cond_exit_flush_step layout) acc).1.guest_gpr_to_value j = some v ∧
      ((l1.foldl (cond_exit_flush_step layout) acc).1.ir_cache v).type
        ≠ .IR_LOAD_GUEST_REG ∧
      ((l1.foldl (cond_exit_flush_step layout) acc).1.ir_cache v).payload.punned_guest_reg
        layout ≠ j := by
  induction l generalizing acc with
  | nil => exact absurd h2 (by simp only [List.foldl_nil]; omega)
  | cons i rest ih =>
    rw [List.foldl_cons] at h2
    rcases cond_exit_flush_step_alloc layout acc i with hs | ⟨hs1, v, hv1, hv2, hv3⟩
    · rw [hs] at h2
      obtain ⟨l1, j, l2, w, hl, hn, hw1, hw2, hw3⟩ := ih acc h1 h2
      refine ⟨i :: l1, j, l2, w, by rw [hl]; rfl, ?_, ?_, ?_, ?_⟩
      · rw [List.foldl_cons, hs]; exact hn
      · rw [List.foldl_cons, hs]; exact hw1
      · rw [List.foldl_cons, hs]; exact hw2
      · rw [List.foldl_cons, hs]; exact hw3
    · by_cases heq : acc.1.ir_flush_cache_index = n
      · exact ⟨[], i, rest, v, rfl, heq, hv1, hv2, hv3⟩
      · obtain ⟨l1, j, l2, w, hl, hn, hw1, hw2, hw3⟩ :=
          ih (cond_exit_flush_step layout acc i) (by rw [hs1]; omega) h2
        refine ⟨i :: l1, j, l2, w, by rw [hl]; rfl, ?_, ?_, ?_, ?_⟩
        · rw [List.foldl_cons]; exact hn
        · rw [List.foldl_cons]; exact hw1
        · rw [List.foldl_cons]; exact hw2
        · rw [List.foldl_cons]; exact hw3

theorem run_exits_bounds (layout : ir_payload → Nat) (n : Nat) (ctx : ir_context_t)
    (h : ctx.all_bound_to_zero) :
    ∃ ctx1, ir_run layout ctx (List.replicate n (.call_conditional_block_exit (some 0) 0))
        = .ok ctx1 ∧
      ctx1.all_bound_to_zero ∧
      ctx1.ir_cache_index = ctx.ir_cache_index + n ∧
      ctx.ir_flush_cache_index + 30 * n ≤ ctx1.ir_flush_cache_index ∧
      ctx1.ir_flush_cache_index ≤ ctx.ir_flush_cache_index + 31 * n ∧
      (ctx.ir_cache_index + n ≤ IR_CACHE_SIZE →
        ctx.ir_flush_cache_index + 31 * n ≤ IR_FLUSH_CACHE_SIZE →
        ir_calls_in_bounds layout ctx
          (List.replicate n (.call_conditional_block_exit (some 0) 0)) = true) := by
  induction n generalizing ctx with
  | zero => exact ⟨ctx, rfl, h, rfl, by omega, by omega, fun _ _ => rfl⟩
  | succ k ih =>
    obtain ⟨c1, p, he, hb, hlo, hhi⟩ := cond_exit_all_bound layout ctx (some 0) 0 h
    have hci := cond_exit_cache_index_of_ok layout ctx c1 (some 0) 0 p he
    obtain ⟨c2, hr, hb2, hci2, hlo2, hhi2, hin2⟩ := ih c1 hb
    have hexec : ir_call.exec layout ctx (.call_conditional_block_exit (some 0) 0)
        = .ok (c1, p) := he
    refine ⟨c2, ?_, hb2, by omega, by omega, by omega, ?_⟩
    · rw [List.replicate_succ]
      simp only [ir_run, hexec]
      exact hr
    · intro hi hf
      have hin : c1.in_bounds := ⟨by omega, by omega⟩
      rw [List.replicate_succ]
      simp only [ir_calls_in_bounds, hexec, Bool.and_eq_true, decide_eq_true_eq]
      exact ⟨by decide, hin, hin2 (by omega) (by omega)⟩

theorem bind_all_in_bounds (layout : ir_payload → Nat) :
    ir_calls_in_bounds layout (ir_context_reset ir_context_zero) ir_calls_bind_all = true :=
  rfl

theorem ir_context_bound_cache_index : ir_context_bound.ir_cache_index = 2 := by
  decide

theorem three_exits_spec (layout : ir_payload → Nat) :
    ir_calls_in_bounds layout (ir_context_reset ir_context_zero) ir_calls_three_exits = true ∧
    ∃ ctx, ir_run layout (ir_context_reset ir_context_zero) ir_calls_three_exits = .ok ctx ∧
      ctx.all_bound_to_zero ∧ ctx.in_bounds ∧
      90 ≤ ctx.ir_flush_cache_index ∧ ctx.ir_flush_cache_index ≤ 93 := by
  obtain ⟨c, hr, hb, hci, hlo, hhi, hin⟩ := run_exits_bounds layout 3 ir_context_bound
    ir_context_bound_all_bound
  rw [ir_context_bound_flush_index] at hlo hhi hin
  rw [ir_context_bound_cache_index] at hci hin
  have hsize : IR_FLUSH_CACHE_SIZE = 100 := rfl
  have hcsize : IR_CACHE_SIZE = 4096 := rfl
  refine ⟨?_, c, ?_, hb, ⟨by omega, by omega⟩, by omega, by omega⟩
  · unfold ir_calls_three_exits
    rw [ir_calls_in_bounds_append _ _ _ _ ir_context_bound (run_bind_all layout),
      bind_all_in_bounds, Bool.true_and]
    exact hin (by omega) (by omega)
  · unfold ir_calls_three_exits
    rw [ir_run_append, run_bind_all]
    exact hr

theorem four_exits_eq :
    ir_calls_four_exits = ir_calls_three_exits ++ [.call_conditional_block_exit (some 0) 0] := by
  unfold ir_calls_four_exits ir_calls_three_exits
  rw [List.append_assoc]
  rfl

theorem fourth_exit_reaches_end (layout : ir_payload → Nat) (ctx : ir_context_t)
    (h : ctx.all_bound_to_zero) (hlo : 90 ≤ ctx.ir_flush_cache_index)
    (hhi : ctx.ir_flush_cache_index ≤ 93) :
    (∃ l1 j l2, List.range' 1 31 = l1 ++ j :: l2 ∧
      (l1.foldl (cond_exit_flush_step layout) (ctx, none)).1.ir_flush_cache_index
        = IR_FLUSH_CACHE_SIZE ∧
      (l1.foldl (cond_exit_flush_step layout) (ctx, none)).1.guest_gpr_to_value j
        = some 0 ∧
      ((l1.foldl (cond_exit_flush_step layout) (ctx, none)).1.ir_cache 0).type
        ≠ .IR_LOAD_GUEST_REG ∧
      ((l1.foldl (cond_exit_flush_step layout) (ctx, none)).1.ir_cache 0).payload.punned_guest_reg
        layout ≠ j) ∧
    ir_calls_in_bounds layout ctx [.call_conditional_block_exit (some 0) 0] = false := by
  have hsize : IR_FLUSH_CACHE_SIZE = 100 := rfl
  constructor
  · have hlb := cond_exit_flush_fold_zero layout { type := .VALUE_TYPE_U64, raw := 0 }
      (List.range' 1 31) (List.nodup_range' 1 31) (ctx, none) h.bound h.wf.node0_type
      h.wf.node0_payload
    have hlen : (List.range' 1 31).length = 31 := by decide
    rw [hlen] at hlb
    have hone : (if layout (.set_constant { type := .VALUE_TYPE_U64, raw := 0 }) ∈
        List.range' 1 31 then 1 else 0) ≤ 1 := by split <;> omega
    have hlb1 : ctx.ir_flush_cache_index + 31 ≤
        ((List.range' 1 31).foldl (cond_exit_flush_step layout) (ctx, none)).1.ir_flush_cache_index
          + (if layout (.set_constant { type := .VALUE_TYPE_U64, raw := 0 }) ∈ List.range' 1 31
            then 1 else 0) := hlb
    obtain ⟨l1, j, l2, v, hl, hn, hv1, hv2, hv3⟩ :=
      cond_exit_flush_fold_reaches layout 100 (List.range' 1 31) (ctx, none)
        (by show ctx.ir_flush_cache_index ≤ 100; omega) (by omega)
    have hfr := cond_exit_flush_fold_frame layout l1 (ctx, none)
    have hj : j ∈ List.range' 1 31 := by rw [hl]; simp
    have hv0 : v = 0 := by
      rw [hfr.1] at hv1
      exact (Option.some.inj (hv1.symm.trans (h.bound j hj)))
    subst hv0
    exact ⟨l1, j, l2, hl, by rw [hsize]; exact hn, hv1, hv2, hv3⟩
  · obtain ⟨c1, p, he, -, hlo1, -⟩ := cond_exit_all_bound layout ctx (some 0) 0 h
    have hexec : ir_call.exec layout ctx (.call_conditional_block_exit (some 0) 0)
        = .ok (c1, p) := he
    have hout : ¬ c1.in_bounds := by
      intro hh
      have h2 := hh.2
      rw [hsize] at h2
      omega
    simp only [ir_calls_in_bounds, hexec, decide_eq_false hout, Bool.false_and,
      Bool.and_false]

/-- C37 (counterexample): the flush-record arena has 100 slots. Bind the registers 1..31 to
the zero constant after a reset, announce the block exit PC and emit three conditional
block exits: for every object representation of the punned byte these calls return, store
inside the arenas, and leave the flag `block_end_pc_ir_emitted` set. A fourth conditional
block exit then reaches, at some register `j` of its loop,
`ir_flush_cache_index == IR_FLUSH_CACHE_SIZE`
with register `j` bound to instruction 0 and the test of the loop true, so the record is
allocated; the slot that `allocate_ir_flush` stores it to is `IR_FLUSH_CACHE_SIZE`, which
lies outside the array. -/
theorem flush_arena_overrun :
    IR_FLUSH_CACHE_SIZE = 100 ∧
    ∀ layout : ir_payload → Nat,
      ir_calls_in_bounds layout (ir_context_reset ir_context_zero) ir_calls_three_exits
        = true ∧
      ∃ ctx, ir_run layout (ir_context_reset ir_context_zero) ir_calls_three_exits = .ok ctx ∧
        ctx.in_bounds ∧ ctx.block_end_pc_ir_emitted = true ∧
        ∃ l1 j l2, List.range' 1 31 = l1 ++ j :: l2 ∧
          (l1.foldl (cond_exit_flush_step layout) (ctx, none)).1.ir_flush_cache_index
            = IR_FLUSH_CACHE_SIZE ∧
          (l1.foldl (cond_exit_flush_step layout) (ctx, none)).1.guest_gpr_to_value j
            = some 0 ∧
          ((l1.foldl (cond_exit_flush_step layout) (ctx, none)).1.ir_cache 0).type
            ≠ .IR_LOAD_GUEST_REG ∧
          ((l1.foldl (cond_exit_flush_step layout)
            (ctx, none)).1.ir_cache 0).payload.punned_guest_reg layout ≠ j ∧
          (allocate_ir_flush (l1.foldl (cond_exit_flush_step layout) (ctx, none)).1
            { next := (l1.foldl (cond_exit_flush_step layout) (ctx, none)).2,
              guest_gpr := j, item := some 0 }).2 = IR_FLUSH_CACHE_SIZE := by
  refine ⟨rfl, fun layout => ?_⟩
  obtain ⟨hb, ctx, hr, hall, hin, hlo, hhi⟩ := three_exits_spec layout
  obtain ⟨⟨l1, j, l2, hl, hidx, hg, hty, hpun⟩, -⟩ :=
    fourth_exit_reaches_end layout ctx hall hlo hhi
  exact ⟨hb, ctx, hr, hin, hall.emitted, l1, j, l2, hl, hidx, hg, hty, hpun,
    (allocate_ir_flush_slot _ _).trans hidx⟩

/-- C37 (amended): `allocate_ir_flush` performs no bounds check: the slot it stores to is
`ir_flush_cache_index`, whatever its value, so the store is inside the arena exactly when
`ir_flush_cache_index < IR_FLUSH_CACHE_SIZE` on entry. In that case the record is stored
at that slot, the other slots are unchanged, and the index grows by one and stays within
`IR_FLUSH_CACHE_SIZE`. `ir_context_reset` sets the index to 0. A conditional block exit
that is entered with a free instruction slot and at least 31 free flush slots, and returns,
stores at most 31 records and leaves both indices within their arrays. -/
theorem allocate_ir_flush_unchecked (layout : ir_payload → Nat) (ctx : ir_context_t)
    (flush : ir_instruction_flush_t) (condition : ir_ptr) (index : Int) :
    (allocate_ir_flush ctx flush).2 = ctx.ir_flush_cache_index ∧
    ((allocate_ir_flush ctx flush).2 < IR_FLUSH_CACHE_SIZE ↔
      ctx.ir_flush_cache_index < IR_FLUSH_CACHE_SIZE) ∧
    (ctx.ir_flush_cache_index < IR_FLUSH_CACHE_SIZE →
      (allocate_ir_flush ctx flush).1.ir_flush_cache_index = ctx.ir_flush_cache_index + 1 ∧
      (allocate_ir_flush ctx flush).1.ir_flush_cache_index ≤ IR_FLUSH_CACHE_SIZE ∧
      (allocate_ir_flush ctx flush).1.ir_flush_cache ctx.ir_flush_cache_index = flush ∧
      (∀ j, j ≠ ctx.ir_flush_cache_index →
        (allocate_ir_flush ctx flush).1.ir_flush_cache j = ctx.ir_flush_cache j)) ∧
    (ir_context_reset ctx).ir_flush_cache_index = 0 ∧
    (ctx.ir_cache_index < IR_CACHE_SIZE →
      ctx.ir_flush_cache_index + 31 ≤ IR_FLUSH_CACHE_SIZE →
      ∀ ctx1 p, ir_emit_conditional_block_exit layout ctx condition index = .ok (ctx1, p) →
        ctx1.in_bounds ∧
        ctx.ir_flush_cache_index ≤ ctx1.ir_flush_cache_index ∧
        ctx1.ir_flush_cache_index ≤ ctx.ir_flush_cache_index + 31) := by
  refine ⟨rfl, Iff.rfl, fun hlt => ⟨rfl, ?_, ?_, ?_⟩, rfl, ?_⟩
  · show ctx.ir_flush_cache_index + 1 ≤ IR_FLUSH_CACHE_SIZE
    omega
  · show Function.update ctx.ir_flush_cache ctx.ir_flush_cache_index flush
      ctx.ir_flush_cache_index = flush
    rw [Function.update_same]
  · intro j hj
    show Function.update ctx.ir_flush_cache ctx.ir_flush_cache_index flush j = _
    rw [Function.update_noteq hj]
  · intro hc hf ctx1 p h
    have hi := cond_exit_cache_index_of_ok layout ctx ctx1 condition index p h
    have hfi := cond_exit_flush_index_of_ok layout ctx ctx1 condition index p h
    exact ⟨⟨by omega, by omega⟩, hfi.1, hfi.2⟩

/-- Witness for C37 (amended): with the registers 1..31 bound after a reset, a record
allocated first lands at slot 0, inside the arena, and one conditional block exit returns
with at most 31 records and both indices within their arrays. -/
theorem allocate_ir_flush_unchecked_witness :
    (allocate_ir_flush ir_context_bound
      { guest_gpr := 1, item := some 0, next := none }).2 = 0 ∧
    ((allocate_ir_flush ir_context_bound
      { guest_gpr := 1, item := some 0, next := none }).2 < IR_FLUSH_CACHE_SIZE) ∧
    (allocate_ir_flush ir_context_bound
      { guest_gpr := 1, item := some 0, next := none }).1.ir_flush_cache_index = 1 ∧
    (∃ ctx1 p, ir_emit_conditional_block_exit (fun _ => 0) ir_context_bound (some 0) 0
        = .ok (ctx1, p) ∧
      ctx1.in_bounds ∧ ctx1.ir_flush_cache_index ≤ 31) := by
  obtain ⟨c, p, he, -, -, -⟩ := cond_exit_all_bound (fun _ => 0) ir_context_bound (some 0) 0
    ir_context_bound_all_bound
  have h := allocate_ir_flush_unchecked (fun _ => 0) ir_context_bound
    { guest_gpr := 1, item := some 0, next := none } (some 0) 0
  have hz := ir_context_bound_flush_index
  have hc := ir_context_bound_cache_index
  have hlt : ir_context_bound.ir_flush_cache_index < IR_FLUSH_CACHE_SIZE := by
    rw [hz]; decide
  have hex := h.2.2.2.2 (by rw [hc]; decide) (by rw [hz]; decide) c p he
  refine ⟨h.1.trans hz, h.2.1.mpr hlt, ?_, c, p, he, hex.1, ?_⟩
  · rw [(h.2.2.1 hlt).1, hz]
  · have hb := hex.2.2
    rw [hz] at hb
    omega

/-- C11 (counterexample): the translation `ir_calls_four_exits` calls
`ir_emit_set_block_exit_pc`. For every object representation of the punned byte, the calls
up to the third conditional block exit store inside the arenas and leave the flag set; in
the fourth exit the loop reaches a register `j`, bound to instruction 0 and with the test of
the loop true, at which `allocate_ir_flush` stores the record to slot `IR_FLUSH_CACHE_SIZE`,
outside the array, where the struct holds `ir_flush_cache_index` and the two flags: the
translation does not keep the arenas within their arrays. -/
theorem block_end_pc_flag_overrun :
    (∃ c ∈ ir_calls_four_exits, c.sets_block_end_pc = true) ∧
    ∀ layout : ir_payload → Nat,
      ir_calls_in_bounds layout (ir_context_reset ir_context_zero) ir_calls_three_exits
        = true ∧
      (∃ ctx, ir_run layout (ir_context_reset ir_context_zero) ir_calls_three_exits
          = .ok ctx ∧
        ctx.block_end_pc_ir_emitted = true ∧
        ∃ l1 j l2, List.range' 1 31 = l1 ++ j :: l2 ∧
          (l1.foldl (cond_exit_flush_step layout) (ctx, none)).1.guest_gpr_to_value j
            = some 0 ∧
          ((l1.foldl (cond_exit_flush_step layout) (ctx, none)).1.ir_cache 0).type
            ≠ .IR_LOAD_GUEST_REG ∧
          ((l1.foldl (cond_exit_flush_step layout)
            (ctx, none)).1.ir_cache 0).payload.punned_guest_reg layout ≠ j ∧
          (allocate_ir_flush (l1.foldl (cond_exit_flush_step layout) (ctx, none)).1
            { next := (l1.foldl (cond_exit_flush_step layout) (ctx, none)).2,
              guest_gpr := j, item := some 0 }).2 = IR_FLUSH_CACHE_SIZE) ∧
      ir_calls_in_bounds layout (ir_context_reset ir_context_zero) ir_calls_four_exits
        = false := by
  refine ⟨⟨.call_set_block_exit_pc (some 0), ?_, rfl⟩, fun layout => ?_⟩
  · simp [ir_calls_four_exits, ir_calls_bind_all]
  · obtain ⟨hb, ctx, hr, hall, -, hlo, hhi⟩ := three_exits_spec layout
    obtain ⟨⟨l1, j, l2, hl, hidx, hg, hty, hpun⟩, hout⟩ :=
      fourth_exit_reaches_end layout ctx hall hlo hhi
    refine ⟨hb, ⟨ctx, hr, hall.emitted, l1, j, l2, hl, hg, hty, hpun,
      (allocate_ir_flush_slot _ _).trans hidx⟩, ?_⟩
    rw [four_exits_eq, ir_calls_in_bounds_append _ _ _ _ ctx hr, hb, hout]
    rfl

/-- C11 (amended): after `ir_context_reset` followed by any sequence of calls that returns
and in which every call leaves `ir_cache_index` within `IR_CACHE_SIZE` and
`ir_flush_cache_index` within `IR_FLUSH_CACHE_SIZE`, `block_end_pc_ir_emitted` is true if
and only if one of `ir_emit_set_block_exit_pc`, `ir_emit_conditional_set_block_exit_pc`,
`ir_emit_eret` is among the calls, if and only if an allocated instruction is a
`SET_BLOCK_EXIT_PC`, `SET_COND_BLOCK_EXIT_PC` or `ERET`; and each single call that stays
within the arenas leaves the flag as it was unless it is one of the three, which set it. -/
theorem block_end_pc_flag_iff (layout : ir_payload → Nat) (ctx0 : ir_context_t)
    (calls : List ir_call) (ctx1 : ir_context_t)
    (hb : ir_calls_in_bounds layout (ir_context_reset ctx0) calls = true)
    (hr : ir_run layout (ir_context_reset ctx0) calls = .ok ctx1) :
    ctx1.in_bounds ∧
    (ctx1.block_end_pc_ir_emitted = true ↔ ∃ c ∈ calls, c.sets_block_end_pc = true) ∧
    (ctx1.block_end_pc_ir_emitted = true ↔ ctx1.has_block_exit) ∧
    (∀ (ctx ctx2 : ir_context_t) (c : ir_call) (p : ir_ptr), ctx.well_formed →
      ctx.in_bounds → c.args_in_range = true → c.exec layout ctx = .ok (ctx2, p) →
      ctx2.in_bounds →
      ctx2.block_end_pc_ir_emitted = (ctx.block_end_pc_ir_emitted || c.sets_block_end_pc)) := by
  obtain ⟨h1, h2⟩ :=
    run_block_exit layout calls (ir_context_reset ctx0) (well_formed_reset ctx0) ctx1 hr
  have hflag : (ir_context_reset ctx0).block_end_pc_ir_emitted = false := rfl
  have hnone : ¬ (ir_context_reset ctx0).has_block_exit := by
    rintro ⟨i, hi, hx⟩
    have hi0 : i = 0 := by
      have : i < 1 := hi
      omega
    subst hi0
    rw [(well_formed_reset ctx0).node0_type] at hx
    exact Bool.noConfusion hx
  rw [hflag, Bool.false_or] at h1
  refine ⟨in_bounds_of_calls layout calls _ ctx1 (reset_in_bounds ctx0) hb hr, ?_, ?_, ?_⟩
  · rw [h1, List.any_eq_true]
  · rw [h1, h2]
    constructor
    · intro h; exact Or.inr h
    · rintro (h | h)
      · exact absurd h hnone
      · exact h
  · intro ctx ctx2 c p hw _ _ hc _
    exact (exec_block_exit layout ctx hw c ctx2 p hc).1

/-- Witness for C11 (amended): the example translation stays within the arenas and contains
`ir_emit_set_block_exit_pc`, the flag is set and node 10 is the `SET_BLOCK_EXIT_PC`; the
translation `ir_calls_no_exit` contains none of the three emitters and leaves the flag
clear. -/
theorem block_end_pc_flag_iff_witness :
    ir_calls_in_bounds (fun _ => 0) (ir_context_reset ir_context_zero) ir_calls_example
      = true ∧
    (ir_context_example.block_end_pc_ir_emitted = true ↔
      ∃ c ∈ ir_calls_example, c.sets_block_end_pc = true) ∧
    ir_context_example.block_end_pc_ir_emitted = true ∧
    (ir_context_example.ir_cache 10).type = .IR_SET_BLOCK_EXIT_PC ∧
    ((ir_context_no_exit.block_end_pc_ir_emitted = true ↔ ir_context_no_exit.has_block_exit) ∧
      ir_context_no_exit.block_end_pc_ir_emitted = false) :=
  ⟨by decide,
   (block_end_pc_flag_iff (fun _ => 0) ir_context_zero ir_calls_example ir_context_example
      (by decide) rfl).2.1,
   rfl, rfl,
   (block_end_pc_flag_iff (fun _ => 0) ir_context_zero ir_calls_no_exit ir_context_no_exit
      (by decide) rfl).2.2.1,
   rfl⟩

theorem ir_list_calls_fill_allocated (n index : Nat) :
    ir_list_calls_allocated index (ir_list_calls_fill n) = true := by
  induction n generalizing index with
  | zero => rfl
  | succ k ih =>
    show ir_list_calls_allocated index
      (.call_append (ir_instruction_local .IR_NOP .zeroed) NO_GUEST_REG ::
        ir_list_calls_fill k) = true
    simp only [ir_list_calls_allocated]
    exact ih (index + 1)

/-- C36 (counterexample): after a reset, 4095 calls of `append_ir_instruction` store inside
the arena and leave it full (`ir_cache_index == IR_CACHE_SIZE`). One more call is a valid
call of the sequence, and the slot that its `allocate_ir_instruction` stores to is
`IR_CACHE_SIZE`, outside the array, where the struct holds `ir_cache_head`,
`ir_cache_tail` and `ir_cache_index`. -/
theorem ir_list_overrun :
    IR_CACHE_SIZE = 4096 ∧
    ir_list_calls_valid (ir_context_reset ir_context_zero) (ir_list_calls_fill 4096) ∧
    ir_list_calls_fill 4096 = ir_list_calls_fill 4095 ++
      [.call_append (ir_instruction_local .IR_NOP .zeroed) NO_GUEST_REG] ∧
    ∃ ctx, ir_list_run (ir_context_reset ir_context_zero) (ir_list_calls_fill 4095)
        = .ok ctx ∧
      ctx.ir_cache_index = IR_CACHE_SIZE ∧
      (allocate_ir_instruction ctx (ir_instruction_local .IR_NOP .zeroed)).2
        = IR_CACHE_SIZE := by
  have hv (n : Nat) :
      ir_list_calls_valid (ir_context_reset ir_context_zero) (ir_list_calls_fill n) :=
    valid_of_allocated _ _ [0] (reset_list_complete ir_context_zero)
      (ir_list_calls_fill_allocated n _)
  obtain ⟨ctx, l, hr, -, hidx⟩ := ir_list_run_complete (ir_list_calls_fill 4095)
    (ir_context_reset ir_context_zero) [0] (reset_list_complete ir_context_zero) (hv 4095)
  have hlen : (ir_list_calls_fill 4095).length = 4095 := List.length_replicate 4095 _
  have h1 : (ir_context_reset ir_context_zero).ir_cache_index = 1 := rfl
  rw [hlen, h1] at hidx
  have hfull : ctx.ir_cache_index = IR_CACHE_SIZE := hidx
  exact ⟨rfl, hv 4096, List.replicate_succ' 4095 _, ctx, hr, hfull,
    (allocate_ir_instruction_slot _ _).trans hfull⟩

/-- C36 (amended): after `ir_context_reset` and any sequence of fewer than `IR_CACHE_SIZE`
`append_ir_instruction` and `insert_ir_instruction` calls in which every `after` is an
instruction of the IR list at the time of the call, every call returns and stores inside
the arena (`ir_cache_index` ends at the number of calls plus one, within `IR_CACHE_SIZE`),
and the IR list is a well-formed doubly-linked list over the arena: the list `l` read by
following `next` from `ir_cache_head` has no repetition and holds exactly the allocated
indices `0 .. ir_cache_index-1`; it starts with instruction 0, whose `prev` is `NULL`, and
ends with `ir_cache_tail`, whose `next` is `NULL`; every other instruction `n` has a
successor, which is in the list and whose `prev` is `n`; and every allocated instruction
has its arena position in the field `index`. -/
theorem ir_list_well_formed (ctx0 : ir_context_t) (calls : List ir_list_call)
    (hlen : calls.length < IR_CACHE_SIZE)
    (hv : ir_list_calls_valid (ir_context_reset ctx0) calls) :
    ∃ ctx, ir_list_run (ir_context_reset ctx0) calls = .ok ctx ∧
      ctx.ir_cache_index = calls.length + 1 ∧
      ctx.ir_cache_index ≤ IR_CACHE_SIZE ∧
      ctx.linked ctx.ir_list ∧
      ctx.ir_list.Nodup ∧
      (∀ a, a ∈ ctx.ir_list ↔ a < ctx.ir_cache_index) ∧
      ctx.ir_list.length = ctx.ir_cache_index ∧
      ctx.ir_cache_head = some 0 ∧
      ctx.ir_list.head? = some 0 ∧
      (ctx.ir_cache 0).prev = none ∧
      (∃ t, ctx.ir_cache_tail = some t ∧ ctx.ir_list.getLast? = some t ∧
        (ctx.ir_cache t).next = none) ∧
      (∀ n, n ∈ ctx.ir_list → ctx.ir_cache_tail ≠ some n →
        ∃ m, (ctx.ir_cache n).next = some m ∧ m ∈ ctx.ir_list ∧
          (ctx.ir_cache m).prev = some n) ∧
      (∀ i, i < ctx.ir_cache_index → (ctx.ir_cache i).index = i) := by
  obtain ⟨ctx, l, hr, hc, hidx⟩ :=
    ir_list_run_complete calls (ir_context_reset ctx0) [0] (reset_list_complete ctx0) hv
  have hlist : ctx.ir_list = l := ir_list_of_linked ctx l hc.linked
  have hll := list_complete_length ctx l hc
  have hidx1 : ctx.ir_cache_index = calls.length + 1 := by
    rw [hidx]
    have : (ir_context_reset ctx0).ir_cache_index = 1 := rfl
    rw [this]
    omega
  refine ⟨ctx, hr, ?_⟩
  rw [hlist]
  have hne : l ≠ [] := by
    intro h0
    have := hc.first
    rw [h0] at this
    cases this
  obtain ⟨t, ht⟩ : ∃ t, l.getLast? = some t := by
    cases hl : l.getLast? with
    | none => exact absurd (List.getLast?_eq_none_iff.mp hl) hne
    | some t => exact ⟨t, rfl⟩
  have hsplit : l.dropLast ++ [t] = l := List.dropLast_append_getLast? t ht
  have hchain := hc.linked.chain
  refine ⟨hidx1, ?_, hc.linked, hc.linked.nodup, hll.1, hll.2, ?_, hc.first, ?_, ?_, ?_,
    hc.index_field⟩
  · rw [hidx1]
    omega
  · rw [hc.linked.head]
    exact hc.first
  · cases l with
    | nil => exact absurd rfl hne
    | cons a rest =>
      have ha : a = 0 := by simpa using hc.first
      subst ha
      exact hchain.1
  · refine ⟨t, hc.linked.tail.trans ht, ht, ?_⟩
    have hch : ir_chain ctx.ir_cache none (l.dropLast ++ t :: []) := by
      rw [hsplit]; exact hchain
    exact ir_chain_next_at ctx.ir_cache l.dropLast [] t none hch
  · intro n hn hnt
    have hlast : l.getLast? ≠ some n := by
      rw [← hc.linked.tail]
      exact hnt
    obtain ⟨m, hm⟩ := ir_chain_has_next ctx.ir_cache l none hchain n hn hlast
    obtain ⟨k1, k2⟩ := ir_chain_next_prev ctx.ir_cache l none hchain n m hn hm
    exact ⟨m, hm, k1, k2⟩

/-- Witness for C36 (amended): the example sequence of four calls, run from a fresh reset,
gives five instructions; the list starts with instruction 0 and contains instruction 4. -/
theorem ir_list_well_formed_witness :
    ir_list_calls_example.length < IR_CACHE_SIZE ∧
    ir_list_calls_valid (ir_context_reset ir_context_zero) ir_list_calls_example ∧
    ∃ ctx, ir_list_run (ir_context_reset ir_context_zero) ir_list_calls_example = .ok ctx ∧
      ctx.ir_cache_index = 5 ∧ ctx.ir_cache_index ≤ IR_CACHE_SIZE ∧
      ctx.ir_list.length = 5 ∧ ctx.ir_list.head? = some 0 ∧
      4 ∈ ctx.ir_list ∧ (ctx.ir_cache 4).index = 4 := by
  have hv : ir_list_calls_valid (ir_context_reset ir_context_zero) ir_list_calls_example :=
    valid_of_allocated _ _ [0] (reset_list_complete ir_context_zero) (by decide)
  obtain ⟨ctx, hr, hidx, hle, -, -, hmem, hlen, -, hhead, -, -, -, hindex⟩ :=
    ir_list_well_formed ir_context_zero ir_list_calls_example (by decide) hv
  have h5 : ctx.ir_cache_index = 5 := hidx
  refine ⟨by decide, hv, ctx, hr, h5, hle, hlen.trans h5, hhead, (hmem 4).mpr (by omega),
    hindex 4 (by omega)⟩

end N64
